import Mathlib

/-!
# F-statistic resampling (`ComputeFstat_Resamp.c`): a shallow embedding

The C code of `src/lalpulsar/src/ComputeFstat_Resamp.c` is embedded as pure Lean
functions.

* `REAL8`, `REAL4` are the rationals: all arithmetic is exact.  A division by zero
  follows the convention of `ℚ` (the quotient is `0`).
* `UINT4` and `INT4` values are naturals and integers; every conversion to a machine
  integer is written out (`toUINT4`, `toINT4`, `wrapUINT4`).
* A pointer that the code tests against `NULL` is an `Option`.
* The code mutates the cache (`FstatInput_Resamp`) and the result structure
  (`FstatResults`) in place, so the embedded functions return the final state together
  with the XLAL status, also when the call fails.
* Routines of LAL and GSL that are called by this file but defined elsewhere are the
  fields of `Externals`; they are deterministic functions that may fail.
* Dereferencing a null pointer and reading or writing outside an array is undefined
  behaviour in C; the embedding stops there with the status `UNDEFINED`.
-/

namespace Resamp

/-! ## Scalars -/

abbrev REAL8 := ℚ
abbrev REAL4 := ℚ
abbrev UINT4 := Nat
abbrev INT4 := Int

/-- Single-precision complex number, with exact rational parts. -/
structure COMPLEX8 where
  re : ℚ
  im : ℚ
deriving DecidableEq, Repr

instance : Zero COMPLEX8 := ⟨⟨0, 0⟩⟩

instance : Add COMPLEX8 := ⟨fun z w => ⟨z.re + w.re, z.im + w.im⟩⟩

/-- Product of a real scalar and a complex number, as in `a * z` of the C code. -/
instance : HMul ℚ COMPLEX8 COMPLEX8 := ⟨fun a z => ⟨a * z.re, a * z.im⟩⟩

/-- The C constructor `crectf`. -/
def crectf (re im : ℚ) : COMPLEX8 := ⟨re, im⟩

/-- C `lround`: nearest integer, halfway cases away from zero. -/
def lround (x : ℚ) : Int :=
  if 0 ≤ x then (x + 1 / 2).floor else -((-x + 1 / 2).floor)

/-- C `ceil`. -/
def ceil (x : ℚ) : Int := -((-x).floor)

/-- C `fmod`: the remainder of `x / y` with the sign of `x`. -/
def fmod (x y : ℚ) : ℚ :=
  if 0 ≤ x / y then x - y * (x / y).floor else x - y * (-((-(x / y)).floor))

/-- Conversion of an integer to `UINT4`. -/
def toUINT4 (z : Int) : UINT4 := (z % 2 ^ 32).toNat

/-- Result of an addition or subtraction carried out in `UINT4`. -/
def wrapUINT4 (n : Nat) : UINT4 := n % 2 ^ 32

/-- Conversion of an integer to `INT4`. -/
def toINT4 (z : Int) : INT4 := (z + 2 ^ 31) % 2 ^ 32 - 2 ^ 31

/-! ## XLAL status -/

/-- Return status of an embedded function: the XLAL codes this file raises, and
`UNDEFINED` where the C code would dereference a null pointer or leave an array. -/
inductive XLALStatus where
  | XLAL_SUCCESS
  | XLAL_EFAULT
  | XLAL_EINVAL
  | XLAL_EFUNC
  | XLAL_ENOMEM
  | XLAL_EFAILED
  | UNDEFINED
deriving DecidableEq, Repr

open XLALStatus

/-! ## Data model -/

/-- Modelled from the spec: the type `LIGOTimeGPS` is declared outside `src/`; a GPS
time ("reference time", "periapsis time") is the instant it denotes, counted in integer
nanoseconds. -/
structure LIGOTimeGPS where
  ns : Int
deriving DecidableEq, Repr

/-- Modelled from the spec: `XLALGPSGetREAL8` is defined outside `src/`; the instant in
seconds. -/
def XLALGPSGetREAL8 (t : LIGOTimeGPS) : REAL8 := (t.ns : ℚ) / 1000000000

/-- Modelled from the spec: `XLALGPSDiff` is defined outside `src/`; the difference
`t1 - t0` of two instants in seconds. -/
def XLALGPSDiff (t1 t0 : LIGOTimeGPS) : REAL8 := ((t1.ns - t0.ns : Int) : ℚ) / 1000000000

/-- Modelled from the spec: `XLALGPSCmp` is defined outside `src/`; three-way comparison
of two instants. -/
def XLALGPSCmp (t0 t1 : LIGOTimeGPS) : Int :=
  if t0.ns > t1.ns then 1 else if t0.ns < t1.ns then -1 else 0

/-- The search point (`PulsarDopplerParams`): reference time, sky position, frequency and
spin-down values `fkdot`, binary orbital elements. -/
structure PulsarDopplerParams where
  refTime : LIGOTimeGPS
  Alpha : REAL8
  Delta : REAL8
  fkdot : List REAL8
  asini : REAL8
  period : REAL8
  ecc : REAL8
  tp : LIGOTimeGPS
  argp : REAL8
deriving DecidableEq, Repr

/-- The all-zero search point of a freshly allocated cache. -/
def PulsarDopplerParams.zero : PulsarDopplerParams :=
  ⟨⟨0⟩, 0, 0, [], 0, 0, 0, ⟨0⟩, 0⟩

/-- Uniformly sampled complex series (`COMPLEX8TimeSeries`); `data.length` is the field
`data->length`. -/
structure COMPLEX8TimeSeries where
  epoch : LIGOTimeGPS
  f0 : REAL8
  deltaT : REAL8
  data : List COMPLEX8
deriving DecidableEq, Repr

/-- One series per detector (`MultiCOMPLEX8TimeSeries`). -/
structure MultiCOMPLEX8TimeSeries where
  data : List COMPLEX8TimeSeries
deriving DecidableEq, Repr

/-- Segment start times and the segment duration `deltaT` (`LIGOTimeGPSVector`). -/
structure LIGOTimeGPSVector where
  data : List LIGOTimeGPS
  deltaT : REAL8
deriving DecidableEq, Repr

structure MultiLIGOTimeGPSVector where
  data : List LIGOTimeGPSVector
deriving DecidableEq, Repr

/-- Antenna coefficients of one detector (`AMCoeffs`): per-segment `a`, `b` and the
detector's own normalization `A`, `B`, `C`, `D`. -/
structure AMCoeffs where
  a : List REAL4
  b : List REAL4
  A : REAL4
  B : REAL4
  C : REAL4
  D : REAL4
deriving DecidableEq, Repr

/-- Aggregate multi-detector normalization (`AntennaPatternMatrix`). -/
structure AntennaPatternMatrix where
  Ad : REAL4
  Bd : REAL4
  Cd : REAL4
  Dd : REAL4
  Ed : REAL4
  Sinv_Tsft : REAL8
deriving DecidableEq, Repr

structure MultiAMCoeffs where
  data : List AMCoeffs
  Mmunu : AntennaPatternMatrix
deriving DecidableEq, Repr

/-- Timing map of one detector (`SSBtimes`): per-segment delay and time derivative. -/
structure SSBtimes where
  refTime : LIGOTimeGPS
  DeltaT : List REAL8
  Tdot : List REAL8
deriving DecidableEq, Repr

structure MultiSSBtimes where
  data : List SSBtimes
deriving DecidableEq, Repr

/-- Sky position handed to the timing and antenna routines. -/
structure SkyPosition where
  longitude : REAL8
  latitude : REAL8
deriving DecidableEq, Repr

/-- Detector states, noise weights and the timing precision are only handed on to
external routines; they are identified by a tag. -/
structure MultiDetectorStateSeries where
  tag : Nat
deriving DecidableEq, Repr

structure MultiNoiseWeights where
  tag : Nat
deriving DecidableEq, Repr

structure SSBprecision where
  tag : Nat
deriving DecidableEq, Repr

/-- The part of `FstatInput_Common` this file reads. -/
structure FstatInput_Common where
  detectorStates : MultiDetectorStateSeries
  noiseWeights : MultiNoiseWeights
  timestamps : Option MultiLIGOTimeGPSVector
  SSBprec : SSBprecision
deriving DecidableEq, Repr

/-- The cache (`struct tagFstatInput_Resamp`): the detector-frame series and the buffered
quantities of the previous query. -/
structure FstatInput_Resamp where
  multiTimeSeries_DET : MultiCOMPLEX8TimeSeries
  prev_doppler : PulsarDopplerParams
  prev_multiAMcoef : Option MultiAMCoeffs
  prev_multiSSBsky : Option MultiSSBtimes
  prev_multiFa_SRC : Option MultiCOMPLEX8TimeSeries
  prev_multiFb_SRC : Option MultiCOMPLEX8TimeSeries
deriving DecidableEq, Repr

/-- Output-selection bits (`FstatQuantities`), tested in the code with `&`. -/
abbrev FstatQuantities := Nat

/-- Modelled from the spec: the enumeration of the output-selection flags is declared
outside `src/`; "combined statistic" is one bit. -/
def FSTATQ_2F : FstatQuantities := 1

/-- Modelled from the spec: the flag "combined amplitudes", one bit. -/
def FSTATQ_FAFB : FstatQuantities := 2

/-- Modelled from the spec: the flag "per-detector statistic", one bit. -/
def FSTATQ_2F_PER_DET : FstatQuantities := 4

/-- Modelled from the spec: the flag "per-detector amplitudes", one bit. -/
def FSTATQ_FAFB_PER_DET : FstatQuantities := 8

/-- Modelled from the spec: the flag "per-segment atoms", one bit. -/
def FSTATQ_ATOMS_PER_DET : FstatQuantities := 16

/-- The C test `what & flag`. -/
def hasFlag (what flag : FstatQuantities) : Bool := what &&& flag != 0

/-- The query and its result arrays (`FstatResults`). -/
structure FstatResults where
  doppler : PulsarDopplerParams
  dFreq : REAL8
  numFreqBins : UINT4
  whatWasComputed : FstatQuantities
  Mmunu : AntennaPatternMatrix
  twoF : List REAL4
  Fa : List COMPLEX8
  Fb : List COMPLEX8
  twoFPerDet : List (List REAL4)
  FaPerDet : List (List COMPLEX8)
  FbPerDet : List (List COMPLEX8)
deriving DecidableEq, Repr

/-- Interpolation state built by `XLALGSLInitInterpolateREAL8Vector`: the abscissae and
the ordinates it was set up with. -/
structure gsl_spline where
  x : List REAL8
  y : List REAL8
deriving DecidableEq, Repr

/-- The routines this file calls but does not define.  A routine that can fail returns
an `Option`; an allocation routine tells whether the request of the given size is
granted. -/
structure Externals where
  XLALCalloc : Nat → Bool
  XLALMalloc : Nat → Bool
  XLALCreateCOMPLEX8TimeSeries : Nat → Bool
  XLALCreateCOMPLEX8Vector : Nat → Bool
  XLALCreateREAL8Vector : Nat → Bool
  XLALCreateTimestampVector : Nat → Bool
  XLALCreateCOMPLEX8FFTPlan : Nat → Bool
  XLALDuplicateMultiCOMPLEX8TimeSeries : MultiCOMPLEX8TimeSeries → Bool
  XLALGetMultiSSBtimes :
    MultiDetectorStateSeries → SkyPosition → LIGOTimeGPS → SSBprecision → Option MultiSSBtimes
  XLALAddMultiBinaryTimes : MultiSSBtimes → PulsarDopplerParams → Option MultiSSBtimes
  XLALComputeMultiAMCoeffs :
    MultiDetectorStateSeries → MultiNoiseWeights → SkyPosition → Option MultiAMCoeffs
  XLALEarliestMultiSSBtime : MultiSSBtimes → REAL8 → Option LIGOTimeGPS
  XLALLatestMultiSSBtime : MultiSSBtimes → REAL8 → Option LIGOTimeGPS
  XLALGPSSetREAL8 : REAL8 → LIGOTimeGPS
  XLALGSLInitInterpolateREAL8Vector : List REAL8 → List REAL8 → Bool
  XLALGSLInterpolateREAL8Vector : List REAL8 → gsl_spline → Option (List REAL8)
  XLALSinCos2PiLUT : REAL8 → Option (REAL4 × REAL4)
  XLALFrequencyShiftMultiCOMPLEX8TimeSeries :
    MultiCOMPLEX8TimeSeries → REAL8 → Option MultiCOMPLEX8TimeSeries
  XLALSpinDownCorrectionMultiFaFb :
    MultiCOMPLEX8TimeSeries → MultiCOMPLEX8TimeSeries → PulsarDopplerParams →
      Option (MultiCOMPLEX8TimeSeries × MultiCOMPLEX8TimeSeries)
  XLALCOMPLEX8VectorFFT : Nat → List COMPLEX8 → Option (List COMPLEX8)
  XLALReorderFFTWtoSFT : List COMPLEX8 → Option (List COMPLEX8)
  XLALComputeFstatFromFaFb :
    COMPLEX8 → COMPLEX8 → REAL4 → REAL4 → REAL4 → REAL4 → REAL4 → REAL4
  NhalfNeg : UINT4 → UINT4

/-- A counted `for` loop whose body may stop the function: the state reached is returned
together with the status. -/
def forLoop {σ : Type} (body : Nat → σ → XLALStatus × σ) : List Nat → σ → XLALStatus × σ
  | [], s => (XLAL_SUCCESS, s)
  | i :: is, s =>
    match body i s with
    | (XLAL_SUCCESS, s') => forLoop body is s'
    | r => r

/-! ## AntennaWeighter -/

/-- The loop `for ( UINT4 k=0; k < nbins; k++ )` of `XLALAntennaWeightCOMPLEX8TimeSeries`
for one segment: the first argument counts the iterations still to run, the second is
`k`.  The loop is left at the first `time_index >= numTimeSamples`. -/
def weightSegment (x : List COMPLEX8) (a b : REAL4) (start_index numTimeSamples : UINT4) :
    Nat → UINT4 → List COMPLEX8 × List COMPLEX8 → List COMPLEX8 × List COMPLEX8
  | 0, _, s => s
  | n + 1, k, (Fa, Fb) =>
    let time_index := wrapUINT4 (start_index + k)
    if time_index ≥ numTimeSamples then (Fa, Fb)
    else
      weightSegment x a b start_index numTimeSamples n (k + 1)
        (Fa.set time_index (a * x.getD time_index 0),
          Fb.set time_index (b * x.getD time_index 0))

/-- Index of the sample at the start of segment `j`:
`(UINT4) lround ( (t - start) / deltaT )`. -/
def segmentStartIndex (timeseries : COMPLEX8TimeSeries) (timestamps : LIGOTimeGPSVector)
    (j : Nat) : UINT4 :=
  let start := XLALGPSGetREAL8 timeseries.epoch
  let t := XLALGPSGetREAL8 (timestamps.data.getD j ⟨0⟩)
  toUINT4 (lround ((t - start) / timeseries.deltaT))

/-- Number of samples of a segment: `(UINT4) lround ( Tsft / deltaT )`. -/
def segmentNumBins (timeseries : COMPLEX8TimeSeries) (timestamps : LIGOTimeGPSVector) : UINT4 :=
  toUINT4 (lround (timestamps.deltaT / timeseries.deltaT))

/-- Body of the loop over the segments `j < numSFTs`. -/
def weightTimestamp (timeseries : COMPLEX8TimeSeries) (AMcoef : AMCoeffs)
    (timestamps : LIGOTimeGPSVector) (s : List COMPLEX8 × List COMPLEX8) (j : Nat) :
    List COMPLEX8 × List COMPLEX8 :=
  let numTimeSamples := timeseries.data.length
  let nbins := segmentNumBins timeseries timestamps
  let start_index := segmentStartIndex timeseries timestamps j
  let a := AMcoef.a.getD j 0
  let b := AMcoef.b.getD j 0
  weightSegment timeseries.data a b start_index numTimeSamples nbins 0 s

/-- The two weighted sample vectors: both start as zeros (the `memset`), then the
segments are processed in order. -/
def weightedData (timeseries : COMPLEX8TimeSeries) (AMcoef : AMCoeffs)
    (timestamps : LIGOTimeGPSVector) : List COMPLEX8 × List COMPLEX8 :=
  let numTimeSamples := timeseries.data.length
  let numSFTs := timestamps.data.length
  (List.range numSFTs).foldl (weightTimestamp timeseries AMcoef timestamps)
    (List.replicate numTimeSamples 0, List.replicate numTimeSamples 0)

/-- `XLALAntennaWeightCOMPLEX8TimeSeries`: the weighted series `Fa(t) = x(t).a(t)` and
`Fb(t) = x(t).b(t)` of one detector.  `Faoft`, `Fboft` are the output slots (`none`: a
null pointer to the slot); the status is returned with the final content of the two
slots. -/
def XLALAntennaWeightCOMPLEX8TimeSeries (env : Externals)
    (Faoft Fboft : Option (Option COMPLEX8TimeSeries))
    (timeseries : Option COMPLEX8TimeSeries) (AMcoef : Option AMCoeffs)
    (timestamps : Option LIGOTimeGPSVector) :
    XLALStatus × Option COMPLEX8TimeSeries × Option COMPLEX8TimeSeries :=
  if Faoft ≠ some none then (XLAL_EINVAL, Faoft.join, Fboft.join)
  else if Fboft ≠ some none then (XLAL_EINVAL, Faoft.join, Fboft.join)
  else
    match timeseries, AMcoef, timestamps with
    | some timeseries, some AMcoef, some timestamps =>
      if ¬ (timeseries.data.length > 0) then (XLAL_EINVAL, none, none)
      else
        let numSFTs := timestamps.data.length
        if ¬ (AMcoef.a.length = numSFTs ∧ AMcoef.b.length = numSFTs) then
          (XLAL_EINVAL, none, none)
        else
          let fHet := timeseries.f0
          let deltaT := timeseries.deltaT
          let numTimeSamples := timeseries.data.length
          if ¬ env.XLALCreateCOMPLEX8TimeSeries numTimeSamples then (XLAL_EFUNC, none, none)
          else
            let w := weightedData timeseries AMcoef timestamps
            (XLAL_SUCCESS, some ⟨timeseries.epoch, fHet, deltaT, w.1⟩,
              some ⟨timeseries.epoch, fHet, deltaT, w.2⟩)
    | _, _, _ => (XLAL_EINVAL, none, none)

/-- Body of the detector loop of `XLALAntennaWeightMultiCOMPLEX8TimeSeries`; the state is
the pair of output arrays filled so far. -/
def weightDetector (env : Externals) (multiTimeseries : MultiCOMPLEX8TimeSeries)
    (multiAMcoef : MultiAMCoeffs) (multiTimestamps : MultiLIGOTimeGPSVector) (X : Nat)
    (s : List COMPLEX8TimeSeries × List COMPLEX8TimeSeries) :
    XLALStatus × List COMPLEX8TimeSeries × List COMPLEX8TimeSeries :=
  match XLALAntennaWeightCOMPLEX8TimeSeries env (some none) (some none)
      multiTimeseries.data[X]? multiAMcoef.data[X]? multiTimestamps.data[X]? with
  | (XLAL_SUCCESS, some Fa, some Fb) => (XLAL_SUCCESS, s.1 ++ [Fa], s.2 ++ [Fb])
  | _ => (XLAL_EFUNC, s)

/-- `XLALAntennaWeightMultiCOMPLEX8TimeSeries`: antenna weighting of every detector. -/
def XLALAntennaWeightMultiCOMPLEX8TimeSeries (env : Externals)
    (Faoft Fboft : Option (Option MultiCOMPLEX8TimeSeries))
    (multiTimeseries : Option MultiCOMPLEX8TimeSeries) (multiAMcoef : Option MultiAMCoeffs)
    (multiTimestamps : Option MultiLIGOTimeGPSVector) :
    XLALStatus × Option MultiCOMPLEX8TimeSeries × Option MultiCOMPLEX8TimeSeries :=
  if Faoft ≠ some none then (XLAL_EINVAL, Faoft.join, Fboft.join)
  else if Fboft ≠ some none then (XLAL_EINVAL, Faoft.join, Fboft.join)
  else
    match multiTimeseries, multiAMcoef, multiTimestamps with
    | some multiTimeseries, some multiAMcoef, some multiTimestamps =>
      let numDetectors := multiTimeseries.data.length
      if ¬ (numDetectors > 0 ∧ multiAMcoef.data.length = numDetectors ∧
          multiTimestamps.data.length = numDetectors) then (XLAL_EINVAL, none, none)
      else if ¬ env.XLALCalloc 1 then (XLAL_ENOMEM, none, none)
      else if ¬ env.XLALCalloc numDetectors then (XLAL_ENOMEM, some ⟨[]⟩, some ⟨[]⟩)
      else
        match forLoop (weightDetector env multiTimeseries multiAMcoef multiTimestamps)
            (List.range numDetectors) ([], []) with
        | (st, Fa, Fb) => (st, some ⟨Fa⟩, some ⟨Fb⟩)
    | _, _, _ => (XLAL_EINVAL, none, none)

/-! ## BarycentricResampler -/

/-- The two `if` statements that truncate a detector time to the span of the
detector-frame series. -/
def clampDetectorTime (start_DET end_DET t : REAL8) : REAL8 :=
  let t1 := if t > end_DET then end_DET else t
  if t1 < start_DET then start_DET else t1

/-- Source-frame time of sample `k` of a segment: the index `k + SFTidx_start_SRC` is
computed in `UINT4`. -/
def sampleTimeSRC (start_SRC deltaT_SRC : REAL8) (SFTidx_start_SRC k : UINT4) : REAL8 :=
  start_SRC + (wrapUINT4 (k + SFTidx_start_SRC) : ℚ) * deltaT_SRC

/-- The first-order map from source time to detector time,
`SFTmid_DET + ( t_SRC - SFTmid_SRC ) / Tdot`. -/
def detectorTimeOf (SFTmid_DET SFTmid_SRC Tdot t_SRC : REAL8) : REAL8 :=
  SFTmid_DET + (t_SRC - SFTmid_SRC) / Tdot

/-- The vector `detectortimes` of one segment, filled by the first loop over `k`. -/
def detectorTimes (start_DET end_DET start_SRC deltaT_SRC SFTmid_DET SFTmid_SRC Tdot : REAL8)
    (SFTidx_start_SRC SFTnumSamples_SRC : UINT4) : List REAL8 :=
  (List.range SFTnumSamples_SRC).map fun k =>
    clampDetectorTime start_DET end_DET
      (detectorTimeOf SFTmid_DET SFTmid_SRC Tdot
        (sampleTimeSRC start_SRC deltaT_SRC SFTidx_start_SRC k))

/-- The second loop over `k` of one segment: the interpolated values are corrected for
the heterodyne phase and stored.  The first argument counts the iterations still to run,
the second is `k`. -/
def resampleSegment (env : Externals) (fHet start_SRC deltaT_SRC : REAL8)
    (SFTidx_start_SRC numSamples_SRC : UINT4) (detectortimes out_ts0 out_ts1 : List REAL8) :
    Nat → UINT4 → List COMPLEX8 → XLALStatus × List COMPLEX8
  | 0, _, d => (XLAL_SUCCESS, d)
  | n + 1, k, d =>
    let idx := wrapUINT4 (k + SFTidx_start_SRC)
    if idx ≥ numSamples_SRC then (XLAL_SUCCESS, d)
    else
      match detectortimes[k]?, out_ts0[k]?, out_ts1[k]? with
      | some td, some o0, some o1 =>
        let tDiff := start_SRC + (idx : ℚ) * deltaT_SRC - td
        let cycles := fmod (fHet * tDiff) 1
        match env.XLALSinCos2PiLUT (-cycles) with
        | none => (XLAL_EFUNC, d)
        | some (sinphase, cosphase) =>
          resampleSegment env fHet start_SRC deltaT_SRC SFTidx_start_SRC numSamples_SRC
            detectortimes out_ts0 out_ts1 n (k + 1)
            (d.set idx (crectf (o0 * cosphase - o1 * sinphase) (o1 * cosphase + o0 * sinphase)))
      | _, _, _ => (UNDEFINED, d)

/-- Source-frame midpoint of segment `j`. -/
def SFTmid_SRC (SRC_timing : SSBtimes) (j : Nat) : REAL8 :=
  XLALGPSGetREAL8 SRC_timing.refTime + SRC_timing.DeltaT.getD j 0

/-- Source-frame start of segment `j`. -/
def SFTstart_SRC (SRC_timing : SSBtimes) (Tsft : REAL8) (j : Nat) : REAL8 :=
  SFTmid_SRC SRC_timing j - 1 / 2 * Tsft * SRC_timing.Tdot.getD j 0

/-- Source-frame end of segment `j`. -/
def SFTend_SRC (SRC_timing : SSBtimes) (Tsft : REAL8) (j : Nat) : REAL8 :=
  SFTmid_SRC SRC_timing j + 1 / 2 * Tsft * SRC_timing.Tdot.getD j 0

/-- Detector-frame midpoint of segment `j`. -/
def SFTmid_DET (Timestamps_DET : LIGOTimeGPSVector) (j : Nat) : REAL8 :=
  XLALGPSGetREAL8 (Timestamps_DET.data.getD j ⟨0⟩) + 1 / 2 * Timestamps_DET.deltaT

/-- Index of the output sample at the start of segment `j`. -/
def SFTidx_start_SRC (TimeSeries_SRC : COMPLEX8TimeSeries) (SRC_timing : SSBtimes)
    (Tsft : REAL8) (j : Nat) : UINT4 :=
  toUINT4 (lround ((SFTstart_SRC SRC_timing Tsft j - XLALGPSGetREAL8 TimeSeries_SRC.epoch)
    / TimeSeries_SRC.deltaT))

/-- Index of the output sample at the end of segment `j`. -/
def SFTidx_end_SRC (TimeSeries_SRC : COMPLEX8TimeSeries) (SRC_timing : SSBtimes)
    (Tsft : REAL8) (j : Nat) : UINT4 :=
  toUINT4 (lround ((SFTend_SRC SRC_timing Tsft j - XLALGPSGetREAL8 TimeSeries_SRC.epoch)
    / TimeSeries_SRC.deltaT))

/-- Number of output samples of segment `j`, `SFTidx_end_SRC - SFTidx_start_SRC + 1` in
`UINT4`. -/
def SFTnumSamples_SRC (TimeSeries_SRC : COMPLEX8TimeSeries) (SRC_timing : SSBtimes)
    (Tsft : REAL8) (j : Nat) : UINT4 :=
  wrapUINT4 (SFTidx_end_SRC TimeSeries_SRC SRC_timing Tsft j + 2 ^ 32
    - SFTidx_start_SRC TimeSeries_SRC SRC_timing Tsft j + 1)

/-- The vector `detectortimes` of segment `j`. -/
def segmentDetectorTimes (TimeSeries_SRC TimeSeries_DET : COMPLEX8TimeSeries)
    (Timestamps_DET : LIGOTimeGPSVector) (SRC_timing : SSBtimes) (j : Nat) : List REAL8 :=
  let Tsft := Timestamps_DET.deltaT
  let start_DET := XLALGPSGetREAL8 TimeSeries_DET.epoch
  let end_DET := start_DET + ((TimeSeries_DET.data.length : ℚ) - 1) * TimeSeries_DET.deltaT
  detectorTimes start_DET end_DET (XLALGPSGetREAL8 TimeSeries_SRC.epoch) TimeSeries_SRC.deltaT
    (SFTmid_DET Timestamps_DET j) (SFTmid_SRC SRC_timing j) (SRC_timing.Tdot.getD j 0)
    (SFTidx_start_SRC TimeSeries_SRC SRC_timing Tsft j)
    (SFTnumSamples_SRC TimeSeries_SRC SRC_timing Tsft j)

/-- Body of the loop over the segments `j < numSFTs` of
`XLALBarycentricResampleCOMPLEX8TimeSeries`.  The state is the sample vector of the output
series and the translated timestamps. -/
def resampleTimestamp (env : Externals) (TimeSeries_SRC TimeSeries_DET : COMPLEX8TimeSeries)
    (Timestamps_DET : LIGOTimeGPSVector) (SRC_timing : SSBtimes)
    (spline_ts0 spline_ts1 : gsl_spline) (j : Nat) (s : List COMPLEX8 × List LIGOTimeGPS) :
    XLALStatus × List COMPLEX8 × List LIGOTimeGPS :=
  let Tsft := Timestamps_DET.deltaT
  let stamps := s.2.set j (env.XLALGPSSetREAL8 (SFTstart_SRC SRC_timing Tsft j))
  let numSamples := SFTnumSamples_SRC TimeSeries_SRC SRC_timing Tsft j
  if ¬ env.XLALCreateREAL8Vector numSamples then (XLAL_EFUNC, s.1, stamps)
  else
    let detectortimes :=
      segmentDetectorTimes TimeSeries_SRC TimeSeries_DET Timestamps_DET SRC_timing j
    match env.XLALGSLInterpolateREAL8Vector detectortimes spline_ts0,
        env.XLALGSLInterpolateREAL8Vector detectortimes spline_ts1 with
    | some out_ts0, some out_ts1 =>
      match resampleSegment env TimeSeries_DET.f0 (XLALGPSGetREAL8 TimeSeries_SRC.epoch)
          TimeSeries_SRC.deltaT (SFTidx_start_SRC TimeSeries_SRC SRC_timing Tsft j)
          TimeSeries_SRC.data.length detectortimes out_ts0 out_ts1 numSamples 0 s.1 with
      | (st, d) => (st, d, stamps)
    | _, _ => (XLAL_EFUNC, s.1, stamps)

/-- `XLALBarycentricResampleCOMPLEX8TimeSeries`: resampling of one detector-frame series
into the already allocated source-frame series.  The status is returned with the final
content of the output series and of the translated timestamps. -/
def XLALBarycentricResampleCOMPLEX8TimeSeries (env : Externals)
    (TimeSeries_SRC : Option COMPLEX8TimeSeries) (Timestamps_SRC : Option LIGOTimeGPSVector)
    (TimeSeries_DET : Option COMPLEX8TimeSeries) (Timestamps_DET : Option LIGOTimeGPSVector)
    (SRC_timing : Option SSBtimes) :
    XLALStatus × Option COMPLEX8TimeSeries × Option LIGOTimeGPSVector :=
  match TimeSeries_DET, TimeSeries_SRC, Timestamps_DET, Timestamps_SRC, SRC_timing with
  | some TimeSeries_DET, some TimeSeries_SRC, some Timestamps_DET, some Timestamps_SRC,
      some SRC_timing =>
    let unchanged := (some TimeSeries_SRC, some Timestamps_SRC)
    let numTimeSamples_DET := TimeSeries_DET.data.length
    if ¬ (numTimeSamples_DET > 0) then (XLAL_EINVAL, unchanged)
    else
      let numSFTs := Timestamps_DET.data.length
      if ¬ (numSFTs > 0 ∧ SRC_timing.DeltaT.length = numSFTs ∧ SRC_timing.Tdot.length = numSFTs)
      then (XLAL_EINVAL, unchanged)
      else if ¬ (Timestamps_SRC.data.length = numSFTs) then (XLAL_EINVAL, unchanged)
      else if ¬ env.XLALCreateREAL8Vector numTimeSamples_DET then (XLAL_EFUNC, unchanged)
      else
        let start_DET := XLALGPSGetREAL8 TimeSeries_DET.epoch
        let t_DET := (List.range numTimeSamples_DET).map fun j =>
          start_DET + (j : ℚ) * TimeSeries_DET.deltaT
        let ts0 := TimeSeries_DET.data.map COMPLEX8.re
        let ts1 := TimeSeries_DET.data.map COMPLEX8.im
        if ¬ env.XLALGSLInitInterpolateREAL8Vector t_DET ts0 then (XLAL_EFUNC, unchanged)
        else if ¬ env.XLALGSLInitInterpolateREAL8Vector t_DET ts1 then (XLAL_EFUNC, unchanged)
        else
          match forLoop (resampleTimestamp env TimeSeries_SRC TimeSeries_DET Timestamps_DET
              SRC_timing ⟨t_DET, ts0⟩ ⟨t_DET, ts1⟩) (List.range numSFTs)
              (TimeSeries_SRC.data, Timestamps_SRC.data) with
          | (st, d, stamps) =>
            (st, some { TimeSeries_SRC with data := d },
              some { Timestamps_SRC with data := stamps })
  | _, _, _, _, _ => (XLAL_EINVAL, TimeSeries_SRC, Timestamps_SRC)

/-- Number of samples of the resampled series, `(UINT4) ceil ( Teff / deltaT )` with
`Teff = 1.0 / deltaF`. -/
def numTimeSamplesOut (deltaF deltaT : REAL8) : UINT4 := toUINT4 (ceil (1 / deltaF / deltaT))

/-- Sample interval of the resampled series, `Teff / numTimeSamplesOut`. -/
def deltaTEff (deltaF deltaT : REAL8) : REAL8 := 1 / deltaF / (numTimeSamplesOut deltaF deltaT : ℚ)

/-- Body of the detector loop of `XLALBarycentricResampleMultiCOMPLEX8TimeSeries`; the
state is the pair of output arrays filled so far. -/
def resampleDetector (env : Externals) (mTimeSeries_DET : MultiCOMPLEX8TimeSeries)
    (mTimestamps_DET : MultiLIGOTimeGPSVector) (mSRC_timing : MultiSSBtimes)
    (earliestSRC : LIGOTimeGPS) (fHet deltaTEff : REAL8) (numTimeSamplesOut : UINT4) (X : Nat)
    (s : List COMPLEX8TimeSeries × List LIGOTimeGPSVector) :
    XLALStatus × List COMPLEX8TimeSeries × List LIGOTimeGPSVector :=
  match mTimeSeries_DET.data[X]?, mTimestamps_DET.data[X]? with
  | some TimeSeries_DETX, some Timestamps_DETX =>
    if ¬ env.XLALCreateCOMPLEX8TimeSeries numTimeSamplesOut then (XLAL_EFUNC, s)
    else if ¬ env.XLALCreateTimestampVector Timestamps_DETX.data.length then (XLAL_EFUNC, s)
    else
      match XLALBarycentricResampleCOMPLEX8TimeSeries env
          (some ⟨earliestSRC, fHet, deltaTEff, List.replicate numTimeSamplesOut 0⟩)
          (some ⟨List.replicate Timestamps_DETX.data.length ⟨0⟩, Timestamps_DETX.deltaT⟩)
          (some TimeSeries_DETX) (some Timestamps_DETX) mSRC_timing.data[X]? with
      | (XLAL_SUCCESS, some series, some stamps) => (XLAL_SUCCESS, s.1 ++ [series], s.2 ++ [stamps])
      | _ => (XLAL_EFUNC, s)
  | _, _ => (UNDEFINED, s)

/-- `XLALBarycentricResampleMultiCOMPLEX8TimeSeries`: barycentric resampling of every
detector.  `mTimeSeries_SRC`, `mTimestamps_SRC` are the output slots; the status is
returned with their final content. -/
def XLALBarycentricResampleMultiCOMPLEX8TimeSeries (env : Externals)
    (mTimeSeries_SRC : Option (Option MultiCOMPLEX8TimeSeries))
    (mTimestamps_SRC : Option (Option MultiLIGOTimeGPSVector))
    (mTimeSeries_DET : Option MultiCOMPLEX8TimeSeries)
    (mTimestamps_DET : Option MultiLIGOTimeGPSVector) (mSRC_timing : Option MultiSSBtimes)
    (deltaF : REAL8) :
    XLALStatus × Option MultiCOMPLEX8TimeSeries × Option MultiLIGOTimeGPSVector :=
  let unchanged := (mTimeSeries_SRC.join, mTimestamps_SRC.join)
  if mTimeSeries_SRC ≠ some none then (XLAL_EINVAL, unchanged)
  else if mTimestamps_SRC ≠ some none then (XLAL_EINVAL, unchanged)
  else
    match mTimeSeries_DET, mTimestamps_DET, mSRC_timing with
    | some mTimeSeries_DET, some mTimestamps_DET, some mSRC_timing =>
      if ¬ (deltaF > 0) then (XLAL_EINVAL, unchanged)
      else
        let numDetectors := mTimeSeries_DET.data.length
        if ¬ (numDetectors > 0 ∧ mSRC_timing.data.length = numDetectors ∧
            mTimestamps_DET.data.length = numDetectors) then (XLAL_EINVAL, unchanged)
        else
          match mTimestamps_DET.data.head?, mTimeSeries_DET.data.head? with
          | some stamps0, some series0 =>
            let Tsft := stamps0.deltaT
            match env.XLALEarliestMultiSSBtime mSRC_timing Tsft,
                env.XLALLatestMultiSSBtime mSRC_timing Tsft with
            | some earliestSRC, some _ =>
              let fHet := series0.f0
              let deltaT := series0.deltaT
              let numOut := numTimeSamplesOut deltaF deltaT
              let dtEff := deltaTEff deltaF deltaT
              if ¬ env.XLALMalloc 1 then (XLAL_ENOMEM, unchanged)
              else if ¬ env.XLALMalloc numDetectors then (XLAL_ENOMEM, some ⟨[]⟩, none)
              else if ¬ env.XLALCalloc 1 then (XLAL_EFUNC, some ⟨[]⟩, none)
              else if ¬ env.XLALCalloc numDetectors then (XLAL_EFUNC, some ⟨[]⟩, some ⟨[]⟩)
              else
                match forLoop (resampleDetector env mTimeSeries_DET mTimestamps_DET mSRC_timing
                    earliestSRC fHet dtEff numOut) (List.range numDetectors) ([], []) with
                | (st, series, stamps) => (st, some ⟨series⟩, some ⟨stamps⟩)
            | _, _ => (XLAL_EFUNC, unchanged)
          | _, _ => (UNDEFINED, unchanged)
    | _, _, _ => (XLAL_EINVAL, unchanged)

/-! ## ResamplingCache and SpectralAssembler: `ComputeFstat_Resamp` -/

/-- The routines of the buffering block whose invocations are recorded. -/
inductive Call where
  | GetMultiSSBtimes
  | ComputeMultiAMCoeffs
  | AddMultiBinaryTimes
  | BarycentricResample
  | AntennaWeight
deriving DecidableEq, Repr

/-- The three arms of the buffering block. -/
inductive CacheBranch where
  | fullReuse
  | binaryOnly
  | fullRecompute
deriving DecidableEq, Repr

/-- The outer condition of the buffering block: same sky position and reference time as
the last call. -/
def sameSkyAndRefTime (prev_doppler thisPoint : PulsarDopplerParams) : Bool :=
  prev_doppler.Alpha == thisPoint.Alpha &&
  prev_doppler.Delta == thisPoint.Delta &&
  XLALGPSDiff prev_doppler.refTime thisPoint.refTime == 0

/-- The inner condition of the buffering block: same binary-orbital parameters as the last
call. -/
def sameBinary (prev_doppler thisPoint : PulsarDopplerParams) : Bool :=
  prev_doppler.asini == thisPoint.asini &&
  prev_doppler.period == thisPoint.period &&
  prev_doppler.ecc == thisPoint.ecc &&
  XLALGPSCmp prev_doppler.tp thisPoint.tp == 0 &&
  prev_doppler.argp == thisPoint.argp

/-- State at the end of the buffering block: status, recorded calls, the arm taken, the
cache, and the local variables `multiAMcoef`, `multiFa_SRC`, `multiFb_SRC`. -/
structure Buffered where
  status : XLALStatus
  calls : List Call
  branch : CacheBranch
  resamp : FstatInput_Resamp
  multiAMcoef : Option MultiAMCoeffs
  multiFa_SRC : Option MultiCOMPLEX8TimeSeries
  multiFb_SRC : Option MultiCOMPLEX8TimeSeries
deriving DecidableEq, Repr

/-- The arm "same skypos but changes in binary-orbital parameters". -/
def recomputeBinary (env : Externals) (common : FstatInput_Common) (resamp : FstatInput_Resamp)
    (thisPoint : PulsarDopplerParams) (dFreqOut : REAL8) : Buffered :=
  let multiAMcoef := resamp.prev_multiAMcoef
  let multiSSBsky := resamp.prev_multiSSBsky
  let fail (calls : List Call) : Buffered :=
    ⟨XLAL_EFUNC, calls, .binaryOnly, resamp, multiAMcoef, none, none⟩
  let weight (calls : List Call)
      (r : XLALStatus × Option MultiCOMPLEX8TimeSeries × Option MultiLIGOTimeGPSVector) :
      Buffered :=
    match r with
    | (XLAL_SUCCESS, multiTimeSeries_SRC, multiTimestamps_SRC) =>
      match XLALAntennaWeightMultiCOMPLEX8TimeSeries env (some none) (some none)
          multiTimeSeries_SRC multiAMcoef multiTimestamps_SRC with
      | (XLAL_SUCCESS, multiFa_SRC, multiFb_SRC) =>
        ⟨XLAL_SUCCESS, calls ++ [.BarycentricResample, .AntennaWeight], .binaryOnly,
          { resamp with
            prev_doppler := thisPoint
            prev_multiFa_SRC := multiFa_SRC
            prev_multiFb_SRC := multiFb_SRC },
          multiAMcoef, multiFa_SRC, multiFb_SRC⟩
      | _ => fail (calls ++ [.BarycentricResample, .AntennaWeight])
    | _ => fail (calls ++ [.BarycentricResample])
  if thisPoint.asini > 0 then
    match multiSSBsky.bind fun sky => env.XLALAddMultiBinaryTimes sky thisPoint with
    | none => fail [.AddMultiBinaryTimes]
    | some multiBinary =>
      weight [.AddMultiBinaryTimes]
        (XLALBarycentricResampleMultiCOMPLEX8TimeSeries env (some none) (some none)
          (some resamp.multiTimeSeries_DET) common.timestamps (some multiBinary) dFreqOut)
  else
    weight []
      (XLALBarycentricResampleMultiCOMPLEX8TimeSeries env (some none) (some none)
        (some resamp.multiTimeSeries_DET) common.timestamps multiSSBsky dFreqOut)

/-- The arm "changed sky-position: compute SSB + AMcoef for this skyposition". -/
def recomputeSky (env : Externals) (common : FstatInput_Common) (resamp : FstatInput_Resamp)
    (thisPoint : PulsarDopplerParams) (dFreqOut : REAL8) : Buffered :=
  let skypos : SkyPosition := ⟨thisPoint.Alpha, thisPoint.Delta⟩
  let multiDetStates := common.detectorStates
  let multiWeights := common.noiseWeights
  let fail (calls : List Call) : Buffered :=
    ⟨XLAL_EFUNC, calls, .fullRecompute, resamp, none, none, none⟩
  match env.XLALGetMultiSSBtimes multiDetStates skypos thisPoint.refTime common.SSBprec with
  | none => fail [.GetMultiSSBtimes]
  | some multiSSBsky =>
    let weight (calls : List Call)
        (r : XLALStatus × Option MultiCOMPLEX8TimeSeries × Option MultiLIGOTimeGPSVector) :
        Buffered :=
      match r with
      | (XLAL_SUCCESS, multiTimeSeries_SRC, multiTimestamps_SRC) =>
        match env.XLALComputeMultiAMCoeffs multiDetStates multiWeights skypos with
        | none => fail (calls ++ [.BarycentricResample, .ComputeMultiAMCoeffs])
        | some multiAMcoef =>
          match XLALAntennaWeightMultiCOMPLEX8TimeSeries env (some none) (some none)
              multiTimeSeries_SRC (some multiAMcoef) multiTimestamps_SRC with
          | (XLAL_SUCCESS, multiFa_SRC, multiFb_SRC) =>
            ⟨XLAL_SUCCESS,
              calls ++ [.BarycentricResample, .ComputeMultiAMCoeffs, .AntennaWeight],
              .fullRecompute,
              { resamp with
                prev_doppler := thisPoint
                prev_multiAMcoef := some multiAMcoef
                prev_multiSSBsky := some multiSSBsky
                prev_multiFa_SRC := multiFa_SRC
                prev_multiFb_SRC := multiFb_SRC },
              some multiAMcoef, multiFa_SRC, multiFb_SRC⟩
          | _ =>
            ⟨XLAL_EFUNC, calls ++ [.BarycentricResample, .ComputeMultiAMCoeffs, .AntennaWeight],
              .fullRecompute, resamp, some multiAMcoef, none, none⟩
      | _ => fail (calls ++ [.BarycentricResample])
    if thisPoint.asini > 0 then
      match env.XLALAddMultiBinaryTimes multiSSBsky thisPoint with
      | none => fail [.GetMultiSSBtimes, .AddMultiBinaryTimes]
      | some multiBinary =>
        weight [.GetMultiSSBtimes, .AddMultiBinaryTimes]
          (XLALBarycentricResampleMultiCOMPLEX8TimeSeries env (some none) (some none)
            (some resamp.multiTimeSeries_DET) common.timestamps (some multiBinary) dFreqOut)
    else
      weight [.GetMultiSSBtimes]
        (XLALBarycentricResampleMultiCOMPLEX8TimeSeries env (some none) (some none)
          (some resamp.multiTimeSeries_DET) common.timestamps (some multiSSBsky) dFreqOut)

/-- The block "handle buffering" of `ComputeFstat_Resamp`. -/
def handleBuffering (env : Externals) (common : FstatInput_Common) (resamp : FstatInput_Resamp)
    (thisPoint : PulsarDopplerParams) (dFreqOut : REAL8) : Buffered :=
  if sameSkyAndRefTime resamp.prev_doppler thisPoint then
    if sameBinary resamp.prev_doppler thisPoint then
      ⟨XLAL_SUCCESS, [], .fullReuse, resamp, resamp.prev_multiAMcoef,
        resamp.prev_multiFa_SRC, resamp.prev_multiFb_SRC⟩
    else recomputeBinary env common resamp thisPoint dFreqOut
  else recomputeSky env common resamp thisPoint dFreqOut

/-- Store `v` at index `k` of an array; `none` when `k` lies outside the array. -/
def writeAt {α : Type} (l : List α) (k : Nat) (v : α) : Option (List α) :=
  if k < l.length then some (l.set k v) else none

/-- Store `v` at `[X][k]` of an array of arrays; `none` when an index lies outside. -/
def writeAt2 {α : Type} (l : List (List α)) (X k : Nat) (v : α) : Option (List (List α)) :=
  match l[X]? with
  | none => none
  | some row => (writeAt row k v).map fun row' => l.set X row'

/-- State of the detector loop: the accumulators `Fa_k`, `Fb_k` and the result
structure. -/
structure BinState where
  Fa_k : List COMPLEX8
  Fb_k : List COMPLEX8
  Fstats : FstatResults
deriving DecidableEq, Repr

/-- Body of the loop `for ( UINT4 k = 0; k < numFreqBins; k++ )` for detector `X`. -/
def binBody (env : Externals) (whatToCompute : FstatQuantities) (dt : REAL8)
    (offset_bins : UINT4) (outaX outbX : List COMPLEX8) (AdX BdX CdX EdX DdX_inv : REAL4)
    (X k : Nat) (s : BinState) : XLALStatus × BinState :=
  let idy := wrapUINT4 (k + offset_bins)
  match outaX[idy]?, outbX[idy]? with
  | some va, some vb =>
    let FaX_k : COMPLEX8 := dt * va
    let FbX_k : COMPLEX8 := dt * vb
    let Fa_k := s.Fa_k.set k (s.Fa_k.getD k 0 + FaX_k)
    let Fb_k := s.Fb_k.set k (s.Fb_k.getD k 0 + FbX_k)
    let perDetFaFb : Option FstatResults :=
      if hasFlag whatToCompute FSTATQ_FAFB_PER_DET then
        (writeAt2 s.Fstats.FaPerDet X k FaX_k).bind fun fa =>
          (writeAt2 s.Fstats.FbPerDet X k FbX_k).map fun fb =>
            { s.Fstats with FaPerDet := fa, FbPerDet := fb }
      else some s.Fstats
    match perDetFaFb with
    | none => (UNDEFINED, ⟨Fa_k, Fb_k, s.Fstats⟩)
    | some F1 =>
      let perDet2F : Option FstatResults :=
        if hasFlag whatToCompute FSTATQ_2F_PER_DET then
          (writeAt2 F1.twoFPerDet X k
            (env.XLALComputeFstatFromFaFb FaX_k FbX_k AdX BdX CdX EdX DdX_inv)).map fun t =>
              { F1 with twoFPerDet := t }
        else some F1
      match perDet2F with
      | none => (UNDEFINED, ⟨Fa_k, Fb_k, F1⟩)
      | some F2 => (XLAL_SUCCESS, ⟨Fa_k, Fb_k, F2⟩)
  | _, _ => (UNDEFINED, s)

/-- The reordered transforms `outaX`, `outbX` of detector `X`: forward FFT of both series,
then `XLALReorderFFTWtoSFT` of both. -/
def detectorTransforms (env : Externals) (numSamples : UINT4) (ina inb : List COMPLEX8) :
    Option (List COMPLEX8 × List COMPLEX8) :=
  (env.XLALCOMPLEX8VectorFFT numSamples ina).bind fun outaX =>
    (env.XLALCOMPLEX8VectorFFT numSamples inb).bind fun outbX =>
      (env.XLALReorderFFTWtoSFT outaX).bind fun outaX =>
        (env.XLALReorderFFTWtoSFT outbX).map fun outbX => (outaX, outbX)

/-- Body of the loop over the detectors `X < numDetectors`. -/
def detectorBody (env : Externals) (whatToCompute : FstatQuantities) (dt : REAL8)
    (offset_bins numSamples numFreqBins : UINT4)
    (multiFa_spin multiFb_spin : MultiCOMPLEX8TimeSeries) (multiAMcoef : MultiAMCoeffs)
    (X : Nat) (s : BinState) : XLALStatus × BinState :=
  match multiFa_spin.data[X]?, multiFb_spin.data[X]? with
  | some ina, some inb =>
    match detectorTransforms env numSamples ina.data inb.data with
    | none => (XLAL_EFUNC, s)
    | some (outaX, outbX) =>
      match multiAMcoef.data[X]? with
      | none => (UNDEFINED, s)
      | some amX =>
        forLoop (binBody env whatToCompute dt offset_bins outaX outbX amX.A amX.B amX.C 0
          (1 / amX.D) X) (List.range numFreqBins) s
  | _, _ => (UNDEFINED, s)

/-- Body of the loop that copies the summed amplitudes into `Fstats->Fa`, `Fstats->Fb`. -/
def storeFaFb (Fa_k Fb_k : List COMPLEX8) (k : Nat) (F : FstatResults) :
    XLALStatus × FstatResults :=
  match writeAt F.Fa k (Fa_k.getD k 0), writeAt F.Fb k (Fb_k.getD k 0) with
  | some fa, some fb => (XLAL_SUCCESS, { F with Fa := fa, Fb := fb })
  | _, _ => (UNDEFINED, F)

/-- Body of the loop that stores the combined statistic into `Fstats->twoF`. -/
def storeTwoF (env : Externals) (Fa_k Fb_k : List COMPLEX8) (Ad Bd Cd Ed Dd_inv : REAL4)
    (k : Nat) (F : FstatResults) : XLALStatus × FstatResults :=
  match writeAt F.twoF k
      (env.XLALComputeFstatFromFaFb (Fa_k.getD k 0) (Fb_k.getD k 0) Ad Bd Cd Ed Dd_inv) with
  | some t => (XLAL_SUCCESS, { F with twoF := t })
  | none => (UNDEFINED, F)

/-- `XLALDuplicateMultiCOMPLEX8TimeSeries`: a copy of the series, or failure (also on a
null argument). -/
def XLALDuplicateMultiCOMPLEX8TimeSeries (env : Externals)
    (x : Option MultiCOMPLEX8TimeSeries) : Option MultiCOMPLEX8TimeSeries :=
  x.bind fun m => if env.XLALDuplicateMultiCOMPLEX8TimeSeries m then some m else none

/-- The private copies `multiFa_spin`, `multiFb_spin` after the sub-bin frequency shift
(applied iff `shift != 0.0`) and the spin-down correction. -/
def spinCopies (env : Externals) (thisPoint : PulsarDopplerParams) (shift : REAL8)
    (multiFa_SRC multiFb_SRC : Option MultiCOMPLEX8TimeSeries) :
    Option (MultiCOMPLEX8TimeSeries × MultiCOMPLEX8TimeSeries) :=
  (XLALDuplicateMultiCOMPLEX8TimeSeries env multiFa_SRC).bind fun multiFa_spin =>
    (XLALDuplicateMultiCOMPLEX8TimeSeries env multiFb_SRC).bind fun multiFb_spin =>
      let shifted : Option (MultiCOMPLEX8TimeSeries × MultiCOMPLEX8TimeSeries) :=
        if shift ≠ 0 then
          (env.XLALFrequencyShiftMultiCOMPLEX8TimeSeries multiFa_spin shift).bind fun fa =>
            (env.XLALFrequencyShiftMultiCOMPLEX8TimeSeries multiFb_spin shift).map fun fb =>
              (fa, fb)
        else some (multiFa_spin, multiFb_spin)
      shifted.bind fun p => env.XLALSpinDownCorrectionMultiFaFb p.1 p.2 thisPoint

/-- The fractional bin offset `shift = diff - dFreqOut * diff_bins`. -/
def fracShift (f0 fkdot0 dFreqOut : REAL8) : REAL8 :=
  let diff := f0 - fkdot0
  let diff_bins : INT4 := toINT4 (lround (diff / dFreqOut))
  diff - dFreqOut * (diff_bins : ℚ)

/-- Number of bins from the internal start frequency to the requested one,
`(UINT4) lround ( ( thisPoint.fkdot[0] - f0_shifted ) / dFreqOut )`. -/
def offsetBins (env : Externals) (f0 fkdot0 dFreqOut : REAL8) (numSamples : UINT4) : UINT4 :=
  let f0_shifted := f0 - (env.NhalfNeg numSamples : ℚ) * dFreqOut
  toUINT4 (lround ((fkdot0 - f0_shifted) / dFreqOut))

/-- The part of `ComputeFstat_Resamp` after the buffering block: from the weighted
source-frame series to the frequency-domain output.  `det0` is
`multiTimeSeries_DET->data[0]`. -/
def spectralAssemble (env : Externals) (Fstats : FstatResults) (numDetectors : UINT4)
    (det0 : COMPLEX8TimeSeries) (dFreqOut : REAL8) (multiAMcoef : Option MultiAMCoeffs)
    (multiFa_SRC multiFb_SRC : Option MultiCOMPLEX8TimeSeries) : XLALStatus × FstatResults :=
  let thisPoint := Fstats.doppler
  let whatToCompute := Fstats.whatWasComputed
  let shift := fracShift det0.f0 (thisPoint.fkdot.getD 0 0) dFreqOut
  match multiAMcoef with
  | none => (UNDEFINED, Fstats)
  | some multiAMcoef =>
    let Ad := multiAMcoef.Mmunu.Ad
    let Bd := multiAMcoef.Mmunu.Bd
    let Cd := multiAMcoef.Mmunu.Cd
    let Ed := multiAMcoef.Mmunu.Ed
    let Dd := multiAMcoef.Mmunu.Dd
    let Dd_inv := 1 / Dd
    match spinCopies env thisPoint shift multiFa_SRC multiFb_SRC with
    | none => (XLAL_EFUNC, Fstats)
    | some (multiFa_spin, multiFb_spin) =>
      match multiFa_spin.data.head? with
      | none => (UNDEFINED, Fstats)
      | some Fa0 =>
        let numSamples := Fa0.data.length
        let dt := Fa0.deltaT
        if ¬ env.XLALCreateCOMPLEX8Vector numSamples then (XLAL_EFUNC, Fstats)
        else if ¬ env.XLALCreateCOMPLEX8FFTPlan numSamples then (XLAL_EFUNC, Fstats)
        else
          let numFreqBins := Fstats.numFreqBins
          let offset_bins := offsetBins env Fa0.f0 (thisPoint.fkdot.getD 0 0) dFreqOut numSamples
          if ¬ env.XLALCalloc numFreqBins then (XLAL_ENOMEM, Fstats)
          else
            match forLoop (detectorBody env whatToCompute dt offset_bins numSamples numFreqBins
                multiFa_spin multiFb_spin multiAMcoef) (List.range numDetectors)
                ⟨List.replicate numFreqBins 0, List.replicate numFreqBins 0, Fstats⟩ with
            | (XLAL_SUCCESS, s) =>
              match (if hasFlag whatToCompute FSTATQ_FAFB then
                  forLoop (storeFaFb s.Fa_k s.Fb_k) (List.range numFreqBins) s.Fstats
                else (XLAL_SUCCESS, s.Fstats)) with
              | (XLAL_SUCCESS, F1) =>
                match (if hasFlag whatToCompute FSTATQ_2F then
                    forLoop (storeTwoF env s.Fa_k s.Fb_k Ad Bd Cd Ed Dd_inv)
                      (List.range numFreqBins) F1
                  else (XLAL_SUCCESS, F1)) with
                | (XLAL_SUCCESS, F2) =>
                  if hasFlag whatToCompute FSTATQ_ATOMS_PER_DET then (XLAL_EFAILED, F2)
                  else (XLAL_SUCCESS, { F2 with Mmunu := multiAMcoef.Mmunu })
                | r => r
              | r => r
            | (st, s) => (st, s.Fstats)

/-- The frequency resolution used, `(Fstats->dFreq > 0) ? Fstats->dFreq : 1.0 / TspanIn`. -/
def dFreqOut (Fstats : FstatResults) (det0 : COMPLEX8TimeSeries) : REAL8 :=
  let numTimeSamplesIn := det0.data.length
  let dtIn := det0.deltaT
  let TspanIn := (numTimeSamplesIn : ℚ) * dtIn
  if Fstats.dFreq > 0 then Fstats.dFreq else 1 / TspanIn

/-- What a call of `ComputeFstat_Resamp` leaves behind: the status, the recorded calls
of the buffering block, the arm taken (when the block was reached), the result structure
and the cache. -/
structure Outcome where
  status : XLALStatus
  calls : List Call
  branch : Option CacheBranch
  Fstats : Option FstatResults
  resamp : Option FstatInput_Resamp
deriving DecidableEq, Repr

/-- `ComputeFstat_Resamp`: a query at the point `Fstats->doppler`. -/
def ComputeFstat_Resamp (env : Externals) (Fstats : Option FstatResults)
    (common : Option FstatInput_Common) (resamp : Option FstatInput_Resamp) : Outcome :=
  match Fstats, common, resamp with
  | some Fstats, some common, some resamp =>
    let whatToCompute := Fstats.whatWasComputed
    if hasFlag whatToCompute FSTATQ_ATOMS_PER_DET then
      ⟨XLAL_EINVAL, [], none, some Fstats, some resamp⟩
    else
      let thisPoint := Fstats.doppler
      match resamp.multiTimeSeries_DET.data.head? with
      | none => ⟨UNDEFINED, [], none, some Fstats, some resamp⟩
      | some det0 =>
        let dFreqOut := dFreqOut Fstats det0
        let b := handleBuffering env common resamp thisPoint dFreqOut
        if b.status ≠ XLAL_SUCCESS then
          ⟨b.status, b.calls, some b.branch, some Fstats, some b.resamp⟩
        else
          let r := spectralAssemble env Fstats resamp.multiTimeSeries_DET.data.length det0
            dFreqOut b.multiAMcoef b.multiFa_SRC b.multiFb_SRC
          ⟨r.1, b.calls, some b.branch, some r.2, some b.resamp⟩
  | _, _, _ => ⟨XLAL_EFAULT, [], none, Fstats, resamp⟩

/-! ## A concrete setting

Two detectors with four samples each at a one-second interval, two segments of two
seconds per detector, and simple external routines.  It is used to evaluate the embedded
functions on concrete queries. -/

namespace Sample

/-- Timing map of the sample routines: segment midpoints `1 + shift` and `3 + shift`
seconds after the reference time, unit time derivative. -/
def ssb (refTime : LIGOTimeGPS) (shift : REAL8) : SSBtimes :=
  ⟨refTime, [1 + shift, 3 + shift], [1, 1]⟩

/-- The earliest segment start of a timing map. -/
def earliest (m : MultiSSBtimes) (Tsft : REAL8) : Option LIGOTimeGPS :=
  match m.data with
  | [] => none
  | t :: _ =>
    match (m.data.map fun d =>
        (List.range d.DeltaT.length).map fun j =>
          d.DeltaT.getD j 0 - 1 / 2 * Tsft * d.Tdot.getD j 0).flatten with
    | [] => none
    | x :: xs => some ⟨t.refTime.ns + (xs.foldl min x * 1000000000).floor⟩

/-- The latest segment end of a timing map. -/
def latest (m : MultiSSBtimes) (Tsft : REAL8) : Option LIGOTimeGPS :=
  match m.data with
  | [] => none
  | t :: _ =>
    match (m.data.map fun d =>
        (List.range d.DeltaT.length).map fun j =>
          d.DeltaT.getD j 0 + 1 / 2 * Tsft * d.Tdot.getD j 0).flatten with
    | [] => none
    | x :: xs => some ⟨t.refTime.ns + (xs.foldl max x * 1000000000).floor⟩

/-- Antenna coefficients of the sample routines: they depend on the sky position. -/
def amCoeffs (sky : SkyPosition) : MultiAMCoeffs :=
  ⟨[⟨[1 + sky.longitude, 2], [3, 4 + sky.latitude], 2, 3, 1, 5⟩,
    ⟨[5, 6 + sky.longitude], [7 + sky.latitude, 8], 4, 5, 2, 16⟩],
   ⟨6 + sky.longitude, 8, 3, 39, 0, 1⟩⟩

/-- The quadratic form of the sample routines,
`2 Dinv (B |Fa|^2 + A |Fb|^2 - 2 C Re(Fa Fb*) - 2 E Im(Fa Fb*))`. -/
def fstat (Fa Fb : COMPLEX8) (A B C E Dinv : REAL4) : REAL4 :=
  2 * Dinv * (B * (Fa.re * Fa.re + Fa.im * Fa.im) + A * (Fb.re * Fb.re + Fb.im * Fb.im)
    - 2 * C * (Fa.re * Fb.re + Fa.im * Fb.im) - 2 * E * (Fa.im * Fb.re - Fa.re * Fb.im))

/-- Sample external routines: every allocation is granted, the transform and the
corrections are the identity, interpolation takes the sample at the rounded time. -/
def env : Externals where
  XLALCalloc := fun _ => true
  XLALMalloc := fun _ => true
  XLALCreateCOMPLEX8TimeSeries := fun _ => true
  XLALCreateCOMPLEX8Vector := fun _ => true
  XLALCreateREAL8Vector := fun _ => true
  XLALCreateTimestampVector := fun _ => true
  XLALCreateCOMPLEX8FFTPlan := fun _ => true
  XLALDuplicateMultiCOMPLEX8TimeSeries := fun _ => true
  XLALGetMultiSSBtimes := fun _ _ refTime _ => some ⟨[ssb refTime 0, ssb refTime 0]⟩
  XLALAddMultiBinaryTimes := fun sky p =>
    some ⟨sky.data.map fun d => { d with DeltaT := d.DeltaT.map fun x => x + p.asini }⟩
  XLALComputeMultiAMCoeffs := fun _ _ sky => some (amCoeffs sky)
  XLALEarliestMultiSSBtime := earliest
  XLALLatestMultiSSBtime := latest
  XLALGPSSetREAL8 := fun x => ⟨(x * 1000000000).floor⟩
  XLALGSLInitInterpolateREAL8Vector := fun _ _ => true
  XLALGSLInterpolateREAL8Vector := fun times spline =>
    some (times.map fun t => spline.y.getD (lround (t - spline.x.headD 0)).toNat 0)
  XLALSinCos2PiLUT := fun _ => some (0, 1)
  XLALFrequencyShiftMultiCOMPLEX8TimeSeries := fun m _ => some m
  XLALSpinDownCorrectionMultiFaFb := fun fa fb _ => some (fa, fb)
  XLALCOMPLEX8VectorFFT := fun n l => if l.length = n then some l else none
  XLALReorderFFTWtoSFT := fun l => some l
  XLALComputeFstatFromFaFb := fstat
  NhalfNeg := fun N => N / 2

/-- The detector-frame series of the two detectors. -/
def multiTimeSeries_DET : MultiCOMPLEX8TimeSeries :=
  ⟨[⟨⟨0⟩, 10, 1, [⟨1, 0⟩, ⟨2, 0⟩, ⟨3, 0⟩, ⟨4, 0⟩]⟩,
    ⟨⟨0⟩, 10, 1, [⟨0, 1⟩, ⟨0, 2⟩, ⟨0, 3⟩, ⟨0, 4⟩]⟩]⟩

/-- Segment grid: two segments of two seconds for each detector. -/
def common : FstatInput_Common :=
  ⟨⟨0⟩, ⟨0⟩, some ⟨[⟨[⟨0⟩, ⟨2000000000⟩], 2⟩, ⟨[⟨0⟩, ⟨2000000000⟩], 2⟩]⟩, ⟨0⟩⟩

/-- The cache right after set-up: zeroed, no buffered quantity. -/
def freshCache : FstatInput_Resamp :=
  ⟨multiTimeSeries_DET, PulsarDopplerParams.zero, none, none, none, none⟩

/-- A search point at sky position `(Alpha, Delta)` with frequency `f` and projected
semi-major axis `asini`. -/
def point (Alpha Delta f asini : REAL8) : PulsarDopplerParams :=
  ⟨⟨0⟩, Alpha, Delta, [f], asini, 0, 0, ⟨0⟩, 0⟩

/-- A query for `numFreqBins` bins with zeroed result arrays for two detectors. -/
def query (p : PulsarDopplerParams) (dFreq : REAL8) (numFreqBins : UINT4)
    (what : FstatQuantities) : FstatResults :=
  ⟨p, dFreq, numFreqBins, what, ⟨0, 0, 0, 0, 0, 0⟩,
    List.replicate numFreqBins 0, List.replicate numFreqBins 0, List.replicate numFreqBins 0,
    List.replicate 2 (List.replicate numFreqBins 0),
    List.replicate 2 (List.replicate numFreqBins 0),
    List.replicate 2 (List.replicate numFreqBins 0)⟩

/-- The cache after the query `q` on the cache `c`. -/
def cacheAfter (c : FstatInput_Resamp) (q : FstatResults) : FstatInput_Resamp :=
  ((ComputeFstat_Resamp env (some q) (some common) (some c)).resamp).getD c

/-- One detector-frame series of four samples starting at GPS time 0. -/
def series0 : COMPLEX8TimeSeries := ⟨⟨0⟩, 10, 1, [⟨1, 0⟩, ⟨2, 0⟩, ⟨3, 0⟩, ⟨4, 0⟩]⟩

/-- Two segments of two seconds, starting at 0 s and at 2 s. -/
def stamps0 : LIGOTimeGPSVector := ⟨[⟨0⟩, ⟨2000000000⟩], 2⟩

/-- Antenna coefficients for the two segments of `stamps0`. -/
def coeffs0 : AMCoeffs := ⟨[2, 5], [3, 6], 2, 3, 1, 5⟩

/-- A series of three samples whose epoch is GPS time 1 s. -/
def lateSeries : COMPLEX8TimeSeries := ⟨⟨1000000000⟩, 0, 1, [⟨1, 0⟩, ⟨2, 0⟩, ⟨3, 0⟩]⟩

/-- One segment of two seconds that starts at GPS time 0 s, one sample before the epoch
of `lateSeries`. -/
def earlyStamps : LIGOTimeGPSVector := ⟨[⟨0⟩], 2⟩

/-- Antenna coefficients for the segment of `earlyStamps`. -/
def earlyCoeffs : AMCoeffs := ⟨[5], [7], 0, 0, 0, 0⟩

end Sample

/-! ## Vocabulary of the statements -/

/-- Entry `[X][k]` of an array of arrays. -/
def readAt2 {α : Type} (l : List (List α)) (X k : Nat) : Option α :=
  l[X]?.bind fun row => row[k]?

/-- The reordered transforms `outaX`, `outbX` of detector `X` (empty vectors when the
detector is absent or a transform fails). -/
def transformsOf (env : Externals) (numSamples : UINT4)
    (multiFa_spin multiFb_spin : MultiCOMPLEX8TimeSeries) (X : Nat) :
    List COMPLEX8 × List COMPLEX8 :=
  match multiFa_spin.data[X]?, multiFb_spin.data[X]? with
  | some ina, some inb => (detectorTransforms env numSamples ina.data inb.data).getD ([], [])
  | _, _ => ([], [])

/-- The per-detector amplitude `FaX_k = dt * outaX->data[k + offset_bins]`. -/
def FaX_k (env : Externals) (dt : REAL8) (offset_bins numSamples : UINT4)
    (multiFa_spin multiFb_spin : MultiCOMPLEX8TimeSeries) (X k : Nat) : COMPLEX8 :=
  dt * (transformsOf env numSamples multiFa_spin multiFb_spin X).1.getD
    (wrapUINT4 (k + offset_bins)) 0

/-- The per-detector amplitude `FbX_k = dt * outbX->data[k + offset_bins]`. -/
def FbX_k (env : Externals) (dt : REAL8) (offset_bins numSamples : UINT4)
    (multiFa_spin multiFb_spin : MultiCOMPLEX8TimeSeries) (X k : Nat) : COMPLEX8 :=
  dt * (transformsOf env numSamples multiFa_spin multiFb_spin X).2.getD
    (wrapUINT4 (k + offset_bins)) 0

/-- Sum of `f 0, f 1, ..., f (numDetectors - 1)`, added in this order to zero. -/
def sumDetectors (numDetectors : Nat) (f : Nat → COMPLEX8) : COMPLEX8 :=
  ((List.range numDetectors).map f).foldl (· + ·) 0

/-- The per-detector statistic of detector `X` at bin `k`: the quadratic form of the
detector's amplitudes with the detector's own `A`, `B`, `C`, the constant `EdX = 0` and
`1 / D`. -/
def twoFX_k (env : Externals) (multiAMcoef : MultiAMCoeffs) (dt : REAL8)
    (offset_bins numSamples : UINT4) (multiFa_spin multiFb_spin : MultiCOMPLEX8TimeSeries)
    (X k : Nat) : REAL4 :=
  match multiAMcoef.data[X]? with
  | some amX =>
    env.XLALComputeFstatFromFaFb
      (FaX_k env dt offset_bins numSamples multiFa_spin multiFb_spin X k)
      (FbX_k env dt offset_bins numSamples multiFa_spin multiFb_spin X k)
      amX.A amX.B amX.C 0 (1 / amX.D)
  | none => 0

/-- The fields of the result structure that the detector loop does not touch are equal in
`F` and `F'`. -/
structure SameCombined (F F' : FstatResults) : Prop where
  doppler : F'.doppler = F.doppler
  dFreq : F'.dFreq = F.dFreq
  numFreqBins : F'.numFreqBins = F.numFreqBins
  whatWasComputed : F'.whatWasComputed = F.whatWasComputed
  Mmunu : F'.Mmunu = F.Mmunu
  twoF : F'.twoF = F.twoF
  Fa : F'.Fa = F.Fa
  Fb : F'.Fb = F.Fb

/-- State of the bin loop of detector `X` after `n` iterations, started in `s0`: `fa k`,
`fb k` are the amplitudes and `tf k` the statistic of the detector at bin `k`. -/
structure BinInv (what : FstatQuantities) (fa fb : Nat → COMPLEX8) (tf : Nat → REAL4)
    (X n : Nat) (s0 s : BinState) : Prop where
  lenFa : s.Fa_k.length = s0.Fa_k.length
  lenFb : s.Fb_k.length = s0.Fb_k.length
  accFa : ∀ k, s.Fa_k.getD k 0 = if k < n then s0.Fa_k.getD k 0 + fa k else s0.Fa_k.getD k 0
  accFb : ∀ k, s.Fb_k.getD k 0 = if k < n then s0.Fb_k.getD k 0 + fb k else s0.Fb_k.getD k 0
  perDetFa : ∀ X' k, readAt2 s.Fstats.FaPerDet X' k =
    if hasFlag what FSTATQ_FAFB_PER_DET = true ∧ X' = X ∧ k < n then some (fa k)
    else readAt2 s0.Fstats.FaPerDet X' k
  perDetFb : ∀ X' k, readAt2 s.Fstats.FbPerDet X' k =
    if hasFlag what FSTATQ_FAFB_PER_DET = true ∧ X' = X ∧ k < n then some (fb k)
    else readAt2 s0.Fstats.FbPerDet X' k
  perDet2F : ∀ X' k, readAt2 s.Fstats.twoFPerDet X' k =
    if hasFlag what FSTATQ_2F_PER_DET = true ∧ X' = X ∧ k < n then some (tf k)
    else readAt2 s0.Fstats.twoFPerDet X' k
  shapeFa : s.Fstats.FaPerDet.map List.length = s0.Fstats.FaPerDet.map List.length
  shapeFb : s.Fstats.FbPerDet.map List.length = s0.Fstats.FbPerDet.map List.length
  shape2F : s.Fstats.twoFPerDet.map List.length = s0.Fstats.twoFPerDet.map List.length
  same : SameCombined s0.Fstats s.Fstats

/-- State of the detector loop after `M` detectors, started with zeroed accumulators of
length `n` and the result structure `F0`: `fa X k`, `fb X k` are the amplitudes and
`tf X k` the statistic of detector `X` at bin `k`. -/
structure DetInv (what : FstatQuantities) (fa fb : Nat → Nat → COMPLEX8)
    (tf : Nat → Nat → REAL4) (n M : Nat) (F0 : FstatResults) (s : BinState) : Prop where
  lenFa : s.Fa_k.length = n
  lenFb : s.Fb_k.length = n
  sumFa : ∀ k, k < n → s.Fa_k.getD k 0 = sumDetectors M fun X => fa X k
  sumFb : ∀ k, k < n → s.Fb_k.getD k 0 = sumDetectors M fun X => fb X k
  perDetFa : ∀ X k, readAt2 s.Fstats.FaPerDet X k =
    if hasFlag what FSTATQ_FAFB_PER_DET = true ∧ X < M ∧ k < n then some (fa X k)
    else readAt2 F0.FaPerDet X k
  perDetFb : ∀ X k, readAt2 s.Fstats.FbPerDet X k =
    if hasFlag what FSTATQ_FAFB_PER_DET = true ∧ X < M ∧ k < n then some (fb X k)
    else readAt2 F0.FbPerDet X k
  perDet2F : ∀ X k, readAt2 s.Fstats.twoFPerDet X k =
    if hasFlag what FSTATQ_2F_PER_DET = true ∧ X < M ∧ k < n then some (tf X k)
    else readAt2 F0.twoFPerDet X k
  shapeFa : s.Fstats.FaPerDet.map List.length = F0.FaPerDet.map List.length
  shapeFb : s.Fstats.FbPerDet.map List.length = F0.FbPerDet.map List.length
  shape2F : s.Fstats.twoFPerDet.map List.length = F0.twoFPerDet.map List.length
  same : SameCombined F0 s.Fstats

/-- The amplitude `FaX_k` of detector `X` at bin `k` in a query `F` with resolution `dF`,
private copies `fa`, `fb` and first copy `Fa0 = multiFa_spin->data[0]`. -/
def queryFaX (env : Externals) (F : FstatResults) (dF : REAL8)
    (fa fb : MultiCOMPLEX8TimeSeries) (Fa0 : COMPLEX8TimeSeries) (X k : Nat) : COMPLEX8 :=
  FaX_k env Fa0.deltaT (offsetBins env Fa0.f0 (F.doppler.fkdot.getD 0 0) dF Fa0.data.length)
    Fa0.data.length fa fb X k

/-- The amplitude `FbX_k` of detector `X` at bin `k` in a query. -/
def queryFbX (env : Externals) (F : FstatResults) (dF : REAL8)
    (fa fb : MultiCOMPLEX8TimeSeries) (Fa0 : COMPLEX8TimeSeries) (X k : Nat) : COMPLEX8 :=
  FbX_k env Fa0.deltaT (offsetBins env Fa0.f0 (F.doppler.fkdot.getD 0 0) dF Fa0.data.length)
    Fa0.data.length fa fb X k

/-- The per-detector statistic of detector `X` at bin `k` in a query. -/
def queryTwoFX (env : Externals) (F : FstatResults) (dF : REAL8) (am : MultiAMCoeffs)
    (fa fb : MultiCOMPLEX8TimeSeries) (Fa0 : COMPLEX8TimeSeries) (X k : Nat) : REAL4 :=
  twoFX_k env am Fa0.deltaT (offsetBins env Fa0.f0 (F.doppler.fkdot.getD 0 0) dF Fa0.data.length)
    Fa0.data.length fa fb X k

/-- The result structure `Fout` of a successful spectral assembly of the query `F` over
`N` detectors, with AM coefficients `am`, private copies `fa`, `fb` and first copy
`Fa0`. -/
structure Assembled (env : Externals) (F : FstatResults) (N : Nat) (dF : REAL8)
    (am : MultiAMCoeffs) (fa fb : MultiCOMPLEX8TimeSeries) (Fa0 : COMPLEX8TimeSeries)
    (Fout : FstatResults) : Prop where
  doppler : Fout.doppler = F.doppler
  dFreq : Fout.dFreq = F.dFreq
  numFreqBins : Fout.numFreqBins = F.numFreqBins
  whatWasComputed : Fout.whatWasComputed = F.whatWasComputed
  Mmunu : Fout.Mmunu = am.Mmunu
  Fa : ∀ k, Fout.Fa[k]? =
    if hasFlag F.whatWasComputed FSTATQ_FAFB = true ∧ k < F.numFreqBins then
      some (sumDetectors N fun X => queryFaX env F dF fa fb Fa0 X k)
    else F.Fa[k]?
  Fb : ∀ k, Fout.Fb[k]? =
    if hasFlag F.whatWasComputed FSTATQ_FAFB = true ∧ k < F.numFreqBins then
      some (sumDetectors N fun X => queryFbX env F dF fa fb Fa0 X k)
    else F.Fb[k]?
  twoF : ∀ k, Fout.twoF[k]? =
    if hasFlag F.whatWasComputed FSTATQ_2F = true ∧ k < F.numFreqBins then
      some (env.XLALComputeFstatFromFaFb
        (sumDetectors N fun X => queryFaX env F dF fa fb Fa0 X k)
        (sumDetectors N fun X => queryFbX env F dF fa fb Fa0 X k)
        am.Mmunu.Ad am.Mmunu.Bd am.Mmunu.Cd am.Mmunu.Ed (1 / am.Mmunu.Dd))
    else F.twoF[k]?
  FaPerDet : ∀ X k, readAt2 Fout.FaPerDet X k =
    if hasFlag F.whatWasComputed FSTATQ_FAFB_PER_DET = true ∧ X < N ∧ k < F.numFreqBins then
      some (queryFaX env F dF fa fb Fa0 X k)
    else readAt2 F.FaPerDet X k
  FbPerDet : ∀ X k, readAt2 Fout.FbPerDet X k =
    if hasFlag F.whatWasComputed FSTATQ_FAFB_PER_DET = true ∧ X < N ∧ k < F.numFreqBins then
      some (queryFbX env F dF fa fb Fa0 X k)
    else readAt2 F.FbPerDet X k
  twoFPerDet : ∀ X k, readAt2 Fout.twoFPerDet X k =
    if hasFlag F.whatWasComputed FSTATQ_2F_PER_DET = true ∧ X < N ∧ k < F.numFreqBins then
      some (queryTwoFX env F dF am fa fb Fa0 X k)
    else readAt2 F.twoFPerDet X k
  lenFa : Fout.Fa.length = F.Fa.length
  lenFb : Fout.Fb.length = F.Fb.length
  lenTwoF : Fout.twoF.length = F.twoF.length
  shapeFa : Fout.FaPerDet.map List.length = F.FaPerDet.map List.length
  shapeFb : Fout.FbPerDet.map List.length = F.FbPerDet.map List.length
  shape2F : Fout.twoFPerDet.map List.length = F.twoFPerDet.map List.length
  detectors : ∀ X, X < N → ∃ ina inb outs amX,
    fa.data[X]? = some ina ∧ fb.data[X]? = some inb ∧
    detectorTransforms env Fa0.data.length ina.data inb.data = some outs ∧
    am.data[X]? = some amX

/-- The start offset of segment `j` before its conversion to `UINT4`:
`lround ( (t_j - start) / deltaT )` as a signed integer. -/
def startSigned (timeseries : COMPLEX8TimeSeries) (timestamps : LIGOTimeGPSVector)
    (j : Nat) : Int :=
  lround ((XLALGPSGetREAL8 (timestamps.data.getD j ⟨0⟩) - XLALGPSGetREAL8 timeseries.epoch)
    / timeseries.deltaT)

/-- The segment length in samples before its conversion to `UINT4`:
`lround ( Tsft / deltaT )` as a signed integer. -/
def nbinsSigned (timeseries : COMPLEX8TimeSeries) (timestamps : LIGOTimeGPSVector) : Int :=
  lround (timestamps.deltaT / timeseries.deltaT)

/-- Sample index `i` lies in the index range of segment `j`,
`round((t_j - epoch)/deltaT) <= i < round((t_j - epoch)/deltaT) + nbins`, the start index
taken as a signed integer. -/
def coveredSigned (timeseries : COMPLEX8TimeSeries) (timestamps : LIGOTimeGPSVector)
    (j i : Nat) : Prop :=
  startSigned timeseries timestamps j ≤ (i : Int) ∧
    (i : Int) < startSigned timeseries timestamps j + nbinsSigned timeseries timestamps

instance (timeseries : COMPLEX8TimeSeries) (timestamps : LIGOTimeGPSVector) (j i : Nat) :
    Decidable (coveredSigned timeseries timestamps j i) := by
  unfold coveredSigned
  exact inferInstance

/-- Sample index `i` lies in the range `start_index .. start_index + nbins - 1` of segment
`j` computed by the code in `UINT4`. -/
def coveredUINT4 (timeseries : COMPLEX8TimeSeries) (timestamps : LIGOTimeGPSVector)
    (j i : Nat) : Prop :=
  segmentStartIndex timeseries timestamps j ≤ i ∧
    i < segmentStartIndex timeseries timestamps j + segmentNumBins timeseries timestamps

instance (timeseries : COMPLEX8TimeSeries) (timestamps : LIGOTimeGPSVector) (j i : Nat) :
    Decidable (coveredUINT4 timeseries timestamps j i) := by
  unfold coveredUINT4
  exact inferInstance

/-- The rounded quantities of the antenna weighting fit the 32-bit index type: the series
length and the segment length are `UINT4` values, and converting a segment's start offset
to `UINT4` does not land on a sample of the series unless the offset itself is that
sample's index. -/
structure IndexesFit (timeseries : COMPLEX8TimeSeries) (timestamps : LIGOTimeGPSVector) :
    Prop where
  length : timeseries.data.length < 2 ^ 32
  nbins : 0 ≤ nbinsSigned timeseries timestamps ∧ nbinsSigned timeseries timestamps < 2 ^ 32
  start : ∀ j, j < timestamps.data.length →
    -(2 ^ 32 : Int) + (timeseries.data.length : Int) ≤ startSigned timeseries timestamps j ∧
      startSigned timeseries timestamps j < 2 ^ 32

/-- The state of the segment loop of the antenna weighting after the first `m`
segments. -/
def weightedUpTo (ts : COMPLEX8TimeSeries) (am : AMCoeffs) (stamps : LIGOTimeGPSVector)
    (m : Nat) : List COMPLEX8 × List COMPLEX8 :=
  (List.range m).foldl (weightTimestamp ts am stamps)
    (List.replicate ts.data.length 0, List.replicate ts.data.length 0)

/-! ### Further vocabulary: stores, grids, confinement -/

namespace Sample

/-- Two segments of two seconds, starting at 0 s and at 3 s: the second one ends one
sample after the end of `series0`. -/
def lateStamps : LIGOTimeGPSVector := ⟨[⟨0⟩, ⟨3000000000⟩], 2⟩

end Sample

/-- The indices `time_index` at which the sample loop of one segment stores, in the order
of the stores: the first argument counts the iterations still to run, the second is `k`,
and the loop is left at the first `time_index >= numTimeSamples`. -/
def segmentWrites (start_index numTimeSamples : UINT4) : Nat → UINT4 → List UINT4
  | 0, _ => []
  | n + 1, k =>
    let time_index := wrapUINT4 (start_index + k)
    if time_index ≥ numTimeSamples then []
    else time_index :: segmentWrites start_index numTimeSamples n (k + 1)

/-- The two stores of one iteration of the sample loop, at index `time_index`. -/
def storeWeighted (x : List COMPLEX8) (a b : REAL4) (s : List COMPLEX8 × List COMPLEX8)
    (time_index : UINT4) : List COMPLEX8 × List COMPLEX8 :=
  (s.1.set time_index (a * x.getD time_index 0), s.2.set time_index (b * x.getD time_index 0))

namespace Sample

/-- An allocated, zeroed source-frame series of five samples with epoch 0 s. -/
def blankSeries : COMPLEX8TimeSeries := ⟨⟨0⟩, 10, 1, List.replicate 5 0⟩

/-- An allocated timestamp vector for two segments of two seconds. -/
def blankStamps : LIGOTimeGPSVector := ⟨[⟨0⟩, ⟨0⟩], 2⟩
end Sample

/-- Time of the first sample of the detector-frame series, `start_DET`. -/
def start_DET (TimeSeries_DET : COMPLEX8TimeSeries) : REAL8 :=
  XLALGPSGetREAL8 TimeSeries_DET.epoch

/-- Time of the last sample of the detector-frame series,
`end_DET = start_DET + (numTimeSamples_DET - 1) * deltaT_DET`. -/
def end_DET (TimeSeries_DET : COMPLEX8TimeSeries) : REAL8 :=
  start_DET TimeSeries_DET + ((TimeSeries_DET.data.length : ℚ) - 1) * TimeSeries_DET.deltaT

/-- The detector time computed for sample `k` of segment `j`, before it is truncated:
`SFTmid_DET + ( t_SRC - SFTmid_SRC ) / Tdot` with
`t_SRC = start_SRC + ( k + SFTidx_start_SRC ) * deltaT_SRC`. -/
def computedDetectorTime (TimeSeries_SRC : COMPLEX8TimeSeries)
    (Timestamps_DET : LIGOTimeGPSVector) (SRC_timing : SSBtimes) (j k : Nat) : REAL8 :=
  detectorTimeOf (SFTmid_DET Timestamps_DET j) (SFTmid_SRC SRC_timing j)
    (SRC_timing.Tdot.getD j 0)
    (sampleTimeSRC (XLALGPSGetREAL8 TimeSeries_SRC.epoch) TimeSeries_SRC.deltaT
      (SFTidx_start_SRC TimeSeries_SRC SRC_timing Timestamps_DET.deltaT j) k)

/-- State of the detector loop of the resampler after `n` detectors. -/
structure ResampledUpTo (env : Externals) (det : MultiCOMPLEX8TimeSeries)
    (stamps : MultiLIGOTimeGPSVector) (timing : MultiSSBtimes) (earliestSRC : LIGOTimeGPS)
    (fHet dtEff : REAL8) (numOut : UINT4) (n : Nat)
    (s : List COMPLEX8TimeSeries × List LIGOTimeGPSVector) : Prop where
  lenSeries : s.1.length = n
  lenStamps : s.2.length = n
  each : ∀ X, X < n → ∃ DETX stampsDETX series stampsX,
    det.data[X]? = some DETX ∧ stamps.data[X]? = some stampsDETX ∧
    s.1[X]? = some series ∧ s.2[X]? = some stampsX ∧
    XLALBarycentricResampleCOMPLEX8TimeSeries env
      (some ⟨earliestSRC, fHet, dtEff, List.replicate numOut 0⟩)
      (some ⟨List.replicate stampsDETX.data.length ⟨0⟩, stampsDETX.deltaT⟩)
      (some DETX) (some stampsDETX) timing.data[X]?
      = (XLAL_SUCCESS, some series, some stampsX)

/-- State of the detector loop of the antenna weighting after `n` detectors. -/
structure WeightedDetectors (env : Externals) (src : MultiCOMPLEX8TimeSeries)
    (am : MultiAMCoeffs) (stamps : MultiLIGOTimeGPSVector) (n : Nat)
    (s : List COMPLEX8TimeSeries × List COMPLEX8TimeSeries) : Prop where
  lenFa : s.1.length = n
  lenFb : s.2.length = n
  each : ∀ X, X < n → ∃ ts amX stampsX Fa Fb,
    src.data[X]? = some ts ∧ am.data[X]? = some amX ∧ stamps.data[X]? = some stampsX ∧
    s.1[X]? = some Fa ∧ s.2[X]? = some Fb ∧
    XLALAntennaWeightCOMPLEX8TimeSeries env (some none) (some none) (some ts) (some amX)
      (some stampsX) = (XLAL_SUCCESS, some Fa, some Fb)

/-- The iterations of the second sample loop of a segment that reach the store, as pairs
`(k, idx)` of the loop counter and the index stored at, in the order of the stores: the
first argument counts the iterations still to run, the second is `k`, and the loop is left
at the first `idx >= numSamples_SRC`. -/
def resampleWrites (SFTidx_start_SRC numSamples_SRC : UINT4) :
    Nat → UINT4 → List (UINT4 × UINT4)
  | 0, _ => []
  | n + 1, k =>
    let idx := wrapUINT4 (k + SFTidx_start_SRC)
    if idx ≥ numSamples_SRC then []
    else (k, idx) :: resampleWrites SFTidx_start_SRC numSamples_SRC n (k + 1)

/-- The stores of segment `j` in `XLALBarycentricResampleCOMPLEX8TimeSeries`. -/
def segmentResampleWrites (TimeSeries_SRC : COMPLEX8TimeSeries) (SRC_timing : SSBtimes)
    (Tsft : REAL8) (j : Nat) : List (UINT4 × UINT4) :=
  resampleWrites (SFTidx_start_SRC TimeSeries_SRC SRC_timing Tsft j)
    TimeSeries_SRC.data.length (SFTnumSamples_SRC TimeSeries_SRC SRC_timing Tsft j) 0

/-- Output index `i` lies in the source-frame index range
`[SFTidx_start_SRC, SFTidx_end_SRC]` of segment `j`. -/
def inSegmentRange (TimeSeries_SRC : COMPLEX8TimeSeries) (SRC_timing : SSBtimes)
    (Tsft : REAL8) (j i : Nat) : Prop :=
  SFTidx_start_SRC TimeSeries_SRC SRC_timing Tsft j ≤ i ∧
    i ≤ SFTidx_end_SRC TimeSeries_SRC SRC_timing Tsft j

instance (TimeSeries_SRC : COMPLEX8TimeSeries) (SRC_timing : SSBtimes) (Tsft : REAL8)
    (j i : Nat) : Decidable (inSegmentRange TimeSeries_SRC SRC_timing Tsft j i) := by
  unfold inSegmentRange
  exact inferInstance

/-- The index range of segment `j` is well formed for an output series of `N` samples: the
end index is not below the start index, unless the start index lies outside the series
(as it does for a segment that starts before the epoch, whose start index has wrapped
around in `UINT4`). -/
def segmentRangeFits (TimeSeries_SRC : COMPLEX8TimeSeries) (SRC_timing : SSBtimes)
    (Tsft : REAL8) (j : Nat) : Prop :=
  SFTidx_start_SRC TimeSeries_SRC SRC_timing Tsft j ≤
      SFTidx_end_SRC TimeSeries_SRC SRC_timing Tsft j ∨
    TimeSeries_SRC.data.length ≤ SFTidx_start_SRC TimeSeries_SRC SRC_timing Tsft j

instance (TimeSeries_SRC : COMPLEX8TimeSeries) (SRC_timing : SSBtimes) (Tsft : REAL8)
    (j : Nat) : Decidable (segmentRangeFits TimeSeries_SRC SRC_timing Tsft j) := by
  unfold segmentRangeFits
  exact inferInstance

/-- The external routines `env` with the sub-bin frequency shift and the spin-down
correction replaced by `shift` and `spin`. -/
def withCorrections (env : Externals)
    (shift : MultiCOMPLEX8TimeSeries → REAL8 → Option MultiCOMPLEX8TimeSeries)
    (spin : MultiCOMPLEX8TimeSeries → MultiCOMPLEX8TimeSeries → PulsarDopplerParams →
      Option (MultiCOMPLEX8TimeSeries × MultiCOMPLEX8TimeSeries)) : Externals :=
  { env with
    XLALFrequencyShiftMultiCOMPLEX8TimeSeries := shift
    XLALSpinDownCorrectionMultiFaFb := spin }

namespace Sample

/-- The sample routines with a transform that refuses every vector holding a sample with
a non-zero imaginary part. -/
def envFFT : Externals :=
  { env with
    XLALCOMPLEX8VectorFFT := fun n l =>
      if l.length = n ∧ l.all (fun z => z.im == 0) then some l else none }
end Sample

/-- The result structure `F'` differs from `F` at most in entries `[X][k]`, `X < N`,
`k < n`, of the per-detector arrays whose flag is set in `what`. -/
structure Confined (what : FstatQuantities) (N n : Nat) (F F' : FstatResults) : Prop where
  same : SameCombined F F'
  shapeFa : F'.FaPerDet.map List.length = F.FaPerDet.map List.length
  shapeFb : F'.FbPerDet.map List.length = F.FbPerDet.map List.length
  shape2F : F'.twoFPerDet.map List.length = F.twoFPerDet.map List.length
  FaPerDet : ∀ X k, readAt2 F'.FaPerDet X k ≠ readAt2 F.FaPerDet X k →
    hasFlag what FSTATQ_FAFB_PER_DET = true ∧ X < N ∧ k < n
  FbPerDet : ∀ X k, readAt2 F'.FbPerDet X k ≠ readAt2 F.FbPerDet X k →
    hasFlag what FSTATQ_FAFB_PER_DET = true ∧ X < N ∧ k < n
  twoFPerDet : ∀ X k, readAt2 F'.twoFPerDet X k ≠ readAt2 F.twoFPerDet X k →
    hasFlag what FSTATQ_2F_PER_DET = true ∧ X < N ∧ k < n

/-- The AM coefficients buffered in the cache, when there are any, are the ones that
`XLALComputeMultiAMCoeffs` computes from the common input for the buffered sky position
`(prev_doppler.Alpha, prev_doppler.Delta)`.  It holds for a cache without buffered
coefficients and every query keeps it. -/
def CachedAMBelongs (env : Externals) (common : FstatInput_Common) (c : FstatInput_Resamp) :
    Prop :=
  ∀ am, c.prev_multiAMcoef = some am →
    env.XLALComputeMultiAMCoeffs common.detectorStates common.noiseWeights
      ⟨c.prev_doppler.Alpha, c.prev_doppler.Delta⟩ = some am

/-- The weighted source-frame series that belong to the search point `p` at the resolution
`dF`: the sky timing and the AM coefficients are those of the sky position and reference
time of `p`, the binary correction of `p` is added iff `asini > 0`, the detector-frame
series are resampled at `dF` and the result is weighted.  `none` when a step fails. -/
def weightedSeriesOf (env : Externals) (common : FstatInput_Common)
    (multiTimeSeries_DET : MultiCOMPLEX8TimeSeries) (p : PulsarDopplerParams) (dF : REAL8) :
    Option (MultiCOMPLEX8TimeSeries × MultiCOMPLEX8TimeSeries) :=
  (env.XLALGetMultiSSBtimes common.detectorStates ⟨p.Alpha, p.Delta⟩ p.refTime
      common.SSBprec).bind fun sky =>
    (env.XLALComputeMultiAMCoeffs common.detectorStates common.noiseWeights
        ⟨p.Alpha, p.Delta⟩).bind fun am =>
      match XLALBarycentricResampleMultiCOMPLEX8TimeSeries env (some none) (some none)
          (some multiTimeSeries_DET) common.timestamps
          (if p.asini > 0 then env.XLALAddMultiBinaryTimes sky p else some sky) dF with
      | (XLAL_SUCCESS, src, stamps) =>
        match XLALAntennaWeightMultiCOMPLEX8TimeSeries env (some none) (some none) src
            (some am) stamps with
        | (XLAL_SUCCESS, some Fa, some Fb) => some (Fa, Fb)
        | _ => none
      | _ => none

/-- Consistency of the cache `c` with the common input: buffered AM coefficients and
buffered sky timing, when present, are the ones computed for the buffered
`(Alpha, Delta, refTime)`, and buffered weighted series, when present, are the ones that
belong to the buffered point `prev_doppler` at some resolution. -/
structure CacheConsistent (env : Externals) (common : FstatInput_Common)
    (c : FstatInput_Resamp) : Prop where
  AM : ∀ am, c.prev_multiAMcoef = some am →
    env.XLALComputeMultiAMCoeffs common.detectorStates common.noiseWeights
      ⟨c.prev_doppler.Alpha, c.prev_doppler.Delta⟩ = some am
  sky : ∀ sky, c.prev_multiSSBsky = some sky →
    env.XLALGetMultiSSBtimes common.detectorStates
      ⟨c.prev_doppler.Alpha, c.prev_doppler.Delta⟩ c.prev_doppler.refTime common.SSBprec
      = some sky
  series : (c.prev_multiFa_SRC = none ∧ c.prev_multiFb_SRC = none) ∨
    ∃ dF Fa Fb, weightedSeriesOf env common c.multiTimeSeries_DET c.prev_doppler dF
        = some (Fa, Fb) ∧
      c.prev_multiFa_SRC = some Fa ∧ c.prev_multiFb_SRC = some Fb

namespace Sample

/-- One segment of two seconds that starts `2 ^ 32` seconds after the epoch of `series0`:
its start offset, `2 ^ 32` samples, is `0` as a `UINT4` value. -/
def farStamps : LIGOTimeGPSVector := ⟨[⟨4294967296000000000⟩], 2⟩

end Sample

/-! ## The weighted series as objects in memory

The definitions above pass the series by value.  In the source the cache and the local
variables `multiFa_SRC`, `multiFb_SRC` hold pointers to the same two objects, and the
sub-bin frequency shift and the spin-down correction modify the object they are handed in
place.  The definitions below keep the `MultiCOMPLEX8TimeSeries` objects in a heap and the
pointers as addresses, so that it can be stated which objects a query modifies. -/

/-- The `MultiCOMPLEX8TimeSeries` objects by address: `some x` is a live object with
content `x`, `none` a destroyed one.  A pointer is an `Option Nat`, `none` for `NULL`. -/
abbrev SeriesHeap := List (Option MultiCOMPLEX8TimeSeries)

/-- The object a pointer points to; `none` for `NULL` and for a pointer to no live
object. -/
def deref (heap : SeriesHeap) (p : Option Nat) : Option MultiCOMPLEX8TimeSeries :=
  p.bind fun a => heap.getD a none

/-- `XLALDestroyMultiCOMPLEX8TimeSeries`: the object is freed; `NULL` is accepted. -/
def XLALDestroyMultiCOMPLEX8TimeSeries (heap : SeriesHeap) (p : Option Nat) : SeriesHeap :=
  match p with
  | none => heap
  | some a => heap.set a none

/-- The cache `FstatInput_Resamp` with the two weighted series held by address, as the
pointers `prev_multiFa_SRC`, `prev_multiFb_SRC` of the source. -/
structure FstatInput_ResampAt where
  multiTimeSeries_DET : MultiCOMPLEX8TimeSeries
  prev_doppler : PulsarDopplerParams
  prev_multiAMcoef : Option MultiAMCoeffs
  prev_multiSSBsky : Option MultiSSBtimes
  prev_multiFa_SRC : Option Nat
  prev_multiFb_SRC : Option Nat
deriving DecidableEq, Repr

/-- The cache by value: the two pointers are replaced by the objects they point to. -/
def cachedValues (heap : SeriesHeap) (resamp : FstatInput_ResampAt) : FstatInput_Resamp :=
  ⟨resamp.multiTimeSeries_DET, resamp.prev_doppler, resamp.prev_multiAMcoef,
    resamp.prev_multiSSBsky, deref heap resamp.prev_multiFa_SRC,
    deref heap resamp.prev_multiFb_SRC⟩

/-- The two series pointers of the cache are `NULL` or addresses of the heap. -/
def PointersValid (resamp : FstatInput_ResampAt) (heap : SeriesHeap) : Prop :=
  (∀ a, resamp.prev_multiFa_SRC = some a → a < heap.length) ∧
    ∀ a, resamp.prev_multiFb_SRC = some a → a < heap.length

/-- State at the end of the buffering block, with the heap and the local pointers
`multiFa_SRC`, `multiFb_SRC`. -/
structure BufferedAt where
  status : XLALStatus
  calls : List Call
  branch : CacheBranch
  resamp : FstatInput_ResampAt
  heap : SeriesHeap
  multiAMcoef : Option MultiAMCoeffs
  multiFa_SRC : Option Nat
  multiFb_SRC : Option Nat
deriving DecidableEq, Repr

/-- The block "handle buffering" on the heap.  What the block computes is given by
`handleBuffering` on the contents of the cache; the pointers are handled as in the source:
the reuse arm assigns `multiFa_SRC = resamp->prev_multiFa_SRC` and
`multiFb_SRC = resamp->prev_multiFb_SRC`; a recomputing arm receives two new objects from
the antenna weighting, destroys the two objects of the cache and assigns
`resamp->prev_multiFa_SRC = multiFa_SRC`, `resamp->prev_multiFb_SRC = multiFb_SRC`.  A
recomputing arm that fails leaves cache and heap as they were. -/
def handleBufferingAt (env : Externals) (common : FstatInput_Common)
    (resamp : FstatInput_ResampAt) (heap : SeriesHeap) (thisPoint : PulsarDopplerParams)
    (dFreqOut : REAL8) : BufferedAt :=
  let b := handleBuffering env common (cachedValues heap resamp) thisPoint dFreqOut
  if b.branch = .fullReuse then
    ⟨b.status, b.calls, b.branch, resamp, heap, b.multiAMcoef,
      resamp.prev_multiFa_SRC, resamp.prev_multiFb_SRC⟩
  else if b.status ≠ XLAL_SUCCESS then
    ⟨b.status, b.calls, b.branch, resamp, heap, b.multiAMcoef, none, none⟩
  else
    match b.multiFa_SRC, b.multiFb_SRC with
    | some Fa, some Fb =>
      let multiFa_SRC := heap.length
      let multiFb_SRC := heap.length + 1
      let heap := heap ++ [some Fa, some Fb]
      let heap := XLALDestroyMultiCOMPLEX8TimeSeries heap resamp.prev_multiFa_SRC
      let heap := XLALDestroyMultiCOMPLEX8TimeSeries heap resamp.prev_multiFb_SRC
      ⟨XLAL_SUCCESS, b.calls, b.branch,
        ⟨resamp.multiTimeSeries_DET, b.resamp.prev_doppler, b.resamp.prev_multiAMcoef,
          b.resamp.prev_multiSSBsky, some multiFa_SRC, some multiFb_SRC⟩,
        heap, b.multiAMcoef, some multiFa_SRC, some multiFb_SRC⟩
    | _, _ => ⟨UNDEFINED, b.calls, b.branch, resamp, heap, b.multiAMcoef, none, none⟩

/-- `XLALDuplicateMultiCOMPLEX8TimeSeries` on the heap: a new object with the content of
the object `x` points to, and its address; `none` when the routine fails. -/
def duplicateAt (env : Externals) (heap : SeriesHeap) (x : Option Nat) :
    Option (SeriesHeap × Nat) :=
  (XLALDuplicateMultiCOMPLEX8TimeSeries env (deref heap x)).map fun m =>
    (heap ++ [some m], heap.length)

/-- `XLALFrequencyShiftMultiCOMPLEX8TimeSeries ( &x, shift )`: the object `x` points to is
shifted in place; `none` when the routine fails. -/
def frequencyShiftAt (env : Externals) (heap : SeriesHeap) (x : Nat) (shift : REAL8) :
    Option SeriesHeap :=
  (deref heap (some x)).bind fun m =>
    (env.XLALFrequencyShiftMultiCOMPLEX8TimeSeries m shift).map fun m' =>
      heap.set x (some m')

/-- `XLALSpinDownCorrectionMultiFaFb ( &Fa, &Fb, &doppler )`: the two objects are
corrected in place; `none` when the routine fails. -/
def spinDownCorrectionAt (env : Externals) (heap : SeriesHeap) (Fa Fb : Nat)
    (doppler : PulsarDopplerParams) : Option SeriesHeap :=
  (deref heap (some Fa)).bind fun fa =>
    (deref heap (some Fb)).bind fun fb =>
      (env.XLALSpinDownCorrectionMultiFaFb fa fb doppler).map fun p =>
        (heap.set Fa (some p.1)).set Fb (some p.2)

/-- The duplication of the two weighted series, the sub-bin frequency shift (applied iff
`shift != 0.0`) and the spin-down correction, on the heap.  The result is the heap at the
point where the block is left and, when no routine failed, the pointers `multiFa_spin`,
`multiFb_spin`. -/
def spinCopiesAt (env : Externals) (thisPoint : PulsarDopplerParams) (shift : REAL8)
    (heap : SeriesHeap) (multiFa_SRC multiFb_SRC : Option Nat) :
    SeriesHeap × Option (Nat × Nat) :=
  match duplicateAt env heap multiFa_SRC with
  | none => (heap, none)
  | some (heap, multiFa_spin) =>
    match duplicateAt env heap multiFb_SRC with
    | none => (heap, none)
    | some (heap, multiFb_spin) =>
      let shifted : SeriesHeap × Bool :=
        if shift ≠ 0 then
          match frequencyShiftAt env heap multiFa_spin shift with
          | none => (heap, false)
          | some heap =>
            match frequencyShiftAt env heap multiFb_spin shift with
            | none => (heap, false)
            | some heap => (heap, true)
        else (heap, true)
      if shifted.2 then
        match spinDownCorrectionAt env shifted.1 multiFa_spin multiFb_spin thisPoint with
        | none => (shifted.1, none)
        | some heap => (heap, some (multiFa_spin, multiFb_spin))
      else (shifted.1, none)

/-- The part of `ComputeFstat_Resamp` that follows the spin-down correction, up to the
return, the two calls of `XLALDestroyMultiCOMPLEX8TimeSeries` apart: the transforms of the
series `multiFa_spin`, `multiFb_spin`, the extraction of the band and the combination. -/
def transformAndCombine (env : Externals) (Fstats : FstatResults) (numDetectors : UINT4)
    (dFreqOut : REAL8) (multiAMcoef : MultiAMCoeffs)
    (multiFa_spin multiFb_spin : MultiCOMPLEX8TimeSeries) : XLALStatus × FstatResults :=
  let thisPoint := Fstats.doppler
  let whatToCompute := Fstats.whatWasComputed
  let Ad := multiAMcoef.Mmunu.Ad
  let Bd := multiAMcoef.Mmunu.Bd
  let Cd := multiAMcoef.Mmunu.Cd
  let Ed := multiAMcoef.Mmunu.Ed
  let Dd := multiAMcoef.Mmunu.Dd
  let Dd_inv := 1 / Dd
  match multiFa_spin.data.head? with
  | none => (UNDEFINED, Fstats)
  | some Fa0 =>
    let numSamples := Fa0.data.length
    let dt := Fa0.deltaT
    if ¬ env.XLALCreateCOMPLEX8Vector numSamples then (XLAL_EFUNC, Fstats)
    else if ¬ env.XLALCreateCOMPLEX8FFTPlan numSamples then (XLAL_EFUNC, Fstats)
    else
      let numFreqBins := Fstats.numFreqBins
      let offset_bins := offsetBins env Fa0.f0 (thisPoint.fkdot.getD 0 0) dFreqOut numSamples
      if ¬ env.XLALCalloc numFreqBins then (XLAL_ENOMEM, Fstats)
      else
        match forLoop (detectorBody env whatToCompute dt offset_bins numSamples numFreqBins
            multiFa_spin multiFb_spin multiAMcoef) (List.range numDetectors)
            ⟨List.replicate numFreqBins 0, List.replicate numFreqBins 0, Fstats⟩ with
        | (XLAL_SUCCESS, s) =>
          match (if hasFlag whatToCompute FSTATQ_FAFB then
              forLoop (storeFaFb s.Fa_k s.Fb_k) (List.range numFreqBins) s.Fstats
            else (XLAL_SUCCESS, s.Fstats)) with
          | (XLAL_SUCCESS, F1) =>
            match (if hasFlag whatToCompute FSTATQ_2F then
                forLoop (storeTwoF env s.Fa_k s.Fb_k Ad Bd Cd Ed Dd_inv)
                  (List.range numFreqBins) F1
              else (XLAL_SUCCESS, F1)) with
            | (XLAL_SUCCESS, F2) =>
              if hasFlag whatToCompute FSTATQ_ATOMS_PER_DET then (XLAL_EFAILED, F2)
              else (XLAL_SUCCESS, { F2 with Mmunu := multiAMcoef.Mmunu })
            | r => r
          | r => r
        | (st, s) => (st, s.Fstats)

/-- The part of `ComputeFstat_Resamp` after the buffering block, on the heap: the loops
read the objects `multiFa_spin`, `multiFb_spin`, which are destroyed once the loops are
through.  An error return before that point leaves them allocated. -/
def spectralAssembleAt (env : Externals) (Fstats : FstatResults) (numDetectors : UINT4)
    (det0 : COMPLEX8TimeSeries) (dFreqOut : REAL8) (multiAMcoef : Option MultiAMCoeffs)
    (heap : SeriesHeap) (multiFa_SRC multiFb_SRC : Option Nat) :
    XLALStatus × FstatResults × SeriesHeap :=
  let thisPoint := Fstats.doppler
  let shift := fracShift det0.f0 (thisPoint.fkdot.getD 0 0) dFreqOut
  match multiAMcoef with
  | none => (UNDEFINED, Fstats, heap)
  | some multiAMcoef =>
    match spinCopiesAt env thisPoint shift heap multiFa_SRC multiFb_SRC with
    | (heap, none) => (XLAL_EFUNC, Fstats, heap)
    | (heap, some (multiFa_spin, multiFb_spin)) =>
      match deref heap (some multiFa_spin), deref heap (some multiFb_spin) with
      | some fa, some fb =>
        let r := transformAndCombine env Fstats numDetectors dFreqOut multiAMcoef fa fb
        if r.1 = XLAL_SUCCESS ∨ r.1 = XLAL_EFAILED then
          (r.1, r.2,
            XLALDestroyMultiCOMPLEX8TimeSeries
              (XLALDestroyMultiCOMPLEX8TimeSeries heap (some multiFa_spin))
              (some multiFb_spin))
        else (r.1, r.2, heap)
      | _, _ => (UNDEFINED, Fstats, heap)

/-- What a call of `ComputeFstat_Resamp` leaves behind, with the cache by address and the
heap. -/
structure OutcomeAt where
  status : XLALStatus
  calls : List Call
  branch : Option CacheBranch
  Fstats : Option FstatResults
  resamp : Option FstatInput_ResampAt
  heap : SeriesHeap
deriving DecidableEq, Repr

/-- `ComputeFstat_Resamp` on the heap. -/
def ComputeFstat_ResampAt (env : Externals) (Fstats : Option FstatResults)
    (common : Option FstatInput_Common) (resamp : Option FstatInput_ResampAt)
    (heap : SeriesHeap) : OutcomeAt :=
  match Fstats, common, resamp with
  | some Fstats, some common, some resamp =>
    let whatToCompute := Fstats.whatWasComputed
    if hasFlag whatToCompute FSTATQ_ATOMS_PER_DET then
      ⟨XLAL_EINVAL, [], none, some Fstats, some resamp, heap⟩
    else
      let thisPoint := Fstats.doppler
      match resamp.multiTimeSeries_DET.data.head? with
      | none => ⟨UNDEFINED, [], none, some Fstats, some resamp, heap⟩
      | some det0 =>
        let dFreqOut := dFreqOut Fstats det0
        let b := handleBufferingAt env common resamp heap thisPoint dFreqOut
        if b.status ≠ XLAL_SUCCESS then
          ⟨b.status, b.calls, some b.branch, some Fstats, some b.resamp, b.heap⟩
        else
          let r := spectralAssembleAt env Fstats resamp.multiTimeSeries_DET.data.length det0
            dFreqOut b.multiAMcoef b.heap b.multiFa_SRC b.multiFb_SRC
          ⟨r.1, b.calls, some b.branch, some r.2.1, some b.resamp, r.2.2⟩
  | _, _, _ => ⟨XLAL_EFAULT, [], none, Fstats, resamp, heap⟩

namespace Sample

/-- The sample routines with corrections that change the series: the frequency shift
lowers the heterodyne frequency by `shift` and doubles every sample, the spin-down
correction triples the samples of `Fa` and negates those of `Fb`. -/
def envShift : Externals :=
  withCorrections env
    (fun m shift => some ⟨m.data.map fun ts =>
      { ts with f0 := ts.f0 - shift, data := ts.data.map fun z => (2 : ℚ) * z }⟩)
    (fun fa fb _ =>
      some (⟨fa.data.map fun ts => { ts with data := ts.data.map fun z => (3 : ℚ) * z }⟩,
        ⟨fb.data.map fun ts => { ts with data := ts.data.map fun z => (-1 : ℚ) * z }⟩))

/-- The cache right after set-up, with the two series pointers `NULL`. -/
def freshCacheAt : FstatInput_ResampAt :=
  ⟨multiTimeSeries_DET, PulsarDopplerParams.zero, none, none, none, none⟩

end Sample

/-- The store of iteration `k` of the second sample loop of a segment, at index `idx`,
for `p = (k, idx)`: the interpolated value `out_ts[0][k] + i out_ts[1][k]` multiplied with
the phase of `-cycles`, `cycles = fmod ( fHet * tDiff, 1 )`. -/
def storeResampled (env : Externals) (fHet start_SRC deltaT_SRC : REAL8)
    (detectortimes out_ts0 out_ts1 : List REAL8) (d : List COMPLEX8) (p : UINT4 × UINT4) :
    List COMPLEX8 :=
  let tDiff := start_SRC + (p.2 : ℚ) * deltaT_SRC - detectortimes.getD p.1 0
  let cycles := fmod (fHet * tDiff) 1
  let phase := (env.XLALSinCos2PiLUT (-cycles)).getD (0, 0)
  d.set p.2 (crectf (out_ts0.getD p.1 0 * phase.2 - out_ts1.getD p.1 0 * phase.1)
    (out_ts1.getD p.1 0 * phase.2 + out_ts0.getD p.1 0 * phase.1))

/-- The interpolation state for one part (real or imaginary) of the detector-frame
series: the sample times `t_DET` and the values `ts`. -/
def splineOf (TimeSeries_DET : COMPLEX8TimeSeries) (part : COMPLEX8 → REAL4) : gsl_spline :=
  ⟨(List.range TimeSeries_DET.data.length).map fun j =>
      XLALGPSGetREAL8 TimeSeries_DET.epoch + (j : ℚ) * TimeSeries_DET.deltaT,
    TimeSeries_DET.data.map part⟩

/-- The sample vector `d` of the output series after the stores of segment `j`, in the
order of the loop. -/
def segmentStores (env : Externals) (TimeSeries_SRC TimeSeries_DET : COMPLEX8TimeSeries)
    (Timestamps_DET : LIGOTimeGPSVector) (SRC_timing : SSBtimes) (d : List COMPLEX8)
    (j : Nat) : List COMPLEX8 :=
  let detectortimes :=
    segmentDetectorTimes TimeSeries_SRC TimeSeries_DET Timestamps_DET SRC_timing j
  let out_ts0 := (env.XLALGSLInterpolateREAL8Vector detectortimes
    (splineOf TimeSeries_DET COMPLEX8.re)).getD []
  let out_ts1 := (env.XLALGSLInterpolateREAL8Vector detectortimes
    (splineOf TimeSeries_DET COMPLEX8.im)).getD []
  (segmentResampleWrites TimeSeries_SRC SRC_timing Timestamps_DET.deltaT j).foldl
    (storeResampled env TimeSeries_DET.f0 (XLALGPSGetREAL8 TimeSeries_SRC.epoch)
      TimeSeries_SRC.deltaT detectortimes out_ts0 out_ts1) d

namespace Sample

/-- A timing map whose second segment runs backwards: midpoints 1 s and 2 s after the
reference time, time derivatives `1` and `-1`. -/
def backwardTiming : SSBtimes := ⟨⟨0⟩, [1, 2], [1, -1]⟩

end Sample

end Resamp

/-!
# The nested-sampling driver (`LALInferenceMultiNest.c`): a shallow embedding

Two functions of `src/lalapps/src/inspiral/posterior/LALInferenceMultiNest.c` are
embedded.

* `mc2masses` is written over an arbitrary field of numbers, with the two routines of the
  C mathematical library it calls as parameters; the statements about it take the real
  numbers, the real square root and the real power function.
* The detector loop of the C function `initialize` walks a linked list.  The list is a
  Lean list, a pointer to a node is the position of the node (`none` for `NULL`), and a
  `while` loop is run for a bounded number of passes: the outcome `Run.running` says that
  the bound was reached with the loop condition still true.
-/

namespace MultiNest

/-! ## Component masses -/

/-- The two routines of the C mathematical library that `mc2masses` calls, over the
numbers `R`. -/
structure Libm (R : Type) where
  sqrt : R → R
  pow : R → R → R

/-- `mc2masses`: the companion masses `(m1, m2)` for the chirp mass `mc` and the mass ratio
`eta`.  The C function stores them through its pointer arguments `m1`, `m2`.  The decimal
constants `0.25`, `0.5`, `0.2`, `0.6` are written as the fractions they denote. -/
def mc2masses {R : Type} [Field R] (libm : Libm R) (mc eta : R) : R × R :=
  let root := libm.sqrt (1 / 4 - eta)
  let fraction := (1 / 2 + root) / (1 / 2 - root)
  let m2 := mc * (libm.pow (1 + fraction) (1 / 5) / libm.pow fraction (3 / 5))
  let m1 := mc * (libm.pow (1 + 1 / fraction) (1 / 5) / libm.pow (1 / fraction) (3 / 5))
  (m1, m2)

/-! ## The model buffers of the detectors -/

/-- Outcome of a loop run with a bound on the number of passes: the state after the loop,
or `running` when the bound is reached with the loop condition still true, or `undefined`
when a pointer that is dereferenced points to no detector. -/
inductive Run (α : Type) where
  | done : α → Run α
  | running : Run α
  | undefined : Run α
deriving DecidableEq, Repr

/-- The part of one `LALInferenceIFOData` node that the detector loop of `initialize`
uses: the sampling interval `timeData->deltaT` and the five model buffers.  A buffer
pointer is `none` (`NULL`) or the address of an object.  The list of detectors is the
linked list `irs->data`; a pointer to a node is its position in the list, `none` for
`NULL`. -/
structure LALInferenceIFOData where
  deltaT : ℚ
  timeModelhPlus : Option Nat
  freqModelhPlus : Option Nat
  timeModelhCross : Option Nat
  freqModelhCross : Option Nat
  modelParams : Option Nat
deriving DecidableEq, Repr

/-- The detectors and the number of objects created so far; a newly created object gets
the next unused address. -/
structure InitState where
  data : List LALInferenceIFOData
  created : Nat
deriving DecidableEq, Repr

/-- The field `next` of the node at position `i`. -/
def nextIFO (data : List LALInferenceIFOData) (i : Nat) : Option Nat :=
  if i + 1 < data.length then some (i + 1) else none

/-- The loop `while(ifoPtrCompare != NULL && ifoPtrCompare!=ifoPtr)` of `initialize`, run
for at most `fuel` passes.  A pass either finds the same sampling interval, copies the five
buffer pointers of `ifoPtrCompare` to `ifoPtr` and leaves the loop (`break`), or ends
without changing `ifoPtrCompare`.  The result is the detector list and the flag
`foundIFOwithSameSampleRate`. -/
def scanEarlier (ifoPtr : Nat) :
    Nat → Option Nat → List LALInferenceIFOData → Run (List LALInferenceIFOData × Bool)
  | 0, _, _ => .running
  | fuel + 1, ifoPtrCompare, data =>
    match ifoPtrCompare with
    | none => .done (data, false)
    | some cmp =>
      if cmp = ifoPtr then .done (data, false)
      else
        match data[cmp]?, data[ifoPtr]? with
        | some c, some p =>
          if c.deltaT = p.deltaT then
            .done (data.set ifoPtr
              { p with
                timeModelhPlus := c.timeModelhPlus
                freqModelhPlus := c.freqModelhPlus
                timeModelhCross := c.timeModelhCross
                freqModelhCross := c.freqModelhCross
                modelParams := c.modelParams }, true)
          else scanEarlier ifoPtr fuel (some cmp) data
        | _, _ => .undefined

/-- The creation of the five model buffers of the detector at `ifoPtr`
(`XLALCreateREAL8TimeSeries` twice, `XLALCreateCOMPLEX16FrequencySeries` twice, `calloc`):
five new objects. -/
def createModelBuffers (s : InitState) (ifoPtr : Nat) : Run InitState :=
  match s.data[ifoPtr]? with
  | none => .undefined
  | some p =>
    .done
      ⟨s.data.set ifoPtr
        { p with
          timeModelhPlus := some s.created
          timeModelhCross := some (s.created + 1)
          freqModelhPlus := some (s.created + 2)
          freqModelhCross := some (s.created + 3)
          modelParams := some (s.created + 4) },
        s.created + 5⟩

/-- The loop `while (ifoPtr != NULL)` of `initialize` over the detectors, run for at most
`fuel` passes, each inner scan being run for at most `fuel` passes too. -/
def detectorLoop : Nat → Option Nat → InitState → Run InitState
  | 0, _, _ => .running
  | _ + 1, none, s => .done s
  | fuel + 1, some ifoPtr, s =>
    let ifoListStart : Option Nat := if s.data.length = 0 then none else some 0
    match scanEarlier ifoPtr fuel ifoListStart s.data with
    | .running => .running
    | .undefined => .undefined
    | .done (data, foundIFOwithSameSampleRate) =>
      let created : Run InitState :=
        if foundIFOwithSameSampleRate then .done ⟨data, s.created⟩
        else createModelBuffers ⟨data, s.created⟩ ifoPtr
      match created with
      | .done s' => detectorLoop fuel (nextIFO s'.data ifoPtr) s'
      | r => r

/-- The set-up of the model buffers in the C function `initialize` (the block entered
when `irs->data != NULL`), starting at the head of the detector list that
`LALInferenceReadData` returned.  The name `initialize` is reserved here. -/
def initializeModelBuffers (fuel : Nat) (data : List LALInferenceIFOData) : Run InitState :=
  detectorLoop fuel (if data.length = 0 then none else some 0) ⟨data, 0⟩

namespace Sample

/-- A detector with sampling interval `deltaT` and no model buffers yet. -/
def ifo (deltaT : ℚ) : LALInferenceIFOData := ⟨deltaT, none, none, none, none, none⟩

/-- Two detectors sampled at 4096 Hz and at 16384 Hz. -/
def twoRates : List LALInferenceIFOData := [ifo (1 / 4096), ifo (1 / 16384)]

/-- Three detectors, all sampled at 4096 Hz. -/
def oneRate : List LALInferenceIFOData := [ifo (1 / 4096), ifo (1 / 4096), ifo (1 / 4096)]

end Sample

end MultiNest

namespace Resamp

open XLALStatus

/-! ## Theorems: the cache decision -/

theorem recomputeBinary_branch (env : Externals) (common : FstatInput_Common)
    (c : FstatInput_Resamp) (p : PulsarDopplerParams) (d : REAL8) :
    (recomputeBinary env common c p d).branch = .binaryOnly := by
  unfold recomputeBinary
  dsimp only
  repeat' split
  all_goals rfl

theorem recomputeSky_branch (env : Externals) (common : FstatInput_Common)
    (c : FstatInput_Resamp) (p : PulsarDopplerParams) (d : REAL8) :
    (recomputeSky env common c p d).branch = .fullRecompute := by
  unfold recomputeSky
  dsimp only
  repeat' split
  all_goals rfl

theorem XLALGPSDiff_eq_zero (a b : LIGOTimeGPS) : XLALGPSDiff a b = 0 ↔ a = b := by
  unfold XLALGPSDiff
  constructor
  · intro h
    have h2 : ((a.ns - b.ns : Int) : ℚ) = 0 := by
      rcases div_eq_zero_iff.mp h with h | h
      · exact h
      · norm_num at h
    have h3 : a.ns - b.ns = 0 := by exact_mod_cast h2
    cases a; cases b; simp at h3 ⊢; omega
  · rintro rfl; simp

theorem XLALGPSCmp_eq_zero (a b : LIGOTimeGPS) : XLALGPSCmp a b = 0 ↔ a = b := by
  unfold XLALGPSCmp
  constructor
  · intro h
    have h1 : ¬ a.ns > b.ns := by
      intro hgt; simp [hgt] at h
    have h2 : ¬ a.ns < b.ns := by
      intro hlt; simp [hlt, h1] at h
    cases a; cases b; simp at h1 h2 ⊢; omega
  · rintro rfl; simp

theorem sameSkyAndRefTime_iff (prev p : PulsarDopplerParams) :
    sameSkyAndRefTime prev p = true ↔
      prev.Alpha = p.Alpha ∧ prev.Delta = p.Delta ∧ prev.refTime = p.refTime := by
  simp [sameSkyAndRefTime, XLALGPSDiff_eq_zero, and_assoc]

theorem sameBinary_iff (prev p : PulsarDopplerParams) :
    sameBinary prev p = true ↔
      prev.asini = p.asini ∧ prev.period = p.period ∧ prev.ecc = p.ecc ∧ prev.tp = p.tp ∧
        prev.argp = p.argp := by
  simp [sameBinary, XLALGPSCmp_eq_zero, and_assoc]

theorem handleBuffering_branch (env : Externals) (common : FstatInput_Common)
    (c : FstatInput_Resamp) (p : PulsarDopplerParams) (d : REAL8) :
    (handleBuffering env common c p d).branch =
      if sameSkyAndRefTime c.prev_doppler p then
        if sameBinary c.prev_doppler p then .fullReuse else .binaryOnly
      else .fullRecompute := by
  unfold handleBuffering
  split_ifs <;> simp [recomputeBinary_branch, recomputeSky_branch]

/-- `ComputeFstat_Resamp` on non-null arguments, without the atoms flag and with a first
detector: the buffering block followed by the spectral assembly. -/
theorem ComputeFstat_Resamp_eq (env : Externals) (F : FstatResults)
    (common : FstatInput_Common) (c : FstatInput_Resamp) (det0 : COMPLEX8TimeSeries)
    (hatoms : hasFlag F.whatWasComputed FSTATQ_ATOMS_PER_DET = false)
    (hdet : c.multiTimeSeries_DET.data.head? = some det0) :
    ComputeFstat_Resamp env (some F) (some common) (some c) =
      if (handleBuffering env common c F.doppler (dFreqOut F det0)).status ≠ XLAL_SUCCESS then
        ⟨(handleBuffering env common c F.doppler (dFreqOut F det0)).status,
          (handleBuffering env common c F.doppler (dFreqOut F det0)).calls,
          some (handleBuffering env common c F.doppler (dFreqOut F det0)).branch, some F,
          some (handleBuffering env common c F.doppler (dFreqOut F det0)).resamp⟩
      else
        ⟨(spectralAssemble env F c.multiTimeSeries_DET.data.length det0 (dFreqOut F det0)
            (handleBuffering env common c F.doppler (dFreqOut F det0)).multiAMcoef
            (handleBuffering env common c F.doppler (dFreqOut F det0)).multiFa_SRC
            (handleBuffering env common c F.doppler (dFreqOut F det0)).multiFb_SRC).1,
          (handleBuffering env common c F.doppler (dFreqOut F det0)).calls,
          some (handleBuffering env common c F.doppler (dFreqOut F det0)).branch,
          some (spectralAssemble env F c.multiTimeSeries_DET.data.length det0 (dFreqOut F det0)
            (handleBuffering env common c F.doppler (dFreqOut F det0)).multiAMcoef
            (handleBuffering env common c F.doppler (dFreqOut F det0)).multiFa_SRC
            (handleBuffering env common c F.doppler (dFreqOut F det0)).multiFb_SRC).2,
          some (handleBuffering env common c F.doppler (dFreqOut F det0)).resamp⟩ := by
  unfold ComputeFstat_Resamp
  simp only [hatoms, hdet]
  rfl

/-- Once the buffering block is reached, the outcome of `ComputeFstat_Resamp` records the
arm taken by `handleBuffering`. -/
theorem ComputeFstat_Resamp_branch (env : Externals) (F : FstatResults)
    (common : FstatInput_Common) (c : FstatInput_Resamp) (det0 : COMPLEX8TimeSeries)
    (hatoms : hasFlag F.whatWasComputed FSTATQ_ATOMS_PER_DET = false)
    (hdet : c.multiTimeSeries_DET.data.head? = some det0) :
    (ComputeFstat_Resamp env (some F) (some common) (some c)).branch =
      some (handleBuffering env common c F.doppler (dFreqOut F det0)).branch := by
  rw [ComputeFstat_Resamp_eq env F common c det0 hatoms hdet]
  split_ifs <;> rfl

/-- C1: the cache decision of `ComputeFstat_Resamp` is taken by exact equality of the
cached point and the query point.  Full reuse iff Alpha, Delta, refTime, asini, period,
ecc, tp and argp are all equal; binary-only recomputation iff Alpha, Delta, refTime are
equal and one of asini, period, ecc, tp, argp differs; full recomputation iff one of
Alpha, Delta, refTime differs.  Replacing the frequency and spin-down values `fkdot` of
the query point does not change the decision. -/
theorem C1_cache_decision (env : Externals) (F : FstatResults) (common : FstatInput_Common)
    (c : FstatInput_Resamp)
    (hatoms : hasFlag F.whatWasComputed FSTATQ_ATOMS_PER_DET = false)
    (hdet : c.multiTimeSeries_DET.data ≠ []) :
    ((ComputeFstat_Resamp env (some F) (some common) (some c)).branch = some .fullReuse ↔
      c.prev_doppler.Alpha = F.doppler.Alpha ∧ c.prev_doppler.Delta = F.doppler.Delta ∧
      c.prev_doppler.refTime = F.doppler.refTime ∧ c.prev_doppler.asini = F.doppler.asini ∧
      c.prev_doppler.period = F.doppler.period ∧ c.prev_doppler.ecc = F.doppler.ecc ∧
      c.prev_doppler.tp = F.doppler.tp ∧ c.prev_doppler.argp = F.doppler.argp) ∧
    ((ComputeFstat_Resamp env (some F) (some common) (some c)).branch = some .binaryOnly ↔
      (c.prev_doppler.Alpha = F.doppler.Alpha ∧ c.prev_doppler.Delta = F.doppler.Delta ∧
        c.prev_doppler.refTime = F.doppler.refTime) ∧
      (c.prev_doppler.asini ≠ F.doppler.asini ∨ c.prev_doppler.period ≠ F.doppler.period ∨
        c.prev_doppler.ecc ≠ F.doppler.ecc ∨ c.prev_doppler.tp ≠ F.doppler.tp ∨
        c.prev_doppler.argp ≠ F.doppler.argp)) ∧
    ((ComputeFstat_Resamp env (some F) (some common) (some c)).branch = some .fullRecompute ↔
      (c.prev_doppler.Alpha ≠ F.doppler.Alpha ∨ c.prev_doppler.Delta ≠ F.doppler.Delta ∨
        c.prev_doppler.refTime ≠ F.doppler.refTime)) ∧
    (∀ fkdot : List REAL8,
      (ComputeFstat_Resamp env (some { F with doppler := { F.doppler with fkdot := fkdot } })
        (some common) (some c)).branch =
      (ComputeFstat_Resamp env (some F) (some common) (some c)).branch) := by
  obtain ⟨det0, hdet0⟩ : ∃ det0, c.multiTimeSeries_DET.data.head? = some det0 := by
    cases h : c.multiTimeSeries_DET.data with
    | nil => exact absurd h hdet
    | cons a l => exact ⟨a, rfl⟩
  have hb := ComputeFstat_Resamp_branch env F common c det0 hatoms hdet0
  rw [hb, handleBuffering_branch]
  have hsky := sameSkyAndRefTime_iff c.prev_doppler F.doppler
  have hbin := sameBinary_iff c.prev_doppler F.doppler
  refine ⟨?_, ?_, ?_, ?_⟩
  · by_cases h1 : sameSkyAndRefTime c.prev_doppler F.doppler = true <;>
      by_cases h2 : sameBinary c.prev_doppler F.doppler = true <;>
      simp [h1, h2] <;> tauto
  · by_cases h1 : sameSkyAndRefTime c.prev_doppler F.doppler = true <;>
      by_cases h2 : sameBinary c.prev_doppler F.doppler = true <;>
      simp [h1, h2] <;> tauto
  · by_cases h1 : sameSkyAndRefTime c.prev_doppler F.doppler = true <;>
      by_cases h2 : sameBinary c.prev_doppler F.doppler = true <;>
      simp [h1, h2] <;> tauto
  · intro fkdot
    have h4 := ComputeFstat_Resamp_branch env
      { F with doppler := { F.doppler with fkdot := fkdot } } common c det0 hatoms hdet0
    rw [h4, handleBuffering_branch]
    rfl

/-- C1, at a concrete input: the sample cache after a query at sky position `(1, 2)`,
asked at the same sky position with another semi-major axis. -/
theorem C1_cache_decision_witness :
    (ComputeFstat_Resamp Sample.env (some (Sample.query (Sample.point 1 2 10 3) 0 2 15))
      (some Sample.common)
      (some (Sample.cacheAfter Sample.freshCache
        (Sample.query (Sample.point 1 2 10 0) 0 2 15)))).branch = some .binaryOnly := by
  have h := C1_cache_decision Sample.env (Sample.query (Sample.point 1 2 10 3) 0 2 15)
    Sample.common
    (Sample.cacheAfter Sample.freshCache (Sample.query (Sample.point 1 2 10 0) 0 2 15))
    (by decide) (by decide!)
  exact h.2.1.mpr (by decide!)

/-! ## Theorems: reuse and refusal -/

/-- A successful query passed the atoms check, found a first detector, and both the
buffering block and the spectral assembly succeeded. -/
theorem ComputeFstat_Resamp_success (env : Externals) (F : FstatResults)
    (common : FstatInput_Common) (c : FstatInput_Resamp)
    (h : (ComputeFstat_Resamp env (some F) (some common) (some c)).status = XLAL_SUCCESS) :
    hasFlag F.whatWasComputed FSTATQ_ATOMS_PER_DET = false ∧
    ∃ det0, c.multiTimeSeries_DET.data.head? = some det0 ∧
      (handleBuffering env common c F.doppler (dFreqOut F det0)).status = XLAL_SUCCESS ∧
      (spectralAssemble env F c.multiTimeSeries_DET.data.length det0 (dFreqOut F det0)
        (handleBuffering env common c F.doppler (dFreqOut F det0)).multiAMcoef
        (handleBuffering env common c F.doppler (dFreqOut F det0)).multiFa_SRC
        (handleBuffering env common c F.doppler (dFreqOut F det0)).multiFb_SRC).1
        = XLAL_SUCCESS := by
  cases hatoms : hasFlag F.whatWasComputed FSTATQ_ATOMS_PER_DET with
  | true => simp [ComputeFstat_Resamp, hatoms] at h
  | false =>
    refine ⟨rfl, ?_⟩
    cases hdet : c.multiTimeSeries_DET.data.head? with
    | none => simp [ComputeFstat_Resamp, hatoms, hdet] at h
    | some det0 =>
      refine ⟨det0, rfl, ?_⟩
      rw [ComputeFstat_Resamp_eq env F common c det0 hatoms hdet] at h
      by_cases hb : (handleBuffering env common c F.doppler (dFreqOut F det0)).status
          = XLAL_SUCCESS
      · rw [if_neg (not_not.mpr hb)] at h
        exact ⟨hb, h⟩
      · rw [if_pos hb] at h
        exact absurd h hb

/-- C2: when the outer and the inner key both match the cached point, the query runs none
of the recorded sky-level or binary-level routines, leaves the cache as it was, and feeds
the cached AM coefficients and the cached weighted series to the spectral assembly. -/
theorem C2_full_reuse (env : Externals) (F : FstatResults) (common : FstatInput_Common)
    (c : FstatInput_Resamp)
    (hkey : c.prev_doppler.Alpha = F.doppler.Alpha ∧ c.prev_doppler.Delta = F.doppler.Delta ∧
      c.prev_doppler.refTime = F.doppler.refTime ∧ c.prev_doppler.asini = F.doppler.asini ∧
      c.prev_doppler.period = F.doppler.period ∧ c.prev_doppler.ecc = F.doppler.ecc ∧
      c.prev_doppler.tp = F.doppler.tp ∧ c.prev_doppler.argp = F.doppler.argp) :
    (ComputeFstat_Resamp env (some F) (some common) (some c)).calls = [] ∧
    (ComputeFstat_Resamp env (some F) (some common) (some c)).resamp = some c ∧
    (∀ det0, hasFlag F.whatWasComputed FSTATQ_ATOMS_PER_DET = false →
      c.multiTimeSeries_DET.data.head? = some det0 →
      (ComputeFstat_Resamp env (some F) (some common) (some c)).status =
        (spectralAssemble env F c.multiTimeSeries_DET.data.length det0 (dFreqOut F det0)
          c.prev_multiAMcoef c.prev_multiFa_SRC c.prev_multiFb_SRC).1 ∧
      (ComputeFstat_Resamp env (some F) (some common) (some c)).Fstats =
        some (spectralAssemble env F c.multiTimeSeries_DET.data.length det0 (dFreqOut F det0)
          c.prev_multiAMcoef c.prev_multiFa_SRC c.prev_multiFb_SRC).2) := by
  have hsky : sameSkyAndRefTime c.prev_doppler F.doppler = true :=
    (sameSkyAndRefTime_iff _ _).mpr ⟨hkey.1, hkey.2.1, hkey.2.2.1⟩
  have hbin : sameBinary c.prev_doppler F.doppler = true :=
    (sameBinary_iff _ _).mpr hkey.2.2.2
  have hb : ∀ d, handleBuffering env common c F.doppler d =
      ⟨XLAL_SUCCESS, [], .fullReuse, c, c.prev_multiAMcoef, c.prev_multiFa_SRC,
        c.prev_multiFb_SRC⟩ := by
    intro d
    simp [handleBuffering, hsky, hbin]
  cases hatoms : hasFlag F.whatWasComputed FSTATQ_ATOMS_PER_DET with
  | true => simp [ComputeFstat_Resamp, hatoms]
  | false =>
    cases hdet : c.multiTimeSeries_DET.data.head? with
    | none => simp [ComputeFstat_Resamp, hatoms, hdet]
    | some det0 =>
      rw [ComputeFstat_Resamp_eq env F common c det0 hatoms hdet, hb]
      simp

/-- C5: a query that asks for per-detector atoms is refused with `XLAL_EINVAL`, a status
different from success and from `XLAL_EFAULT` (null arguments), `XLAL_EFUNC` (failed
sub-steps) and `XLAL_ENOMEM` (allocation failure); no routine has been called, and the
result structure and the cache are as before, whatever the cache holds. -/
theorem C5_atoms_rejected (env : Externals) (F : FstatResults) (common : FstatInput_Common)
    (c : FstatInput_Resamp) (h : F.whatWasComputed &&& FSTATQ_ATOMS_PER_DET ≠ 0) :
    (ComputeFstat_Resamp env (some F) (some common) (some c)).status = XLAL_EINVAL ∧
    (ComputeFstat_Resamp env (some F) (some common) (some c)).status ≠ XLAL_SUCCESS ∧
    XLAL_EINVAL ≠ XLAL_EFAULT ∧ XLAL_EINVAL ≠ XLAL_EFUNC ∧ XLAL_EINVAL ≠ XLAL_ENOMEM ∧
    (ComputeFstat_Resamp env (some F) (some common) (some c)).calls = [] ∧
    (ComputeFstat_Resamp env (some F) (some common) (some c)).branch = none ∧
    (ComputeFstat_Resamp env (some F) (some common) (some c)).Fstats = some F ∧
    (ComputeFstat_Resamp env (some F) (some common) (some c)).resamp = some c ∧
    (ComputeFstat_Resamp env none (some common) (some c)).status = XLAL_EFAULT ∧
    (ComputeFstat_Resamp env (some F) none (some c)).status = XLAL_EFAULT ∧
    (ComputeFstat_Resamp env (some F) (some common) none).status = XLAL_EFAULT := by
  have hflag : hasFlag F.whatWasComputed FSTATQ_ATOMS_PER_DET = true := by
    simp [hasFlag, h]
  simp [ComputeFstat_Resamp, hflag]

/-- C5, at a concrete input: the sample query asking for the combined statistic and for
per-detector atoms, on the fresh sample cache. -/
theorem C5_atoms_rejected_witness :
    (ComputeFstat_Resamp Sample.env (some (Sample.query (Sample.point 1 2 10 0) 0 2 17))
      (some Sample.common) (some Sample.freshCache)).status = XLAL_EINVAL :=
  (C5_atoms_rejected Sample.env (Sample.query (Sample.point 1 2 10 0) 0 2 17) Sample.common
    Sample.freshCache (by decide)).1

/-- C2, at a concrete input: the sample cache after a query at frequency 10, asked again
at the same sky position and orbit with frequency 11. -/
theorem C2_full_reuse_witness :
    (ComputeFstat_Resamp Sample.env (some (Sample.query (Sample.point 1 2 11 0) 0 2 15))
      (some Sample.common)
      (some (Sample.cacheAfter Sample.freshCache
        (Sample.query (Sample.point 1 2 10 0) 0 2 15)))).calls = [] :=
  (C2_full_reuse Sample.env (Sample.query (Sample.point 1 2 11 0) 0 2 15) Sample.common
    (Sample.cacheAfter Sample.freshCache (Sample.query (Sample.point 1 2 10 0) 0 2 15))
    (by decide!)).1

/-! ## Theorems: partial and full recomputation -/

/-- A successful antenna weighting of all detectors had non-null inputs and delivers two
series. -/
theorem XLALAntennaWeightMulti_success (env : Externals)
    (ts : Option MultiCOMPLEX8TimeSeries) (am : Option MultiAMCoeffs)
    (stamps : Option MultiLIGOTimeGPSVector) (Fa Fb : Option MultiCOMPLEX8TimeSeries)
    (h : XLALAntennaWeightMultiCOMPLEX8TimeSeries env (some none) (some none) ts am stamps
      = (XLAL_SUCCESS, Fa, Fb)) :
    ts.isSome ∧ am.isSome ∧ stamps.isSome ∧ Fa.isSome ∧ Fb.isSome := by
  unfold XLALAntennaWeightMultiCOMPLEX8TimeSeries at h
  cases ts <;> cases am <;> cases stamps <;> simp at h
  split_ifs at h <;> simp at h
  obtain ⟨-, rfl, rfl⟩ := h
  simp

/-- A successful resampling of all detectors had a timing map and delivers the series and
the translated timestamps. -/
theorem XLALBarycentricResampleMulti_success (env : Externals)
    (det : Option MultiCOMPLEX8TimeSeries) (stampsDET : Option MultiLIGOTimeGPSVector)
    (timing : Option MultiSSBtimes) (deltaF : REAL8)
    (src : Option MultiCOMPLEX8TimeSeries) (stamps : Option MultiLIGOTimeGPSVector)
    (h : XLALBarycentricResampleMultiCOMPLEX8TimeSeries env (some none) (some none) det
      stampsDET timing deltaF = (XLAL_SUCCESS, src, stamps)) :
    timing.isSome ∧ src.isSome ∧ stamps.isSome := by
  unfold XLALBarycentricResampleMultiCOMPLEX8TimeSeries at h
  cases det <;> cases stampsDET <;> cases timing <;> simp only [] at h
  all_goals repeat' split at h
  all_goals first
    | (simp at h; done)
    | (simp only [Prod.mk.injEq] at h
       obtain ⟨-, rfl, rfl⟩ := h
       simp)

/-- The timing map handed to the resampler: the sky-only map with the binary correction
added iff `asini > 0`. -/
theorem recomputeBinary_success (env : Externals) (common : FstatInput_Common)
    (c : FstatInput_Resamp) (p : PulsarDopplerParams) (d : REAL8)
    (h : (recomputeBinary env common c p d).status = XLAL_SUCCESS) :
    ∃ src stamps Fa Fb,
      XLALBarycentricResampleMultiCOMPLEX8TimeSeries env (some none) (some none)
        (some c.multiTimeSeries_DET) common.timestamps
        (if p.asini > 0 then c.prev_multiSSBsky.bind fun sky => env.XLALAddMultiBinaryTimes sky p
          else c.prev_multiSSBsky) d = (XLAL_SUCCESS, src, stamps) ∧
      XLALAntennaWeightMultiCOMPLEX8TimeSeries env (some none) (some none) src
        c.prev_multiAMcoef stamps = (XLAL_SUCCESS, Fa, Fb) ∧
      recomputeBinary env common c p d =
        ⟨XLAL_SUCCESS,
          (if p.asini > 0 then [Call.AddMultiBinaryTimes] else []) ++
            [.BarycentricResample, .AntennaWeight],
          .binaryOnly,
          { c with prev_doppler := p, prev_multiFa_SRC := Fa, prev_multiFb_SRC := Fb },
          c.prev_multiAMcoef, Fa, Fb⟩ := by
  unfold recomputeBinary at h ⊢
  by_cases hasini : p.asini > 0
  · simp only [hasini, if_true] at h ⊢
    cases hbin : (c.prev_multiSSBsky.bind fun sky => env.XLALAddMultiBinaryTimes sky p) with
    | none => simp [hbin] at h
    | some multiBinary =>
      simp only [hbin] at h ⊢
      rcases hres : XLALBarycentricResampleMultiCOMPLEX8TimeSeries env (some none) (some none)
        (some c.multiTimeSeries_DET) common.timestamps (some multiBinary) d
        with ⟨st, src, stamps⟩
      simp only [hres] at h ⊢
      cases st <;> simp at h
      rcases hw : XLALAntennaWeightMultiCOMPLEX8TimeSeries env (some none) (some none) src
        c.prev_multiAMcoef stamps with ⟨st2, Fa, Fb⟩
      simp only [hw] at h ⊢
      cases st2 <;> simp at h
      exact ⟨src, stamps, Fa, Fb, rfl, hw, rfl⟩
  · simp only [hasini, if_false] at h ⊢
    rcases hres : XLALBarycentricResampleMultiCOMPLEX8TimeSeries env (some none) (some none)
      (some c.multiTimeSeries_DET) common.timestamps c.prev_multiSSBsky d
      with ⟨st, src, stamps⟩
    simp only [hres] at h ⊢
    cases st <;> simp at h
    rcases hw : XLALAntennaWeightMultiCOMPLEX8TimeSeries env (some none) (some none) src
      c.prev_multiAMcoef stamps with ⟨st2, Fa, Fb⟩
    simp only [hw] at h ⊢
    cases st2 <;> simp at h
    exact ⟨src, stamps, Fa, Fb, rfl, hw, rfl⟩

/-- Shape of a successful full recomputation. -/
theorem recomputeSky_success (env : Externals) (common : FstatInput_Common)
    (c : FstatInput_Resamp) (p : PulsarDopplerParams) (d : REAL8)
    (h : (recomputeSky env common c p d).status = XLAL_SUCCESS) :
    ∃ sky am src stamps Fa Fb,
      env.XLALGetMultiSSBtimes common.detectorStates ⟨p.Alpha, p.Delta⟩ p.refTime common.SSBprec
        = some sky ∧
      env.XLALComputeMultiAMCoeffs common.detectorStates common.noiseWeights ⟨p.Alpha, p.Delta⟩
        = some am ∧
      XLALBarycentricResampleMultiCOMPLEX8TimeSeries env (some none) (some none)
        (some c.multiTimeSeries_DET) common.timestamps
        (if p.asini > 0 then env.XLALAddMultiBinaryTimes sky p else some sky) d
        = (XLAL_SUCCESS, src, stamps) ∧
      XLALAntennaWeightMultiCOMPLEX8TimeSeries env (some none) (some none) src (some am) stamps
        = (XLAL_SUCCESS, Fa, Fb) ∧
      recomputeSky env common c p d =
        ⟨XLAL_SUCCESS,
          [Call.GetMultiSSBtimes] ++ (if p.asini > 0 then [Call.AddMultiBinaryTimes] else []) ++
            [.BarycentricResample, .ComputeMultiAMCoeffs, .AntennaWeight],
          .fullRecompute,
          ⟨c.multiTimeSeries_DET, p, some am, some sky, Fa, Fb⟩, some am, Fa, Fb⟩ := by
  unfold recomputeSky at h ⊢
  cases hsky : env.XLALGetMultiSSBtimes common.detectorStates ⟨p.Alpha, p.Delta⟩ p.refTime
      common.SSBprec with
  | none => simp [hsky] at h
  | some sky =>
    simp only [hsky] at h ⊢
    by_cases hasini : p.asini > 0
    · simp only [hasini, if_true] at h ⊢
      cases hbin : env.XLALAddMultiBinaryTimes sky p with
      | none => simp [hbin] at h
      | some multiBinary =>
        simp only [hbin] at h ⊢
        rcases hres : XLALBarycentricResampleMultiCOMPLEX8TimeSeries env (some none) (some none)
          (some c.multiTimeSeries_DET) common.timestamps (some multiBinary) d
          with ⟨st, src, stamps⟩
        simp only [hres] at h ⊢
        cases st <;> simp at h
        cases ham : env.XLALComputeMultiAMCoeffs common.detectorStates common.noiseWeights
            ⟨p.Alpha, p.Delta⟩ with
        | none => simp [ham] at h
        | some am =>
          simp only [ham] at h ⊢
          rcases hw : XLALAntennaWeightMultiCOMPLEX8TimeSeries env (some none) (some none) src
            (some am) stamps with ⟨st2, Fa, Fb⟩
          simp only [hw] at h ⊢
          cases st2 <;> simp at h
          exact ⟨sky, am, src, stamps, Fa, Fb, rfl, rfl, by rw [hbin, hres], hw, rfl⟩
    · simp only [hasini, if_false] at h ⊢
      rcases hres : XLALBarycentricResampleMultiCOMPLEX8TimeSeries env (some none) (some none)
        (some c.multiTimeSeries_DET) common.timestamps (some sky) d
        with ⟨st, src, stamps⟩
      simp only [hres] at h ⊢
      cases st <;> simp at h
      cases ham : env.XLALComputeMultiAMCoeffs common.detectorStates common.noiseWeights
          ⟨p.Alpha, p.Delta⟩ with
      | none => simp [ham] at h
      | some am =>
        simp only [ham] at h ⊢
        rcases hw : XLALAntennaWeightMultiCOMPLEX8TimeSeries env (some none) (some none) src
          (some am) stamps with ⟨st2, Fa, Fb⟩
        simp only [hw] at h ⊢
        cases st2 <;> simp at h
        exact ⟨sky, am, src, stamps, Fa, Fb, rfl, rfl, hres, hw, rfl⟩

/-- C3: a successful query whose outer key matches and whose inner key differs resamples
on the cached sky timing (with the binary correction added iff `asini > 0`), weights the
result with the cached AM coefficients, and replaces the inner entry only: the new cache
is the old one with `prev_doppler` set to the query point and the two weighted series
replaced; `XLALGetMultiSSBtimes` and `XLALComputeMultiAMCoeffs` are not called. -/
theorem C3_binary_only (env : Externals) (F : FstatResults) (common : FstatInput_Common)
    (c : FstatInput_Resamp)
    (hok : (ComputeFstat_Resamp env (some F) (some common) (some c)).status = XLAL_SUCCESS)
    (houter : c.prev_doppler.Alpha = F.doppler.Alpha ∧ c.prev_doppler.Delta = F.doppler.Delta ∧
      c.prev_doppler.refTime = F.doppler.refTime)
    (hinner : c.prev_doppler.asini ≠ F.doppler.asini ∨ c.prev_doppler.period ≠ F.doppler.period ∨
      c.prev_doppler.ecc ≠ F.doppler.ecc ∨ c.prev_doppler.tp ≠ F.doppler.tp ∨
      c.prev_doppler.argp ≠ F.doppler.argp) :
    ∃ det0 sky am src stamps Fa Fb,
      c.multiTimeSeries_DET.data.head? = some det0 ∧
      c.prev_multiSSBsky = some sky ∧ c.prev_multiAMcoef = some am ∧
      XLALBarycentricResampleMultiCOMPLEX8TimeSeries env (some none) (some none)
        (some c.multiTimeSeries_DET) common.timestamps
        (if F.doppler.asini > 0 then env.XLALAddMultiBinaryTimes sky F.doppler else some sky)
        (dFreqOut F det0) = (XLAL_SUCCESS, some src, some stamps) ∧
      XLALAntennaWeightMultiCOMPLEX8TimeSeries env (some none) (some none) (some src) (some am)
        (some stamps) = (XLAL_SUCCESS, some Fa, some Fb) ∧
      (ComputeFstat_Resamp env (some F) (some common) (some c)).resamp =
        some { c with
          prev_doppler := F.doppler
          prev_multiFa_SRC := some Fa
          prev_multiFb_SRC := some Fb } ∧
      (ComputeFstat_Resamp env (some F) (some common) (some c)).calls =
        (if F.doppler.asini > 0 then [Call.AddMultiBinaryTimes] else []) ++
          [.BarycentricResample, .AntennaWeight] := by
  obtain ⟨hatoms, det0, hdet, hb, -⟩ := ComputeFstat_Resamp_success env F common c hok
  have hsky : sameSkyAndRefTime c.prev_doppler F.doppler = true :=
    (sameSkyAndRefTime_iff _ _).mpr houter
  have hbin : ¬ sameBinary c.prev_doppler F.doppler = true := by
    rw [sameBinary_iff]; tauto
  have hbuf : handleBuffering env common c F.doppler (dFreqOut F det0) =
      recomputeBinary env common c F.doppler (dFreqOut F det0) := by
    simp [handleBuffering, hsky, hbin]
  rw [hbuf] at hb
  obtain ⟨src, stamps, Fa, Fb, hres, hw, heq⟩ :=
    recomputeBinary_success env common c F.doppler (dFreqOut F det0) hb
  obtain ⟨htiming, hsrc, hstamps⟩ := XLALBarycentricResampleMulti_success _ _ _ _ _ _ _ hres
  obtain ⟨-, ham, -, hFa, hFb⟩ := XLALAntennaWeightMulti_success _ _ _ _ _ _ hw
  obtain ⟨src, rfl⟩ := Option.isSome_iff_exists.mp hsrc
  obtain ⟨stamps, rfl⟩ := Option.isSome_iff_exists.mp hstamps
  obtain ⟨Fa, rfl⟩ := Option.isSome_iff_exists.mp hFa
  obtain ⟨Fb, rfl⟩ := Option.isSome_iff_exists.mp hFb
  obtain ⟨am, ham⟩ := Option.isSome_iff_exists.mp ham
  have hskysome : ∃ sky, c.prev_multiSSBsky = some sky := by
    cases hs : c.prev_multiSSBsky with
    | none => simp [hs] at htiming
    | some sky => exact ⟨sky, rfl⟩
  obtain ⟨sky, hs⟩ := hskysome
  refine ⟨det0, sky, am, src, stamps, Fa, Fb, hdet, hs, ham, ?_, ?_, ?_, ?_⟩
  · rw [← hres, hs]
    by_cases hasini : F.doppler.asini > 0 <;> simp [hasini]
  · rw [← hw, ham]
  · rw [ComputeFstat_Resamp_eq env F common c det0 hatoms hdet, hbuf, heq]
    simp
  · rw [ComputeFstat_Resamp_eq env F common c det0 hatoms hdet, hbuf, heq]
    simp

/-- C3, at a concrete input: the sample cache filled at sky position `(1, 2)` without
orbit, asked at the same sky position with `asini = 3`. -/
theorem C3_binary_only_witness :
    ∃ Fa Fb,
      (ComputeFstat_Resamp Sample.env (some (Sample.query (Sample.point 1 2 10 3) 0 2 15))
        (some Sample.common)
        (some (Sample.cacheAfter Sample.freshCache
          (Sample.query (Sample.point 1 2 10 0) 0 2 15)))).resamp =
      some { Sample.cacheAfter Sample.freshCache (Sample.query (Sample.point 1 2 10 0) 0 2 15) with
        prev_doppler := Sample.point 1 2 10 3
        prev_multiFa_SRC := some Fa
        prev_multiFb_SRC := some Fb } := by
  obtain ⟨_, _, _, _, _, Fa, Fb, _, _, _, _, _, h, _⟩ :=
    C3_binary_only Sample.env (Sample.query (Sample.point 1 2 10 3) 0 2 15) Sample.common
      (Sample.cacheAfter Sample.freshCache (Sample.query (Sample.point 1 2 10 0) 0 2 15))
      (by decide!) (by decide!) (by decide!)
  exact ⟨Fa, Fb, h⟩

/-- C4: a successful query whose outer key differs from the cached point computes the
sky-only timing and the AM coefficients for the query's sky position, adds the binary
correction iff `asini > 0`, resamples, weights, and replaces the whole entry: the new
cache holds the query point and the four newly computed payloads, none of which depends
on a payload of the old cache. -/
theorem C4_full_recompute (env : Externals) (F : FstatResults) (common : FstatInput_Common)
    (c : FstatInput_Resamp)
    (hok : (ComputeFstat_Resamp env (some F) (some common) (some c)).status = XLAL_SUCCESS)
    (houter : c.prev_doppler.Alpha ≠ F.doppler.Alpha ∨ c.prev_doppler.Delta ≠ F.doppler.Delta ∨
      c.prev_doppler.refTime ≠ F.doppler.refTime) :
    ∃ det0 sky am src stamps Fa Fb,
      c.multiTimeSeries_DET.data.head? = some det0 ∧
      env.XLALGetMultiSSBtimes common.detectorStates ⟨F.doppler.Alpha, F.doppler.Delta⟩
        F.doppler.refTime common.SSBprec = some sky ∧
      env.XLALComputeMultiAMCoeffs common.detectorStates common.noiseWeights
        ⟨F.doppler.Alpha, F.doppler.Delta⟩ = some am ∧
      XLALBarycentricResampleMultiCOMPLEX8TimeSeries env (some none) (some none)
        (some c.multiTimeSeries_DET) common.timestamps
        (if F.doppler.asini > 0 then env.XLALAddMultiBinaryTimes sky F.doppler else some sky)
        (dFreqOut F det0) = (XLAL_SUCCESS, some src, some stamps) ∧
      XLALAntennaWeightMultiCOMPLEX8TimeSeries env (some none) (some none) (some src) (some am)
        (some stamps) = (XLAL_SUCCESS, some Fa, some Fb) ∧
      (ComputeFstat_Resamp env (some F) (some common) (some c)).resamp =
        some ⟨c.multiTimeSeries_DET, F.doppler, some am, some sky, some Fa, some Fb⟩ ∧
      (ComputeFstat_Resamp env (some F) (some common) (some c)).calls =
        [Call.GetMultiSSBtimes] ++
          (if F.doppler.asini > 0 then [Call.AddMultiBinaryTimes] else []) ++
          [.BarycentricResample, .ComputeMultiAMCoeffs, .AntennaWeight] := by
  obtain ⟨hatoms, det0, hdet, hb, -⟩ := ComputeFstat_Resamp_success env F common c hok
  have hsky : ¬ sameSkyAndRefTime c.prev_doppler F.doppler = true := by
    rw [sameSkyAndRefTime_iff]; tauto
  have hbuf : handleBuffering env common c F.doppler (dFreqOut F det0) =
      recomputeSky env common c F.doppler (dFreqOut F det0) := by
    simp [handleBuffering, hsky]
  rw [hbuf] at hb
  obtain ⟨sky, am, src, stamps, Fa, Fb, hsky, ham, hres, hw, heq⟩ :=
    recomputeSky_success env common c F.doppler (dFreqOut F det0) hb
  obtain ⟨-, hsrc, hstamps⟩ := XLALBarycentricResampleMulti_success _ _ _ _ _ _ _ hres
  obtain ⟨-, -, -, hFa, hFb⟩ := XLALAntennaWeightMulti_success _ _ _ _ _ _ hw
  obtain ⟨src, rfl⟩ := Option.isSome_iff_exists.mp hsrc
  obtain ⟨stamps, rfl⟩ := Option.isSome_iff_exists.mp hstamps
  obtain ⟨Fa, rfl⟩ := Option.isSome_iff_exists.mp hFa
  obtain ⟨Fb, rfl⟩ := Option.isSome_iff_exists.mp hFb
  refine ⟨det0, sky, am, src, stamps, Fa, Fb, hdet, hsky, ham, hres, hw, ?_, ?_⟩
  · rw [ComputeFstat_Resamp_eq env F common c det0 hatoms hdet, hbuf, heq]
    simp
  · rw [ComputeFstat_Resamp_eq env F common c det0 hatoms hdet, hbuf, heq]
    simp

/-- C4, at a concrete input: the first query on the fresh sample cache. -/
theorem C4_full_recompute_witness :
    ∃ am sky Fa Fb,
      (ComputeFstat_Resamp Sample.env (some (Sample.query (Sample.point 1 2 10 3) 0 2 15))
        (some Sample.common) (some Sample.freshCache)).resamp =
      some ⟨Sample.multiTimeSeries_DET, Sample.point 1 2 10 3, some am, some sky, some Fa,
        some Fb⟩ := by
  obtain ⟨_, sky, am, _, _, Fa, Fb, _, _, _, _, _, h, _⟩ :=
    C4_full_recompute Sample.env (Sample.query (Sample.point 1 2 10 3) 0 2 15) Sample.common
      Sample.freshCache (by decide!) (by decide!)
  exact ⟨am, sky, Fa, Fb, h⟩

/-! ## Theorems: cache transparency -/

/-- C6, evaluated at a failing input.  The sample cache is filled by a successful query at
sky position `(1, 2)` with the default resolution `1/4`.  The same point is then queried
with resolution `1/8` for one bin: the query takes the full-reuse arm and returns the
amplitude `6 + 21 i` read from the cached four-sample series, whereas the same query on
the fresh cache (full recomputation, eight samples) returns the amplitude `0`. -/
theorem C6_stale_resolution :
    (ComputeFstat_Resamp Sample.env (some (Sample.query (Sample.point 1 2 10 0) 0 2 15))
      (some Sample.common) (some Sample.freshCache)).status = XLAL_SUCCESS ∧
    (ComputeFstat_Resamp Sample.env (some (Sample.query (Sample.point 1 2 10 0) (1 / 8) 1 15))
      (some Sample.common)
      (some (Sample.cacheAfter Sample.freshCache
        (Sample.query (Sample.point 1 2 10 0) 0 2 15)))).branch = some .fullReuse ∧
    (ComputeFstat_Resamp Sample.env (some (Sample.query (Sample.point 1 2 10 0) (1 / 8) 1 15))
      (some Sample.common)
      (some (Sample.cacheAfter Sample.freshCache
        (Sample.query (Sample.point 1 2 10 0) 0 2 15)))).status = XLAL_SUCCESS ∧
    ((ComputeFstat_Resamp Sample.env (some (Sample.query (Sample.point 1 2 10 0) (1 / 8) 1 15))
      (some Sample.common)
      (some (Sample.cacheAfter Sample.freshCache
        (Sample.query (Sample.point 1 2 10 0) 0 2 15)))).Fstats.map fun F => F.Fa)
      = some [⟨6, 21⟩] ∧
    (ComputeFstat_Resamp Sample.env (some (Sample.query (Sample.point 1 2 10 0) (1 / 8) 1 15))
      (some Sample.common) (some Sample.freshCache)).status = XLAL_SUCCESS ∧
    ((ComputeFstat_Resamp Sample.env (some (Sample.query (Sample.point 1 2 10 0) (1 / 8) 1 15))
      (some Sample.common) (some Sample.freshCache)).Fstats.map fun F => F.Fa)
      = some [⟨0, 0⟩] := by
  decide!

/-! ## Theorems: loops -/

theorem forLoop_nil {σ : Type} (body : Nat → σ → XLALStatus × σ) (s : σ) :
    forLoop body [] s = (XLAL_SUCCESS, s) := rfl

theorem forLoop_cons_success {σ : Type} (body : Nat → σ → XLALStatus × σ) (i : Nat)
    (l : List Nat) (s s' : σ) (h : body i s = (XLAL_SUCCESS, s')) :
    forLoop body (i :: l) s = forLoop body l s' := by
  simp [forLoop, h]

theorem forLoop_cons_failure {σ : Type} (body : Nat → σ → XLALStatus × σ) (i : Nat)
    (l : List Nat) (s : σ) (h : (body i s).1 ≠ XLAL_SUCCESS) :
    forLoop body (i :: l) s = body i s := by
  rcases hb : body i s with ⟨st, s'⟩
  rw [hb] at h
  cases st <;> simp [forLoop, hb] at h ⊢

/-- A loop over `l1 ++ l2` that succeeds has succeeded on `l1` and then on `l2`. -/
theorem forLoop_append_success {σ : Type} (body : Nat → σ → XLALStatus × σ)
    (l1 l2 : List Nat) (s s'' : σ) (h : forLoop body (l1 ++ l2) s = (XLAL_SUCCESS, s'')) :
    ∃ s', forLoop body l1 s = (XLAL_SUCCESS, s') ∧ forLoop body l2 s' = (XLAL_SUCCESS, s'') := by
  induction l1 generalizing s with
  | nil => exact ⟨s, rfl, h⟩
  | cons i l ih =>
    rcases hb : body i s with ⟨st, s1⟩
    by_cases hst : st = XLAL_SUCCESS
    · subst hst
      rw [List.cons_append, forLoop_cons_success body i _ s s1 hb] at h
      obtain ⟨s', h1, h2⟩ := ih s1 h
      exact ⟨s', by rw [forLoop_cons_success body i _ s s1 hb]; exact h1, h2⟩
    · have hne : (body i s).1 ≠ XLAL_SUCCESS := by rw [hb]; exact hst
      rw [List.cons_append, forLoop_cons_failure body i _ s hne, hb] at h
      simp at h
      exact absurd h.1 hst

/-- Invariant rule for a counted loop that succeeds. -/
theorem forLoop_range_inv {σ : Type} (body : Nat → σ → XLALStatus × σ) (Inv : Nat → σ → Prop)
    (s : σ) (h0 : Inv 0 s)
    (hstep : ∀ n s1 s2, Inv n s1 → body n s1 = (XLAL_SUCCESS, s2) → Inv (n + 1) s2) :
    ∀ n s', forLoop body (List.range n) s = (XLAL_SUCCESS, s') → Inv n s' := by
  intro n
  induction n with
  | zero =>
    intro s' h
    simp [forLoop] at h
    exact h ▸ h0
  | succ n ih =>
    intro s' h
    rw [List.range_succ] at h
    obtain ⟨s1, h1, h2⟩ := forLoop_append_success body _ _ s s' h
    have hb : body n s1 = (XLAL_SUCCESS, s') := by
      rcases hbody : body n s1 with ⟨st, s2⟩
      by_cases hst : st = XLAL_SUCCESS
      · subst hst
        rw [forLoop_cons_success body n [] s1 s2 hbody, forLoop_nil] at h2
        exact h2
      · have hne : (body n s1).1 ≠ XLAL_SUCCESS := by rw [hbody]; exact hst
        rw [forLoop_cons_failure body n [] s1 hne, hbody] at h2
        simp at h2
        exact absurd h2.1 hst
    exact hstep n s1 s' (ih s1 h1) hb

/-! ## Theorems: the spectral assembly -/

theorem writeAt_eq_some {α : Type} (l l' : List α) (k : Nat) (v : α)
    (h : writeAt l k v = some l') : k < l.length ∧ l' = l.set k v := by
  unfold writeAt at h
  split_ifs at h with hk
  exact ⟨hk, (Option.some.inj h).symm⟩

theorem writeAt2_eq_some {α : Type} (l l' : List (List α)) (X k : Nat) (v : α)
    (h : writeAt2 l X k v = some l') :
    ∃ row, l[X]? = some row ∧ k < row.length ∧ l' = l.set X (row.set k v) := by
  unfold writeAt2 at h
  cases hrow : l[X]? with
  | none => simp [hrow] at h
  | some row =>
    simp only [hrow, Option.map_eq_some'] at h
    obtain ⟨row', hw, rfl⟩ := h
    obtain ⟨hk, rfl⟩ := writeAt_eq_some _ _ _ _ hw
    exact ⟨row, rfl, hk, rfl⟩

/-- After a store at `[X][k]`, that entry holds the stored value and every other entry is
as before. -/
theorem readAt2_writeAt2 {α : Type} (l l' : List (List α)) (X k : Nat) (v : α)
    (h : writeAt2 l X k v = some l') (X' k' : Nat) :
    readAt2 l' X' k' = if X' = X ∧ k' = k then some v else readAt2 l X' k' := by
  obtain ⟨row, hrow, hk, rfl⟩ := writeAt2_eq_some l l' X k v h
  have hX : X < l.length := (List.getElem?_eq_some_iff.mp hrow).1
  unfold readAt2
  by_cases hXX : X' = X
  · subst hXX
    by_cases hkk : k' = k
    · subst hkk
      simp [hX, hk]
    · simp [hX, hkk, hrow, List.getElem?_set, Ne.symm hkk]
  · simp [hXX, List.getElem?_set, Ne.symm hXX]

/-- A store at `[X][k]` keeps the length of every row. -/
theorem writeAt2_shape {α : Type} (l l' : List (List α)) (X k : Nat) (v : α)
    (h : writeAt2 l X k v = some l') : l'.map List.length = l.map List.length := by
  obtain ⟨row, hrow, hk, rfl⟩ := writeAt2_eq_some l l' X k v h
  have hX := (List.getElem?_eq_some_iff.mp hrow).1
  apply List.ext_getElem?
  intro i
  simp only [List.getElem?_map, List.getElem?_set]
  by_cases hi : X = i
  · subst hi
    simp [hrow, hX]
  · simp [hi]

theorem SameCombined.refl (F : FstatResults) : SameCombined F F :=
  ⟨rfl, rfl, rfl, rfl, rfl, rfl, rfl, rfl⟩

theorem SameCombined.trans {F G H : FstatResults} (h1 : SameCombined F G)
    (h2 : SameCombined G H) : SameCombined F H :=
  ⟨h2.doppler.trans h1.doppler, h2.dFreq.trans h1.dFreq, h2.numFreqBins.trans h1.numFreqBins,
    h2.whatWasComputed.trans h1.whatWasComputed, h2.Mmunu.trans h1.Mmunu,
    h2.twoF.trans h1.twoF, h2.Fa.trans h1.Fa, h2.Fb.trans h1.Fb⟩

/-- What one successful iteration of the bin loop does. -/
theorem binBody_success (env : Externals) (what : FstatQuantities) (dt : REAL8)
    (offset_bins : UINT4) (outaX outbX : List COMPLEX8) (A B C E Dinv : REAL4) (X k : Nat)
    (s s' : BinState)
    (h : binBody env what dt offset_bins outaX outbX A B C E Dinv X k s = (XLAL_SUCCESS, s')) :
    ∃ va vb, outaX[wrapUINT4 (k + offset_bins)]? = some va ∧
      outbX[wrapUINT4 (k + offset_bins)]? = some vb ∧
      s'.Fa_k = s.Fa_k.set k (s.Fa_k.getD k 0 + dt * va) ∧
      s'.Fb_k = s.Fb_k.set k (s.Fb_k.getD k 0 + dt * vb) ∧
      (if hasFlag what FSTATQ_FAFB_PER_DET = true then
        writeAt2 s.Fstats.FaPerDet X k (dt * va) = some s'.Fstats.FaPerDet ∧
        writeAt2 s.Fstats.FbPerDet X k (dt * vb) = some s'.Fstats.FbPerDet
       else s'.Fstats.FaPerDet = s.Fstats.FaPerDet ∧ s'.Fstats.FbPerDet = s.Fstats.FbPerDet) ∧
      (if hasFlag what FSTATQ_2F_PER_DET = true then
        writeAt2 s.Fstats.twoFPerDet X k
          (env.XLALComputeFstatFromFaFb (dt * va) (dt * vb) A B C E Dinv)
          = some s'.Fstats.twoFPerDet
       else s'.Fstats.twoFPerDet = s.Fstats.twoFPerDet) ∧
      SameCombined s.Fstats s'.Fstats := by
  unfold binBody at h
  simp only [] at h
  cases ha : outaX[wrapUINT4 (k + offset_bins)]? with
  | none => simp [ha] at h
  | some va =>
    cases hb : outbX[wrapUINT4 (k + offset_bins)]? with
    | none => simp [ha, hb] at h
    | some vb =>
      simp only [ha, hb] at h
      refine ⟨va, vb, rfl, rfl, ?_⟩
      cases hf1 : hasFlag what FSTATQ_FAFB_PER_DET <;>
        cases hf2 : hasFlag what FSTATQ_2F_PER_DET <;>
        simp only [hf1, hf2, if_true, if_false, Bool.false_eq_true] at h ⊢
      · injection h with _ h2
        subst h2
        exact ⟨rfl, rfl, ⟨rfl, rfl⟩, rfl, ⟨rfl, rfl, rfl, rfl, rfl, rfl, rfl, rfl⟩⟩
      · cases hw3 : writeAt2 s.Fstats.twoFPerDet X k
            (env.XLALComputeFstatFromFaFb (dt * va) (dt * vb) A B C E Dinv) with
        | none => simp [hw3] at h
        | some t =>
          simp only [hw3, Option.map_some'] at h
          injection h with _ h2
          subst h2
          exact ⟨rfl, rfl, ⟨rfl, rfl⟩, rfl, ⟨rfl, rfl, rfl, rfl, rfl, rfl, rfl, rfl⟩⟩
      · cases hw1 : writeAt2 s.Fstats.FaPerDet X k (dt * va) with
        | none => simp [hw1] at h
        | some fa =>
          cases hw2 : writeAt2 s.Fstats.FbPerDet X k (dt * vb) with
          | none => simp [hw1, hw2] at h
          | some fb =>
            simp only [hw1, hw2, Option.some_bind, Option.map_some'] at h
            injection h with _ h2
            subst h2
            exact ⟨rfl, rfl, ⟨rfl, rfl⟩, rfl, ⟨rfl, rfl, rfl, rfl, rfl, rfl, rfl, rfl⟩⟩
      · cases hw1 : writeAt2 s.Fstats.FaPerDet X k (dt * va) with
        | none => simp [hw1] at h
        | some fa =>
          cases hw2 : writeAt2 s.Fstats.FbPerDet X k (dt * vb) with
          | none => simp [hw1, hw2] at h
          | some fb =>
            simp only [hw1, hw2, Option.some_bind, Option.map_some'] at h
            cases hw3 : writeAt2 s.Fstats.twoFPerDet X k
                (env.XLALComputeFstatFromFaFb (dt * va) (dt * vb) A B C E Dinv) with
            | none => simp [hw3] at h
            | some t =>
              simp only [hw3, Option.map_some'] at h
              injection h with _ h2
              subst h2
              exact ⟨rfl, rfl, ⟨rfl, rfl⟩, rfl, ⟨rfl, rfl, rfl, rfl, rfl, rfl, rfl, rfl⟩⟩

theorem getD_set_self_or {α : Type} (l : List α) (n k : Nat) (v d : α) (hn : n < l.length) :
    (l.set n v).getD k d = if k = n then v else l.getD k d := by
  simp only [List.getD_eq_getElem?_getD, List.getElem?_set]
  by_cases h : n = k
  · subst h; simp [hn]
  · simp [h, Ne.symm h]

/-- The bin loop of one detector, after `n` successful iterations. -/
theorem binLoop_inv (env : Externals) (what : FstatQuantities) (dt : REAL8)
    (offset_bins : UINT4) (outaX outbX : List COMPLEX8) (A B C E Dinv : REAL4) (X m : Nat)
    (s0 : BinState) (hma : m ≤ s0.Fa_k.length) (hmb : m ≤ s0.Fb_k.length) (n : Nat)
    (s : BinState)
    (h : forLoop (binBody env what dt offset_bins outaX outbX A B C E Dinv X) (List.range n) s0
      = (XLAL_SUCCESS, s)) (hn : n ≤ m) :
    BinInv what (fun k => dt * outaX.getD (wrapUINT4 (k + offset_bins)) 0)
      (fun k => dt * outbX.getD (wrapUINT4 (k + offset_bins)) 0)
      (fun k => env.XLALComputeFstatFromFaFb (dt * outaX.getD (wrapUINT4 (k + offset_bins)) 0)
        (dt * outbX.getD (wrapUINT4 (k + offset_bins)) 0) A B C E Dinv) X n s0 s := by
  refine forLoop_range_inv (binBody env what dt offset_bins outaX outbX A B C E Dinv X)
    (fun n s => n ≤ m → BinInv what (fun k => dt * outaX.getD (wrapUINT4 (k + offset_bins)) 0)
      (fun k => dt * outbX.getD (wrapUINT4 (k + offset_bins)) 0)
      (fun k => env.XLALComputeFstatFromFaFb (dt * outaX.getD (wrapUINT4 (k + offset_bins)) 0)
        (dt * outbX.getD (wrapUINT4 (k + offset_bins)) 0) A B C E Dinv) X n s0 s)
    s0 ?_ ?_ n s h hn
  · intro _
    exact
      { lenFa := rfl
        lenFb := rfl
        accFa := fun k => by simp
        accFb := fun k => by simp
        perDetFa := fun X' k => by simp
        perDetFb := fun X' k => by simp
        perDet2F := fun X' k => by simp
        shapeFa := rfl
        shapeFb := rfl
        shape2F := rfl
        same := SameCombined.refl _ }
  · intro n s1 s2 ih hbody hn1
    have inv := ih (Nat.le_of_succ_le hn1)
    obtain ⟨va, vb, ha, hb, hFa, hFb, hpd, h2f, hsame⟩ :=
      binBody_success env what dt offset_bins outaX outbX A B C E Dinv X n s1 s2 hbody
    have hva : outaX.getD (wrapUINT4 (n + offset_bins)) 0 = va := by
      simp [List.getD_eq_getElem?_getD, ha]
    have hvb : outbX.getD (wrapUINT4 (n + offset_bins)) 0 = vb := by
      simp [List.getD_eq_getElem?_getD, hb]
    have hna : n < s1.Fa_k.length := by rw [inv.lenFa]; omega
    have hnb : n < s1.Fb_k.length := by rw [inv.lenFb]; omega
    refine
      { lenFa := by rw [hFa, List.length_set, inv.lenFa]
        lenFb := by rw [hFb, List.length_set, inv.lenFb]
        accFa := ?_
        accFb := ?_
        perDetFa := ?_
        perDetFb := ?_
        perDet2F := ?_
        shapeFa := ?_
        shapeFb := ?_
        shape2F := ?_
        same := inv.same.trans hsame }
    · intro k
      rw [hFa, getD_set_self_or _ _ _ _ _ hna, inv.accFa k]
      by_cases hk : k = n
      · subst hk
        have h0 := inv.accFa k
        simp only [lt_irrefl, if_false] at h0
        simp only [if_true, Nat.lt_succ_self, h0, hva]
      · by_cases hlt : k < n
        · simp [hk, hlt, Nat.lt_succ_of_lt hlt]
        · have : ¬ k < n + 1 := by omega
          simp [hk, hlt, this]
    · intro k
      rw [hFb, getD_set_self_or _ _ _ _ _ hnb, inv.accFb k]
      by_cases hk : k = n
      · subst hk
        have h0 := inv.accFb k
        simp only [lt_irrefl, if_false] at h0
        simp only [if_true, Nat.lt_succ_self, h0, hvb]
      · by_cases hlt : k < n
        · simp [hk, hlt, Nat.lt_succ_of_lt hlt]
        · have : ¬ k < n + 1 := by omega
          simp [hk, hlt, this]
    · intro X' k
      by_cases hf : hasFlag what FSTATQ_FAFB_PER_DET = true
      · simp only [hf, if_true] at hpd
        rw [readAt2_writeAt2 _ _ _ _ _ hpd.1 X' k, inv.perDetFa X' k]
        by_cases hX : X' = X
        · by_cases hk : k = n
          · subst hk; simp [hf, hX, ha]
          · by_cases hlt : k < n
            · simp [hf, hX, hk, hlt, Nat.lt_succ_of_lt hlt]
            · have : ¬ k < n + 1 := by omega
              simp [hf, hX, hk, hlt, this]
        · simp [hX]
      · simp only [hf, if_false] at hpd
        rw [hpd.1, inv.perDetFa X' k]
        simp [hf]
    · intro X' k
      by_cases hf : hasFlag what FSTATQ_FAFB_PER_DET = true
      · simp only [hf, if_true] at hpd
        rw [readAt2_writeAt2 _ _ _ _ _ hpd.2 X' k, inv.perDetFb X' k]
        by_cases hX : X' = X
        · by_cases hk : k = n
          · subst hk; simp [hf, hX, hb]
          · by_cases hlt : k < n
            · simp [hf, hX, hk, hlt, Nat.lt_succ_of_lt hlt]
            · have : ¬ k < n + 1 := by omega
              simp [hf, hX, hk, hlt, this]
        · simp [hX]
      · simp only [hf, if_false] at hpd
        rw [hpd.2, inv.perDetFb X' k]
        simp [hf]
    · intro X' k
      by_cases hf : hasFlag what FSTATQ_2F_PER_DET = true
      · simp only [hf, if_true] at h2f
        rw [readAt2_writeAt2 _ _ _ _ _ h2f X' k, inv.perDet2F X' k]
        by_cases hX : X' = X
        · by_cases hk : k = n
          · subst hk; simp [hf, hX, ha, hb]
          · by_cases hlt : k < n
            · simp [hf, hX, hk, hlt, Nat.lt_succ_of_lt hlt]
            · have : ¬ k < n + 1 := by omega
              simp [hf, hX, hk, hlt, this]
        · simp [hX]
      · simp only [hf, if_false] at h2f
        rw [h2f, inv.perDet2F X' k]
        simp [hf]
    · by_cases hf : hasFlag what FSTATQ_FAFB_PER_DET = true
      · simp only [hf, if_true] at hpd
        rw [writeAt2_shape _ _ _ _ _ hpd.1, inv.shapeFa]
      · simp only [hf, if_false] at hpd
        rw [hpd.1, inv.shapeFa]
    · by_cases hf : hasFlag what FSTATQ_FAFB_PER_DET = true
      · simp only [hf, if_true] at hpd
        rw [writeAt2_shape _ _ _ _ _ hpd.2, inv.shapeFb]
      · simp only [hf, if_false] at hpd
        rw [hpd.2, inv.shapeFb]
    · by_cases hf : hasFlag what FSTATQ_2F_PER_DET = true
      · simp only [hf, if_true] at h2f
        rw [writeAt2_shape _ _ _ _ _ h2f, inv.shape2F]
      · simp only [hf, if_false] at h2f
        rw [h2f, inv.shape2F]

theorem sumDetectors_zero (f : Nat → COMPLEX8) : sumDetectors 0 f = 0 := rfl

theorem sumDetectors_succ (M : Nat) (f : Nat → COMPLEX8) :
    sumDetectors (M + 1) f = sumDetectors M f + f M := by
  unfold sumDetectors
  rw [List.range_succ, List.map_append, List.foldl_append]
  rfl

/-- What a successful iteration of the detector loop consists of. -/
theorem detectorBody_success (env : Externals) (what : FstatQuantities) (dt : REAL8)
    (offset_bins numSamples numFreqBins : UINT4)
    (multiFa_spin multiFb_spin : MultiCOMPLEX8TimeSeries) (multiAMcoef : MultiAMCoeffs)
    (X : Nat) (s s' : BinState)
    (h : detectorBody env what dt offset_bins numSamples numFreqBins multiFa_spin multiFb_spin
      multiAMcoef X s = (XLAL_SUCCESS, s')) :
    ∃ ina inb outaX outbX amX,
      multiFa_spin.data[X]? = some ina ∧ multiFb_spin.data[X]? = some inb ∧
      detectorTransforms env numSamples ina.data inb.data = some (outaX, outbX) ∧
      multiAMcoef.data[X]? = some amX ∧
      forLoop (binBody env what dt offset_bins outaX outbX amX.A amX.B amX.C 0 (1 / amX.D) X)
        (List.range numFreqBins) s = (XLAL_SUCCESS, s') := by
  unfold detectorBody at h
  cases ha : multiFa_spin.data[X]? with
  | none => simp [ha] at h
  | some ina =>
    cases hb : multiFb_spin.data[X]? with
    | none => simp [ha, hb] at h
    | some inb =>
      simp only [ha, hb] at h
      cases ht : detectorTransforms env numSamples ina.data inb.data with
      | none => simp [ht] at h
      | some outs =>
        obtain ⟨outaX, outbX⟩ := outs
        simp only [ht] at h
        cases hm : multiAMcoef.data[X]? with
        | none => simp [hm] at h
        | some amX =>
          simp only [hm] at h
          exact ⟨ina, inb, outaX, outbX, amX, rfl, rfl, ht, rfl, h⟩

/-- The detector loop, after `M` successful iterations. -/
theorem detLoop_inv (env : Externals) (what : FstatQuantities) (dt : REAL8)
    (offset_bins numSamples n : UINT4)
    (multiFa_spin multiFb_spin : MultiCOMPLEX8TimeSeries) (multiAMcoef : MultiAMCoeffs)
    (F0 : FstatResults) (M : Nat) (s : BinState)
    (h : forLoop (detectorBody env what dt offset_bins numSamples n multiFa_spin multiFb_spin
      multiAMcoef) (List.range M) ⟨List.replicate n 0, List.replicate n 0, F0⟩
      = (XLAL_SUCCESS, s)) :
    DetInv what (FaX_k env dt offset_bins numSamples multiFa_spin multiFb_spin)
      (FbX_k env dt offset_bins numSamples multiFa_spin multiFb_spin)
      (twoFX_k env multiAMcoef dt offset_bins numSamples multiFa_spin multiFb_spin) n M F0 s := by
  refine forLoop_range_inv (detectorBody env what dt offset_bins numSamples n multiFa_spin
    multiFb_spin multiAMcoef)
    (fun M s => DetInv what (FaX_k env dt offset_bins numSamples multiFa_spin multiFb_spin)
      (FbX_k env dt offset_bins numSamples multiFa_spin multiFb_spin)
      (twoFX_k env multiAMcoef dt offset_bins numSamples multiFa_spin multiFb_spin) n M F0 s)
    _ ?_ ?_ M s h
  · exact
      { lenFa := by simp
        lenFb := by simp
        sumFa := fun k hk => by
          simp [sumDetectors_zero, List.getD_eq_getElem?_getD, List.getElem?_replicate, hk]
        sumFb := fun k hk => by
          simp [sumDetectors_zero, List.getD_eq_getElem?_getD, List.getElem?_replicate, hk]
        perDetFa := fun X k => by simp
        perDetFb := fun X k => by simp
        perDet2F := fun X k => by simp
        shapeFa := rfl
        shapeFb := rfl
        shape2F := rfl
        same := SameCombined.refl _ }
  · intro M s1 s2 inv hbody
    obtain ⟨ina, inb, outaX, outbX, amX, ha, hb, ht, hm, hloop⟩ :=
      detectorBody_success env what dt offset_bins numSamples n multiFa_spin multiFb_spin
        multiAMcoef M s1 s2 hbody
    have hbin := binLoop_inv env what dt offset_bins outaX outbX amX.A amX.B amX.C 0
      (1 / amX.D) M n s1 (le_of_eq inv.lenFa.symm) (le_of_eq inv.lenFb.symm) n s2 hloop
      (le_refl n)
    have htr : transformsOf env numSamples multiFa_spin multiFb_spin M = (outaX, outbX) := by
      simp [transformsOf, ha, hb, ht]
    have hfa : ∀ k, FaX_k env dt offset_bins numSamples multiFa_spin multiFb_spin M k =
        dt * outaX.getD (wrapUINT4 (k + offset_bins)) 0 := by
      intro k; simp only [FaX_k, htr]
    have hfb : ∀ k, FbX_k env dt offset_bins numSamples multiFa_spin multiFb_spin M k =
        dt * outbX.getD (wrapUINT4 (k + offset_bins)) 0 := by
      intro k; simp only [FbX_k, htr]
    have htf : ∀ k, twoFX_k env multiAMcoef dt offset_bins numSamples multiFa_spin
        multiFb_spin M k =
        env.XLALComputeFstatFromFaFb (dt * outaX.getD (wrapUINT4 (k + offset_bins)) 0)
          (dt * outbX.getD (wrapUINT4 (k + offset_bins)) 0) amX.A amX.B amX.C 0 (1 / amX.D) := by
      intro k; simp only [twoFX_k, hm, hfa, hfb]
    refine
      { lenFa := hbin.lenFa.trans inv.lenFa
        lenFb := hbin.lenFb.trans inv.lenFb
        sumFa := ?_
        sumFb := ?_
        perDetFa := ?_
        perDetFb := ?_
        perDet2F := ?_
        shapeFa := hbin.shapeFa.trans inv.shapeFa
        shapeFb := hbin.shapeFb.trans inv.shapeFb
        shape2F := hbin.shape2F.trans inv.shape2F
        same := inv.same.trans hbin.same }
    · intro k hk
      rw [hbin.accFa k, if_pos hk, inv.sumFa k hk, sumDetectors_succ, hfa]
    · intro k hk
      rw [hbin.accFb k, if_pos hk, inv.sumFb k hk, sumDetectors_succ, hfb]
    · intro X k
      rw [hbin.perDetFa X k, inv.perDetFa X k]
      by_cases hf : hasFlag what FSTATQ_FAFB_PER_DET = true <;>
        by_cases hk : k < n <;> by_cases hX : X = M
      all_goals first
        | (subst hX; simp [hf, hk, hfa])
        | (have h1 : X < M + 1 ↔ X < M := by omega
           simp [hf, hk, hX, h1])
    · intro X k
      rw [hbin.perDetFb X k, inv.perDetFb X k]
      by_cases hf : hasFlag what FSTATQ_FAFB_PER_DET = true <;>
        by_cases hk : k < n <;> by_cases hX : X = M
      all_goals first
        | (subst hX; simp [hf, hk, hfb])
        | (have h1 : X < M + 1 ↔ X < M := by omega
           simp [hf, hk, hX, h1])
    · intro X k
      rw [hbin.perDet2F X k, inv.perDet2F X k]
      by_cases hf : hasFlag what FSTATQ_2F_PER_DET = true <;>
        by_cases hk : k < n <;> by_cases hX : X = M
      all_goals first
        | (subst hX; simp [hf, hk, htf])
        | (have h1 : X < M + 1 ↔ X < M := by omega
           simp [hf, hk, hX, h1])

theorem getElem?_set_lt {α : Type} (l : List α) (n k : Nat) (v : α) (hn : n < l.length) :
    (l.set n v)[k]? = if k = n then some v else l[k]? := by
  rw [List.getElem?_set]
  by_cases h : n = k
  · subst h; simp [hn]
  · simp [h, Ne.symm h]

/-- The loop that copies the summed amplitudes, after `n` successful iterations. -/
theorem storeFaFb_inv (Fa_k Fb_k : List COMPLEX8) (F : FstatResults) (n : Nat)
    (F' : FstatResults)
    (h : forLoop (storeFaFb Fa_k Fb_k) (List.range n) F = (XLAL_SUCCESS, F')) :
    F' = { F with Fa := F'.Fa, Fb := F'.Fb } ∧
    F'.Fa.length = F.Fa.length ∧ F'.Fb.length = F.Fb.length ∧
    (∀ k, F'.Fa[k]? = if k < n then some (Fa_k.getD k 0) else F.Fa[k]?) ∧
    (∀ k, F'.Fb[k]? = if k < n then some (Fb_k.getD k 0) else F.Fb[k]?) := by
  refine forLoop_range_inv (storeFaFb Fa_k Fb_k)
    (fun n F' => F' = { F with Fa := F'.Fa, Fb := F'.Fb } ∧
      F'.Fa.length = F.Fa.length ∧ F'.Fb.length = F.Fb.length ∧
      (∀ k, F'.Fa[k]? = if k < n then some (Fa_k.getD k 0) else F.Fa[k]?) ∧
      (∀ k, F'.Fb[k]? = if k < n then some (Fb_k.getD k 0) else F.Fb[k]?))
    F ?_ ?_ n F' h
  · exact ⟨rfl, rfl, rfl, fun k => by simp, fun k => by simp⟩
  · intro n F1 F2 ⟨hframe, hla, hlb, hFa, hFb⟩ hbody
    unfold storeFaFb at hbody
    cases hwa : writeAt F1.Fa n (Fa_k.getD n 0) with
    | none => rw [hwa] at hbody; simp at hbody
    | some fa =>
      cases hwb : writeAt F1.Fb n (Fb_k.getD n 0) with
      | none => rw [hwa, hwb] at hbody; simp at hbody
      | some fb =>
        simp only [hwa, hwb] at hbody
        injection hbody with _ h2
        subst h2
        obtain ⟨hna, rfl⟩ := writeAt_eq_some _ _ _ _ hwa
        obtain ⟨hnb, rfl⟩ := writeAt_eq_some _ _ _ _ hwb
        refine ⟨?_, ?_, ?_, ?_, ?_⟩
        · simp only
          rw [hframe]
        · simp only [List.length_set, hla]
        · simp only [List.length_set, hlb]
        · intro k
          simp only
          rw [getElem?_set_lt _ _ _ _ hna, hFa k]
          by_cases hk : k = n
          · subst hk; simp
          · by_cases hlt : k < n
            · simp [hk, hlt, Nat.lt_succ_of_lt hlt]
            · have : ¬ k < n + 1 := by omega
              simp [hk, hlt, this]
        · intro k
          simp only
          rw [getElem?_set_lt _ _ _ _ hnb, hFb k]
          by_cases hk : k = n
          · subst hk; simp
          · by_cases hlt : k < n
            · simp [hk, hlt, Nat.lt_succ_of_lt hlt]
            · have : ¬ k < n + 1 := by omega
              simp [hk, hlt, this]

/-- The loop that stores the combined statistic, after `n` successful iterations. -/
theorem storeTwoF_inv (env : Externals) (Fa_k Fb_k : List COMPLEX8) (Ad Bd Cd Ed Dd_inv : REAL4)
    (F : FstatResults) (n : Nat) (F' : FstatResults)
    (h : forLoop (storeTwoF env Fa_k Fb_k Ad Bd Cd Ed Dd_inv) (List.range n) F
      = (XLAL_SUCCESS, F')) :
    F' = { F with twoF := F'.twoF } ∧ F'.twoF.length = F.twoF.length ∧
    (∀ k, F'.twoF[k]? =
      if k < n then
        some (env.XLALComputeFstatFromFaFb (Fa_k.getD k 0) (Fb_k.getD k 0) Ad Bd Cd Ed Dd_inv)
      else F.twoF[k]?) := by
  refine forLoop_range_inv (storeTwoF env Fa_k Fb_k Ad Bd Cd Ed Dd_inv)
    (fun n F' => F' = { F with twoF := F'.twoF } ∧ F'.twoF.length = F.twoF.length ∧
      (∀ k, F'.twoF[k]? =
        if k < n then
          some (env.XLALComputeFstatFromFaFb (Fa_k.getD k 0) (Fb_k.getD k 0) Ad Bd Cd Ed Dd_inv)
        else F.twoF[k]?))
    F ?_ ?_ n F' h
  · exact ⟨rfl, rfl, fun k => by simp⟩
  · intro n F1 F2 ⟨hframe, hl, hT⟩ hbody
    unfold storeTwoF at hbody
    cases hw : writeAt F1.twoF n
        (env.XLALComputeFstatFromFaFb (Fa_k.getD n 0) (Fb_k.getD n 0) Ad Bd Cd Ed Dd_inv) with
    | none => rw [hw] at hbody; simp at hbody
    | some t =>
      simp only [hw] at hbody
      injection hbody with _ h2
      subst h2
      obtain ⟨hn, rfl⟩ := writeAt_eq_some _ _ _ _ hw
      refine ⟨?_, ?_, ?_⟩
      · simp only
        rw [hframe]
      · simp only [List.length_set, hl]
      · intro k
        simp only
        rw [getElem?_set_lt _ _ _ _ hn, hT k]
        by_cases hk : k = n
        · subst hk; simp
        · by_cases hlt : k < n
          · simp [hk, hlt, Nat.lt_succ_of_lt hlt]
          · have : ¬ k < n + 1 := by omega
            simp [hk, hlt, this]

/-- Every detector passed by a successful detector loop has its two series, its
transforms and its AM coefficients. -/
theorem detLoop_defined (env : Externals) (what : FstatQuantities) (dt : REAL8)
    (offset_bins numSamples n : UINT4)
    (multiFa_spin multiFb_spin : MultiCOMPLEX8TimeSeries) (multiAMcoef : MultiAMCoeffs)
    (s0 : BinState) (M : Nat) (s : BinState)
    (h : forLoop (detectorBody env what dt offset_bins numSamples n multiFa_spin multiFb_spin
      multiAMcoef) (List.range M) s0 = (XLAL_SUCCESS, s)) :
    ∀ X, X < M → ∃ ina inb outs amX,
      multiFa_spin.data[X]? = some ina ∧ multiFb_spin.data[X]? = some inb ∧
      detectorTransforms env numSamples ina.data inb.data = some outs ∧
      multiAMcoef.data[X]? = some amX := by
  refine forLoop_range_inv (detectorBody env what dt offset_bins numSamples n multiFa_spin
    multiFb_spin multiAMcoef)
    (fun M _ => ∀ X, X < M → ∃ ina inb outs amX,
      multiFa_spin.data[X]? = some ina ∧ multiFb_spin.data[X]? = some inb ∧
      detectorTransforms env numSamples ina.data inb.data = some outs ∧
      multiAMcoef.data[X]? = some amX)
    s0 ?_ ?_ M s h
  · intro X hX
    exact absurd hX (Nat.not_lt_zero X)
  · intro M s1 s2 ih hbody X hX
    by_cases hlt : X < M
    · exact ih X hlt
    · have hXM : X = M := by omega
      subst hXM
      obtain ⟨ina, inb, outaX, outbX, amX, ha, hb, ht, hm, -⟩ :=
        detectorBody_success env what dt offset_bins numSamples n multiFa_spin multiFb_spin
          multiAMcoef X s1 s2 hbody
      exact ⟨ina, inb, (outaX, outbX), amX, ha, hb, ht, hm⟩

/-- Shape of a successful spectral assembly. -/
theorem spectralAssemble_success (env : Externals) (F : FstatResults) (N : UINT4)
    (det0 : COMPLEX8TimeSeries) (dF : REAL8) (am0 : Option MultiAMCoeffs)
    (fa0 fb0 : Option MultiCOMPLEX8TimeSeries)
    (h : (spectralAssemble env F N det0 dF am0 fa0 fb0).1 = XLAL_SUCCESS) :
    ∃ am fa fb Fa0, am0 = some am ∧
      spinCopies env F.doppler (fracShift det0.f0 (F.doppler.fkdot.getD 0 0) dF) fa0 fb0
        = some (fa, fb) ∧
      fa.data.head? = some Fa0 ∧
      Assembled env F N dF am fa fb Fa0 (spectralAssemble env F N det0 dF am0 fa0 fb0).2 := by
  unfold spectralAssemble at h ⊢
  cases am0 with
  | none => simp at h
  | some am =>
    simp only [] at h ⊢
    cases hsp : spinCopies env F.doppler (fracShift det0.f0 (F.doppler.fkdot.getD 0 0) dF)
        fa0 fb0 with
    | none => rw [hsp] at h; simp at h
    | some p =>
      obtain ⟨fa, fb⟩ := p
      simp only [hsp] at h ⊢
      cases hhead : fa.data.head? with
      | none => rw [hhead] at h; simp at h
      | some Fa0 =>
        simp only [hhead] at h ⊢
        refine ⟨am, fa, fb, Fa0, rfl, rfl, hhead, ?_⟩
        cases h1 : env.XLALCreateCOMPLEX8Vector Fa0.data.length
        · simp only [h1, Bool.false_eq_true, not_false_eq_true, if_true] at h
          simp at h
        cases h2 : env.XLALCreateCOMPLEX8FFTPlan Fa0.data.length
        · simp only [h1, h2, Bool.false_eq_true, not_false_eq_true, not_true_eq_false,
            if_true, if_false] at h
          simp at h
        cases h3 : env.XLALCalloc F.numFreqBins
        · simp only [h1, h2, h3, Bool.false_eq_true, not_false_eq_true, not_true_eq_false,
            if_true, if_false] at h
          simp at h
        simp only [h1, h2, h3, not_true_eq_false, if_false] at h ⊢
        rcases hloop : forLoop (detectorBody env F.whatWasComputed Fa0.deltaT
            (offsetBins env Fa0.f0 (F.doppler.fkdot.getD 0 0) dF Fa0.data.length)
            Fa0.data.length F.numFreqBins fa fb am) (List.range N)
            ⟨List.replicate F.numFreqBins 0, List.replicate F.numFreqBins 0, F⟩ with ⟨st, s⟩
        simp only [hloop] at h ⊢
        have hsst : st = XLAL_SUCCESS := by
          cases st <;> first | rfl | (simp at h)
        subst hsst
        simp only [] at h ⊢
        have hdef := detLoop_defined env F.whatWasComputed Fa0.deltaT
          (offsetBins env Fa0.f0 (F.doppler.fkdot.getD 0 0) dF Fa0.data.length)
          Fa0.data.length F.numFreqBins fa fb am _ N s hloop
        have hdet := detLoop_inv env F.whatWasComputed Fa0.deltaT
          (offsetBins env Fa0.f0 (F.doppler.fkdot.getD 0 0) dF Fa0.data.length)
          Fa0.data.length F.numFreqBins fa fb am F N s hloop
        -- the copy of the summed amplitudes
        rcases hst1 : (if hasFlag F.whatWasComputed FSTATQ_FAFB = true then
            forLoop (storeFaFb s.Fa_k s.Fb_k) (List.range F.numFreqBins) s.Fstats
          else (XLAL_SUCCESS, s.Fstats)) with ⟨st1, F1⟩
        simp only [hst1] at h ⊢
        have hsst1 : st1 = XLAL_SUCCESS := by
          cases st1 <;> first | rfl | (simp at h)
        subst hsst1
        simp only [] at h ⊢
        rcases hst2 : (if hasFlag F.whatWasComputed FSTATQ_2F = true then
            forLoop (storeTwoF env s.Fa_k s.Fb_k am.Mmunu.Ad am.Mmunu.Bd am.Mmunu.Cd am.Mmunu.Ed
              (1 / am.Mmunu.Dd)) (List.range F.numFreqBins) F1
          else (XLAL_SUCCESS, F1)) with ⟨st2, F2⟩
        simp only [hst2] at h ⊢
        have hsst2 : st2 = XLAL_SUCCESS := by
          cases st2 <;> first | rfl | (simp at h)
        subst hsst2
        simp only [] at h ⊢
        cases hat : hasFlag F.whatWasComputed FSTATQ_ATOMS_PER_DET
        swap
        · simp only [hat, if_true] at h
          simp at h
        simp only [hat, Bool.false_eq_true, if_false] at h ⊢
        -- facts about F1
        have hF1 : F1 = { s.Fstats with Fa := F1.Fa, Fb := F1.Fb } ∧
            F1.Fa.length = s.Fstats.Fa.length ∧ F1.Fb.length = s.Fstats.Fb.length ∧
            (∀ k, F1.Fa[k]? = if hasFlag F.whatWasComputed FSTATQ_FAFB = true ∧
              k < F.numFreqBins then some (s.Fa_k.getD k 0) else s.Fstats.Fa[k]?) ∧
            (∀ k, F1.Fb[k]? = if hasFlag F.whatWasComputed FSTATQ_FAFB = true ∧
              k < F.numFreqBins then some (s.Fb_k.getD k 0) else s.Fstats.Fb[k]?) := by
          by_cases hf : hasFlag F.whatWasComputed FSTATQ_FAFB = true
          · simp only [hf, if_true] at hst1
            simpa [hf] using storeFaFb_inv s.Fa_k s.Fb_k s.Fstats F.numFreqBins F1 hst1
          · simp only [hf, if_false] at hst1
            injection hst1 with _ h2
            subst h2
            simp [hf]
        have hF2 : F2 = { F1 with twoF := F2.twoF } ∧ F2.twoF.length = F1.twoF.length ∧
            (∀ k, F2.twoF[k]? = if hasFlag F.whatWasComputed FSTATQ_2F = true ∧
              k < F.numFreqBins then
                some (env.XLALComputeFstatFromFaFb (s.Fa_k.getD k 0) (s.Fb_k.getD k 0)
                  am.Mmunu.Ad am.Mmunu.Bd am.Mmunu.Cd am.Mmunu.Ed (1 / am.Mmunu.Dd))
              else F1.twoF[k]?) := by
          by_cases hf : hasFlag F.whatWasComputed FSTATQ_2F = true
          · simp only [hf, if_true] at hst2
            simpa [hf] using storeTwoF_inv env s.Fa_k s.Fb_k am.Mmunu.Ad am.Mmunu.Bd
              am.Mmunu.Cd am.Mmunu.Ed (1 / am.Mmunu.Dd) F1 F.numFreqBins F2 hst2
          · simp only [hf, if_false] at hst2
            injection hst2 with _ h2
            subst h2
            simp [hf]
        obtain ⟨hfr1, hl1a, hl1b, hFa1, hFb1⟩ := hF1
        obtain ⟨hfr2, hl2, hT2⟩ := hF2
        have e1 : F1.twoF = s.Fstats.twoF := by rw [hfr1]
        have e2 : F1.twoFPerDet = s.Fstats.twoFPerDet := by rw [hfr1]
        have e3 : F1.FaPerDet = s.Fstats.FaPerDet := by rw [hfr1]
        have e4 : F1.FbPerDet = s.Fstats.FbPerDet := by rw [hfr1]
        have e5 : F1.doppler = s.Fstats.doppler := by rw [hfr1]
        have e6 : F1.dFreq = s.Fstats.dFreq := by rw [hfr1]
        have e7 : F1.numFreqBins = s.Fstats.numFreqBins := by rw [hfr1]
        have e8 : F1.whatWasComputed = s.Fstats.whatWasComputed := by rw [hfr1]
        have g1 : F2.Fa = F1.Fa := by rw [hfr2]
        have g2 : F2.Fb = F1.Fb := by rw [hfr2]
        have g3 : F2.twoFPerDet = F1.twoFPerDet := by rw [hfr2]
        have g4 : F2.FaPerDet = F1.FaPerDet := by rw [hfr2]
        have g5 : F2.FbPerDet = F1.FbPerDet := by rw [hfr2]
        have g6 : F2.doppler = F1.doppler := by rw [hfr2]
        have g7 : F2.dFreq = F1.dFreq := by rw [hfr2]
        have g8 : F2.numFreqBins = F1.numFreqBins := by rw [hfr2]
        have g9 : F2.whatWasComputed = F1.whatWasComputed := by rw [hfr2]
        exact
          { doppler := by simp only [g6, e5, hdet.same.doppler]
            dFreq := by simp only [g7, e6, hdet.same.dFreq]
            numFreqBins := by simp only [g8, e7, hdet.same.numFreqBins]
            whatWasComputed := by simp only [g9, e8, hdet.same.whatWasComputed]
            Mmunu := rfl
            Fa := fun k => by
              simp only [g1, hFa1 k, hdet.same.Fa]
              by_cases hc : hasFlag F.whatWasComputed FSTATQ_FAFB = true ∧ k < F.numFreqBins
              · rw [if_pos hc, if_pos hc, hdet.sumFa k hc.2]; rfl
              · rw [if_neg hc, if_neg hc]
            Fb := fun k => by
              simp only [g2, hFb1 k, hdet.same.Fb]
              by_cases hc : hasFlag F.whatWasComputed FSTATQ_FAFB = true ∧ k < F.numFreqBins
              · rw [if_pos hc, if_pos hc, hdet.sumFb k hc.2]; rfl
              · rw [if_neg hc, if_neg hc]
            twoF := fun k => by
              simp only [hT2 k, e1, hdet.same.twoF]
              by_cases hc : hasFlag F.whatWasComputed FSTATQ_2F = true ∧ k < F.numFreqBins
              · rw [if_pos hc, if_pos hc, hdet.sumFa k hc.2, hdet.sumFb k hc.2]; rfl
              · rw [if_neg hc, if_neg hc]
            FaPerDet := fun X k => by
              simp only [g4, e3, hdet.perDetFa X k]; rfl
            FbPerDet := fun X k => by
              simp only [g5, e4, hdet.perDetFb X k]; rfl
            twoFPerDet := fun X k => by
              simp only [g3, e2, hdet.perDet2F X k]; rfl
            lenFa := by simp only [g1, hl1a, hdet.same.Fa]
            lenFb := by simp only [g2, hl1b, hdet.same.Fb]
            lenTwoF := by simp only [hl2, e1, hdet.same.twoF]
            shapeFa := by simp only [g4, e3, hdet.shapeFa]
            shapeFb := by simp only [g5, e4, hdet.shapeFb]
            shape2F := by simp only [g3, e2, hdet.shape2F]
            detectors := hdef }

/-- C7: in a successful query over `N >= 1` detectors, at every bin `k < numFreqBins`
the combined amplitudes `Fa[k]`, `Fb[k]` are the sums, in detector order, of the
per-detector amplitudes `FaX[k]`, `FbX[k]` (which are the values stored in `FaPerDet`,
`FbPerDet` when those are requested), and the combined statistic `twoF[k]` is
`XLALComputeFstatFromFaFb` of these sums with the aggregate `Ad, Bd, Cd, Ed, 1/Dd` of the
`Mmunu` that is returned. -/
theorem C7_combined_from_sums (env : Externals) (F : FstatResults)
    (common : FstatInput_Common) (c : FstatInput_Resamp)
    (hok : (ComputeFstat_Resamp env (some F) (some common) (some c)).status = XLAL_SUCCESS) :
    ∃ det0 am fa fb Fa0 Fout,
      c.multiTimeSeries_DET.data.head? = some det0 ∧
      (handleBuffering env common c F.doppler (dFreqOut F det0)).multiAMcoef = some am ∧
      spinCopies env F.doppler
        (fracShift det0.f0 (F.doppler.fkdot.getD 0 0) (dFreqOut F det0))
        (handleBuffering env common c F.doppler (dFreqOut F det0)).multiFa_SRC
        (handleBuffering env common c F.doppler (dFreqOut F det0)).multiFb_SRC = some (fa, fb) ∧
      fa.data.head? = some Fa0 ∧
      (ComputeFstat_Resamp env (some F) (some common) (some c)).Fstats = some Fout ∧
      Fout.Mmunu = am.Mmunu ∧
      ∀ k, k < F.numFreqBins →
        (hasFlag F.whatWasComputed FSTATQ_FAFB = true →
          Fout.Fa[k]? = some (sumDetectors c.multiTimeSeries_DET.data.length fun X =>
            queryFaX env F (dFreqOut F det0) fa fb Fa0 X k) ∧
          Fout.Fb[k]? = some (sumDetectors c.multiTimeSeries_DET.data.length fun X =>
            queryFbX env F (dFreqOut F det0) fa fb Fa0 X k)) ∧
        (hasFlag F.whatWasComputed FSTATQ_2F = true →
          Fout.twoF[k]? = some (env.XLALComputeFstatFromFaFb
            (sumDetectors c.multiTimeSeries_DET.data.length fun X =>
              queryFaX env F (dFreqOut F det0) fa fb Fa0 X k)
            (sumDetectors c.multiTimeSeries_DET.data.length fun X =>
              queryFbX env F (dFreqOut F det0) fa fb Fa0 X k)
            Fout.Mmunu.Ad Fout.Mmunu.Bd Fout.Mmunu.Cd Fout.Mmunu.Ed (1 / Fout.Mmunu.Dd))) ∧
        (hasFlag F.whatWasComputed FSTATQ_FAFB_PER_DET = true →
          ∀ X, X < c.multiTimeSeries_DET.data.length →
            readAt2 Fout.FaPerDet X k = some (queryFaX env F (dFreqOut F det0) fa fb Fa0 X k) ∧
            readAt2 Fout.FbPerDet X k = some (queryFbX env F (dFreqOut F det0) fa fb Fa0 X k)) := by
  obtain ⟨hatoms, det0, hdet, hb, hasm⟩ := ComputeFstat_Resamp_success env F common c hok
  obtain ⟨am, fa, fb, Fa0, ham, hsp, hhead, hA⟩ :=
    spectralAssemble_success env F _ det0 _ _ _ _ hasm
  refine ⟨det0, am, fa, fb, Fa0, _, hdet, ham, hsp, hhead, ?_, hA.Mmunu, ?_⟩
  · rw [ComputeFstat_Resamp_eq env F common c det0 hatoms hdet, if_neg (not_not.mpr hb)]
  · intro k hk
    refine ⟨fun hf => ⟨?_, ?_⟩, fun hf => ?_, fun hf X hX => ⟨?_, ?_⟩⟩
    · rw [hA.Fa k, if_pos ⟨hf, hk⟩]
    · rw [hA.Fb k, if_pos ⟨hf, hk⟩]
    · rw [hA.twoF k, if_pos ⟨hf, hk⟩, hA.Mmunu]
    · rw [hA.FaPerDet X k, if_pos ⟨hf, hX, hk⟩]
    · rw [hA.FbPerDet X k, if_pos ⟨hf, hX, hk⟩]

/-- C8: in a successful query that requests the per-detector statistic, for every detector
`X` and bin `k < numFreqBins`, `twoFPerDet[X][k]` is `XLALComputeFstatFromFaFb` of that
detector's amplitudes `FaX[k]`, `FbX[k]` with that detector's own `A`, `B`, `C` and
`1/D` (and the constant `0` that the code passes as `EdX`), not with the aggregate
coefficients. -/
theorem C8_per_detector_statistic (env : Externals) (F : FstatResults)
    (common : FstatInput_Common) (c : FstatInput_Resamp)
    (hok : (ComputeFstat_Resamp env (some F) (some common) (some c)).status = XLAL_SUCCESS)
    (hflag : F.whatWasComputed &&& FSTATQ_2F_PER_DET ≠ 0) :
    ∃ det0 am fa fb Fa0 Fout,
      c.multiTimeSeries_DET.data.head? = some det0 ∧
      (handleBuffering env common c F.doppler (dFreqOut F det0)).multiAMcoef = some am ∧
      spinCopies env F.doppler
        (fracShift det0.f0 (F.doppler.fkdot.getD 0 0) (dFreqOut F det0))
        (handleBuffering env common c F.doppler (dFreqOut F det0)).multiFa_SRC
        (handleBuffering env common c F.doppler (dFreqOut F det0)).multiFb_SRC = some (fa, fb) ∧
      fa.data.head? = some Fa0 ∧
      (ComputeFstat_Resamp env (some F) (some common) (some c)).Fstats = some Fout ∧
      ∀ X, X < c.multiTimeSeries_DET.data.length → ∀ k, k < F.numFreqBins →
        ∃ amX, am.data[X]? = some amX ∧
          readAt2 Fout.twoFPerDet X k = some (env.XLALComputeFstatFromFaFb
            (queryFaX env F (dFreqOut F det0) fa fb Fa0 X k)
            (queryFbX env F (dFreqOut F det0) fa fb Fa0 X k)
            amX.A amX.B amX.C 0 (1 / amX.D)) := by
  obtain ⟨hatoms, det0, hdet, hb, hasm⟩ := ComputeFstat_Resamp_success env F common c hok
  obtain ⟨am, fa, fb, Fa0, ham, hsp, hhead, hA⟩ :=
    spectralAssemble_success env F _ det0 _ _ _ _ hasm
  have hf : hasFlag F.whatWasComputed FSTATQ_2F_PER_DET = true := by
    simp [hasFlag, hflag]
  refine ⟨det0, am, fa, fb, Fa0,
    (spectralAssemble env F c.multiTimeSeries_DET.data.length det0 (dFreqOut F det0)
      (handleBuffering env common c F.doppler (dFreqOut F det0)).multiAMcoef
      (handleBuffering env common c F.doppler (dFreqOut F det0)).multiFa_SRC
      (handleBuffering env common c F.doppler (dFreqOut F det0)).multiFb_SRC).2,
    hdet, ham, hsp, hhead, ?_, ?_⟩
  · rw [ComputeFstat_Resamp_eq env F common c det0 hatoms hdet, if_neg (not_not.mpr hb)]
  · intro X hX k hk
    obtain ⟨-, -, -, amX, -, -, -, hamX⟩ := hA.detectors X hX
    refine ⟨amX, hamX, ?_⟩
    rw [hA.twoFPerDet X k, if_pos ⟨hf, hX, hk⟩]
    simp only [queryTwoFX, twoFX_k, hamX, queryFaX, queryFbX]

/-! ## Theorems: antenna weighting -/

theorem wrapUINT4_of_lt (n : Nat) (h : n < 2 ^ 32) : wrapUINT4 n = n := by
  unfold wrapUINT4
  exact Nat.mod_eq_of_lt h

theorem toUINT4_lt (z : Int) : toUINT4 z < 2 ^ 32 := by
  show (z % 2 ^ 32).toNat < 2 ^ 32
  omega

/-- Closed form of the sample loop of one segment: the samples `start_index + k`, ...,
below `start_index + k + n` and below the series length are weighted, all others are
left as they were. -/
theorem weightSegment_spec (x : List COMPLEX8) (a b : REAL4) (u N : Nat) (hN : N < 2 ^ 32)
    (n : Nat) :
    ∀ (k : Nat) (Fa Fb : List COMPLEX8), Fa.length = N → Fb.length = N → u + k < 2 ^ 32 →
      (weightSegment x a b u N n k (Fa, Fb)).1.length = N ∧
      (weightSegment x a b u N n k (Fa, Fb)).2.length = N ∧
      (∀ i, (weightSegment x a b u N n k (Fa, Fb)).1.getD i 0 =
        if u + k ≤ i ∧ i < u + k + n ∧ i < N then a * x.getD i 0 else Fa.getD i 0) ∧
      (∀ i, (weightSegment x a b u N n k (Fa, Fb)).2.getD i 0 =
        if u + k ≤ i ∧ i < u + k + n ∧ i < N then b * x.getD i 0 else Fb.getD i 0) := by
  induction n with
  | zero =>
    intro k Fa Fb hFa hFb _
    refine ⟨hFa, hFb, fun i => ?_, fun i => ?_⟩
    · have : ¬ (u + k ≤ i ∧ i < u + k + 0 ∧ i < N) := by omega
      rw [if_neg this]; rfl
    · have : ¬ (u + k ≤ i ∧ i < u + k + 0 ∧ i < N) := by omega
      rw [if_neg this]; rfl
  | succ n ih =>
    intro k Fa Fb hFa hFb hk
    unfold weightSegment
    simp only [wrapUINT4_of_lt _ hk]
    by_cases hge : u + k ≥ N
    · simp only [hge, if_true]
      refine ⟨hFa, hFb, fun i => ?_, fun i => ?_⟩
      · have : ¬ (u + k ≤ i ∧ i < u + k + (n + 1) ∧ i < N) := by omega
        rw [if_neg this]
      · have : ¬ (u + k ≤ i ∧ i < u + k + (n + 1) ∧ i < N) := by omega
        rw [if_neg this]
    · simp only [hge, if_false]
      have hlt : u + k < N := by omega
      obtain ⟨h1, h2, h3, h4⟩ := ih (k + 1) (Fa.set (u + k) (a * x.getD (u + k) 0))
        (Fb.set (u + k) (b * x.getD (u + k) 0)) (by rw [List.length_set, hFa])
        (by rw [List.length_set, hFb]) (by omega)
      refine ⟨h1, h2, fun i => ?_, fun i => ?_⟩
      · rw [h3 i, getD_set_self_or _ _ _ _ _ (by rw [hFa]; exact hlt)]
        by_cases hi : i = u + k
        · subst hi
          have c1 : ¬ (u + (k + 1) ≤ u + k ∧ u + k < u + (k + 1) + n ∧ u + k < N) := by omega
          have c2 : u + k ≤ u + k ∧ u + k < u + k + (n + 1) ∧ u + k < N := by omega
          rw [if_neg c1, if_pos rfl, if_pos c2]
        · by_cases c : u + (k + 1) ≤ i ∧ i < u + (k + 1) + n ∧ i < N
          · have c2 : u + k ≤ i ∧ i < u + k + (n + 1) ∧ i < N := by omega
            rw [if_pos c, if_pos c2]
          · have c2 : ¬ (u + k ≤ i ∧ i < u + k + (n + 1) ∧ i < N) := by omega
            rw [if_neg c, if_neg hi, if_neg c2]
      · rw [h4 i, getD_set_self_or _ _ _ _ _ (by rw [hFb]; exact hlt)]
        by_cases hi : i = u + k
        · subst hi
          have c1 : ¬ (u + (k + 1) ≤ u + k ∧ u + k < u + (k + 1) + n ∧ u + k < N) := by omega
          have c2 : u + k ≤ u + k ∧ u + k < u + k + (n + 1) ∧ u + k < N := by omega
          rw [if_neg c1, if_pos rfl, if_pos c2]
        · by_cases c : u + (k + 1) ≤ i ∧ i < u + (k + 1) + n ∧ i < N
          · have c2 : u + k ≤ i ∧ i < u + k + (n + 1) ∧ i < N := by omega
            rw [if_pos c, if_pos c2]
          · have c2 : ¬ (u + k ≤ i ∧ i < u + k + (n + 1) ∧ i < N) := by omega
            rw [if_neg c, if_neg hi, if_neg c2]

/-- One pass of the segment loop: the samples of the series in the `UINT4` range of
segment `j` are set to the weighted input samples, all others are left as they were. -/
theorem weightTimestamp_spec (ts : COMPLEX8TimeSeries) (am : AMCoeffs)
    (stamps : LIGOTimeGPSVector) (hN : ts.data.length < 2 ^ 32)
    (s : List COMPLEX8 × List COMPLEX8) (j : Nat)
    (h1 : s.1.length = ts.data.length) (h2 : s.2.length = ts.data.length) :
    (weightTimestamp ts am stamps s j).1.length = ts.data.length ∧
    (weightTimestamp ts am stamps s j).2.length = ts.data.length ∧
    (∀ i, (weightTimestamp ts am stamps s j).1.getD i 0 =
      if coveredUINT4 ts stamps j i ∧ i < ts.data.length then am.a.getD j 0 * ts.data.getD i 0
      else s.1.getD i 0) ∧
    (∀ i, (weightTimestamp ts am stamps s j).2.getD i 0 =
      if coveredUINT4 ts stamps j i ∧ i < ts.data.length then am.b.getD j 0 * ts.data.getD i 0
      else s.2.getD i 0) := by
  obtain ⟨Fa, Fb⟩ := s
  have hu : segmentStartIndex ts stamps j + 0 < 2 ^ 32 := by
    have := toUINT4_lt (lround ((XLALGPSGetREAL8 (stamps.data.getD j ⟨0⟩)
      - XLALGPSGetREAL8 ts.epoch) / ts.deltaT))
    unfold segmentStartIndex
    simpa using this
  obtain ⟨g1, g2, g3, g4⟩ := weightSegment_spec ts.data (am.a.getD j 0) (am.b.getD j 0)
    (segmentStartIndex ts stamps j) ts.data.length hN (segmentNumBins ts stamps) 0 Fa Fb h1 h2 hu
  unfold weightTimestamp
  refine ⟨g1, g2, fun i => ?_, fun i => ?_⟩
  · rw [g3 i]
    simp only [coveredUINT4, Nat.add_zero, and_assoc]
  · rw [g4 i]
    simp only [coveredUINT4, Nat.add_zero, and_assoc]

theorem foldl_range_succ {σ : Type} (f : σ → Nat → σ) (s : σ) (n : Nat) :
    (List.range (n + 1)).foldl f s = f ((List.range n).foldl f s) n := by
  rw [List.range_succ, List.foldl_append]
  rfl

theorem weightedData_eq_upTo (ts : COMPLEX8TimeSeries) (am : AMCoeffs)
    (stamps : LIGOTimeGPSVector) :
    weightedData ts am stamps = weightedUpTo ts am stamps stamps.data.length := rfl

theorem weightedUpTo_succ (ts : COMPLEX8TimeSeries) (am : AMCoeffs)
    (stamps : LIGOTimeGPSVector) (m : Nat) :
    weightedUpTo ts am stamps (m + 1) =
      weightTimestamp ts am stamps (weightedUpTo ts am stamps m) m := by
  unfold weightedUpTo
  rw [foldl_range_succ]

theorem weightedUpTo_length (ts : COMPLEX8TimeSeries) (am : AMCoeffs)
    (stamps : LIGOTimeGPSVector) (hN : ts.data.length < 2 ^ 32) (m : Nat) :
    (weightedUpTo ts am stamps m).1.length = ts.data.length ∧
    (weightedUpTo ts am stamps m).2.length = ts.data.length := by
  induction m with
  | zero => simp [weightedUpTo]
  | succ m ih =>
    rw [weightedUpTo_succ]
    obtain ⟨g1, g2, -, -⟩ := weightTimestamp_spec ts am stamps hN _ m ih.1 ih.2
    exact ⟨g1, g2⟩

/-- After the first `m` segments, a sample in none of their `UINT4` ranges is zero. -/
theorem weightedUpTo_gap (ts : COMPLEX8TimeSeries) (am : AMCoeffs)
    (stamps : LIGOTimeGPSVector) (hN : ts.data.length < 2 ^ 32) (m i : Nat)
    (hgap : ∀ j, j < m → ¬ (coveredUINT4 ts stamps j i ∧ i < ts.data.length)) :
    (weightedUpTo ts am stamps m).1.getD i 0 = 0 ∧
    (weightedUpTo ts am stamps m).2.getD i 0 = 0 := by
  induction m with
  | zero =>
    simp only [weightedUpTo, List.range_zero, List.foldl_nil, List.getD_eq_getElem?_getD,
      List.getElem?_replicate]
    by_cases hi : i < ts.data.length <;> simp [hi]
  | succ m ih =>
    rw [weightedUpTo_succ]
    obtain ⟨hl1, hl2⟩ := weightedUpTo_length ts am stamps hN m
    obtain ⟨-, -, g3, g4⟩ := weightTimestamp_spec ts am stamps hN _ m hl1 hl2
    have hm := hgap m (Nat.lt_succ_self m)
    have ih' := ih (fun j hj => hgap j (Nat.lt_succ_of_lt hj))
    rw [g3 i, g4 i, if_neg hm, if_neg hm]
    exact ih'

/-- After the first `m` segments, a sample of the series in the `UINT4` range of exactly
one of them, segment `j`, holds the input sample weighted by `a_j` and `b_j`. -/
theorem weightedUpTo_covered (ts : COMPLEX8TimeSeries) (am : AMCoeffs)
    (stamps : LIGOTimeGPSVector) (hN : ts.data.length < 2 ^ 32) (m i j : Nat)
    (hj : j < m) (hi : i < ts.data.length) (hcov : coveredUINT4 ts stamps j i)
    (huniq : ∀ j', j' < m → coveredUINT4 ts stamps j' i → j' = j) :
    (weightedUpTo ts am stamps m).1.getD i 0 = am.a.getD j 0 * ts.data.getD i 0 ∧
    (weightedUpTo ts am stamps m).2.getD i 0 = am.b.getD j 0 * ts.data.getD i 0 := by
  induction m with
  | zero => exact absurd hj (Nat.not_lt_zero j)
  | succ m ih =>
    rw [weightedUpTo_succ]
    obtain ⟨hl1, hl2⟩ := weightedUpTo_length ts am stamps hN m
    obtain ⟨-, -, g3, g4⟩ := weightTimestamp_spec ts am stamps hN _ m hl1 hl2
    rw [g3 i, g4 i]
    by_cases hjm : j = m
    · subst hjm
      rw [if_pos ⟨hcov, hi⟩, if_pos ⟨hcov, hi⟩]
      exact ⟨rfl, rfl⟩
    · have hjlt : j < m := by omega
      have hnot : ¬ (coveredUINT4 ts stamps m i ∧ i < ts.data.length) := by
        intro hc
        exact hjm (huniq m (Nat.lt_succ_self m) hc.1).symm
      rw [if_neg hnot, if_neg hnot]
      exact ih hjlt (fun j' hj' hc => huniq j' (Nat.lt_succ_of_lt hj') hc)

/-- A successful antenna weighting returns the two vectors of `weightedData` under the
epoch, heterodyne frequency and sample interval of the input. -/
theorem XLALAntennaWeight_success (env : Externals) (ts : COMPLEX8TimeSeries) (am : AMCoeffs)
    (stamps : LIGOTimeGPSVector) (Fa Fb : COMPLEX8TimeSeries)
    (hrun : XLALAntennaWeightCOMPLEX8TimeSeries env (some none) (some none) (some ts) (some am)
      (some stamps) = (XLAL_SUCCESS, some Fa, some Fb)) :
    Fa = ⟨ts.epoch, ts.f0, ts.deltaT, (weightedData ts am stamps).1⟩ ∧
    Fb = ⟨ts.epoch, ts.f0, ts.deltaT, (weightedData ts am stamps).2⟩ := by
  unfold XLALAntennaWeightCOMPLEX8TimeSeries at hrun
  simp only [ne_eq, not_true_eq_false, if_false] at hrun
  split_ifs at hrun
  all_goals first
    | (simp only [Prod.mk.injEq, Option.some.injEq] at hrun
       obtain ⟨-, h1, h2⟩ := hrun
       exact ⟨h1.symm, h2.symm⟩)
    | (simp at hrun)

theorem segmentStartIndex_eq (ts : COMPLEX8TimeSeries) (stamps : LIGOTimeGPSVector) (j : Nat) :
    segmentStartIndex ts stamps j = (startSigned ts stamps j % 2 ^ 32).toNat := rfl

theorem segmentNumBins_eq (ts : COMPLEX8TimeSeries) (stamps : LIGOTimeGPSVector) :
    segmentNumBins ts stamps = (nbinsSigned ts stamps % 2 ^ 32).toNat := rfl

/-- With index quantities that fit 32 bits, the `UINT4` range of a segment, cut to the
series, lies in the signed range of the segment. -/
theorem coveredSigned_of_coveredUINT4 (ts : COMPLEX8TimeSeries) (stamps : LIGOTimeGPSVector)
    (hfit : IndexesFit ts stamps) (j i : Nat) (hj : j < stamps.data.length)
    (hi : i < ts.data.length) (hc : coveredUINT4 ts stamps j i) :
    coveredSigned ts stamps j i ∧ 0 ≤ startSigned ts stamps j := by
  obtain ⟨hs1, hs2⟩ := hfit.start j hj
  obtain ⟨hn1, hn2⟩ := hfit.nbins
  have hlen := hfit.length
  have hc' : (startSigned ts stamps j % 2 ^ 32).toNat ≤ i ∧
      i < (startSigned ts stamps j % 2 ^ 32).toNat + (nbinsSigned ts stamps % 2 ^ 32).toNat := hc
  unfold coveredSigned
  omega

/-- With index quantities that fit 32 bits, the signed range of a segment that starts at
a non-negative offset, cut to the series, lies in the `UINT4` range of the segment. -/
theorem coveredUINT4_of_coveredSigned (ts : COMPLEX8TimeSeries) (stamps : LIGOTimeGPSVector)
    (hfit : IndexesFit ts stamps) (j i : Nat)
    (hi : i < ts.data.length) (hpos : 0 ≤ startSigned ts stamps j)
    (hc : coveredSigned ts stamps j i) : coveredUINT4 ts stamps j i := by
  obtain ⟨hn1, hn2⟩ := hfit.nbins
  have hlen := hfit.length
  unfold coveredSigned at hc
  have goal : (startSigned ts stamps j % 2 ^ 32).toNat ≤ i ∧
      i < (startSigned ts stamps j % 2 ^ 32).toNat + (nbinsSigned ts stamps % 2 ^ 32).toNat := by
    omega
  exact goal

/-- C9 as stated does not hold: the only segment starts `2 ^ 32` samples after the epoch
of a series of four samples, so its index range `[2 ^ 32, 2 ^ 32 + 2)` holds no sample of
the series; the call succeeds, the start offset converted to `UINT4` is `0`, and samples
`0` and `1` of both outputs are weighted, not zero. -/
theorem C9_counterexample :
    startSigned Sample.series0 Sample.farStamps 0 = 2 ^ 32 ∧
    nbinsSigned Sample.series0 Sample.farStamps = 2 ∧
    (∀ i, i < Sample.series0.data.length → ∀ j, j < Sample.farStamps.data.length →
      ¬ coveredSigned Sample.series0 Sample.farStamps j i) ∧
    XLALAntennaWeightCOMPLEX8TimeSeries Sample.env (some none) (some none)
      (some Sample.series0) (some Sample.earlyCoeffs) (some Sample.farStamps) =
      (XLAL_SUCCESS, some ⟨⟨0⟩, 10, 1, [⟨5, 0⟩, ⟨10, 0⟩, 0, 0]⟩,
        some ⟨⟨0⟩, 10, 1, [⟨7, 0⟩, ⟨14, 0⟩, 0, 0]⟩) ∧
    (⟨5, 0⟩ : COMPLEX8) ≠ 0 ∧ (⟨7, 0⟩ : COMPLEX8) ≠ 0 ∧
    ¬ IndexesFit Sample.series0 Sample.farStamps := by
  refine ⟨by decide!, by decide!, by decide!, by decide!, by decide!, by decide!, ?_⟩
  intro h
  have := h.start 0 (by decide)
  revert this
  decide!

/-- C9 (gap handling): after a successful `XLALAntennaWeightCOMPLEX8TimeSeries` on an
input whose index quantities fit 32 bits, every sample index `i` that lies in no
segment's range `[start_index_j, start_index_j + nbins)`, with
`start_index_j = round((t_j - epoch)/deltaT)` and `nbins = round(Tsft/deltaT)`, is exactly
zero in `Fa(t)` and in `Fb(t)`. -/
theorem C9_gap_samples_zero (env : Externals) (ts : COMPLEX8TimeSeries) (am : AMCoeffs)
    (stamps : LIGOTimeGPSVector) (Fa Fb : COMPLEX8TimeSeries)
    (hrun : XLALAntennaWeightCOMPLEX8TimeSeries env (some none) (some none) (some ts) (some am)
      (some stamps) = (XLAL_SUCCESS, some Fa, some Fb))
    (hfit : IndexesFit ts stamps) (i : Nat)
    (hgap : ∀ j, j < stamps.data.length → ¬ coveredSigned ts stamps j i) :
    Fa.data.getD i 0 = 0 ∧ Fb.data.getD i 0 = 0 := by
  obtain ⟨rfl, rfl⟩ := XLALAntennaWeight_success env ts am stamps Fa Fb hrun
  rw [weightedData_eq_upTo]
  apply weightedUpTo_gap ts am stamps hfit.length
  intro j hj hc
  exact hgap j hj (coveredSigned_of_coveredUINT4 ts stamps hfit j i hj hc.2 hc.1).1

/-- An instance of C9: the only segment covers samples `0` and `1` of a series of four
samples, which are weighted; samples `2` and `3` lie in no segment's range and are zero in
both outputs. -/
theorem C9_gap_samples_zero_witness :
    ∃ Fa Fb : COMPLEX8TimeSeries,
      XLALAntennaWeightCOMPLEX8TimeSeries Sample.env (some none) (some none)
        (some Sample.series0) (some Sample.earlyCoeffs) (some Sample.earlyStamps) =
        (XLAL_SUCCESS, some Fa, some Fb) ∧
      IndexesFit Sample.series0 Sample.earlyStamps ∧
      Fa.data.getD 0 0 = ⟨5, 0⟩ ∧ Fa.data.getD 1 0 = ⟨10, 0⟩ ∧
      Fb.data.getD 0 0 = ⟨7, 0⟩ ∧ Fb.data.getD 1 0 = ⟨14, 0⟩ ∧
      (∀ j, j < Sample.earlyStamps.data.length →
        ¬ coveredSigned Sample.series0 Sample.earlyStamps j 2) ∧
      (Fa.data.getD 2 0 = 0 ∧ Fb.data.getD 2 0 = 0) ∧
      (Fa.data.getD 3 0 = 0 ∧ Fb.data.getD 3 0 = 0) := by
  have hrun : XLALAntennaWeightCOMPLEX8TimeSeries Sample.env (some none) (some none)
      (some Sample.series0) (some Sample.earlyCoeffs) (some Sample.earlyStamps) =
      (XLAL_SUCCESS, some ⟨⟨0⟩, 10, 1, [⟨5, 0⟩, ⟨10, 0⟩, 0, 0]⟩,
        some ⟨⟨0⟩, 10, 1, [⟨7, 0⟩, ⟨14, 0⟩, 0, 0]⟩) := by decide!
  have hfit : IndexesFit Sample.series0 Sample.earlyStamps :=
    ⟨by decide!, by decide!, by decide!⟩
  exact ⟨_, _, hrun, hfit, by decide!, by decide!, by decide!, by decide!, by decide!,
    C9_gap_samples_zero Sample.env Sample.series0 Sample.earlyCoeffs Sample.earlyStamps _ _
      hrun hfit 2 (by decide!),
    C9_gap_samples_zero Sample.env Sample.series0 Sample.earlyCoeffs Sample.earlyStamps _ _
      hrun hfit 3 (by decide!)⟩

/-- C10, refuted as stated: the series `lateSeries` has its epoch at 1 s and the only
segment starts at 0 s and lasts two samples, so its signed index range is `[-1, 1)` and
covers sample 0, which no other segment covers.  The call succeeds, yet `Fa[0]` and `Fb[0]`
are `0` and not `a_0 * x[0] = 5` and `b_0 * x[0] = 7`: the start index, converted to
`UINT4`, is `2^32 - 1` and the sample loop is left at once. -/
theorem C10_counterexample :
    startSigned Sample.lateSeries Sample.earlyStamps 0 = -1 ∧
    nbinsSigned Sample.lateSeries Sample.earlyStamps = 2 ∧
    0 < Sample.lateSeries.data.length ∧
    coveredSigned Sample.lateSeries Sample.earlyStamps 0 0 ∧
    (∀ j, j < Sample.earlyStamps.data.length →
      coveredSigned Sample.lateSeries Sample.earlyStamps j 0 → j = 0) ∧
    XLALAntennaWeightCOMPLEX8TimeSeries Sample.env (some none) (some none)
      (some Sample.lateSeries) (some Sample.earlyCoeffs) (some Sample.earlyStamps) =
      (XLAL_SUCCESS, some ⟨⟨1000000000⟩, 0, 1, [0, 0, 0]⟩,
        some ⟨⟨1000000000⟩, 0, 1, [0, 0, 0]⟩) ∧
    Sample.earlyCoeffs.a.getD 0 0 * Sample.lateSeries.data.getD 0 0 = (⟨5, 0⟩ : COMPLEX8) ∧
    Sample.earlyCoeffs.b.getD 0 0 * Sample.lateSeries.data.getD 0 0 = (⟨7, 0⟩ : COMPLEX8) ∧
    (0 : COMPLEX8) ≠ ⟨5, 0⟩ ∧ (0 : COMPLEX8) ≠ ⟨7, 0⟩ := by
  decide!

/-- C10, amended: after a successful `XLALAntennaWeightCOMPLEX8TimeSeries` the two outputs
have the length, epoch, sample interval and heterodyne frequency of the input, and, the
index quantities fitting 32 bits, every sample index `i` inside the series that is covered
by exactly one segment `j` (signed index range) whose start index is not negative
satisfies `Fa[i] = a_j * x[i]` and `Fb[i] = b_j * x[i]`. -/
theorem C10_covered_samples_weighted (env : Externals) (ts : COMPLEX8TimeSeries)
    (am : AMCoeffs) (stamps : LIGOTimeGPSVector) (Fa Fb : COMPLEX8TimeSeries)
    (hrun : XLALAntennaWeightCOMPLEX8TimeSeries env (some none) (some none) (some ts) (some am)
      (some stamps) = (XLAL_SUCCESS, some Fa, some Fb))
    (hfit : IndexesFit ts stamps) :
    (Fa.data.length = ts.data.length ∧ Fb.data.length = ts.data.length ∧
      Fa.epoch = ts.epoch ∧ Fb.epoch = ts.epoch ∧ Fa.deltaT = ts.deltaT ∧
      Fb.deltaT = ts.deltaT ∧ Fa.f0 = ts.f0 ∧ Fb.f0 = ts.f0) ∧
    ∀ i j, i < ts.data.length → j < stamps.data.length →
      0 ≤ startSigned ts stamps j → coveredSigned ts stamps j i →
      (∀ j', j' < stamps.data.length → coveredSigned ts stamps j' i → j' = j) →
      Fa.data.getD i 0 = am.a.getD j 0 * ts.data.getD i 0 ∧
      Fb.data.getD i 0 = am.b.getD j 0 * ts.data.getD i 0 := by
  obtain ⟨rfl, rfl⟩ := XLALAntennaWeight_success env ts am stamps Fa Fb hrun
  rw [weightedData_eq_upTo]
  obtain ⟨hl1, hl2⟩ := weightedUpTo_length ts am stamps hfit.length stamps.data.length
  refine ⟨⟨hl1, hl2, rfl, rfl, rfl, rfl, rfl, rfl⟩, ?_⟩
  intro i j hi hj hpos hcov huniq
  apply weightedUpTo_covered ts am stamps hfit.length _ i j hj hi
  · exact coveredUINT4_of_coveredSigned ts stamps hfit j i hi hpos hcov
  · intro j' hj' hc'
    exact huniq j' hj' (coveredSigned_of_coveredUINT4 ts stamps hfit j' i hj' hi hc').1

/-- C10 as amended, at a concrete input: sample 2 of `series0` is covered by the second
segment of `stamps0` only and is weighted by `a_1 = 5` and `b_1 = 6`. -/
theorem C10_covered_samples_weighted_witness :
    (⟨⟨0⟩, 10, 1, [⟨2, 0⟩, ⟨4, 0⟩, ⟨15, 0⟩, ⟨20, 0⟩]⟩ : COMPLEX8TimeSeries).data.getD 2 0 =
      Sample.coeffs0.a.getD 1 0 * Sample.series0.data.getD 2 0 ∧
    (⟨⟨0⟩, 10, 1, [⟨3, 0⟩, ⟨6, 0⟩, ⟨18, 0⟩, ⟨24, 0⟩]⟩ : COMPLEX8TimeSeries).data.getD 2 0 =
      Sample.coeffs0.b.getD 1 0 * Sample.series0.data.getD 2 0 :=
  (C10_covered_samples_weighted Sample.env Sample.series0 Sample.coeffs0 Sample.stamps0
    ⟨⟨0⟩, 10, 1, [⟨2, 0⟩, ⟨4, 0⟩, ⟨15, 0⟩, ⟨20, 0⟩]⟩
    ⟨⟨0⟩, 10, 1, [⟨3, 0⟩, ⟨6, 0⟩, ⟨18, 0⟩, ⟨24, 0⟩]⟩ (by decide!)
    ⟨by decide!, by decide!, by decide!⟩).2 2 1 (by decide!) (by decide!) (by decide!)
    (by decide!) (by decide!)

/-! ## Theorems: concrete instances of the spectral assembly -/

/-- C7, at a concrete input: the first query on the fresh sample cache, two detectors, two
bins, all four output kinds requested. -/
theorem C7_combined_from_sums_witness :
    ∃ (am : MultiAMCoeffs) (Fout : FstatResults),
      (ComputeFstat_Resamp Sample.env (some (Sample.query (Sample.point 1 2 10 0) 0 2 15))
        (some Sample.common) (some Sample.freshCache)).Fstats = some Fout ∧
      Fout.Mmunu = am.Mmunu ∧
      ∃ (fa fb : MultiCOMPLEX8TimeSeries) (Fa0 : COMPLEX8TimeSeries),
        Fout.Fa[0]? = some (sumDetectors 2 fun X =>
          queryFaX Sample.env (Sample.query (Sample.point 1 2 10 0) 0 2 15)
            (dFreqOut (Sample.query (Sample.point 1 2 10 0) 0 2 15) Sample.series0)
            fa fb Fa0 X 0) := by
  obtain ⟨det0, am, fa, fb, Fa0, Fout, hdet, _, _, _, hF, hM, hk⟩ :=
    C7_combined_from_sums Sample.env (Sample.query (Sample.point 1 2 10 0) 0 2 15)
      Sample.common Sample.freshCache (by decide!)
  have hd : det0 = Sample.series0 := by
    have h0 : Sample.freshCache.multiTimeSeries_DET.data.head? = some Sample.series0 := rfl
    rw [h0] at hdet
    exact (Option.some.inj hdet).symm
  subst hd
  exact ⟨am, Fout, hF, hM, fa, fb, Fa0, ((hk 0 (by decide)).1 (by decide)).1⟩

/-- C8, at a concrete input: the first query on the fresh sample cache; the statistic of
detector 1 at bin 0 is formed with the coefficients of detector 1. -/
theorem C8_per_detector_statistic_witness :
    ∃ (am : MultiAMCoeffs) (Fout : FstatResults) (fa fb : MultiCOMPLEX8TimeSeries)
      (Fa0 : COMPLEX8TimeSeries) (amX : AMCoeffs),
      (ComputeFstat_Resamp Sample.env (some (Sample.query (Sample.point 1 2 10 0) 0 2 15))
        (some Sample.common) (some Sample.freshCache)).Fstats = some Fout ∧
      am.data[1]? = some amX ∧
      readAt2 Fout.twoFPerDet 1 0 = some (Sample.env.XLALComputeFstatFromFaFb
        (queryFaX Sample.env (Sample.query (Sample.point 1 2 10 0) 0 2 15)
          (dFreqOut (Sample.query (Sample.point 1 2 10 0) 0 2 15) Sample.series0) fa fb Fa0 1 0)
        (queryFbX Sample.env (Sample.query (Sample.point 1 2 10 0) 0 2 15)
          (dFreqOut (Sample.query (Sample.point 1 2 10 0) 0 2 15) Sample.series0) fa fb Fa0 1 0)
        amX.A amX.B amX.C 0 (1 / amX.D)) := by
  obtain ⟨det0, am, fa, fb, Fa0, Fout, hdet, _, _, _, hF, hk⟩ :=
    C8_per_detector_statistic Sample.env (Sample.query (Sample.point 1 2 10 0) 0 2 15)
      Sample.common Sample.freshCache (by decide!) (by decide)
  have hd : det0 = Sample.series0 := by
    have h0 : Sample.freshCache.multiTimeSeries_DET.data.head? = some Sample.series0 := rfl
    rw [h0] at hdet
    exact (Option.some.inj hdet).symm
  subst hd
  obtain ⟨amX, hamX, h2f⟩ := hk 1 (by decide) 0 (by decide)
  exact ⟨am, Fout, fa, fb, Fa0, amX, hF, hamX, h2f⟩

/-! ## Theorems: segments that overrun the series -/

/-- The sample loop of one segment is the sequence of its stores. -/
theorem weightSegment_eq_writes (x : List COMPLEX8) (a b : REAL4) (u N : UINT4) (n : Nat) :
    ∀ (k : UINT4) (s : List COMPLEX8 × List COMPLEX8),
      weightSegment x a b u N n k s = (segmentWrites u N n k).foldl (storeWeighted x a b) s := by
  induction n with
  | zero => intro k s; rfl
  | succ n ih =>
    intro k s
    obtain ⟨Fa, Fb⟩ := s
    unfold weightSegment segmentWrites
    by_cases hge : wrapUINT4 (u + k) ≥ N
    · simp only [hge, if_true, List.foldl_nil]
    · simp only [hge, if_false, List.foldl_cons]
      rw [ih]
      rfl

/-- Every store of the sample loop is at an index below the series length. -/
theorem segmentWrites_lt (u N : UINT4) (n : Nat) :
    ∀ (k : UINT4) (i : UINT4), i ∈ segmentWrites u N n k → i < N := by
  induction n with
  | zero => intro k i hi; simp [segmentWrites] at hi
  | succ n ih =>
    intro k i hi
    unfold segmentWrites at hi
    by_cases hge : wrapUINT4 (u + k) ≥ N
    · simp only [hge, if_true, List.not_mem_nil] at hi
    · simp only [hge, if_false, List.mem_cons] at hi
      rcases hi with rfl | hi
      · exact Nat.lt_of_not_ge hge
      · exact ih _ _ hi

/-- A sample covered by segment `j` and by no later segment holds the input sample
weighted with the coefficients of segment `j`. -/
theorem weightedUpTo_last (ts : COMPLEX8TimeSeries) (am : AMCoeffs)
    (stamps : LIGOTimeGPSVector) (hN : ts.data.length < 2 ^ 32) (m i j : Nat)
    (hj : j < m) (hi : i < ts.data.length) (hcov : coveredUINT4 ts stamps j i)
    (hlast : ∀ j', j < j' → j' < m → ¬ coveredUINT4 ts stamps j' i) :
    (weightedUpTo ts am stamps m).1.getD i 0 = am.a.getD j 0 * ts.data.getD i 0 ∧
    (weightedUpTo ts am stamps m).2.getD i 0 = am.b.getD j 0 * ts.data.getD i 0 := by
  induction m with
  | zero => omega
  | succ m ih =>
    obtain ⟨l1, l2⟩ := weightedUpTo_length ts am stamps hN m
    obtain ⟨-, -, g3, g4⟩ := weightTimestamp_spec ts am stamps hN (weightedUpTo ts am stamps m) m
      l1 l2
    rw [weightedUpTo_succ, g3 i, g4 i]
    by_cases hjm : j = m
    · subst hjm
      rw [if_pos ⟨hcov, hi⟩, if_pos ⟨hcov, hi⟩]
      exact ⟨rfl, rfl⟩
    · have hm : ¬ (coveredUINT4 ts stamps m i ∧ i < ts.data.length) :=
        fun h => hlast m (by omega) (by omega) h.1
      rw [if_neg hm, if_neg hm]
      exact ih (by omega) (fun j' h1 h2 => hlast j' h1 (by omega))

/-- C11: a call of `XLALAntennaWeightCOMPLEX8TimeSeries` on valid input (a non-empty series
whose length is a `UINT4` value, coefficient vectors as long as the segment list, memory
granted) returns success whatever the sample ranges of the segments are; the stores of
every segment are at indices below the series length; and a sample inside the series that
lies in the range `start_index .. start_index + nbins - 1` of segment `j` and of no later
segment holds the input sample weighted with `a_j`, `b_j`, also when the range of segment
`j` extends past the end of the series. -/
theorem C11_overrun_dropped (env : Externals) (ts : COMPLEX8TimeSeries) (am : AMCoeffs)
    (stamps : LIGOTimeGPSVector) (hpos : 0 < ts.data.length) (hN : ts.data.length < 2 ^ 32)
    (ha : am.a.length = stamps.data.length) (hb : am.b.length = stamps.data.length)
    (hmem : env.XLALCreateCOMPLEX8TimeSeries ts.data.length = true) :
    ∃ Fa Fb,
      XLALAntennaWeightCOMPLEX8TimeSeries env (some none) (some none) (some ts) (some am)
        (some stamps) = (XLAL_SUCCESS, some Fa, some Fb) ∧
      Fa.data.length = ts.data.length ∧ Fb.data.length = ts.data.length ∧
      (∀ j s, weightTimestamp ts am stamps s j =
          (segmentWrites (segmentStartIndex ts stamps j) ts.data.length
            (segmentNumBins ts stamps) 0).foldl
            (storeWeighted ts.data (am.a.getD j 0) (am.b.getD j 0)) s ∧
        ∀ i, i ∈ segmentWrites (segmentStartIndex ts stamps j) ts.data.length
          (segmentNumBins ts stamps) 0 → i < ts.data.length) ∧
      ∀ j i, j < stamps.data.length → i < ts.data.length → coveredUINT4 ts stamps j i →
        (∀ j', j < j' → j' < stamps.data.length → ¬ coveredUINT4 ts stamps j' i) →
        Fa.data.getD i 0 = am.a.getD j 0 * ts.data.getD i 0 ∧
        Fb.data.getD i 0 = am.b.getD j 0 * ts.data.getD i 0 := by
  have hrun : XLALAntennaWeightCOMPLEX8TimeSeries env (some none) (some none) (some ts)
      (some am) (some stamps) =
      (XLAL_SUCCESS, some ⟨ts.epoch, ts.f0, ts.deltaT, (weightedData ts am stamps).1⟩,
        some ⟨ts.epoch, ts.f0, ts.deltaT, (weightedData ts am stamps).2⟩) := by
    unfold XLALAntennaWeightCOMPLEX8TimeSeries
    simp [hpos, ha, hb, hmem]
  obtain ⟨l1, l2⟩ := weightedUpTo_length ts am stamps hN stamps.data.length
  refine ⟨_, _, hrun, ?_, ?_, fun j s => ⟨?_, fun i hi => segmentWrites_lt _ _ _ _ _ hi⟩,
    fun j i hj hi hcov hlast => ?_⟩
  · exact l1
  · exact l2
  · unfold weightTimestamp
    exact weightSegment_eq_writes _ _ _ _ _ _ _ _
  · exact weightedUpTo_last ts am stamps hN stamps.data.length i j hj hi hcov hlast

/-- An instance of C11: the second segment of the grid starts at sample 3 of a series of
four samples and is two samples long; the call succeeds and sample 3 is weighted. -/
theorem C11_overrun_dropped_witness :
    ∃ Fa Fb,
      XLALAntennaWeightCOMPLEX8TimeSeries Sample.env (some none) (some none)
        (some Sample.series0) (some Sample.coeffs0) (some Sample.lateStamps) =
        (XLAL_SUCCESS, some Fa, some Fb) ∧
      segmentStartIndex Sample.series0 Sample.lateStamps 1 +
        segmentNumBins Sample.series0 Sample.lateStamps > Sample.series0.data.length ∧
      Fa.data.getD 3 0 = Sample.coeffs0.a.getD 1 0 * Sample.series0.data.getD 3 0 ∧
      Fb.data.getD 3 0 = Sample.coeffs0.b.getD 1 0 * Sample.series0.data.getD 3 0 := by
  obtain ⟨Fa, Fb, hrun, -, -, -, h⟩ := C11_overrun_dropped Sample.env Sample.series0
    Sample.coeffs0 Sample.lateStamps (by decide) (by decide) (by decide) (by decide) rfl
  have hc : coveredUINT4 Sample.series0 Sample.lateStamps 1 3 := by decide!
  obtain ⟨h1, h2⟩ := h 1 3 (by decide) (by decide) hc
    (fun j' h1 h2 => absurd h2 (by
      have : Sample.lateStamps.data.length = 2 := rfl
      omega))
  exact ⟨Fa, Fb, hrun, by decide!, h1, h2⟩

/-! ## Theorems: the boundary clamp -/

theorem segmentDetectorTimes_eq (SRC DET : COMPLEX8TimeSeries) (stampsDET : LIGOTimeGPSVector)
    (timing : SSBtimes) (j : Nat) :
    segmentDetectorTimes SRC DET stampsDET timing j =
      (List.range (SFTnumSamples_SRC SRC timing stampsDET.deltaT j)).map fun k =>
        clampDetectorTime (start_DET DET) (end_DET DET)
          (computedDetectorTime SRC stampsDET timing j k) := rfl

theorem forLoop_congr {σ : Type} (body body' : Nat → σ → XLALStatus × σ)
    (h : ∀ i s, body i s = body' i s) (l : List Nat) (s : σ) :
    forLoop body l s = forLoop body' l s := by
  have : body = body' := funext fun i => funext fun s => h i s
  rw [this]

theorem getElem?_of_lt {α : Type} (l : List α) (k : Nat) (h : k < l.length) :
    ∃ v, l[k]? = some v := ⟨l[k], List.getElem?_eq_getElem h⟩

/-- With every phase look-up granted and the three vectors long enough, the second sample
loop of a segment succeeds. -/
theorem resampleSegment_total (env : Externals) (fHet start_SRC deltaT_SRC : REAL8)
    (u N : Nat) (dts o0 o1 : List REAL8)
    (hsc : ∀ x, ∃ p, env.XLALSinCos2PiLUT x = some p) (n : Nat) :
    ∀ (k : Nat) (d : List COMPLEX8), k + n ≤ dts.length → k + n ≤ o0.length →
      k + n ≤ o1.length →
      (resampleSegment env fHet start_SRC deltaT_SRC u N dts o0 o1 n k d).1 = XLAL_SUCCESS := by
  induction n with
  | zero => intro k d _ _ _; rfl
  | succ n ih =>
    intro k d h1 h2 h3
    unfold resampleSegment
    by_cases hge : wrapUINT4 (k + u) ≥ N
    · simp only [hge, if_true]
    · simp only [hge, if_false]
      obtain ⟨v1, e1⟩ := getElem?_of_lt dts k (by omega)
      obtain ⟨v2, e2⟩ := getElem?_of_lt o0 k (by omega)
      obtain ⟨v3, e3⟩ := getElem?_of_lt o1 k (by omega)
      rw [e1, e2, e3]
      dsimp only
      obtain ⟨p, hp⟩ := hsc (-fmod (fHet * (start_SRC + (wrapUINT4 (k + u) : ℚ) * deltaT_SRC
        - v1)) 1)
      rw [hp]
      exact ih (k + 1) _ (by omega) (by omega) (by omega)
/-- One pass of the segment loop succeeds when the memory is granted, the interpolator
returns a vector as long as its argument, and every phase look-up is granted. -/
theorem resampleTimestamp_total (env : Externals) (SRC DET : COMPLEX8TimeSeries)
    (stampsDET : LIGOTimeGPSVector) (timing : SSBtimes) (sp0 sp1 : gsl_spline) (j : Nat)
    (s : List COMPLEX8 × List LIGOTimeGPS)
    (hvec : ∀ n, env.XLALCreateREAL8Vector n = true)
    (hint : ∀ spline, ∃ out,
      env.XLALGSLInterpolateREAL8Vector (segmentDetectorTimes SRC DET stampsDET timing j) spline
        = some out ∧
      out.length = (segmentDetectorTimes SRC DET stampsDET timing j).length)
    (hsc : ∀ x, ∃ p, env.XLALSinCos2PiLUT x = some p) :
    (resampleTimestamp env SRC DET stampsDET timing sp0 sp1 j s).1 = XLAL_SUCCESS := by
  obtain ⟨out0, h0, l0⟩ := hint sp0
  obtain ⟨out1, h1, l1⟩ := hint sp1
  have hl : (segmentDetectorTimes SRC DET stampsDET timing j).length =
      SFTnumSamples_SRC SRC timing stampsDET.deltaT j := by
    rw [segmentDetectorTimes_eq, List.length_map, List.length_range]
  unfold resampleTimestamp
  simp only [hvec, h0, h1, not_true_eq_false, if_false]
  exact resampleSegment_total env _ _ _ _ _ _ _ _ hsc _ 0 s.1 (by omega) (by omega) (by omega)
/-- A property of the loop state that every pass preserves, whatever its status, holds
for the state the loop ends in. -/
theorem forLoop_inv_all {σ : Type} (body : Nat → σ → XLALStatus × σ) (Inv : σ → Prop)
    (l : List Nat) (hstep : ∀ i, i ∈ l → ∀ s, Inv s → Inv (body i s).2) (s : σ) (h0 : Inv s) :
    Inv (forLoop body l s).2 := by
  induction l generalizing s with
  | nil => exact h0
  | cons i l ih =>
    have hi := hstep i (List.mem_cons_self _ _) s h0
    cases hb : body i s with
    | mk st s' =>
      rw [hb] at hi
      by_cases hst : st = XLAL_SUCCESS
      · subst hst
        rw [forLoop_cons_success body i l s s' hb]
        exact ih (fun i' hi' => hstep i' (List.mem_cons_of_mem _ hi')) s' hi
      · rw [forLoop_cons_failure body i l s (by rw [hb]; exact hst), hb]
        exact hi

theorem resampleSegment_length (env : Externals) (fHet start_SRC deltaT_SRC : REAL8)
    (u N : Nat) (dts o0 o1 : List REAL8) (n : Nat) :
    ∀ (k : Nat) (d : List COMPLEX8),
      (resampleSegment env fHet start_SRC deltaT_SRC u N dts o0 o1 n k d).2.length
        = d.length := by
  induction n with
  | zero => intro k d; rfl
  | succ n ih =>
    intro k d
    unfold resampleSegment
    dsimp only
    split_ifs
    · rfl
    · split
      · split
        · rfl
        · rw [ih, List.length_set]
      · rfl

theorem resampleTimestamp_length (env : Externals) (SRC DET : COMPLEX8TimeSeries)
    (stampsDET : LIGOTimeGPSVector) (timing : SSBtimes) (sp0 sp1 : gsl_spline) (j : Nat)
    (s : List COMPLEX8 × List LIGOTimeGPS) :
    (resampleTimestamp env SRC DET stampsDET timing sp0 sp1 j s).2.1.length = s.1.length := by
  unfold resampleTimestamp
  dsimp only
  split_ifs <;> first
    | rfl
    | (split <;> first | exact resampleSegment_length _ _ _ _ _ _ _ _ _ _ _ _ | rfl)

theorem resampleLoop_length (env : Externals) (SRC DET : COMPLEX8TimeSeries)
    (stampsDET : LIGOTimeGPSVector) (timing : SSBtimes) (sp0 sp1 : gsl_spline) (l : List Nat)
    (s : List COMPLEX8 × List LIGOTimeGPS) :
    (forLoop (resampleTimestamp env SRC DET stampsDET timing sp0 sp1) l s).2.1.length
      = s.1.length :=
  forLoop_inv_all _ (fun s' => s'.1.length = s.1.length) l
    (fun i _ s' hs => by
      show (resampleTimestamp env SRC DET stampsDET timing sp0 sp1 i s').2.1.length = _
      rw [resampleTimestamp_length]
      exact hs) s rfl

/-- The resampling of one detector keeps the epoch, the heterodyne frequency, the sample
interval and the length of the allocated output series. -/
theorem XLALBarycentricResample_grid (env : Externals) (SRC : COMPLEX8TimeSeries)
    (stampsSRC : Option LIGOTimeGPSVector) (DET : Option COMPLEX8TimeSeries)
    (stampsDET : Option LIGOTimeGPSVector) (timing : Option SSBtimes) (st : XLALStatus)
    (out : COMPLEX8TimeSeries) (stampsOut : Option LIGOTimeGPSVector)
    (h : XLALBarycentricResampleCOMPLEX8TimeSeries env (some SRC) stampsSRC DET stampsDET timing
      = (st, some out, stampsOut)) :
    out.epoch = SRC.epoch ∧ out.f0 = SRC.f0 ∧ out.deltaT = SRC.deltaT ∧
      out.data.length = SRC.data.length := by
  unfold XLALBarycentricResampleCOMPLEX8TimeSeries at h
  split at h
  · rename_i DET SRC' stampsDET stampsSRC timing heq
    simp only [Option.some.injEq] at heq
    subst heq
    dsimp only at h
    split_ifs at h
    all_goals first
      | (simp only [Prod.mk.injEq, Option.some.injEq] at h
         obtain ⟨-, rfl, -⟩ := h
         exact ⟨rfl, rfl, rfl, rfl⟩)
      | skip
    generalize hr : forLoop _ _ _ = r at h
    have hlen : r.2.1.length = SRC.data.length := by
      rw [← hr]
      exact resampleLoop_length _ _ _ _ _ _ _ _ _
    obtain ⟨st', d, stamps'⟩ := r
    simp only [Prod.mk.injEq, Option.some.injEq] at h
    obtain ⟨-, rfl, -⟩ := h
    exact ⟨rfl, rfl, rfl, hlen⟩
  · simp only [Prod.mk.injEq, Option.some.injEq] at h
    obtain ⟨-, rfl, -⟩ := h
    exact ⟨rfl, rfl, rfl, rfl⟩
/-- What a successful pass of the detector loop of the resampler does: the series and the
timestamps of detector `X` are the output of `XLALBarycentricResampleCOMPLEX8TimeSeries`
on a zeroed series of `numOut` samples at interval `dtEff` with epoch `earliestSRC`, and
they are appended to the output arrays. -/
theorem resampleDetector_success (env : Externals) (det : MultiCOMPLEX8TimeSeries)
    (stamps : MultiLIGOTimeGPSVector) (timing : MultiSSBtimes) (earliestSRC : LIGOTimeGPS)
    (fHet dtEff : REAL8) (numOut : UINT4) (X : Nat)
    (s s' : List COMPLEX8TimeSeries × List LIGOTimeGPSVector)
    (h : resampleDetector env det stamps timing earliestSRC fHet dtEff numOut X s
      = (XLAL_SUCCESS, s')) :
    ∃ DETX stampsDETX series stampsX,
      det.data[X]? = some DETX ∧ stamps.data[X]? = some stampsDETX ∧
      XLALBarycentricResampleCOMPLEX8TimeSeries env
        (some ⟨earliestSRC, fHet, dtEff, List.replicate numOut 0⟩)
        (some ⟨List.replicate stampsDETX.data.length ⟨0⟩, stampsDETX.deltaT⟩)
        (some DETX) (some stampsDETX) timing.data[X]?
        = (XLAL_SUCCESS, some series, some stampsX) ∧
      s' = (s.1 ++ [series], s.2 ++ [stampsX]) := by
  unfold resampleDetector at h
  split at h
  · rename_i DETX stampsDETX hD hS
    split_ifs at h
    all_goals first
      | (simp only [Prod.mk.injEq] at h; exact absurd h.1 (by decide))
      | skip
    split at h
    · rename_i series stampsX hrun
      simp only [Prod.mk.injEq, true_and] at h
      exact ⟨DETX, stampsDETX, series, stampsX, hD, hS, hrun, h.symm⟩
    · simp only [Prod.mk.injEq] at h; exact absurd h.1 (by decide)
  · simp only [Prod.mk.injEq] at h; exact absurd h.1 (by decide)

theorem resampleLoop_inv (env : Externals) (det : MultiCOMPLEX8TimeSeries)
    (stamps : MultiLIGOTimeGPSVector) (timing : MultiSSBtimes) (earliestSRC : LIGOTimeGPS)
    (fHet dtEff : REAL8) (numOut : UINT4) (n : Nat)
    (s : List COMPLEX8TimeSeries × List LIGOTimeGPSVector)
    (h : forLoop (resampleDetector env det stamps timing earliestSRC fHet dtEff numOut)
      (List.range n) ([], []) = (XLAL_SUCCESS, s)) :
    ResampledUpTo env det stamps timing earliestSRC fHet dtEff numOut n s := by
  refine forLoop_range_inv _
    (fun n s => ResampledUpTo env det stamps timing earliestSRC fHet dtEff numOut n s)
    ([], []) ⟨rfl, rfl, fun X hX => absurd hX (Nat.not_lt_zero X)⟩ ?_ n s h
  intro m s1 s2 hinv hbody
  obtain ⟨DETX, stampsDETX, series, stampsX, hD, hS, hrun, rfl⟩ :=
    resampleDetector_success _ _ _ _ _ _ _ _ _ _ _ hbody
  obtain ⟨l1, l2, heach⟩ := hinv
  refine ⟨by simp [l1], by simp [l2], fun X hX => ?_⟩
  by_cases hXm : X = m
  · subst hXm
    refine ⟨DETX, stampsDETX, series, stampsX, hD, hS, ?_, ?_, hrun⟩
    · show (s1.1 ++ [series])[X]? = some series
      rw [List.getElem?_append_right (by omega)]
      simp [l1]
    · show (s1.2 ++ [stampsX])[X]? = some stampsX
      rw [List.getElem?_append_right (by omega)]
      simp [l2]
  · obtain ⟨D, S, ser, st, h1, h2, h3, h4, h5⟩ := heach X (by omega)
    refine ⟨D, S, ser, st, h1, h2, ?_, ?_, h5⟩
    · show (s1.1 ++ [series])[X]? = some ser
      rw [List.getElem?_append_left (by omega)]
      exact h3
    · show (s1.2 ++ [stampsX])[X]? = some st
      rw [List.getElem?_append_left (by omega)]
      exact h4
/-- What a successful call of `XLALBarycentricResampleMultiCOMPLEX8TimeSeries` returns:
for each detector the resampling of a zeroed series of `numTimeSamplesOut` samples at
interval `deltaTEff`, both computed from the sample interval of the first detector, with
the earliest source time as epoch. -/
theorem XLALBarycentricResampleMulti_spec (env : Externals) (det : MultiCOMPLEX8TimeSeries)
    (stampsDET : Option MultiLIGOTimeGPSVector) (timing : Option MultiSSBtimes)
    (deltaF : REAL8) (src : Option MultiCOMPLEX8TimeSeries)
    (stampsOut : Option MultiLIGOTimeGPSVector)
    (h : XLALBarycentricResampleMultiCOMPLEX8TimeSeries env (some none) (some none) (some det)
      stampsDET timing deltaF = (XLAL_SUCCESS, src, stampsOut)) :
    ∃ stamps tim det0 stamps0 earliestSRC S T,
      stampsDET = some stamps ∧ timing = some tim ∧ det.data.head? = some det0 ∧
      stamps.data.head? = some stamps0 ∧
      env.XLALEarliestMultiSSBtime tim stamps0.deltaT = some earliestSRC ∧ 0 < deltaF ∧
      0 < det.data.length ∧
      src = some ⟨S⟩ ∧ stampsOut = some ⟨T⟩ ∧
      ResampledUpTo env det stamps tim earliestSRC det0.f0 (deltaTEff deltaF det0.deltaT)
        (numTimeSamplesOut deltaF det0.deltaT) det.data.length (S, T) := by
  unfold XLALBarycentricResampleMultiCOMPLEX8TimeSeries at h
  simp only [ne_eq, not_true_eq_false, if_false] at h
  split at h
  · rename_i _ _ _ det' stamps tim heq
    simp only [Option.some.injEq] at heq
    subst heq
    split_ifs at h with hF hN
    all_goals first
      | (simp only [Prod.mk.injEq] at h; exact absurd h.1 (by decide))
      | ((repeat' split at h) <;> (simp only [Prod.mk.injEq] at h; exact absurd h.1 (by decide)))
      | skip
    split at h
    · rename_i stamps0 det0 hs0 hd0
      split at h
      · rename_i earliestSRC latestSRC hE hL
        generalize hr : forLoop _ _ _ = r at h
        obtain ⟨st, S, T⟩ := r
        simp only [Prod.mk.injEq] at h
        obtain ⟨rfl, rfl, rfl⟩ := h
        exact ⟨stamps, tim, det0, stamps0, earliestSRC, S, T, rfl, rfl, hd0, hs0, hE, hF, hN.1,
          rfl, rfl, resampleLoop_inv _ _ _ _ _ _ _ _ _ _ hr⟩
      · simp only [Prod.mk.injEq] at h; exact absurd h.1 (by decide)
    · simp only [Prod.mk.injEq] at h; exact absurd h.1 (by decide)
  · simp only [Prod.mk.injEq] at h; exact absurd h.1 (by decide)
theorem le_ceil (x : ℚ) : x ≤ (ceil x : ℚ) := by
  unfold ceil
  have h : ((Rat.floor (-x) : Int) : ℚ) ≤ -x := Rat.le_floor.mp le_rfl
  push_cast
  linarith

theorem ceil_pos (x : ℚ) (hx : 0 < x) : 0 < ceil x := by
  have h := le_ceil x
  have : (0 : ℚ) < (ceil x : ℚ) := lt_of_lt_of_le hx h
  exact_mod_cast this

theorem toUINT4_of_fits (z : Int) (h0 : 0 ≤ z) (h1 : z < 2 ^ 32) : (toUINT4 z : Int) = z := by
  show (((z % 2 ^ 32).toNat : Nat) : Int) = z
  omega

/-- The sample count and the sample interval of the resampled series for a positive
resolution `deltaF` and a positive input interval `deltaT`, when the count fits `UINT4`. -/
theorem outputGrid_spec (deltaF deltaT : REAL8) (hF : 0 < deltaF) (hT : 0 < deltaT)
    (hfit : ceil (1 / deltaF / deltaT) < 2 ^ 32) :
    (numTimeSamplesOut deltaF deltaT : Int) = ceil (1 / deltaF / deltaT) ∧
    0 < numTimeSamplesOut deltaF deltaT ∧
    (numTimeSamplesOut deltaF deltaT : ℚ) * deltaTEff deltaF deltaT = 1 / deltaF ∧
    0 < deltaTEff deltaF deltaT ∧
    deltaTEff deltaF deltaT ≤ deltaT ∧
    1 / deltaT ≤ 1 / deltaTEff deltaF deltaT := by
  have hx : 0 < 1 / deltaF / deltaT := div_pos (one_div_pos.mpr hF) hT
  have hc := ceil_pos _ hx
  have hn : (numTimeSamplesOut deltaF deltaT : Int) = ceil (1 / deltaF / deltaT) :=
    toUINT4_of_fits _ (le_of_lt hc) hfit
  have hnpos : 0 < numTimeSamplesOut deltaF deltaT := by
    have : (0 : Int) < (numTimeSamplesOut deltaF deltaT : Int) := by rw [hn]; exact hc
    exact_mod_cast this
  have hnq : (0 : ℚ) < (numTimeSamplesOut deltaF deltaT : ℚ) := by exact_mod_cast hnpos
  have hle : 1 / deltaF / deltaT ≤ (numTimeSamplesOut deltaF deltaT : ℚ) := by
    have h := le_ceil (1 / deltaF / deltaT)
    rw [← hn] at h
    exact_mod_cast h
  have hTeff : 0 < 1 / deltaF := one_div_pos.mpr hF
  have hpos : 0 < deltaTEff deltaF deltaT := div_pos hTeff hnq
  have hdle : deltaTEff deltaF deltaT ≤ deltaT := by
    unfold deltaTEff
    rw [div_le_iff₀ hnq]
    rw [div_le_iff₀ hT] at hle
    linarith
  refine ⟨hn, hnpos, ?_, hpos, hdle, one_div_le_one_div_of_le hpos hdle⟩
  unfold deltaTEff
  field_simp
  ring
/-- Every series returned by a successful call of the resampler has `numTimeSamplesOut`
samples at interval `deltaTEff`, computed from the first detector's sample interval. -/
theorem XLALBarycentricResampleMulti_grid (env : Externals) (det : MultiCOMPLEX8TimeSeries)
    (stampsDET : Option MultiLIGOTimeGPSVector) (timing : Option MultiSSBtimes)
    (deltaF : REAL8) (src : Option MultiCOMPLEX8TimeSeries)
    (stampsOut : Option MultiLIGOTimeGPSVector) (det0 : COMPLEX8TimeSeries)
    (h : XLALBarycentricResampleMultiCOMPLEX8TimeSeries env (some none) (some none) (some det)
      stampsDET timing deltaF = (XLAL_SUCCESS, src, stampsOut))
    (hdet0 : det.data.head? = some det0) :
    ∃ S, src = some ⟨S⟩ ∧ S.length = det.data.length ∧
      ∀ s, s ∈ S → s.data.length = numTimeSamplesOut deltaF det0.deltaT ∧
        s.deltaT = deltaTEff deltaF det0.deltaT ∧ s.f0 = det0.f0 := by
  obtain ⟨stamps, tim, det0', stamps0, earliestSRC, S, T, -, -, hd, -, -, -, -, rfl, -, hinv⟩ :=
    XLALBarycentricResampleMulti_spec env det stampsDET timing deltaF src stampsOut h
  rw [hdet0] at hd
  simp only [Option.some.injEq] at hd
  subst hd
  refine ⟨S, rfl, hinv.lenSeries, fun s hs => ?_⟩
  obtain ⟨X, hX⟩ := List.mem_iff_getElem?.mp hs
  have hlt : X < det.data.length := by
    have h1 : X < S.length := by
      by_contra hge
      rw [List.getElem?_eq_none (by omega)] at hX
      exact absurd hX (by simp)
    have h2 : S.length = det.data.length := hinv.lenSeries
    omega
  obtain ⟨DETX, stampsDETX, series, stampsX, -, -, hser, -, hrun⟩ := hinv.each X hlt
  have hser' : S[X]? = some series := hser
  rw [hX] at hser'
  simp only [Option.some.injEq] at hser'
  subst hser'
  obtain ⟨-, g2, g3, g4⟩ := XLALBarycentricResample_grid _ _ _ _ _ _ _ _ _ hrun
  refine ⟨?_, g3, g2⟩
  rw [g4]
  exact List.length_replicate _ _

/-- C15: for a resolution `deltaF > 0` and an input sample interval `deltaT > 0` (that of
the first detector) whose sample count `ceil((1/deltaF)/deltaT)` fits `UINT4`, every
series returned by a successful call of `XLALBarycentricResampleMultiCOMPLEX8TimeSeries`
has `numTimeSamplesOut = ceil((1/deltaF)/deltaT)` samples at interval
`deltaTEff = (1/deltaF)/numTimeSamplesOut`; the duration `numTimeSamplesOut * deltaTEff`
is `1/deltaF`, `deltaTEff <= deltaT`, and the sampled band `1/deltaTEff` is not narrower
than `1/deltaT`. -/
theorem C15_resolution_padding (env : Externals) (det : MultiCOMPLEX8TimeSeries)
    (stampsDET : Option MultiLIGOTimeGPSVector) (timing : Option MultiSSBtimes)
    (deltaF : REAL8) (src : Option MultiCOMPLEX8TimeSeries)
    (stampsOut : Option MultiLIGOTimeGPSVector) (det0 : COMPLEX8TimeSeries)
    (hrun : XLALBarycentricResampleMultiCOMPLEX8TimeSeries env (some none) (some none)
      (some det) stampsDET timing deltaF = (XLAL_SUCCESS, src, stampsOut))
    (hdet0 : det.data.head? = some det0)
    (hF : 0 < deltaF) (hT : 0 < det0.deltaT)
    (hfit : ceil (1 / deltaF / det0.deltaT) < 2 ^ 32) :
    (numTimeSamplesOut deltaF det0.deltaT : Int) = ceil (1 / deltaF / det0.deltaT) ∧
    deltaTEff deltaF det0.deltaT = 1 / deltaF / (numTimeSamplesOut deltaF det0.deltaT : ℚ) ∧
    (∃ S, src = some ⟨S⟩ ∧ S.length = det.data.length ∧
      ∀ s, s ∈ S → s.data.length = numTimeSamplesOut deltaF det0.deltaT ∧
        s.deltaT = deltaTEff deltaF det0.deltaT ∧
        (s.data.length : ℚ) * s.deltaT = 1 / deltaF) ∧
    (numTimeSamplesOut deltaF det0.deltaT : ℚ) * deltaTEff deltaF det0.deltaT = 1 / deltaF ∧
    deltaTEff deltaF det0.deltaT ≤ det0.deltaT ∧
    1 / det0.deltaT ≤ 1 / deltaTEff deltaF det0.deltaT := by
  obtain ⟨h1, -, h3, -, h5, h6⟩ := outputGrid_spec deltaF det0.deltaT hF hT hfit
  obtain ⟨S, hS, hlen, hall⟩ :=
    XLALBarycentricResampleMulti_grid env det stampsDET timing deltaF src stampsOut det0 hrun
      hdet0
  refine ⟨h1, rfl, ⟨S, hS, hlen, fun s hs => ?_⟩, h3, h5, h6⟩
  obtain ⟨g1, g2, -⟩ := hall s hs
  refine ⟨g1, g2, ?_⟩
  rw [g1, g2]
  exact h3

/-- An instance of C15: the sample detectors (interval 1 s) resampled for the resolution
2/7 Hz, that is a duration of 3.5 s: four samples at interval 7/8 s. -/
theorem C15_resolution_padding_witness :
    (numTimeSamplesOut (2 / 7) Sample.series0.deltaT : Int) = 4 ∧
    deltaTEff (2 / 7) Sample.series0.deltaT = 7 / 8 ∧
    ∃ S, (XLALBarycentricResampleMultiCOMPLEX8TimeSeries Sample.env (some none) (some none)
        (some Sample.multiTimeSeries_DET) Sample.common.timestamps
        (some ⟨[Sample.ssb ⟨0⟩ 0, Sample.ssb ⟨0⟩ 0]⟩) (2 / 7)).2.1 = some ⟨S⟩ ∧
      ∀ s, s ∈ S → (s.data.length : ℚ) * s.deltaT = 1 / (2 / 7) := by
  have hst : (XLALBarycentricResampleMultiCOMPLEX8TimeSeries Sample.env (some none) (some none)
      (some Sample.multiTimeSeries_DET) Sample.common.timestamps
      (some ⟨[Sample.ssb ⟨0⟩ 0, Sample.ssb ⟨0⟩ 0]⟩) (2 / 7)).1 = XLAL_SUCCESS := by decide!
  obtain ⟨h1, -, ⟨S, hS, -, hall⟩, -⟩ := C15_resolution_padding Sample.env
    Sample.multiTimeSeries_DET Sample.common.timestamps
    (some ⟨[Sample.ssb ⟨0⟩ 0, Sample.ssb ⟨0⟩ 0]⟩) (2 / 7) _ _ Sample.series0
    (by rw [← hst]) rfl (by decide!) (by decide!) (by decide!)
  exact ⟨by decide!, by decide!, S, hS, fun s hs => (hall s hs).2.2⟩

/-! ## Theorems: the grid of the weighted series -/

theorem storeWeighted_length (x : List COMPLEX8) (a b : REAL4) (l : List UINT4)
    (s : List COMPLEX8 × List COMPLEX8) :
    (l.foldl (storeWeighted x a b) s).1.length = s.1.length ∧
    (l.foldl (storeWeighted x a b) s).2.length = s.2.length := by
  induction l generalizing s with
  | nil => exact ⟨rfl, rfl⟩
  | cons i l ih =>
    rw [List.foldl_cons]
    obtain ⟨h1, h2⟩ := ih (storeWeighted x a b s i)
    rw [h1, h2]
    unfold storeWeighted
    exact ⟨List.length_set _ _ _, List.length_set _ _ _⟩

theorem weightTimestamp_length (ts : COMPLEX8TimeSeries) (am : AMCoeffs)
    (stamps : LIGOTimeGPSVector) (s : List COMPLEX8 × List COMPLEX8) (j : Nat) :
    (weightTimestamp ts am stamps s j).1.length = s.1.length ∧
    (weightTimestamp ts am stamps s j).2.length = s.2.length := by
  unfold weightTimestamp
  rw [weightSegment_eq_writes]
  exact storeWeighted_length _ _ _ _ _

/-- The two weighted sample vectors are as long as the input series. -/
theorem weightedData_length (ts : COMPLEX8TimeSeries) (am : AMCoeffs)
    (stamps : LIGOTimeGPSVector) :
    (weightedData ts am stamps).1.length = ts.data.length ∧
    (weightedData ts am stamps).2.length = ts.data.length := by
  rw [weightedData_eq_upTo]
  generalize stamps.data.length = m
  induction m with
  | zero => exact ⟨List.length_replicate _ _, List.length_replicate _ _⟩
  | succ m ih =>
    rw [weightedUpTo_succ]
    obtain ⟨h1, h2⟩ := weightTimestamp_length ts am stamps (weightedUpTo ts am stamps m) m
    rw [h1, h2]
    exact ih

theorem weightDetector_success (env : Externals) (src : MultiCOMPLEX8TimeSeries)
    (am : MultiAMCoeffs) (stamps : MultiLIGOTimeGPSVector) (X : Nat)
    (s s' : List COMPLEX8TimeSeries × List COMPLEX8TimeSeries)
    (h : weightDetector env src am stamps X s = (XLAL_SUCCESS, s')) :
    ∃ ts amX stampsX Fa Fb,
      src.data[X]? = some ts ∧ am.data[X]? = some amX ∧ stamps.data[X]? = some stampsX ∧
      XLALAntennaWeightCOMPLEX8TimeSeries env (some none) (some none) (some ts) (some amX)
        (some stampsX) = (XLAL_SUCCESS, some Fa, some Fb) ∧
      s' = (s.1 ++ [Fa], s.2 ++ [Fb]) := by
  unfold weightDetector at h
  split at h
  · rename_i Fa Fb hrun
    simp only [Prod.mk.injEq, true_and] at h
    cases h1 : src.data[X]? with
    | none =>
      rw [h1] at hrun
      simp [XLALAntennaWeightCOMPLEX8TimeSeries] at hrun
    | some ts =>
      cases h2 : am.data[X]? with
      | none =>
        rw [h1, h2] at hrun
        simp [XLALAntennaWeightCOMPLEX8TimeSeries] at hrun
      | some amX =>
        cases h3 : stamps.data[X]? with
        | none =>
          rw [h1, h2, h3] at hrun
          simp [XLALAntennaWeightCOMPLEX8TimeSeries] at hrun
        | some stampsX =>
          rw [h1, h2, h3] at hrun
          exact ⟨ts, amX, stampsX, Fa, Fb, rfl, rfl, rfl, hrun, h.symm⟩
  · simp only [Prod.mk.injEq] at h; exact absurd h.1 (by decide)

theorem weightLoop_inv (env : Externals) (src : MultiCOMPLEX8TimeSeries)
    (am : MultiAMCoeffs) (stamps : MultiLIGOTimeGPSVector) (n : Nat)
    (s : List COMPLEX8TimeSeries × List COMPLEX8TimeSeries)
    (h : forLoop (weightDetector env src am stamps) (List.range n) ([], [])
      = (XLAL_SUCCESS, s)) :
    WeightedDetectors env src am stamps n s := by
  refine forLoop_range_inv _ (fun n s => WeightedDetectors env src am stamps n s)
    ([], []) ⟨rfl, rfl, fun X hX => absurd hX (Nat.not_lt_zero X)⟩ ?_ n s h
  intro m s1 s2 hinv hbody
  obtain ⟨ts, amX, stampsX, Fa, Fb, h1, h2, h3, hrun, rfl⟩ :=
    weightDetector_success _ _ _ _ _ _ _ hbody
  obtain ⟨l1, l2, heach⟩ := hinv
  refine ⟨by simp [l1], by simp [l2], fun X hX => ?_⟩
  by_cases hXm : X = m
  · subst hXm
    refine ⟨ts, amX, stampsX, Fa, Fb, h1, h2, h3, ?_, ?_, hrun⟩
    · show (s1.1 ++ [Fa])[X]? = some Fa
      rw [List.getElem?_append_right (by omega)]
      simp [l1]
    · show (s1.2 ++ [Fb])[X]? = some Fb
      rw [List.getElem?_append_right (by omega)]
      simp [l2]
  · obtain ⟨ts', a', st', Fa', Fb', g1, g2, g3, g4, g5, g6⟩ := heach X (by omega)
    refine ⟨ts', a', st', Fa', Fb', g1, g2, g3, ?_, ?_, g6⟩
    · show (s1.1 ++ [Fa])[X]? = some Fa'
      rw [List.getElem?_append_left (by omega)]
      exact g4
    · show (s1.2 ++ [Fb])[X]? = some Fb'
      rw [List.getElem?_append_left (by omega)]
      exact g5

/-- What a successful call of `XLALAntennaWeightMultiCOMPLEX8TimeSeries` returns: for each
detector the two outputs of `XLALAntennaWeightCOMPLEX8TimeSeries`. -/
theorem XLALAntennaWeightMulti_spec (env : Externals) (src : MultiCOMPLEX8TimeSeries)
    (am : MultiAMCoeffs) (stamps : MultiLIGOTimeGPSVector)
    (Fa Fb : Option MultiCOMPLEX8TimeSeries)
    (h : XLALAntennaWeightMultiCOMPLEX8TimeSeries env (some none) (some none) (some src)
      (some am) (some stamps) = (XLAL_SUCCESS, Fa, Fb)) :
    ∃ A B, Fa = some ⟨A⟩ ∧ Fb = some ⟨B⟩ ∧
      WeightedDetectors env src am stamps src.data.length (A, B) := by
  unfold XLALAntennaWeightMultiCOMPLEX8TimeSeries at h
  simp only [ne_eq, not_true_eq_false, if_false] at h
  split_ifs at h
  all_goals first
    | (simp only [Prod.mk.injEq] at h; exact absurd h.1 (by decide))
    | skip
  generalize hr : forLoop _ _ _ = r at h
  obtain ⟨st, A, B⟩ := r
  simp only [Prod.mk.injEq] at h
  obtain ⟨rfl, rfl, rfl⟩ := h
  exact ⟨A, B, rfl, rfl, weightLoop_inv _ _ _ _ _ _ hr⟩
/-- Every series returned by a successful antenna weighting of all detectors has the
length and the sample interval of an input series. -/
theorem XLALAntennaWeightMulti_grid (env : Externals) (src : MultiCOMPLEX8TimeSeries)
    (am : MultiAMCoeffs) (stamps : MultiLIGOTimeGPSVector) (Fa Fb : MultiCOMPLEX8TimeSeries)
    (h : XLALAntennaWeightMultiCOMPLEX8TimeSeries env (some none) (some none) (some src)
      (some am) (some stamps) = (XLAL_SUCCESS, some Fa, some Fb)) :
    (∀ s, s ∈ Fa.data → ∃ ts, ts ∈ src.data ∧ s.data.length = ts.data.length ∧
      s.deltaT = ts.deltaT ∧ s.f0 = ts.f0 ∧ s.epoch = ts.epoch) ∧
    (∀ s, s ∈ Fb.data → ∃ ts, ts ∈ src.data ∧ s.data.length = ts.data.length ∧
      s.deltaT = ts.deltaT ∧ s.f0 = ts.f0 ∧ s.epoch = ts.epoch) := by
  obtain ⟨A, B, hA, hB, hinv⟩ := XLALAntennaWeightMulti_spec env src am stamps _ _ h
  simp only [Option.some.injEq] at hA hB
  subst hA
  subst hB
  have key : ∀ X, X < src.data.length → ∀ Fa' Fb' : COMPLEX8TimeSeries,
      (A[X]? = some Fa' → ∃ ts, ts ∈ src.data ∧ Fa'.data.length = ts.data.length ∧
        Fa'.deltaT = ts.deltaT ∧ Fa'.f0 = ts.f0 ∧ Fa'.epoch = ts.epoch) ∧
      (B[X]? = some Fb' → ∃ ts, ts ∈ src.data ∧ Fb'.data.length = ts.data.length ∧
        Fb'.deltaT = ts.deltaT ∧ Fb'.f0 = ts.f0 ∧ Fb'.epoch = ts.epoch) := by
    intro X hX Fa' Fb'
    obtain ⟨ts, amX, stampsX, Fa0, Fb0, h1, -, -, h4, h5, hrun⟩ := hinv.each X hX
    obtain ⟨e1, e2⟩ := XLALAntennaWeight_success env ts amX stampsX Fa0 Fb0 hrun
    obtain ⟨l1, l2⟩ := weightedData_length ts amX stampsX
    have hts : ts ∈ src.data := List.mem_iff_getElem?.mpr ⟨X, h1⟩
    have h4' : A[X]? = some Fa0 := h4
    have h5' : B[X]? = some Fb0 := h5
    constructor
    · intro hA
      rw [h4'] at hA
      simp only [Option.some.injEq] at hA
      subst hA
      subst e1
      exact ⟨ts, hts, l1, rfl, rfl, rfl⟩
    · intro hB
      rw [h5'] at hB
      simp only [Option.some.injEq] at hB
      subst hB
      subst e2
      exact ⟨ts, hts, l2, rfl, rfl, rfl⟩
  have lA : A.length = src.data.length := hinv.lenFa
  have lB : B.length = src.data.length := hinv.lenFb
  constructor
  · intro s hs
    have hs' : s ∈ A := hs
    obtain ⟨X, hX⟩ := List.mem_iff_getElem?.mp hs'
    have hlt : X < A.length := by
      by_contra hge
      rw [List.getElem?_eq_none (by omega)] at hX
      exact absurd hX (by simp)
    exact (key X (by omega) s s).1 hX
  · intro s hs
    have hs' : s ∈ B := hs
    obtain ⟨X, hX⟩ := List.mem_iff_getElem?.mp hs'
    have hlt : X < B.length := by
      by_contra hge
      rw [List.getElem?_eq_none (by omega)] at hX
      exact absurd hX (by simp)
    exact (key X (by omega) s s).2 hX

/-- What the buffering block leaves behind when it succeeds in one of the two recomputing
arms: the detector-frame series were resampled on some timing map, the result was
weighted with the AM coefficients `am`, and the cache holds the query point, `am` and the
two weighted series.  In the binary-only arm `am` and the sky timing are the cached ones;
in the full arm they are computed for the sky position of the query point. -/
theorem handleBuffering_recomputed (env : Externals) (common : FstatInput_Common)
    (c : FstatInput_Resamp) (p : PulsarDopplerParams) (d : REAL8)
    (hst : (handleBuffering env common c p d).status = XLAL_SUCCESS)
    (hbr : (handleBuffering env common c p d).branch ≠ .fullReuse) :
    ∃ timing sky am src stamps Fa Fb,
      XLALBarycentricResampleMultiCOMPLEX8TimeSeries env (some none) (some none)
        (some c.multiTimeSeries_DET) common.timestamps timing d
        = (XLAL_SUCCESS, some src, some stamps) ∧
      XLALAntennaWeightMultiCOMPLEX8TimeSeries env (some none) (some none) (some src) (some am)
        (some stamps) = (XLAL_SUCCESS, some Fa, some Fb) ∧
      (handleBuffering env common c p d).multiAMcoef = some am ∧
      (handleBuffering env common c p d).multiFa_SRC = some Fa ∧
      (handleBuffering env common c p d).multiFb_SRC = some Fb ∧
      (handleBuffering env common c p d).resamp =
        ⟨c.multiTimeSeries_DET, p, some am, some sky, some Fa, some Fb⟩ ∧
      (((handleBuffering env common c p d).branch = .binaryOnly ∧
          c.prev_multiAMcoef = some am ∧ c.prev_multiSSBsky = some sky) ∨
        ((handleBuffering env common c p d).branch = .fullRecompute ∧
          env.XLALComputeMultiAMCoeffs common.detectorStates common.noiseWeights
            ⟨p.Alpha, p.Delta⟩ = some am ∧
          env.XLALGetMultiSSBtimes common.detectorStates ⟨p.Alpha, p.Delta⟩ p.refTime
            common.SSBprec = some sky)) := by
  by_cases hsky : sameSkyAndRefTime c.prev_doppler p = true
  · by_cases hbin : sameBinary c.prev_doppler p = true
    · rw [handleBuffering_branch] at hbr
      simp [hsky, hbin] at hbr
    · have hbuf : handleBuffering env common c p d = recomputeBinary env common c p d := by
        simp [handleBuffering, hsky, hbin]
      rw [hbuf] at hst ⊢
      obtain ⟨src, stamps, Fa, Fb, hres, hw, heq⟩ :=
        recomputeBinary_success env common c p d hst
      obtain ⟨htiming, hsrc, hstamps⟩ := XLALBarycentricResampleMulti_success _ _ _ _ _ _ _ hres
      obtain ⟨-, ham, -, hFa, hFb⟩ := XLALAntennaWeightMulti_success _ _ _ _ _ _ hw
      obtain ⟨src, rfl⟩ := Option.isSome_iff_exists.mp hsrc
      obtain ⟨stamps, rfl⟩ := Option.isSome_iff_exists.mp hstamps
      obtain ⟨Fa, rfl⟩ := Option.isSome_iff_exists.mp hFa
      obtain ⟨Fb, rfl⟩ := Option.isSome_iff_exists.mp hFb
      obtain ⟨am, ham⟩ := Option.isSome_iff_exists.mp ham
      have hskysome : ∃ sky, c.prev_multiSSBsky = some sky := by
        cases hs : c.prev_multiSSBsky with
        | none => simp [hs] at htiming
        | some sky => exact ⟨sky, rfl⟩
      obtain ⟨sky, hs⟩ := hskysome
      refine ⟨_, sky, am, src, stamps, Fa, Fb, hres, ?_, ?_, ?_, ?_, ?_, ?_⟩
      · rw [← hw, ham]
      · rw [heq]; exact ham
      · rw [heq]
      · rw [heq]
      · rw [heq]
        cases c
        simp only at ham hs
        simp [ham, hs]
      · left
        rw [heq]
        exact ⟨rfl, ham, hs⟩
  · have hbuf : handleBuffering env common c p d = recomputeSky env common c p d := by
      simp [handleBuffering, hsky]
    rw [hbuf] at hst ⊢
    obtain ⟨sky, am, src, stamps, Fa, Fb, hsk, ham, hres, hw, heq⟩ :=
      recomputeSky_success env common c p d hst
    obtain ⟨-, hsrc, hstamps⟩ := XLALBarycentricResampleMulti_success _ _ _ _ _ _ _ hres
    obtain ⟨-, -, -, hFa, hFb⟩ := XLALAntennaWeightMulti_success _ _ _ _ _ _ hw
    obtain ⟨src, rfl⟩ := Option.isSome_iff_exists.mp hsrc
    obtain ⟨stamps, rfl⟩ := Option.isSome_iff_exists.mp hstamps
    obtain ⟨Fa, rfl⟩ := Option.isSome_iff_exists.mp hFa
    obtain ⟨Fb, rfl⟩ := Option.isSome_iff_exists.mp hFb
    refine ⟨_, sky, am, src, stamps, Fa, Fb, hres, hw, ?_, ?_, ?_, ?_, ?_⟩
    · rw [heq]
    · rw [heq]
    · rw [heq]
    · rw [heq]
    · right
      rw [heq]
      exact ⟨rfl, ham, hsk⟩
theorem ceil_natCast (n : Nat) : ceil (n : ℚ) = (n : Int) := by
  unfold ceil
  have h : Rat.floor (((-(n : Int) : Int)) : ℚ) = -(n : Int) :=
    @Int.floor_intCast ℚ _ _ (-(n : Int))
  have e : (-(n : ℚ)) = (((-(n : Int) : Int)) : ℚ) := by push_cast; rfl
  rw [e, h]
  omega

/-- The output grid for the default resolution `1 / (N * dt)`: `N` samples at interval
`dt`. -/
theorem outputGrid_default (N : Nat) (dt : REAL8) (hN : 0 < N) (hN32 : N < 2 ^ 32)
    (hdt : 0 < dt) :
    numTimeSamplesOut (1 / ((N : ℚ) * dt)) dt = N ∧ deltaTEff (1 / ((N : ℚ) * dt)) dt = dt := by
  have hNq : (0 : ℚ) < (N : ℚ) := by exact_mod_cast hN
  have hx : 1 / (1 / ((N : ℚ) * dt)) / dt = (N : ℚ) := by
    field_simp
  have hn : numTimeSamplesOut (1 / ((N : ℚ) * dt)) dt = N := by
    unfold numTimeSamplesOut
    rw [hx, ceil_natCast]
    show (((N : Int) % 2 ^ 32).toNat : Nat) = N
    omega
  refine ⟨hn, ?_⟩
  unfold deltaTEff
  rw [hn]
  field_simp

/-- C14: a query with requested resolution `dFreq = 0` on detector series whose first
series has `N > 0` samples (a `UINT4` value) at interval `dt > 0` uses the resolution
`1/(N*dt)`; the resampler then works on `N` samples at interval `dt`, and when the query
succeeds in a recomputing arm, every resampled source-frame series and every weighted
series put into the cache has exactly `N` samples at interval `dt`: its span is the input
duration `N*dt`, without padding. -/
theorem C14_zero_resolution (env : Externals) (F : FstatResults) (common : FstatInput_Common)
    (c : FstatInput_Resamp) (det0 : COMPLEX8TimeSeries)
    (hd : F.dFreq = 0) (hdet : c.multiTimeSeries_DET.data.head? = some det0)
    (hN : 0 < det0.data.length) (hN32 : det0.data.length < 2 ^ 32) (hdt : 0 < det0.deltaT) :
    dFreqOut F det0 = 1 / ((det0.data.length : ℚ) * det0.deltaT) ∧
    numTimeSamplesOut (dFreqOut F det0) det0.deltaT = det0.data.length ∧
    deltaTEff (dFreqOut F det0) det0.deltaT = det0.deltaT ∧
    ((ComputeFstat_Resamp env (some F) (some common) (some c)).status = XLAL_SUCCESS →
      (ComputeFstat_Resamp env (some F) (some common) (some c)).branch ≠ some .fullReuse →
      ∃ timing src stamps am sky Fa Fb,
        XLALBarycentricResampleMultiCOMPLEX8TimeSeries env (some none) (some none)
          (some c.multiTimeSeries_DET) common.timestamps timing (dFreqOut F det0)
          = (XLAL_SUCCESS, some src, some stamps) ∧
        (ComputeFstat_Resamp env (some F) (some common) (some c)).resamp =
          some ⟨c.multiTimeSeries_DET, F.doppler, some am, some sky, some Fa, some Fb⟩ ∧
        (∀ s, s ∈ src.data ∨ s ∈ Fa.data ∨ s ∈ Fb.data →
          s.data.length = det0.data.length ∧ s.deltaT = det0.deltaT ∧
          (s.data.length : ℚ) * s.deltaT = (det0.data.length : ℚ) * det0.deltaT)) := by
  have hdF : dFreqOut F det0 = 1 / ((det0.data.length : ℚ) * det0.deltaT) := by
    unfold dFreqOut
    simp [hd]
  obtain ⟨g1, g2⟩ := outputGrid_default det0.data.length det0.deltaT hN hN32 hdt
  refine ⟨hdF, by rw [hdF]; exact g1, by rw [hdF]; exact g2, fun hok hbr => ?_⟩
  obtain ⟨hatoms, det0', hdet', hb, -⟩ := ComputeFstat_Resamp_success env F common c hok
  rw [hdet] at hdet'
  simp only [Option.some.injEq] at hdet'
  subst hdet'
  rw [ComputeFstat_Resamp_branch env F common c det0 hatoms hdet] at hbr
  obtain ⟨timing, sky, am, src, stamps, Fa, Fb, hres, hw, -, -, -, hresamp, -⟩ :=
    handleBuffering_recomputed env common c F.doppler (dFreqOut F det0) hb
      (fun h => hbr (by rw [h]))
  obtain ⟨S, hS, -, hall⟩ := XLALBarycentricResampleMulti_grid env c.multiTimeSeries_DET
    common.timestamps timing (dFreqOut F det0) _ _ det0 hres hdet
  simp only [Option.some.injEq] at hS
  obtain ⟨wa, wb⟩ := XLALAntennaWeightMulti_grid env src am stamps Fa Fb hw
  have hsrc : ∀ s, s ∈ src.data → s.data.length = det0.data.length ∧ s.deltaT = det0.deltaT := by
    intro s hs
    rw [hS] at hs
    obtain ⟨h1, h2, -⟩ := hall s hs
    rw [hdF, g1] at h1
    rw [hdF, g2] at h2
    exact ⟨h1, h2⟩
  refine ⟨timing, src, stamps, am, sky, Fa, Fb, hres, ?_, fun s hs => ?_⟩
  · rw [ComputeFstat_Resamp_eq env F common c det0 hatoms hdet]
    simp [hb, hresamp]
  · have hgrid : s.data.length = det0.data.length ∧ s.deltaT = det0.deltaT := by
      rcases hs with hs | hs | hs
      · exact hsrc s hs
      · obtain ⟨ts, hts, e1, e2, -⟩ := wa s hs
        obtain ⟨f1, f2⟩ := hsrc ts hts
        exact ⟨by rw [e1, f1], by rw [e2, f2]⟩
      · obtain ⟨ts, hts, e1, e2, -⟩ := wb s hs
        obtain ⟨f1, f2⟩ := hsrc ts hts
        exact ⟨by rw [e1, f1], by rw [e2, f2]⟩
    exact ⟨hgrid.1, hgrid.2, by rw [hgrid.1, hgrid.2]⟩

/-- An instance of C14: the first query on the fresh sample cache, with `dFreq = 0`, on
detector series of four samples at interval 1 s. -/
theorem C14_zero_resolution_witness :
    dFreqOut (Sample.query (Sample.point 1 2 10 0) 0 2 15) Sample.series0 = 1 / 4 ∧
    numTimeSamplesOut (1 / 4) 1 = 4 ∧ deltaTEff (1 / 4) 1 = 1 ∧
    ∃ c Fa, (ComputeFstat_Resamp Sample.env (some (Sample.query (Sample.point 1 2 10 0) 0 2 15))
        (some Sample.common) (some Sample.freshCache)).resamp = some c ∧
      c.prev_multiFa_SRC = some Fa ∧
      ∀ s, s ∈ Fa.data → (s.data.length : ℚ) * s.deltaT = 4 := by
  obtain ⟨h1, h2, h3, h4⟩ := C14_zero_resolution Sample.env
    (Sample.query (Sample.point 1 2 10 0) 0 2 15) Sample.common Sample.freshCache Sample.series0
    rfl rfl (by decide) (by decide) (by decide!)
  obtain ⟨timing, src, stamps, am, sky, Fa, Fb, -, hc, hall⟩ := h4 (by decide!) (by decide!)
  refine ⟨by decide!, by decide!, by decide!, _, Fa, hc, rfl, fun s hs => ?_⟩
  have := (hall s (Or.inr (Or.inl hs))).2.2
  rw [this]
  decide!

/-! ## Theorems: gaps of the resampled series -/

theorem resampleWrites_mem (u N : Nat) (n : Nat) :
    ∀ (k : Nat) (p : Nat × Nat), p ∈ resampleWrites u N n k →
      k ≤ p.1 ∧ p.1 < k + n ∧ p.2 = wrapUINT4 (p.1 + u) ∧ p.2 < N ∧ wrapUINT4 (k + u) < N := by
  induction n with
  | zero => intro k p hp; simp [resampleWrites] at hp
  | succ n ih =>
    intro k p hp
    unfold resampleWrites at hp
    by_cases hge : wrapUINT4 (k + u) ≥ N
    · simp only [hge, if_true, List.not_mem_nil] at hp
    · simp only [hge, if_false, List.mem_cons] at hp
      have hlt : wrapUINT4 (k + u) < N := Nat.lt_of_not_ge hge
      rcases hp with rfl | hp
      · exact ⟨Nat.le_refl _, by omega, rfl, hlt, hlt⟩
      · obtain ⟨h1, h2, h3, h4, -⟩ := ih (k + 1) p hp
        exact ⟨by omega, by omega, h3, h4, hlt⟩

/-- The second sample loop of a segment leaves every sample that is not among its stores
as it was, whatever its status. -/
theorem resampleSegment_frame (env : Externals) (fHet start_SRC deltaT_SRC : REAL8)
    (u N : Nat) (dts o0 o1 : List REAL8) (n : Nat) :
    ∀ (k : Nat) (d : List COMPLEX8) (i : Nat),
      (∀ p, p ∈ resampleWrites u N n k → p.2 ≠ i) →
      (resampleSegment env fHet start_SRC deltaT_SRC u N dts o0 o1 n k d).2[i]? = d[i]? := by
  induction n with
  | zero => intro k d i _; rfl
  | succ n ih =>
    intro k d i hi
    unfold resampleSegment
    unfold resampleWrites at hi
    by_cases hge : wrapUINT4 (k + u) ≥ N
    · simp only [hge, if_true]
    · simp only [hge, if_false, List.mem_cons] at hi ⊢
      split
      · split
        · rfl
        · rw [ih (k + 1) _ i (fun p hp => hi p (Or.inr hp))]
          have hne : wrapUINT4 (k + u) ≠ i := hi (k, wrapUINT4 (k + u)) (Or.inl rfl)
          exact List.getElem?_set_ne hne
      · rfl

theorem resampleTimestamp_frame (env : Externals) (SRC DET : COMPLEX8TimeSeries)
    (stampsDET : LIGOTimeGPSVector) (timing : SSBtimes) (sp0 sp1 : gsl_spline) (j : Nat)
    (s : List COMPLEX8 × List LIGOTimeGPS) (i : Nat)
    (hi : ∀ p, p ∈ segmentResampleWrites SRC timing stampsDET.deltaT j → p.2 ≠ i) :
    (resampleTimestamp env SRC DET stampsDET timing sp0 sp1 j s).2.1[i]? = s.1[i]? := by
  unfold resampleTimestamp
  dsimp only
  split_ifs <;> first
    | rfl
    | (split <;> first | exact resampleSegment_frame _ _ _ _ _ _ _ _ _ _ _ _ _ hi | rfl)

theorem resampleLoop_frame (env : Externals) (SRC DET : COMPLEX8TimeSeries)
    (stampsDET : LIGOTimeGPSVector) (timing : SSBtimes) (sp0 sp1 : gsl_spline) (l : List Nat)
    (s : List COMPLEX8 × List LIGOTimeGPS) (i : Nat)
    (hi : ∀ j, j ∈ l → ∀ p, p ∈ segmentResampleWrites SRC timing stampsDET.deltaT j → p.2 ≠ i) :
    (forLoop (resampleTimestamp env SRC DET stampsDET timing sp0 sp1) l s).2.1[i]? = s.1[i]? :=
  forLoop_inv_all _ (fun s' => s'.1[i]? = s.1[i]?) l
    (fun j hj s' hs => by
      show (resampleTimestamp env SRC DET stampsDET timing sp0 sp1 j s').2.1[i]? = _
      rw [resampleTimestamp_frame _ _ _ _ _ _ _ _ _ _ (hi j hj)]
      exact hs) s rfl

/-- The resampling of one detector leaves every sample of the output series that is not
among the stores of a segment as it was. -/
theorem XLALBarycentricResample_frame (env : Externals) (SRC DET : COMPLEX8TimeSeries)
    (stampsSRC stampsDET : LIGOTimeGPSVector) (timing : SSBtimes) (st : XLALStatus)
    (out : COMPLEX8TimeSeries) (stampsOut : Option LIGOTimeGPSVector)
    (h : XLALBarycentricResampleCOMPLEX8TimeSeries env (some SRC) (some stampsSRC) (some DET)
      (some stampsDET) (some timing) = (st, some out, stampsOut)) (i : Nat)
    (hi : ∀ j, j < stampsDET.data.length →
      ∀ p, p ∈ segmentResampleWrites SRC timing stampsDET.deltaT j → p.2 ≠ i) :
    out.data[i]? = SRC.data[i]? := by
  unfold XLALBarycentricResampleCOMPLEX8TimeSeries at h
  dsimp only at h
  split_ifs at h
  all_goals first
    | (simp only [Prod.mk.injEq, Option.some.injEq] at h
       obtain ⟨-, rfl, -⟩ := h
       rfl)
    | skip
  generalize hr : forLoop _ _ _ = r at h
  have hfr : r.2.1[i]? = SRC.data[i]? := by
    rw [← hr]
    exact resampleLoop_frame env SRC DET stampsDET timing _ _ _ _ i
      (fun j hj => hi j (List.mem_range.mp hj))
  obtain ⟨st', d, stamps'⟩ := r
  simp only [Prod.mk.injEq, Option.some.injEq] at h
  obtain ⟨-, rfl, -⟩ := h
  exact hfr
theorem writes_range_nat (u e n N k i : Nat) (hu : u < 2 ^ 32) (he : e < 2 ^ 32)
    (hn : n = (e + 2 ^ 32 - u + 1) % 2 ^ 32) (hfit : u ≤ e ∨ N ≤ u) (h2 : k < 0 + n)
    (h3 : i = (k + u) % 2 ^ 32) (h4 : i < N) (h5 : (0 + u) % 2 ^ 32 < N) :
    (u ≤ i ∧ i ≤ e) ∧ i < N := by
  omega

/-- A store of a segment whose index range is well formed lies in that range and inside
the output series. -/
theorem segmentResampleWrites_inRange (SRC : COMPLEX8TimeSeries) (timing : SSBtimes)
    (Tsft : REAL8) (j : Nat) (hfit : segmentRangeFits SRC timing Tsft j) (p : Nat × Nat)
    (hp : p ∈ segmentResampleWrites SRC timing Tsft j) :
    inSegmentRange SRC timing Tsft j p.2 ∧ p.2 < SRC.data.length := by
  obtain ⟨-, h2, h3, h4, h5⟩ := resampleWrites_mem _ _ _ 0 p hp
  exact writes_range_nat (SFTidx_start_SRC SRC timing Tsft j) (SFTidx_end_SRC SRC timing Tsft j)
    (SFTnumSamples_SRC SRC timing Tsft j) SRC.data.length p.1 p.2 (toUINT4_lt _) (toUINT4_lt _)
    rfl hfit h2 h3 h4 h5
theorem SFTidx_start_SRC_congr (SRC SRC' : COMPLEX8TimeSeries) (timing : SSBtimes)
    (Tsft : REAL8) (j : Nat) (he : SRC.epoch = SRC'.epoch) (hd : SRC.deltaT = SRC'.deltaT) :
    SFTidx_start_SRC SRC timing Tsft j = SFTidx_start_SRC SRC' timing Tsft j := by
  unfold SFTidx_start_SRC
  rw [he, hd]

theorem SFTidx_end_SRC_congr (SRC SRC' : COMPLEX8TimeSeries) (timing : SSBtimes)
    (Tsft : REAL8) (j : Nat) (he : SRC.epoch = SRC'.epoch) (hd : SRC.deltaT = SRC'.deltaT) :
    SFTidx_end_SRC SRC timing Tsft j = SFTidx_end_SRC SRC' timing Tsft j := by
  unfold SFTidx_end_SRC
  rw [he, hd]

theorem segmentResampleWrites_congr (SRC SRC' : COMPLEX8TimeSeries) (timing : SSBtimes)
    (Tsft : REAL8) (j : Nat) (he : SRC.epoch = SRC'.epoch) (hd : SRC.deltaT = SRC'.deltaT)
    (hl : SRC.data.length = SRC'.data.length) :
    segmentResampleWrites SRC timing Tsft j = segmentResampleWrites SRC' timing Tsft j := by
  unfold segmentResampleWrites SFTnumSamples_SRC
  rw [SFTidx_start_SRC_congr SRC SRC' timing Tsft j he hd,
    SFTidx_end_SRC_congr SRC SRC' timing Tsft j he hd, hl]

theorem getD_of_getElem?_replicate (d : List COMPLEX8) (n i : Nat)
    (h : d[i]? = (List.replicate n (0 : COMPLEX8))[i]?) : d.getD i 0 = 0 := by
  rw [List.getD_eq_getElem?_getD, h, List.getElem?_replicate]
  split_ifs <;> rfl

/-- A second sample loop that succeeds has performed exactly the stores of
`resampleWrites`, in that order. -/
theorem resampleSegment_eq_writes (env : Externals) (fHet start_SRC deltaT_SRC : REAL8)
    (u N : UINT4) (dts o0 o1 : List REAL8) (n : Nat) :
    ∀ (k : UINT4) (d d' : List COMPLEX8),
      resampleSegment env fHet start_SRC deltaT_SRC u N dts o0 o1 n k d = (XLAL_SUCCESS, d') →
      d' = (resampleWrites u N n k).foldl
        (storeResampled env fHet start_SRC deltaT_SRC dts o0 o1) d := by
  induction n with
  | zero =>
    intro k d d' h
    simp only [resampleSegment, Prod.mk.injEq, true_and] at h
    rw [← h]
    rfl
  | succ n ih =>
    intro k d d' h
    unfold resampleSegment at h
    unfold resampleWrites
    by_cases hge : wrapUINT4 (k + u) ≥ N
    · simp only [hge, if_true, Prod.mk.injEq, true_and] at h
      simp only [hge, if_true, List.foldl_nil]
      exact h.symm
    · simp only [hge, if_false] at h
      simp only [hge, if_false, List.foldl_cons]
      cases h1 : dts[k]? with
      | none => simp [h1] at h
      | some td =>
        cases h2 : o0[k]? with
        | none => simp [h1, h2] at h
        | some v0 =>
          cases h3 : o1[k]? with
          | none => simp [h1, h2, h3] at h
          | some v1 =>
            simp only [h1, h2, h3] at h
            cases h4 : env.XLALSinCos2PiLUT
                (-fmod (fHet * (start_SRC + (wrapUINT4 (k + u) : ℚ) * deltaT_SRC - td)) 1) with
            | none => simp [h4] at h
            | some sc =>
              simp only [h4] at h
              have hstore : storeResampled env fHet start_SRC deltaT_SRC dts o0 o1 d
                  (k, wrapUINT4 (k + u)) =
                  d.set (wrapUINT4 (k + u))
                    (crectf (v0 * sc.2 - v1 * sc.1) (v1 * sc.2 + v0 * sc.1)) := by
                unfold storeResampled
                simp only [List.getD_eq_getElem?_getD, h1, h2, h3, Option.getD_some, h4]
              rw [hstore]
              exact ih _ _ _ h

/-- A pass of the segment loop that succeeds has performed exactly the stores of
`segmentResampleWrites`. -/
theorem resampleTimestamp_eq_stores (env : Externals) (SRC DET : COMPLEX8TimeSeries)
    (stampsDET : LIGOTimeGPSVector) (timing : SSBtimes) (j : Nat)
    (s s' : List COMPLEX8 × List LIGOTimeGPS)
    (h : resampleTimestamp env SRC DET stampsDET timing (splineOf DET COMPLEX8.re)
      (splineOf DET COMPLEX8.im) j s = (XLAL_SUCCESS, s')) :
    s'.1 = segmentStores env SRC DET stampsDET timing s.1 j := by
  unfold resampleTimestamp at h
  dsimp only at h
  split_ifs at h
  · cases h0 : env.XLALGSLInterpolateREAL8Vector (segmentDetectorTimes SRC DET stampsDET timing j)
        (splineOf DET COMPLEX8.re) with
    | none =>
      rw [h0] at h
      simp only [Prod.mk.injEq] at h
      exact absurd h.1 (by decide)
    | some out0 =>
      cases h1 : env.XLALGSLInterpolateREAL8Vector
          (segmentDetectorTimes SRC DET stampsDET timing j) (splineOf DET COMPLEX8.im) with
      | none =>
        rw [h0, h1] at h
        simp only [Prod.mk.injEq] at h
        exact absurd h.1 (by decide)
      | some out1 =>
        rw [h0, h1] at h
        cases hr : resampleSegment env DET.f0 (XLALGPSGetREAL8 SRC.epoch) SRC.deltaT
            (SFTidx_start_SRC SRC timing stampsDET.deltaT j) SRC.data.length
            (segmentDetectorTimes SRC DET stampsDET timing j) out0 out1
            (SFTnumSamples_SRC SRC timing stampsDET.deltaT j) 0 s.1 with
        | mk st d =>
          simp only [hr, Prod.mk.injEq] at h
          obtain ⟨hst, hs'⟩ := h
          subst hst
          rw [← hs']
          unfold segmentStores segmentResampleWrites
          simp only [h0, h1, Option.getD_some]
          exact resampleSegment_eq_writes _ _ _ _ _ _ _ _ _ _ _ _ _ hr
  · simp only [Prod.mk.injEq] at h
    exact absurd h.1 (by decide)

/-- A segment loop that succeeds has performed the stores of the segments, one segment
after the other. -/
theorem resampleLoop_eq_stores (env : Externals) (SRC DET : COMPLEX8TimeSeries)
    (stampsDET : LIGOTimeGPSVector) (timing : SSBtimes) (s : List COMPLEX8 × List LIGOTimeGPS) :
    ∀ n s', forLoop (resampleTimestamp env SRC DET stampsDET timing (splineOf DET COMPLEX8.re)
        (splineOf DET COMPLEX8.im)) (List.range n) s = (XLAL_SUCCESS, s') →
      s'.1 = (List.range n).foldl (segmentStores env SRC DET stampsDET timing) s.1 :=
  forLoop_range_inv _
    (fun n s' => s'.1 = (List.range n).foldl (segmentStores env SRC DET stampsDET timing) s.1)
    s rfl
    (fun n s1 s2 hinv hb => by
      show s2.1 = _
      rw [List.range_succ, List.foldl_append, List.foldl_cons, List.foldl_nil, ← hinv]
      exact resampleTimestamp_eq_stores env SRC DET stampsDET timing n s1 s2 hb)

/-- After a successful resampling of one detector the output series is the series handed
in with the stores of the segments applied, one segment after the other. -/
theorem XLALBarycentricResample_eq_stores (env : Externals) (SRC DET : COMPLEX8TimeSeries)
    (stampsSRC stampsDET : LIGOTimeGPSVector) (timing : SSBtimes)
    (out : COMPLEX8TimeSeries) (stampsOut : Option LIGOTimeGPSVector)
    (h : XLALBarycentricResampleCOMPLEX8TimeSeries env (some SRC) (some stampsSRC) (some DET)
      (some stampsDET) (some timing) = (XLAL_SUCCESS, some out, stampsOut)) :
    out.data = (List.range stampsDET.data.length).foldl
      (segmentStores env SRC DET stampsDET timing) SRC.data := by
  unfold XLALBarycentricResampleCOMPLEX8TimeSeries at h
  dsimp only at h
  split_ifs at h
  all_goals first
    | (simp only [Prod.mk.injEq] at h; exact absurd h.1 (by decide))
    | skip
  generalize hr : forLoop _ _ _ = r at h
  obtain ⟨st', d, stamps'⟩ := r
  simp only [Prod.mk.injEq, Option.some.injEq] at h
  obtain ⟨hst, rfl, -⟩ := h
  subst hst
  exact resampleLoop_eq_stores env SRC DET stampsDET timing _ _ _ hr

theorem segmentDetectorTimes_congr (SRC SRC' DET : COMPLEX8TimeSeries)
    (stampsDET : LIGOTimeGPSVector) (timing : SSBtimes) (j : Nat)
    (he : SRC.epoch = SRC'.epoch) (hd : SRC.deltaT = SRC'.deltaT) :
    segmentDetectorTimes SRC DET stampsDET timing j =
      segmentDetectorTimes SRC' DET stampsDET timing j := by
  unfold segmentDetectorTimes SFTnumSamples_SRC
  dsimp only
  rw [SFTidx_start_SRC_congr SRC SRC' timing stampsDET.deltaT j he hd,
    SFTidx_end_SRC_congr SRC SRC' timing stampsDET.deltaT j he hd, he, hd]

theorem segmentStores_congr (env : Externals) (SRC SRC' DET : COMPLEX8TimeSeries)
    (stampsDET : LIGOTimeGPSVector) (timing : SSBtimes)
    (he : SRC.epoch = SRC'.epoch) (hd : SRC.deltaT = SRC'.deltaT)
    (hl : SRC.data.length = SRC'.data.length) :
    segmentStores env SRC DET stampsDET timing = segmentStores env SRC' DET stampsDET timing := by
  funext d j
  unfold segmentStores
  rw [segmentDetectorTimes_congr SRC SRC' DET stampsDET timing j he hd,
    segmentResampleWrites_congr SRC SRC' timing stampsDET.deltaT j he hd hl, he, hd]

/-- C13: after a successful call of `XLALBarycentricResampleMultiCOMPLEX8TimeSeries`, for
every detector: the output series is the zeroed series with the stores of the segments
applied, segment after segment, each segment's stores being those of its second sample
loop up to the first index that is not below the output length; each of these stores is
at an index below the output length; a sample that is not among the stores of a segment
is zero; and when the index range `[SFTidx_start_SRC, SFTidx_end_SRC]` of every segment
is well formed (the end index is not below the start index, or the start index lies
outside the series), every sample whose index lies in no segment's range is zero. -/
theorem C13_resampled_gaps (env : Externals) (det : MultiCOMPLEX8TimeSeries)
    (stampsDET : Option MultiLIGOTimeGPSVector) (timing : Option MultiSSBtimes)
    (deltaF : REAL8) (src : Option MultiCOMPLEX8TimeSeries)
    (stampsOut : Option MultiLIGOTimeGPSVector)
    (hrun : XLALBarycentricResampleMultiCOMPLEX8TimeSeries env (some none) (some none)
      (some det) stampsDET timing deltaF = (XLAL_SUCCESS, src, stampsOut)) :
    ∃ (stamps : MultiLIGOTimeGPSVector) (tim : MultiSSBtimes) (S : List COMPLEX8TimeSeries),
      stampsDET = some stamps ∧ timing = some tim ∧ src = some ⟨S⟩ ∧
      S.length = det.data.length ∧
      ∀ (X : Nat) (series : COMPLEX8TimeSeries) (stampsX : LIGOTimeGPSVector) (timX : SSBtimes),
        S[X]? = some series → stamps.data[X]? = some stampsX →
        tim.data[X]? = some timX →
        (∃ DETX, det.data[X]? = some DETX ∧
          series.data = (List.range stampsX.data.length).foldl
            (segmentStores env series DETX stampsX timX)
            (List.replicate series.data.length 0)) ∧
        (∀ j p, p ∈ segmentResampleWrites series timX stampsX.deltaT j →
          p.2 < series.data.length) ∧
        (∀ i, (∀ j, j < stampsX.data.length →
            ∀ p, p ∈ segmentResampleWrites series timX stampsX.deltaT j → p.2 ≠ i) →
          series.data.getD i 0 = 0) ∧
        ((∀ j, j < stampsX.data.length → segmentRangeFits series timX stampsX.deltaT j) →
          ∀ i, (∀ j, j < stampsX.data.length → ¬ inSegmentRange series timX stampsX.deltaT j i) →
            series.data.getD i 0 = 0) := by
  obtain ⟨stamps, tim, det0, stamps0, earliestSRC, S, T, rfl, rfl, -, -, -, -, -, rfl, -, hinv⟩ :=
    XLALBarycentricResampleMulti_spec env det stampsDET timing deltaF src stampsOut hrun
  refine ⟨stamps, tim, S, rfl, rfl, rfl, hinv.lenSeries, ?_⟩
  intro X series stampsX timX hS hst htim
  have hlt : X < det.data.length := by
    have h1 : X < S.length := by
      by_contra hge
      rw [List.getElem?_eq_none (by omega)] at hS
      exact absurd hS (by simp)
    have h2 : S.length = det.data.length := hinv.lenSeries
    omega
  obtain ⟨DETX, stampsDETX, series', stampsX', hDX, hst', hser, -, hcall⟩ := hinv.each X hlt
  have hser' : S[X]? = some series' := hser
  rw [hS] at hser'
  simp only [Option.some.injEq] at hser'
  subst hser'
  rw [hst] at hst'
  simp only [Option.some.injEq] at hst'
  subst hst'
  rw [htim] at hcall
  obtain ⟨ge, -, gd, gl⟩ := XLALBarycentricResample_grid _ _ _ _ _ _ _ _ _ hcall
  have hw : ∀ j, segmentResampleWrites series timX stampsX.deltaT j =
      segmentResampleWrites
        ⟨earliestSRC, det0.f0, deltaTEff deltaF det0.deltaT,
          List.replicate (numTimeSamplesOut deltaF det0.deltaT) 0⟩ timX stampsX.deltaT j :=
    fun j => segmentResampleWrites_congr _ _ timX stampsX.deltaT j ge gd gl
  have hzero : ∀ i, (∀ j, j < stampsX.data.length →
      ∀ p, p ∈ segmentResampleWrites series timX stampsX.deltaT j → p.2 ≠ i) →
      series.data.getD i 0 = 0 := by
    intro i hi
    have hfr := XLALBarycentricResample_frame env _ DETX _ stampsX timX _ series _ hcall i
      (fun j hj p hp => hi j hj p (by rw [hw j]; exact hp))
    exact getD_of_getElem?_replicate _ _ _ hfr
  have hstores := XLALBarycentricResample_eq_stores env _ DETX _ stampsX timX series _ hcall
  refine ⟨⟨DETX, hDX, ?_⟩, fun j p hp => ?_, hzero,
    fun hfit i hi => hzero i (fun j hj p hp hpi => ?_)⟩
  · rw [segmentStores_congr env series _ DETX stampsX timX ge gd gl, gl]
    simpa only [List.length_replicate] using hstores
  · exact (resampleWrites_mem _ _ _ 0 p hp).2.2.2.1
  · have := (segmentResampleWrites_inRange series timX stampsX.deltaT j (hfit j hj) p hp).1
    rw [hpi] at this
    exact hi j hj this

/-- An instance of C13: the sample detectors resampled for the resolution 1/8 Hz give
eight samples per detector; the two segments have the index ranges `[0, 2]` and `[2, 4]`,
and the samples 5, 6 and 7 of the first detector are zero. -/
theorem C13_resampled_gaps_witness :
    ∃ S series,
      (XLALBarycentricResampleMultiCOMPLEX8TimeSeries Sample.env (some none) (some none)
        (some Sample.multiTimeSeries_DET) Sample.common.timestamps
        (some ⟨[Sample.ssb ⟨0⟩ 0, Sample.ssb ⟨0⟩ 0]⟩) (1 / 8)).2.1 = some ⟨S⟩ ∧
      S[0]? = some series ∧ series.data.length = 8 ∧
      series.data.getD 5 0 = 0 ∧ series.data.getD 6 0 = 0 ∧ series.data.getD 7 0 = 0 := by
  have hst : (XLALBarycentricResampleMultiCOMPLEX8TimeSeries Sample.env (some none) (some none)
      (some Sample.multiTimeSeries_DET) Sample.common.timestamps
      (some ⟨[Sample.ssb ⟨0⟩ 0, Sample.ssb ⟨0⟩ 0]⟩) (1 / 8)).1 = XLAL_SUCCESS := by decide!
  have hval : (XLALBarycentricResampleMultiCOMPLEX8TimeSeries Sample.env (some none) (some none)
      (some Sample.multiTimeSeries_DET) Sample.common.timestamps
      (some ⟨[Sample.ssb ⟨0⟩ 0, Sample.ssb ⟨0⟩ 0]⟩) (1 / 8)).2.1 =
      some ⟨[⟨⟨0⟩, 10, 1, [⟨1, 0⟩, ⟨2, 0⟩, ⟨3, 0⟩, ⟨4, 0⟩, ⟨4, 0⟩, ⟨0, 0⟩, ⟨0, 0⟩, ⟨0, 0⟩]⟩,
        ⟨⟨0⟩, 10, 1, [⟨0, 1⟩, ⟨0, 2⟩, ⟨0, 3⟩, ⟨0, 4⟩, ⟨0, 4⟩, ⟨0, 0⟩, ⟨0, 0⟩, ⟨0, 0⟩]⟩]⟩ := by
    decide!
  obtain ⟨stamps, tim, S, hstamps, htim, hS, -, hall⟩ := C13_resampled_gaps Sample.env
    Sample.multiTimeSeries_DET Sample.common.timestamps
    (some ⟨[Sample.ssb ⟨0⟩ 0, Sample.ssb ⟨0⟩ 0]⟩) (1 / 8) _ _ (by rw [← hst])
  rw [hval] at hS
  simp only [Option.some.injEq, MultiCOMPLEX8TimeSeries.mk.injEq] at hS htim
  subst hS
  subst htim
  have hstamps' : stamps = ⟨[⟨[⟨0⟩, ⟨2000000000⟩], 2⟩, ⟨[⟨0⟩, ⟨2000000000⟩], 2⟩]⟩ := by
    have : Sample.common.timestamps
        = some ⟨[⟨[⟨0⟩, ⟨2000000000⟩], 2⟩, ⟨[⟨0⟩, ⟨2000000000⟩], 2⟩]⟩ := rfl
    rw [this] at hstamps
    simp only [Option.some.injEq] at hstamps
    exact hstamps.symm
  subst hstamps'
  obtain ⟨-, -, -, hgap⟩ := hall 0 _ ⟨[⟨0⟩, ⟨2000000000⟩], 2⟩ (Sample.ssb ⟨0⟩ 0) rfl rfl rfl
  have hfit : ∀ j, j < 2 → segmentRangeFits
      ⟨⟨0⟩, 10, 1, [⟨1, 0⟩, ⟨2, 0⟩, ⟨3, 0⟩, ⟨4, 0⟩, ⟨4, 0⟩, ⟨0, 0⟩, ⟨0, 0⟩, ⟨0, 0⟩]⟩
      (Sample.ssb ⟨0⟩ 0) 2 j := by decide!
  have hout : ∀ i, 5 ≤ i → i < 8 → ∀ j, j < 2 → ¬ inSegmentRange
      ⟨⟨0⟩, 10, 1, [⟨1, 0⟩, ⟨2, 0⟩, ⟨3, 0⟩, ⟨4, 0⟩, ⟨4, 0⟩, ⟨0, 0⟩, ⟨0, 0⟩, ⟨0, 0⟩]⟩
      (Sample.ssb ⟨0⟩ 0) 2 j i := by decide!
  exact ⟨_, _, hval, rfl, rfl, hgap hfit 5 (hout 5 (by decide) (by decide)),
    hgap hfit 6 (hout 6 (by decide) (by decide)), hgap hfit 7 (hout 7 (by decide) (by decide))⟩

/-- The resampling of one detector, from the outcome of its segment loop. -/
theorem XLALBarycentricResample_run (env : Externals) (SRC DET : COMPLEX8TimeSeries)
    (stampsSRC stampsDET : LIGOTimeGPSVector) (timing : SSBtimes) (st : XLALStatus)
    (d : List COMPLEX8) (stamps : List LIGOTimeGPS)
    (hN : 0 < DET.data.length) (hS : 0 < stampsDET.data.length)
    (hD : timing.DeltaT.length = stampsDET.data.length)
    (hT : timing.Tdot.length = stampsDET.data.length)
    (hSRC : stampsSRC.data.length = stampsDET.data.length)
    (hvec : env.XLALCreateREAL8Vector DET.data.length = true)
    (hinit : ∀ x y, env.XLALGSLInitInterpolateREAL8Vector x y = true)
    (hloop : forLoop (resampleTimestamp env SRC DET stampsDET timing (splineOf DET COMPLEX8.re)
        (splineOf DET COMPLEX8.im)) (List.range stampsDET.data.length)
        (SRC.data, stampsSRC.data) = (st, d, stamps)) :
    XLALBarycentricResampleCOMPLEX8TimeSeries env (some SRC) (some stampsSRC) (some DET)
      (some stampsDET) (some timing) =
      (st, some { SRC with data := d }, some { stampsSRC with data := stamps }) := by
  unfold splineOf at hloop
  unfold XLALBarycentricResampleCOMPLEX8TimeSeries
  simp only [hN, hS, hD, hT, hSRC, hvec, hinit, gt_iff_lt, and_self, not_true_eq_false,
    if_false, hloop]

/-- One pass of the detector loop, from the outcome of the resampling of the detector. -/
theorem resampleDetector_run (env : Externals) (det : MultiCOMPLEX8TimeSeries)
    (stamps : MultiLIGOTimeGPSVector) (timing : MultiSSBtimes) (earliestSRC : LIGOTimeGPS)
    (fHet dtEff : REAL8) (numOut : UINT4) (X : Nat)
    (s : List COMPLEX8TimeSeries × List LIGOTimeGPSVector)
    (DETX series : COMPLEX8TimeSeries) (stampsDETX stampsX : LIGOTimeGPSVector)
    (hD : det.data[X]? = some DETX) (hS : stamps.data[X]? = some stampsDETX)
    (hc1 : env.XLALCreateCOMPLEX8TimeSeries numOut = true)
    (hc2 : env.XLALCreateTimestampVector stampsDETX.data.length = true)
    (hcall : XLALBarycentricResampleCOMPLEX8TimeSeries env
      (some ⟨earliestSRC, fHet, dtEff, List.replicate numOut 0⟩)
      (some ⟨List.replicate stampsDETX.data.length ⟨0⟩, stampsDETX.deltaT⟩)
      (some DETX) (some stampsDETX) timing.data[X]?
      = (XLAL_SUCCESS, some series, some stampsX)) :
    resampleDetector env det stamps timing earliestSRC fHet dtEff numOut X s =
      (XLAL_SUCCESS, s.1 ++ [series], s.2 ++ [stampsX]) := by
  unfold resampleDetector
  simp only [hD, hS, hc1, hc2, not_true_eq_false, if_false, hcall]

/-- The resampling of all detectors, from the outcome of the detector loop. -/
theorem XLALBarycentricResampleMulti_run (env : Externals) (det : MultiCOMPLEX8TimeSeries)
    (stamps : MultiLIGOTimeGPSVector) (timing : MultiSSBtimes) (deltaF : REAL8)
    (stamps0 : LIGOTimeGPSVector) (series0 : COMPLEX8TimeSeries)
    (earliestSRC latestSRC : LIGOTimeGPS) (st : XLALStatus)
    (series : List COMPLEX8TimeSeries) (stampsOut : List LIGOTimeGPSVector)
    (hdF : deltaF > 0) (hn : 0 < det.data.length)
    (hlt : timing.data.length = det.data.length) (hls : stamps.data.length = det.data.length)
    (hh1 : stamps.data.head? = some stamps0) (hh2 : det.data.head? = some series0)
    (he : env.XLALEarliestMultiSSBtime timing stamps0.deltaT = some earliestSRC)
    (hl : env.XLALLatestMultiSSBtime timing stamps0.deltaT = some latestSRC)
    (hmalloc : ∀ n, env.XLALMalloc n = true) (hcalloc : ∀ n, env.XLALCalloc n = true)
    (hloop : forLoop (resampleDetector env det stamps timing earliestSRC series0.f0
        (deltaTEff deltaF series0.deltaT) (numTimeSamplesOut deltaF series0.deltaT))
        (List.range det.data.length) ([], []) = (st, series, stampsOut)) :
    XLALBarycentricResampleMultiCOMPLEX8TimeSeries env (some none) (some none) (some det)
      (some stamps) (some timing) deltaF = (st, some ⟨series⟩, some ⟨stampsOut⟩) := by
  unfold XLALBarycentricResampleMultiCOMPLEX8TimeSeries
  simp only [hdF, hn, hlt, hls, hh1, hh2, he, hl, hmalloc, hcalloc, hloop, gt_iff_lt,
    and_self, not_true_eq_false, if_false, ne_eq]

/-- The detector times of a segment, entry by entry. -/
theorem segmentDetectorTimes_getElem? (SRC DET : COMPLEX8TimeSeries)
    (stampsDET : LIGOTimeGPSVector) (timing : SSBtimes) (j k : Nat)
    (hk : k < SFTnumSamples_SRC SRC timing stampsDET.deltaT j) :
    (segmentDetectorTimes SRC DET stampsDET timing j)[k]? =
      some (clampDetectorTime (start_DET DET) (end_DET DET)
        (computedDetectorTime SRC stampsDET timing j k)) := by
  rw [segmentDetectorTimes_eq, List.getElem?_map, List.getElem?_range hk]
  rfl

/-- The stores of a segment whose loop stores once. -/
theorem segmentStores_single (env : Externals) (SRC DET : COMPLEX8TimeSeries)
    (stampsDET : LIGOTimeGPSVector) (timing : SSBtimes) (d : List COMPLEX8) (j : Nat)
    (k idx : UINT4) (td v0 v1 : REAL8) (o0 o1 : List REAL8) (sc : REAL4 × REAL4)
    (hw : segmentResampleWrites SRC timing stampsDET.deltaT j = [(k, idx)])
    (h0 : env.XLALGSLInterpolateREAL8Vector (segmentDetectorTimes SRC DET stampsDET timing j)
      (splineOf DET COMPLEX8.re) = some o0)
    (h1 : env.XLALGSLInterpolateREAL8Vector (segmentDetectorTimes SRC DET stampsDET timing j)
      (splineOf DET COMPLEX8.im) = some o1)
    (ht : (segmentDetectorTimes SRC DET stampsDET timing j)[k]? = some td)
    (hv0 : o0[k]? = some v0) (hv1 : o1[k]? = some v1)
    (hsc : env.XLALSinCos2PiLUT
      (-fmod (DET.f0 * (XLALGPSGetREAL8 SRC.epoch + (idx : ℚ) * SRC.deltaT - td)) 1)
      = some sc) :
    segmentStores env SRC DET stampsDET timing d j =
      d.set idx (crectf (v0 * sc.2 - v1 * sc.1) (v1 * sc.2 + v0 * sc.1)) := by
  unfold segmentStores
  simp only [hw, h0, h1, Option.getD_some, List.foldl_cons, List.foldl_nil, storeResampled,
    List.getD_eq_getElem?_getD, ht, hv0, hv1, hsc]

/-- The second segment of the backward timing map on the sample detector: the loop stores
once, at index 3, the sample interpolated at the detector time 2 s. -/
theorem backwardSegment_stores :
    segmentStores Sample.env ⟨⟨0⟩, 10, 1, List.replicate 4 0⟩ Sample.series0 Sample.stamps0
      Sample.backwardTiming [⟨1, 0⟩, ⟨2, 0⟩, ⟨3, 0⟩, 0] 1 =
      [⟨1, 0⟩, ⟨2, 0⟩, ⟨3, 0⟩, ⟨3, 0⟩] := by
  have hw : segmentResampleWrites ⟨⟨0⟩, 10, 1, List.replicate 4 0⟩ Sample.backwardTiming
      Sample.stamps0.deltaT 1 = [(0, 3)] := by decide!
  have hn : (0 : Nat) < SFTnumSamples_SRC ⟨⟨0⟩, 10, 1, List.replicate 4 0⟩
      Sample.backwardTiming Sample.stamps0.deltaT 1 := by decide!
  have ht := segmentDetectorTimes_getElem? ⟨⟨0⟩, 10, 1, List.replicate 4 0⟩ Sample.series0
    Sample.stamps0 Sample.backwardTiming 1 0 hn
  have hv : clampDetectorTime (start_DET Sample.series0) (end_DET Sample.series0)
      (computedDetectorTime ⟨⟨0⟩, 10, 1, List.replicate 4 0⟩ Sample.stamps0
        Sample.backwardTiming 1 0) = 2 := by decide!
  rw [hv] at ht
  have hI : ∀ (T : List REAL8) (sp : gsl_spline),
      Sample.env.XLALGSLInterpolateREAL8Vector T sp =
        some (T.map fun t => sp.y.getD (lround (t - sp.x.headD 0)).toNat 0) :=
    fun _ _ => rfl
  have hL : ∀ x, Sample.env.XLALSinCos2PiLUT x = some (0, 1) := fun _ => rfl
  have hg0 : (splineOf Sample.series0 COMPLEX8.re).y.getD
      (lround ((2 : ℚ) - (splineOf Sample.series0 COMPLEX8.re).x.headD 0)).toNat 0 = 3 := by
    decide!
  have hg1 : (splineOf Sample.series0 COMPLEX8.im).y.getD
      (lround ((2 : ℚ) - (splineOf Sample.series0 COMPLEX8.im).x.headD 0)).toNat 0 = 0 := by
    decide!
  have hv0 : ((segmentDetectorTimes ⟨⟨0⟩, 10, 1, List.replicate 4 0⟩ Sample.series0
      Sample.stamps0 Sample.backwardTiming 1).map fun t =>
        (splineOf Sample.series0 COMPLEX8.re).y.getD
          (lround (t - (splineOf Sample.series0 COMPLEX8.re).x.headD 0)).toNat 0)[0]?
      = some 3 := by
    rw [List.getElem?_map, ht, Option.map_some', hg0]
  have hv1 : ((segmentDetectorTimes ⟨⟨0⟩, 10, 1, List.replicate 4 0⟩ Sample.series0
      Sample.stamps0 Sample.backwardTiming 1).map fun t =>
        (splineOf Sample.series0 COMPLEX8.im).y.getD
          (lround (t - (splineOf Sample.series0 COMPLEX8.im).x.headD 0)).toNat 0)[0]?
      = some 0 := by
    rw [List.getElem?_map, ht, Option.map_some', hg1]
  rw [segmentStores_single Sample.env ⟨⟨0⟩, 10, 1, List.replicate 4 0⟩ Sample.series0
    Sample.stamps0 Sample.backwardTiming _ 1 0 3 2 3 0 _ _ (0, 1) hw (hI _ _) (hI _ _) ht hv0
    hv1 (hL _)]
  decide!

/-- The segment loop of the sample detector under the backward timing map. -/
theorem backwardLoop :
    ∃ stamps, forLoop (resampleTimestamp Sample.env ⟨⟨0⟩, 10, 1, List.replicate 4 0⟩
        Sample.series0 Sample.stamps0 Sample.backwardTiming
        (splineOf Sample.series0 COMPLEX8.re) (splineOf Sample.series0 COMPLEX8.im))
        (List.range Sample.stamps0.data.length)
        (List.replicate 4 0, List.replicate Sample.stamps0.data.length ⟨0⟩) =
      (XLAL_SUCCESS, [⟨1, 0⟩, ⟨2, 0⟩, ⟨3, 0⟩, ⟨3, 0⟩], stamps) := by
  have h0 : resampleTimestamp Sample.env ⟨⟨0⟩, 10, 1, List.replicate 4 0⟩
      Sample.series0 Sample.stamps0 Sample.backwardTiming
      (splineOf Sample.series0 COMPLEX8.re) (splineOf Sample.series0 COMPLEX8.im) 0
      (List.replicate 4 0, List.replicate Sample.stamps0.data.length ⟨0⟩) =
      (XLAL_SUCCESS, [⟨1, 0⟩, ⟨2, 0⟩, ⟨3, 0⟩, 0], [⟨0⟩, ⟨0⟩]) := by decide!
  have hr : List.range Sample.stamps0.data.length = [0, 1] := by decide
  have htot := resampleTimestamp_total Sample.env ⟨⟨0⟩, 10, 1, List.replicate 4 0⟩
    Sample.series0 Sample.stamps0 Sample.backwardTiming
    (splineOf Sample.series0 COMPLEX8.re) (splineOf Sample.series0 COMPLEX8.im) 1
    ([⟨1, 0⟩, ⟨2, 0⟩, ⟨3, 0⟩, 0], [⟨0⟩, ⟨0⟩]) (fun _ => rfl)
    (fun _ => ⟨_, rfl, List.length_map _ _⟩) (fun _ => ⟨_, rfl⟩)
  cases hp : resampleTimestamp Sample.env ⟨⟨0⟩, 10, 1, List.replicate 4 0⟩
      Sample.series0 Sample.stamps0 Sample.backwardTiming
      (splineOf Sample.series0 COMPLEX8.re) (splineOf Sample.series0 COMPLEX8.im) 1
      ([⟨1, 0⟩, ⟨2, 0⟩, ⟨3, 0⟩, 0], [⟨0⟩, ⟨0⟩]) with
  | mk st s' =>
    rw [hp] at htot
    simp only at htot
    subst htot
    have hd := resampleTimestamp_eq_stores _ _ _ _ _ _ _ _ hp
    rw [backwardSegment_stores] at hd
    refine ⟨s'.2, ?_⟩
    rw [hr, forLoop_cons_success _ 0 _ _ _ h0, forLoop_cons_success _ 1 _ _ _ hp, forLoop_nil,
      ← hd]

/-- C13 as stated does not hold: one detector with four samples, two segments of two
seconds, and a timing map whose second segment has the time derivative `-1`.  The call
succeeds.  The index range of the first segment is `[0, 2]`; for the second segment
`SFTidx_start_SRC = 3` and `SFTidx_end_SRC = 1`, the sample count
`SFTidx_end_SRC - SFTidx_start_SRC + 1` wraps to `2 ^ 32 - 1` in `UINT4`, and the loop
stores at index 3.  Sample 3 lies in no segment's range and is not zero. -/
theorem C13_counterexample :
    ∃ stampsOut,
      XLALBarycentricResampleMultiCOMPLEX8TimeSeries Sample.env (some none) (some none)
        (some ⟨[Sample.series0]⟩) (some ⟨[Sample.stamps0]⟩) (some ⟨[Sample.backwardTiming]⟩)
        (1 / 4) =
        (XLAL_SUCCESS, some ⟨[⟨⟨0⟩, 10, 1, [⟨1, 0⟩, ⟨2, 0⟩, ⟨3, 0⟩, ⟨3, 0⟩]⟩]⟩, some stampsOut) ∧
      SFTidx_start_SRC ⟨⟨0⟩, 10, 1, [⟨1, 0⟩, ⟨2, 0⟩, ⟨3, 0⟩, ⟨3, 0⟩]⟩ Sample.backwardTiming
        Sample.stamps0.deltaT 0 = 0 ∧
      SFTidx_end_SRC ⟨⟨0⟩, 10, 1, [⟨1, 0⟩, ⟨2, 0⟩, ⟨3, 0⟩, ⟨3, 0⟩]⟩ Sample.backwardTiming
        Sample.stamps0.deltaT 0 = 2 ∧
      SFTidx_start_SRC ⟨⟨0⟩, 10, 1, [⟨1, 0⟩, ⟨2, 0⟩, ⟨3, 0⟩, ⟨3, 0⟩]⟩ Sample.backwardTiming
        Sample.stamps0.deltaT 1 = 3 ∧
      SFTidx_end_SRC ⟨⟨0⟩, 10, 1, [⟨1, 0⟩, ⟨2, 0⟩, ⟨3, 0⟩, ⟨3, 0⟩]⟩ Sample.backwardTiming
        Sample.stamps0.deltaT 1 = 1 ∧
      SFTnumSamples_SRC ⟨⟨0⟩, 10, 1, [⟨1, 0⟩, ⟨2, 0⟩, ⟨3, 0⟩, ⟨3, 0⟩]⟩ Sample.backwardTiming
        Sample.stamps0.deltaT 1 = 2 ^ 32 - 1 ∧
      (∀ j, j < Sample.stamps0.data.length →
        ¬ inSegmentRange ⟨⟨0⟩, 10, 1, [⟨1, 0⟩, ⟨2, 0⟩, ⟨3, 0⟩, ⟨3, 0⟩]⟩ Sample.backwardTiming
          Sample.stamps0.deltaT j 3) ∧
      (⟨⟨0⟩, 10, 1, [⟨1, 0⟩, ⟨2, 0⟩, ⟨3, 0⟩, ⟨3, 0⟩]⟩ : COMPLEX8TimeSeries).data.getD 3 0 ≠ 0 := by
  obtain ⟨stamps, hloop⟩ := backwardLoop
  have hsingle := XLALBarycentricResample_run Sample.env ⟨⟨0⟩, 10, 1, List.replicate 4 0⟩
    Sample.series0 ⟨List.replicate Sample.stamps0.data.length ⟨0⟩, Sample.stamps0.deltaT⟩
    Sample.stamps0 Sample.backwardTiming XLAL_SUCCESS _ stamps (by decide) (by decide) rfl rfl
    rfl rfl (fun _ _ => rfl) hloop
  have he : Sample.env.XLALEarliestMultiSSBtime ⟨[Sample.backwardTiming]⟩ Sample.stamps0.deltaT
      = some ⟨0⟩ := by decide!
  have hl : Sample.env.XLALLatestMultiSSBtime ⟨[Sample.backwardTiming]⟩ Sample.stamps0.deltaT
      = some ⟨2000000000⟩ := by decide!
  have hnum : numTimeSamplesOut (1 / 4) Sample.series0.deltaT = 4 := by decide!
  have hdt : deltaTEff (1 / 4) Sample.series0.deltaT = 1 := by decide!
  have hf0 : Sample.series0.f0 = 10 := rfl
  have hdet := resampleDetector_run Sample.env ⟨[Sample.series0]⟩ ⟨[Sample.stamps0]⟩
    ⟨[Sample.backwardTiming]⟩ ⟨0⟩ 10 1 4 0 ([], []) Sample.series0 _ Sample.stamps0 _ rfl rfl
    rfl rfl hsingle
  have hM := XLALBarycentricResampleMulti_run Sample.env ⟨[Sample.series0]⟩ ⟨[Sample.stamps0]⟩
    ⟨[Sample.backwardTiming]⟩ (1 / 4) Sample.stamps0 Sample.series0 ⟨0⟩ ⟨2000000000⟩
    XLAL_SUCCESS _ _ (by decide!) (by decide) rfl rfl rfl rfl he hl (fun _ => rfl)
    (fun _ => rfl) (by
      rw [hnum, hdt, hf0]
      show forLoop _ [0] _ = _
      rw [forLoop_cons_success _ 0 _ _ _ hdet, forLoop_nil])
  exact ⟨_, hM, by decide!, by decide!, by decide!, by decide!, by decide!, by decide!,
    by decide!⟩

/-! ## Theorems: the buffering block does not call the corrections -/

section Corrections

variable (env : Externals)
  (shift : MultiCOMPLEX8TimeSeries → REAL8 → Option MultiCOMPLEX8TimeSeries)
  (spin : MultiCOMPLEX8TimeSeries → MultiCOMPLEX8TimeSeries → PulsarDopplerParams →
    Option (MultiCOMPLEX8TimeSeries × MultiCOMPLEX8TimeSeries))

theorem resampleSegment_corrections (fHet start_SRC deltaT_SRC : REAL8)
    (u N : UINT4) (dts o0 o1 : List REAL8) (n : Nat) :
    ∀ (k : UINT4) (d : List COMPLEX8),
      resampleSegment (withCorrections env shift spin) fHet start_SRC deltaT_SRC
        u N dts o0 o1 n k d =
      resampleSegment env fHet start_SRC deltaT_SRC u N dts o0 o1 n k d := by
  induction n with
  | zero => intro k d; rfl
  | succ n ih =>
    intro k d
    unfold resampleSegment
    simp only [ih]
    rfl

theorem resampleTimestamp_corrections (SRC DET : COMPLEX8TimeSeries)
    (stampsDET : LIGOTimeGPSVector) (timing : SSBtimes) (sp0 sp1 : gsl_spline) (j : Nat)
    (s : List COMPLEX8 × List LIGOTimeGPS) :
    resampleTimestamp (withCorrections env shift spin) SRC DET stampsDET timing sp0 sp1 j s =
      resampleTimestamp env SRC DET stampsDET timing sp0 sp1 j s := by
  unfold resampleTimestamp
  simp only [resampleSegment_corrections]
  rfl

theorem XLALBarycentricResample_corrections (SRC : Option COMPLEX8TimeSeries)
    (stampsSRC : Option LIGOTimeGPSVector) (DET : Option COMPLEX8TimeSeries)
    (stampsDET : Option LIGOTimeGPSVector) (timing : Option SSBtimes) :
    XLALBarycentricResampleCOMPLEX8TimeSeries (withCorrections env shift spin) SRC stampsSRC
      DET stampsDET timing =
    XLALBarycentricResampleCOMPLEX8TimeSeries env SRC stampsSRC DET stampsDET timing := by
  unfold XLALBarycentricResampleCOMPLEX8TimeSeries
  simp only [forLoop_congr _ _ (resampleTimestamp_corrections env shift spin _ _ _ _ _ _)]
  rfl

theorem resampleDetector_corrections (det : MultiCOMPLEX8TimeSeries)
    (stamps : MultiLIGOTimeGPSVector) (timing : MultiSSBtimes) (earliestSRC : LIGOTimeGPS)
    (fHet dtEff : REAL8) (numOut : UINT4) (X : Nat)
    (s : List COMPLEX8TimeSeries × List LIGOTimeGPSVector) :
    resampleDetector (withCorrections env shift spin) det stamps timing earliestSRC fHet dtEff
      numOut X s =
    resampleDetector env det stamps timing earliestSRC fHet dtEff numOut X s := by
  unfold resampleDetector
  simp only [XLALBarycentricResample_corrections]
  rfl

theorem XLALBarycentricResampleMulti_corrections
    (a : Option (Option MultiCOMPLEX8TimeSeries)) (b : Option (Option MultiLIGOTimeGPSVector))
    (det : Option MultiCOMPLEX8TimeSeries) (stamps : Option MultiLIGOTimeGPSVector)
    (timing : Option MultiSSBtimes) (deltaF : REAL8) :
    XLALBarycentricResampleMultiCOMPLEX8TimeSeries (withCorrections env shift spin) a b det
      stamps timing deltaF =
    XLALBarycentricResampleMultiCOMPLEX8TimeSeries env a b det stamps timing deltaF := by
  unfold XLALBarycentricResampleMultiCOMPLEX8TimeSeries
  simp only [forLoop_congr _ _ (resampleDetector_corrections env shift spin _ _ _ _ _ _ _)]
  rfl

theorem XLALAntennaWeight_corrections (a b : Option (Option COMPLEX8TimeSeries))
    (ts : Option COMPLEX8TimeSeries) (am : Option AMCoeffs) (stamps : Option LIGOTimeGPSVector) :
    XLALAntennaWeightCOMPLEX8TimeSeries (withCorrections env shift spin) a b ts am stamps =
    XLALAntennaWeightCOMPLEX8TimeSeries env a b ts am stamps := rfl

theorem weightDetector_corrections (src : MultiCOMPLEX8TimeSeries) (am : MultiAMCoeffs)
    (stamps : MultiLIGOTimeGPSVector) (X : Nat)
    (s : List COMPLEX8TimeSeries × List COMPLEX8TimeSeries) :
    weightDetector (withCorrections env shift spin) src am stamps X s =
    weightDetector env src am stamps X s := rfl

theorem XLALAntennaWeightMulti_corrections
    (a b : Option (Option MultiCOMPLEX8TimeSeries)) (src : Option MultiCOMPLEX8TimeSeries)
    (am : Option MultiAMCoeffs) (stamps : Option MultiLIGOTimeGPSVector) :
    XLALAntennaWeightMultiCOMPLEX8TimeSeries (withCorrections env shift spin) a b src am stamps =
    XLALAntennaWeightMultiCOMPLEX8TimeSeries env a b src am stamps := by
  unfold XLALAntennaWeightMultiCOMPLEX8TimeSeries
  simp only [forLoop_congr _ _ (weightDetector_corrections env shift spin _ _ _)]
  rfl

/-- The buffering block calls neither the frequency shift nor the spin-down correction. -/
theorem handleBuffering_corrections (common : FstatInput_Common) (c : FstatInput_Resamp)
    (p : PulsarDopplerParams) (d : REAL8) :
    handleBuffering (withCorrections env shift spin) common c p d =
    handleBuffering env common c p d := by
  unfold handleBuffering recomputeBinary recomputeSky
  simp only [XLALBarycentricResampleMulti_corrections, XLALAntennaWeightMulti_corrections]
  rfl

end Corrections
/-- The cache a query leaves behind is the one the buffering block leaves behind. -/
theorem ComputeFstat_Resamp_resamp (env : Externals) (F : FstatResults)
    (common : FstatInput_Common) (c : FstatInput_Resamp) :
    (ComputeFstat_Resamp env (some F) (some common) (some c)).resamp =
      if hasFlag F.whatWasComputed FSTATQ_ATOMS_PER_DET then some c
      else
        match c.multiTimeSeries_DET.data.head? with
        | none => some c
        | some det0 => some (handleBuffering env common c F.doppler (dFreqOut F det0)).resamp := by
  cases hd : c.multiTimeSeries_DET.data.head? with
  | none =>
    unfold ComputeFstat_Resamp
    simp only [hd]
    split_ifs <;> rfl
  | some det0 =>
    unfold ComputeFstat_Resamp
    simp only [hd]
    split_ifs <;> rfl

theorem spinCopies_some (env : Externals) (p : PulsarDopplerParams) (shift : REAL8)
    (fa0 fb0 : Option MultiCOMPLEX8TimeSeries) (fa fb : MultiCOMPLEX8TimeSeries)
    (h : spinCopies env p shift fa0 fb0 = some (fa, fb)) :
    ∃ Fa Fb, fa0 = some Fa ∧ fb0 = some Fb := by
  cases fa0 with
  | none => simp [spinCopies, XLALDuplicateMultiCOMPLEX8TimeSeries] at h
  | some Fa =>
    cases fb0 with
    | none =>
      simp only [spinCopies, XLALDuplicateMultiCOMPLEX8TimeSeries, Option.some_bind,
        Option.none_bind] at h
      split_ifs at h <;> simp at h
    | some Fb => exact ⟨Fa, Fb, rfl, rfl⟩

/-! ## Theorems: what a failing query leaves in the result -/

theorem Confined.self (what : FstatQuantities) (N n : Nat) (F : FstatResults) :
    Confined what N n F F :=
  ⟨SameCombined.refl F, rfl, rfl, rfl, fun _ _ h => absurd rfl h, fun _ _ h => absurd rfl h,
    fun _ _ h => absurd rfl h⟩

theorem Confined.andThen {what : FstatQuantities} {N n : Nat} {F G H : FstatResults}
    (h1 : Confined what N n F G) (h2 : Confined what N n G H) : Confined what N n F H where
  same := h1.same.trans h2.same
  shapeFa := h2.shapeFa.trans h1.shapeFa
  shapeFb := h2.shapeFb.trans h1.shapeFb
  shape2F := h2.shape2F.trans h1.shape2F
  FaPerDet := fun X k hne => by
    by_cases e : readAt2 H.FaPerDet X k = readAt2 G.FaPerDet X k
    · exact h1.FaPerDet X k (by rw [← e]; exact hne)
    · exact h2.FaPerDet X k e
  FbPerDet := fun X k hne => by
    by_cases e : readAt2 H.FbPerDet X k = readAt2 G.FbPerDet X k
    · exact h1.FbPerDet X k (by rw [← e]; exact hne)
    · exact h2.FbPerDet X k e
  twoFPerDet := fun X k hne => by
    by_cases e : readAt2 H.twoFPerDet X k = readAt2 G.twoFPerDet X k
    · exact h1.twoFPerDet X k (by rw [← e]; exact hne)
    · exact h2.twoFPerDet X k e

theorem readAt2_writeAt2_ne {α : Type} (l l' : List (List α)) (X k : Nat) (v : α)
    (h : writeAt2 l X k v = some l') (X' k' : Nat) (hne : readAt2 l' X' k' ≠ readAt2 l X' k') :
    X' = X ∧ k' = k := by
  rw [readAt2_writeAt2 l l' X k v h X' k'] at hne
  by_contra hc
  rw [if_neg hc] at hne
  exact hne rfl

/-- One pass of the bin loop changes at most the entry `[X][k]` of the per-detector arrays
whose flag is set, whatever its status. -/
theorem binBody_confined (env : Externals) (what : FstatQuantities) (dt : REAL8)
    (offset_bins : UINT4) (outaX outbX : List COMPLEX8) (A B C E Dinv : REAL4) (N n X k : Nat)
    (hX : X < N) (hk : k < n) (s : BinState) :
    Confined what N n s.Fstats
      (binBody env what dt offset_bins outaX outbX A B C E Dinv X k s).2.Fstats := by
  unfold binBody
  dsimp only
  split
  · rename_i va vb _ _
    by_cases f1 : hasFlag what FSTATQ_FAFB_PER_DET = true
    · simp only [f1, if_true]
      cases hA : writeAt2 s.Fstats.FaPerDet X k (dt * va) with
      | none => simp only [Option.none_bind]; exact Confined.self _ _ _ _
      | some fa =>
        cases hB : writeAt2 s.Fstats.FbPerDet X k (dt * vb) with
        | none => simp only [Option.some_bind, Option.map_none']; exact Confined.self _ _ _ _
        | some fb =>
          simp only [Option.some_bind, Option.map_some']
          have c1 : Confined what N n s.Fstats { s.Fstats with FaPerDet := fa, FbPerDet := fb } :=
            ⟨⟨rfl, rfl, rfl, rfl, rfl, rfl, rfl, rfl⟩, writeAt2_shape _ _ _ _ _ hA,
              writeAt2_shape _ _ _ _ _ hB, rfl,
              fun X' k' hne => by
                obtain ⟨rfl, rfl⟩ := readAt2_writeAt2_ne _ _ _ _ _ hA X' k' hne
                exact ⟨f1, hX, hk⟩,
              fun X' k' hne => by
                obtain ⟨rfl, rfl⟩ := readAt2_writeAt2_ne _ _ _ _ _ hB X' k' hne
                exact ⟨f1, hX, hk⟩,
              fun _ _ hne => absurd rfl hne⟩
          by_cases f2 : hasFlag what FSTATQ_2F_PER_DET = true
          · simp only [f2, if_true]
            cases hT : writeAt2 s.Fstats.twoFPerDet X k
                (env.XLALComputeFstatFromFaFb (dt * va) (dt * vb) A B C E Dinv) with
            | none => simp only [Option.map_none']; exact c1
            | some t =>
              simp only [Option.map_some']
              refine c1.andThen ⟨⟨rfl, rfl, rfl, rfl, rfl, rfl, rfl, rfl⟩, rfl, rfl,
                writeAt2_shape _ _ _ _ _ hT, fun _ _ hne => absurd rfl hne,
                fun _ _ hne => absurd rfl hne, fun X' k' hne => ?_⟩
              obtain ⟨rfl, rfl⟩ := readAt2_writeAt2_ne _ _ _ _ _ hT X' k' hne
              exact ⟨f2, hX, hk⟩
          · simp only [f2, Bool.false_eq_true, if_false]
            exact c1
    · simp only [f1, Bool.false_eq_true, if_false]
      by_cases f2 : hasFlag what FSTATQ_2F_PER_DET = true
      · simp only [f2, if_true]
        cases hT : writeAt2 s.Fstats.twoFPerDet X k
            (env.XLALComputeFstatFromFaFb (dt * va) (dt * vb) A B C E Dinv) with
        | none => simp only [Option.map_none']; exact Confined.self _ _ _ _
        | some t =>
          simp only [Option.map_some']
          refine ⟨⟨rfl, rfl, rfl, rfl, rfl, rfl, rfl, rfl⟩, rfl, rfl,
            writeAt2_shape _ _ _ _ _ hT, fun _ _ hne => absurd rfl hne,
            fun _ _ hne => absurd rfl hne, fun X' k' hne => ?_⟩
          obtain ⟨rfl, rfl⟩ := readAt2_writeAt2_ne _ _ _ _ _ hT X' k' hne
          exact ⟨f2, hX, hk⟩
      · simp only [f2, Bool.false_eq_true, if_false]
        exact Confined.self _ _ _ _
  · exact Confined.self _ _ _ _
/-- The pass of the detector loop for detector `X < N` changes at most entries `[X][k]`,
`k < n`, of the per-detector arrays whose flag is set, whatever its status. -/
theorem detectorBody_confined (env : Externals) (what : FstatQuantities) (dt : REAL8)
    (offset_bins numSamples n : UINT4) (fa fb : MultiCOMPLEX8TimeSeries) (am : MultiAMCoeffs)
    (N X : Nat) (hX : X < N) (s : BinState) :
    Confined what N n s.Fstats
      (detectorBody env what dt offset_bins numSamples n fa fb am X s).2.Fstats := by
  unfold detectorBody
  split
  · split
    · exact Confined.self _ _ _ _
    · split
      · exact Confined.self _ _ _ _
      · rename_i amX _
        exact forLoop_inv_all _ (fun s' => Confined what N n s.Fstats s'.Fstats) (List.range n)
          (fun k hk s' hs => hs.andThen
            (binBody_confined env what dt offset_bins _ _ _ _ _ _ _ N n X k hX
              (List.mem_range.mp hk) s')) s (Confined.self _ _ _ _)
  · exact Confined.self _ _ _ _

theorem detLoop_confined (env : Externals) (what : FstatQuantities) (dt : REAL8)
    (offset_bins numSamples n : UINT4) (fa fb : MultiCOMPLEX8TimeSeries) (am : MultiAMCoeffs)
    (N : Nat) (s : BinState) :
    Confined what N n s.Fstats
      (forLoop (detectorBody env what dt offset_bins numSamples n fa fb am) (List.range N)
        s).2.Fstats :=
  forLoop_inv_all _ (fun s' => Confined what N n s.Fstats s'.Fstats) (List.range N)
    (fun X hX s' hs => hs.andThen
      (detectorBody_confined env what dt offset_bins numSamples n fa fb am N X
        (List.mem_range.mp hX) s')) s (Confined.self _ _ _ _)

/-- A status that every pass of a loop can only take together with `XLAL_SUCCESS` is the
only failure status of the loop. -/
theorem forLoop_status {σ : Type} (body : Nat → σ → XLALStatus × σ) (P : XLALStatus → Prop)
    (hP : P XLAL_SUCCESS) (hbody : ∀ i s, P (body i s).1) (l : List Nat) (s : σ) :
    P (forLoop body l s).1 := by
  induction l generalizing s with
  | nil => exact hP
  | cons i l ih =>
    cases hb : body i s with
    | mk st s' =>
      by_cases hst : st = XLAL_SUCCESS
      · subst hst
        rw [forLoop_cons_success body i l s s' hb]
        exact ih s'
      · rw [forLoop_cons_failure body i l s (by rw [hb]; exact hst)]
        exact hbody i s

theorem storeFaFb_status (Fa_k Fb_k : List COMPLEX8) (l : List Nat) (F : FstatResults) :
    (forLoop (storeFaFb Fa_k Fb_k) l F).1 = XLAL_SUCCESS ∨
      (forLoop (storeFaFb Fa_k Fb_k) l F).1 = UNDEFINED :=
  forLoop_status _ (fun st => st = XLAL_SUCCESS ∨ st = UNDEFINED) (Or.inl rfl)
    (fun i s => by
      unfold storeFaFb
      split
      · exact Or.inl rfl
      · exact Or.inr rfl) l F

theorem storeTwoF_status (env : Externals) (Fa_k Fb_k : List COMPLEX8)
    (Ad Bd Cd Ed Dd_inv : REAL4) (l : List Nat) (F : FstatResults) :
    (forLoop (storeTwoF env Fa_k Fb_k Ad Bd Cd Ed Dd_inv) l F).1 = XLAL_SUCCESS ∨
      (forLoop (storeTwoF env Fa_k Fb_k Ad Bd Cd Ed Dd_inv) l F).1 = UNDEFINED :=
  forLoop_status _ (fun st => st = XLAL_SUCCESS ∨ st = UNDEFINED) (Or.inl rfl)
    (fun i s => by
      unfold storeTwoF
      split
      · exact Or.inl rfl
      · exact Or.inr rfl) l F

/-- When the spectral assembly of a query without the atoms flag ends with an XLAL error,
the result structure differs from the one passed in at most in entries of the requested
per-detector arrays. -/
theorem spectralAssemble_failure (env : Externals) (F : FstatResults) (N : UINT4)
    (det0 : COMPLEX8TimeSeries) (dF : REAL8) (am0 : Option MultiAMCoeffs)
    (fa0 fb0 : Option MultiCOMPLEX8TimeSeries)
    (hfail : (spectralAssemble env F N det0 dF am0 fa0 fb0).1 ≠ XLAL_SUCCESS)
    (hdef : (spectralAssemble env F N det0 dF am0 fa0 fb0).1 ≠ UNDEFINED)
    (hatoms : hasFlag F.whatWasComputed FSTATQ_ATOMS_PER_DET = false) :
    Confined F.whatWasComputed N F.numFreqBins F
      (spectralAssemble env F N det0 dF am0 fa0 fb0).2 := by
  unfold spectralAssemble at hfail hdef ⊢
  cases am0 with
  | none => exact Confined.self _ _ _ _
  | some am =>
    simp only [] at hfail hdef ⊢
    cases hsp : spinCopies env F.doppler (fracShift det0.f0 (F.doppler.fkdot.getD 0 0) dF)
        fa0 fb0 with
    | none => exact Confined.self _ _ _ _
    | some p =>
      obtain ⟨fa, fb⟩ := p
      simp only [hsp] at hfail hdef ⊢
      cases hhead : fa.data.head? with
      | none => exact Confined.self _ _ _ _
      | some Fa0 =>
        simp only [hhead] at hfail hdef ⊢
        cases h1 : env.XLALCreateCOMPLEX8Vector Fa0.data.length
        · simp only [Bool.false_eq_true, not_false_eq_true, if_true]
          exact Confined.self _ _ _ _
        cases h2 : env.XLALCreateCOMPLEX8FFTPlan Fa0.data.length
        · simp only [Bool.false_eq_true, not_false_eq_true, not_true_eq_false, if_true,
            if_false]
          exact Confined.self _ _ _ _
        cases h3 : env.XLALCalloc F.numFreqBins
        · simp only [Bool.false_eq_true, not_false_eq_true, not_true_eq_false, if_true,
            if_false]
          exact Confined.self _ _ _ _
        simp only [h1, h2, h3, not_true_eq_false, if_false] at hfail hdef ⊢
        have hconf := detLoop_confined env F.whatWasComputed Fa0.deltaT
          (offsetBins env Fa0.f0 (F.doppler.fkdot.getD 0 0) dF Fa0.data.length)
          Fa0.data.length F.numFreqBins fa fb am N
          ⟨List.replicate F.numFreqBins 0, List.replicate F.numFreqBins 0, F⟩
        rcases hloop : forLoop (detectorBody env F.whatWasComputed Fa0.deltaT
            (offsetBins env Fa0.f0 (F.doppler.fkdot.getD 0 0) dF Fa0.data.length)
            Fa0.data.length F.numFreqBins fa fb am) (List.range N)
            ⟨List.replicate F.numFreqBins 0, List.replicate F.numFreqBins 0, F⟩ with ⟨st, s⟩
        rw [hloop] at hconf
        simp only [hloop] at hfail hdef ⊢
        by_cases hsst : st = XLAL_SUCCESS
        · subst hsst
          exfalso
          simp only [] at hfail hdef
          have hs1 := storeFaFb_status s.Fa_k s.Fb_k (List.range F.numFreqBins) s.Fstats
          rcases hst1 : (if hasFlag F.whatWasComputed FSTATQ_FAFB = true then
              forLoop (storeFaFb s.Fa_k s.Fb_k) (List.range F.numFreqBins) s.Fstats
            else (XLAL_SUCCESS, s.Fstats)) with ⟨st1, F1⟩
          have hst1' : st1 = XLAL_SUCCESS ∨ st1 = UNDEFINED := by
            by_cases hf : hasFlag F.whatWasComputed FSTATQ_FAFB = true
            · simp only [hf, if_true] at hst1
              rw [hst1] at hs1
              exact hs1
            · simp only [hf, if_false] at hst1
              injection hst1 with e _
              exact Or.inl e.symm
          simp only [hst1] at hfail hdef
          rcases hst1' with rfl | rfl
          · simp only [] at hfail hdef
            have hs2 := storeTwoF_status env s.Fa_k s.Fb_k am.Mmunu.Ad am.Mmunu.Bd am.Mmunu.Cd
              am.Mmunu.Ed (1 / am.Mmunu.Dd) (List.range F.numFreqBins) F1
            rcases hst2 : (if hasFlag F.whatWasComputed FSTATQ_2F = true then
                forLoop (storeTwoF env s.Fa_k s.Fb_k am.Mmunu.Ad am.Mmunu.Bd am.Mmunu.Cd
                  am.Mmunu.Ed (1 / am.Mmunu.Dd)) (List.range F.numFreqBins) F1
              else (XLAL_SUCCESS, F1)) with ⟨st2, F2⟩
            have hst2' : st2 = XLAL_SUCCESS ∨ st2 = UNDEFINED := by
              by_cases hf : hasFlag F.whatWasComputed FSTATQ_2F = true
              · simp only [hf, if_true] at hst2
                rw [hst2] at hs2
                exact hs2
              · simp only [hf, if_false] at hst2
                injection hst2 with e _
                exact Or.inl e.symm
            simp only [hst2] at hfail hdef
            rcases hst2' with rfl | rfl
            · simp only [hatoms, Bool.false_eq_true, if_false] at hfail
              exact hfail rfl
            · exact hdef rfl
          · exact hdef rfl
        · cases st <;> first | exact absurd rfl hsst | exact hconf
/-- Two arrays of arrays of the same shape with the same entries are equal. -/
theorem eq_of_readAt2 {α : Type} (l l' : List (List α))
    (hshape : l'.map List.length = l.map List.length)
    (h : ∀ X k, readAt2 l' X k = readAt2 l X k) : l' = l := by
  have hlen : l'.length = l.length := by
    have := congrArg List.length hshape
    simpa using this
  apply List.ext_getElem hlen
  intro X h1 h2
  have hrow : (l'[X]).length = (l[X]).length := by
    have e1 : (l'.map List.length)[X]? = some (l'[X]).length := by
      rw [List.getElem?_map, List.getElem?_eq_getElem h1]; rfl
    have e2 : (l.map List.length)[X]? = some (l[X]).length := by
      rw [List.getElem?_map, List.getElem?_eq_getElem h2]; rfl
    rw [hshape, e2] at e1
    exact (Option.some.inj e1).symm
  apply List.ext_getElem? 
  intro k
  have := h X k
  unfold readAt2 at this
  rw [List.getElem?_eq_getElem h1, List.getElem?_eq_getElem h2] at this
  exact this

theorem Confined.unflagged {what : FstatQuantities} {N n : Nat} {F F' : FstatResults}
    (h : Confined what N n F F') :
    (hasFlag what FSTATQ_FAFB_PER_DET = false →
      F'.FaPerDet = F.FaPerDet ∧ F'.FbPerDet = F.FbPerDet) ∧
    (hasFlag what FSTATQ_2F_PER_DET = false → F'.twoFPerDet = F.twoFPerDet) := by
  constructor
  · intro hf
    constructor
    · refine eq_of_readAt2 _ _ h.shapeFa (fun X k => ?_)
      by_contra hne
      have := (h.FaPerDet X k hne).1
      rw [hf] at this
      exact absurd this (by decide)
    · refine eq_of_readAt2 _ _ h.shapeFb (fun X k => ?_)
      by_contra hne
      have := (h.FbPerDet X k hne).1
      rw [hf] at this
      exact absurd this (by decide)
  · intro hf
    refine eq_of_readAt2 _ _ h.shape2F (fun X k => ?_)
    by_contra hne
    have := (h.twoFPerDet X k hne).1
    rw [hf] at this
    exact absurd this (by decide)

/-- What a query that ends with an XLAL error leaves in the result structure. -/
theorem ComputeFstat_Resamp_failure (env : Externals) (F : FstatResults)
    (common : FstatInput_Common) (c : FstatInput_Resamp)
    (hfail : (ComputeFstat_Resamp env (some F) (some common) (some c)).status ≠ XLAL_SUCCESS)
    (hdef : (ComputeFstat_Resamp env (some F) (some common) (some c)).status ≠ UNDEFINED) :
    ∃ Fout, (ComputeFstat_Resamp env (some F) (some common) (some c)).Fstats = some Fout ∧
      Confined F.whatWasComputed c.multiTimeSeries_DET.data.length F.numFreqBins F Fout := by
  cases hatoms : hasFlag F.whatWasComputed FSTATQ_ATOMS_PER_DET with
  | true =>
    refine ⟨F, ?_, Confined.self _ _ _ _⟩
    unfold ComputeFstat_Resamp
    simp [hatoms]
  | false =>
    cases hdet : c.multiTimeSeries_DET.data.head? with
    | none =>
      exfalso
      apply hdef
      unfold ComputeFstat_Resamp
      simp [hatoms, hdet]
    | some det0 =>
      rw [ComputeFstat_Resamp_eq env F common c det0 hatoms hdet] at hfail hdef ⊢
      by_cases hb : (handleBuffering env common c F.doppler (dFreqOut F det0)).status
          ≠ XLAL_SUCCESS
      · rw [if_pos hb]
        exact ⟨F, rfl, Confined.self _ _ _ _⟩
      · rw [if_neg hb] at hfail hdef ⊢
        exact ⟨_, rfl, spectralAssemble_failure env F _ det0 _ _ _ _ hfail hdef hatoms⟩
/-- C17 as stated does not hold: with a transform that fails for the second detector, the
query on the fresh sample cache returns `XLAL_EFUNC` after the bins of the first detector
have been stored, and the per-detector arrays of the result are no longer the zeroed
arrays that were passed in. -/
theorem C17_counterexample :
    (ComputeFstat_Resamp Sample.envFFT (some (Sample.query (Sample.point 1 2 10 0) 0 2 15))
      (some Sample.common) (some Sample.freshCache)).status = XLAL_EFUNC ∧
    (Sample.query (Sample.point 1 2 10 0) 0 2 15).FaPerDet = [[⟨0, 0⟩, ⟨0, 0⟩], [⟨0, 0⟩, ⟨0, 0⟩]] ∧
    ((ComputeFstat_Resamp Sample.envFFT (some (Sample.query (Sample.point 1 2 10 0) 0 2 15))
      (some Sample.common) (some Sample.freshCache)).Fstats.map fun F => F.FaPerDet) =
      some [[⟨6, 0⟩, ⟨8, 0⟩], [⟨0, 0⟩, ⟨0, 0⟩]] ∧
    ((ComputeFstat_Resamp Sample.envFFT (some (Sample.query (Sample.point 1 2 10 0) 0 2 15))
      (some Sample.common) (some Sample.freshCache)).Fstats.map fun F => F.FaPerDet) ≠
      some (Sample.query (Sample.point 1 2 10 0) 0 2 15).FaPerDet := by
  decide!

/-- C17, amended: when `ComputeFstat_Resamp` returns an XLAL error, the combined arrays
`Fa`, `Fb`, `twoF` and `Mmunu` of the result are the ones passed in; the per-detector
arrays keep their shape, are the ones passed in when their flag is not set, and differ
from them at most in entries `[X][k]` with `X < numDetectors`, `k < numFreqBins` of a
requested array, which may hold values stored before the failure. -/
theorem C17_failure_keeps_combined (env : Externals) (F : FstatResults)
    (common : FstatInput_Common) (c : FstatInput_Resamp)
    (hfail : (ComputeFstat_Resamp env (some F) (some common) (some c)).status ≠ XLAL_SUCCESS)
    (hdef : (ComputeFstat_Resamp env (some F) (some common) (some c)).status ≠ UNDEFINED) :
    ∃ Fout, (ComputeFstat_Resamp env (some F) (some common) (some c)).Fstats = some Fout ∧
      Fout.Fa = F.Fa ∧ Fout.Fb = F.Fb ∧ Fout.twoF = F.twoF ∧ Fout.Mmunu = F.Mmunu ∧
      Fout.FaPerDet.map List.length = F.FaPerDet.map List.length ∧
      Fout.FbPerDet.map List.length = F.FbPerDet.map List.length ∧
      Fout.twoFPerDet.map List.length = F.twoFPerDet.map List.length ∧
      (hasFlag F.whatWasComputed FSTATQ_FAFB_PER_DET = false →
        Fout.FaPerDet = F.FaPerDet ∧ Fout.FbPerDet = F.FbPerDet) ∧
      (hasFlag F.whatWasComputed FSTATQ_2F_PER_DET = false → Fout.twoFPerDet = F.twoFPerDet) ∧
      (∀ X k, readAt2 Fout.FaPerDet X k ≠ readAt2 F.FaPerDet X k ∨
          readAt2 Fout.FbPerDet X k ≠ readAt2 F.FbPerDet X k ∨
          readAt2 Fout.twoFPerDet X k ≠ readAt2 F.twoFPerDet X k →
        X < c.multiTimeSeries_DET.data.length ∧ k < F.numFreqBins) := by
  obtain ⟨Fout, hF, hc⟩ := ComputeFstat_Resamp_failure env F common c hfail hdef
  refine ⟨Fout, hF, hc.same.Fa, hc.same.Fb, hc.same.twoF, hc.same.Mmunu, hc.shapeFa, hc.shapeFb,
    hc.shape2F, hc.unflagged.1, hc.unflagged.2, fun X k h => ?_⟩
  rcases h with h | h | h
  · exact (hc.FaPerDet X k h).2
  · exact (hc.FbPerDet X k h).2
  · exact (hc.twoFPerDet X k h).2

/-- An instance of the amended C17: the failing query of the counterexample leaves the
combined arrays and `Mmunu` as they were passed in. -/
theorem C17_failure_keeps_combined_witness :
    ∃ Fout, (ComputeFstat_Resamp Sample.envFFT
        (some (Sample.query (Sample.point 1 2 10 0) 0 2 15)) (some Sample.common)
        (some Sample.freshCache)).Fstats = some Fout ∧
      Fout.Fa = [⟨0, 0⟩, ⟨0, 0⟩] ∧ Fout.Fb = [⟨0, 0⟩, ⟨0, 0⟩] ∧ Fout.twoF = [0, 0] ∧
      Fout.Mmunu = ⟨0, 0, 0, 0, 0, 0⟩ := by
  obtain ⟨Fout, hF, h1, h2, h3, h4, -⟩ := C17_failure_keeps_combined Sample.envFFT
    (Sample.query (Sample.point 1 2 10 0) 0 2 15) Sample.common Sample.freshCache
    (by decide!) (by decide!)
  exact ⟨Fout, hF, h1, h2, h3, h4⟩

/-! ## Theorems: a query issued twice -/

theorem recomputeBinary_failure (env : Externals) (common : FstatInput_Common)
    (c : FstatInput_Resamp) (p : PulsarDopplerParams) (d : REAL8)
    (h : (recomputeBinary env common c p d).status ≠ XLAL_SUCCESS) :
    (recomputeBinary env common c p d).resamp = c := by
  unfold recomputeBinary at h ⊢
  by_cases hasini : p.asini > 0
  · simp only [hasini, if_true] at h ⊢
    cases hbin : (c.prev_multiSSBsky.bind fun sky => env.XLALAddMultiBinaryTimes sky p) with
    | none => simp only [hbin]
    | some multiBinary =>
      simp only [hbin] at h ⊢
      rcases hres : XLALBarycentricResampleMultiCOMPLEX8TimeSeries env (some none) (some none)
        (some c.multiTimeSeries_DET) common.timestamps (some multiBinary) d
        with ⟨st, src, stamps⟩
      simp only [hres] at h ⊢
      cases st <;> try rfl
      rcases hw : XLALAntennaWeightMultiCOMPLEX8TimeSeries env (some none) (some none) src
        c.prev_multiAMcoef stamps with ⟨st2, Fa, Fb⟩
      simp only [hw] at h ⊢
      cases st2 <;> first | rfl | exact absurd rfl h
  · simp only [hasini, if_false] at h ⊢
    rcases hres : XLALBarycentricResampleMultiCOMPLEX8TimeSeries env (some none) (some none)
      (some c.multiTimeSeries_DET) common.timestamps c.prev_multiSSBsky d
      with ⟨st, src, stamps⟩
    simp only [hres] at h ⊢
    cases st <;> try rfl
    rcases hw : XLALAntennaWeightMultiCOMPLEX8TimeSeries env (some none) (some none) src
      c.prev_multiAMcoef stamps with ⟨st2, Fa, Fb⟩
    simp only [hw] at h ⊢
    cases st2 <;> first | rfl | exact absurd rfl h

theorem recomputeSky_failure (env : Externals) (common : FstatInput_Common)
    (c : FstatInput_Resamp) (p : PulsarDopplerParams) (d : REAL8)
    (h : (recomputeSky env common c p d).status ≠ XLAL_SUCCESS) :
    (recomputeSky env common c p d).resamp = c := by
  unfold recomputeSky at h ⊢
  cases hsky : env.XLALGetMultiSSBtimes common.detectorStates ⟨p.Alpha, p.Delta⟩ p.refTime
      common.SSBprec with
  | none => simp only [hsky]
  | some sky =>
    simp only [hsky] at h ⊢
    by_cases hasini : p.asini > 0
    · simp only [hasini, if_true] at h ⊢
      cases hbin : env.XLALAddMultiBinaryTimes sky p with
      | none => simp only [hbin]
      | some multiBinary =>
        simp only [hbin] at h ⊢
        rcases hres : XLALBarycentricResampleMultiCOMPLEX8TimeSeries env (some none) (some none)
          (some c.multiTimeSeries_DET) common.timestamps (some multiBinary) d
          with ⟨st, src, stamps⟩
        simp only [hres] at h ⊢
        cases st <;> try rfl
        cases ham : env.XLALComputeMultiAMCoeffs common.detectorStates common.noiseWeights
            ⟨p.Alpha, p.Delta⟩ with
        | none => simp only [ham]
        | some am =>
          simp only [ham] at h ⊢
          rcases hw : XLALAntennaWeightMultiCOMPLEX8TimeSeries env (some none) (some none) src
            (some am) stamps with ⟨st2, Fa, Fb⟩
          simp only [hw] at h ⊢
          cases st2 <;> first | rfl | exact absurd rfl h
    · simp only [hasini, if_false] at h ⊢
      rcases hres : XLALBarycentricResampleMultiCOMPLEX8TimeSeries env (some none) (some none)
        (some c.multiTimeSeries_DET) common.timestamps (some sky) d
        with ⟨st, src, stamps⟩
      simp only [hres] at h ⊢
      cases st <;> try rfl
      cases ham : env.XLALComputeMultiAMCoeffs common.detectorStates common.noiseWeights
          ⟨p.Alpha, p.Delta⟩ with
      | none => simp only [ham]
      | some am =>
        simp only [ham] at h ⊢
        rcases hw : XLALAntennaWeightMultiCOMPLEX8TimeSeries env (some none) (some none) src
          (some am) stamps with ⟨st2, Fa, Fb⟩
        simp only [hw] at h ⊢
        cases st2 <;> first | rfl | exact absurd rfl h

/-- A buffering block that fails leaves the cache as it was. -/
theorem handleBuffering_failure (env : Externals) (common : FstatInput_Common)
    (c : FstatInput_Resamp) (p : PulsarDopplerParams) (d : REAL8)
    (h : (handleBuffering env common c p d).status ≠ XLAL_SUCCESS) :
    (handleBuffering env common c p d).resamp = c := by
  unfold handleBuffering at h ⊢
  split_ifs at h ⊢
  · rfl
  · exact recomputeBinary_failure env common c p d h
  · exact recomputeSky_failure env common c p d h

/-- After a successful buffering block the cache is keyed on the query point and holds
the AM coefficients and the weighted series the block hands to the spectral assembly: the
block run again for the same point reuses everything. -/
theorem handleBuffering_again (env : Externals) (common : FstatInput_Common)
    (c : FstatInput_Resamp) (p : PulsarDopplerParams) (d d' : REAL8)
    (h : (handleBuffering env common c p d).status = XLAL_SUCCESS) :
    (handleBuffering env common c p d).resamp.multiTimeSeries_DET = c.multiTimeSeries_DET ∧
    handleBuffering env common (handleBuffering env common c p d).resamp p d' =
      ⟨XLAL_SUCCESS, [], .fullReuse, (handleBuffering env common c p d).resamp,
        (handleBuffering env common c p d).multiAMcoef,
        (handleBuffering env common c p d).multiFa_SRC,
        (handleBuffering env common c p d).multiFb_SRC⟩ := by
  have hpp : sameSkyAndRefTime p p = true := (sameSkyAndRefTime_iff p p).mpr ⟨rfl, rfl, rfl⟩
  have hbb : sameBinary p p = true := (sameBinary_iff p p).mpr ⟨rfl, rfl, rfl, rfl, rfl⟩
  by_cases hfull : (handleBuffering env common c p d).branch = .fullReuse
  · have hkeys : sameSkyAndRefTime c.prev_doppler p = true ∧
        sameBinary c.prev_doppler p = true := by
      rw [handleBuffering_branch] at hfull
      by_cases h1 : sameSkyAndRefTime c.prev_doppler p = true <;>
        by_cases h2 : sameBinary c.prev_doppler p = true <;>
        simp [h1, h2] at hfull ⊢
    have hbuf : ∀ d, handleBuffering env common c p d =
        ⟨XLAL_SUCCESS, [], .fullReuse, c, c.prev_multiAMcoef, c.prev_multiFa_SRC,
          c.prev_multiFb_SRC⟩ := by
      intro d
      simp [handleBuffering, hkeys.1, hkeys.2]
    rw [hbuf d]
    exact ⟨rfl, hbuf d'⟩
  · obtain ⟨timing, sky, am, src, stamps, Fa, Fb, -, -, ham, hFa, hFb, hresamp, -⟩ :=
      handleBuffering_recomputed env common c p d h hfull
    rw [hresamp, ham, hFa, hFb]
    refine ⟨rfl, ?_⟩
    simp [handleBuffering, hpp, hbb]
/-- C18: the same query issued a second time, on the cache the first call left behind,
ends with the same status, the same result structure (so the same output values after a
success and the same error after a failure) and the same cache as the first call; only
the arm of the buffering block may differ, the second call reusing what the first
computed. -/
theorem C18_repeated_query (env : Externals) (Fstats : Option FstatResults)
    (common : Option FstatInput_Common) (resamp : Option FstatInput_Resamp) :
    (ComputeFstat_Resamp env Fstats common
        (ComputeFstat_Resamp env Fstats common resamp).resamp).status =
      (ComputeFstat_Resamp env Fstats common resamp).status ∧
    (ComputeFstat_Resamp env Fstats common
        (ComputeFstat_Resamp env Fstats common resamp).resamp).Fstats =
      (ComputeFstat_Resamp env Fstats common resamp).Fstats ∧
    (ComputeFstat_Resamp env Fstats common
        (ComputeFstat_Resamp env Fstats common resamp).resamp).resamp =
      (ComputeFstat_Resamp env Fstats common resamp).resamp ∧
    ((ComputeFstat_Resamp env Fstats common resamp).status = XLAL_SUCCESS →
      (ComputeFstat_Resamp env Fstats common
        (ComputeFstat_Resamp env Fstats common resamp).resamp).branch = some .fullReuse ∧
      (ComputeFstat_Resamp env Fstats common
        (ComputeFstat_Resamp env Fstats common resamp).resamp).calls = []) := by
  cases Fstats with
  | none => exact ⟨rfl, rfl, rfl, fun h => by cases h⟩
  | some F =>
    cases common with
    | none => exact ⟨rfl, rfl, rfl, fun h => by cases h⟩
    | some common =>
      cases resamp with
      | none => exact ⟨rfl, rfl, rfl, fun h => by cases h⟩
      | some c =>
        cases hatoms : hasFlag F.whatWasComputed FSTATQ_ATOMS_PER_DET with
        | true =>
          have h1 : ComputeFstat_Resamp env (some F) (some common) (some c) =
              ⟨XLAL_EINVAL, [], none, some F, some c⟩ := by
            unfold ComputeFstat_Resamp
            simp [hatoms]
          rw [h1]
          simp only
          rw [h1]
          exact ⟨rfl, rfl, rfl, fun h => absurd h (by decide)⟩
        | false =>
          cases hdet : c.multiTimeSeries_DET.data.head? with
          | none =>
            have h1 : ComputeFstat_Resamp env (some F) (some common) (some c) =
                ⟨UNDEFINED, [], none, some F, some c⟩ := by
              unfold ComputeFstat_Resamp
              simp [hatoms, hdet]
            rw [h1]
            simp only
            rw [h1]
            exact ⟨rfl, rfl, rfl, fun h => absurd h (by decide)⟩
          | some det0 =>
            have h1 := ComputeFstat_Resamp_eq env F common c det0 hatoms hdet
            by_cases hb : (handleBuffering env common c F.doppler (dFreqOut F det0)).status
                ≠ XLAL_SUCCESS
            · rw [if_pos hb] at h1
              have hc := handleBuffering_failure env common c F.doppler (dFreqOut F det0) hb
              rw [hc] at h1
              rw [h1]
              simp only
              rw [h1]
              exact ⟨rfl, rfl, rfl, fun h => absurd h hb⟩
            · rw [if_neg hb] at h1
              have hb' : (handleBuffering env common c F.doppler (dFreqOut F det0)).status
                  = XLAL_SUCCESS := by
                by_contra hne
                exact hb hne
              obtain ⟨hdetEq, hagain⟩ :=
                handleBuffering_again env common c F.doppler (dFreqOut F det0) (dFreqOut F det0) hb'
              have hdet' : (handleBuffering env common c F.doppler
                  (dFreqOut F det0)).resamp.multiTimeSeries_DET.data.head? = some det0 := by
                rw [hdetEq]; exact hdet
              have h2 := ComputeFstat_Resamp_eq env F common
                (handleBuffering env common c F.doppler (dFreqOut F det0)).resamp det0 hatoms hdet'
              rw [hagain] at h2
              simp only [ne_eq, not_true_eq_false, if_false] at h2
              rw [hdetEq] at h2
              rw [h1]
              simp only
              rw [h2]
              exact ⟨rfl, rfl, rfl, fun _ => ⟨rfl, rfl⟩⟩

/-! ## Theorems: which output arrays a query writes -/

theorem le_length_of_getElem? {α : Type} (l : List α) (n : Nat)
    (h : ∀ k, k < n → ∃ v, l[k]? = some v) : n ≤ l.length := by
  by_contra hlt
  have hlen : l.length < n := Nat.lt_of_not_ge hlt
  obtain ⟨v, hv⟩ := h l.length hlen
  rw [List.getElem?_eq_none (Nat.le_refl _)] at hv
  exact absurd hv (by simp)

theorem eq_of_getElem? {α : Type} (l l' : List α) (h : ∀ k : Nat, l'[k]? = l[k]?) :
    l' = l :=
  List.ext_getElem? h

/-- C19: after a successful query over `N` detectors with `n = numFreqBins`, for each of
the four output-selection flags: when the flag is set, the entries `0 .. n-1` of the
corresponding arrays (of each of the `N` rows, for the per-detector arrays) hold the
computed values and all other entries are as they were passed in, so the arrays reach at
least to entry `n-1` and an array passed in with `n` entries comes back with `n` entries,
all written; when the flag is not set, the corresponding arrays are the ones passed in. -/
theorem C19_selected_outputs (env : Externals) (F : FstatResults)
    (common : FstatInput_Common) (c : FstatInput_Resamp)
    (hok : (ComputeFstat_Resamp env (some F) (some common) (some c)).status = XLAL_SUCCESS) :
    ∃ det0 am fa fb Fa0 Fout,
      (ComputeFstat_Resamp env (some F) (some common) (some c)).Fstats = some Fout ∧
      Assembled env F c.multiTimeSeries_DET.data.length (dFreqOut F det0) am fa fb Fa0 Fout ∧
      (Fout.Fa.length = F.Fa.length ∧ Fout.Fb.length = F.Fb.length ∧
        Fout.twoF.length = F.twoF.length ∧
        Fout.FaPerDet.map List.length = F.FaPerDet.map List.length ∧
        Fout.FbPerDet.map List.length = F.FbPerDet.map List.length ∧
        Fout.twoFPerDet.map List.length = F.twoFPerDet.map List.length) ∧
      (hasFlag F.whatWasComputed FSTATQ_FAFB = true →
        F.numFreqBins ≤ Fout.Fa.length ∧ F.numFreqBins ≤ Fout.Fb.length ∧
        (∀ k, k < F.numFreqBins →
          Fout.Fa[k]? = some (sumDetectors c.multiTimeSeries_DET.data.length fun X =>
            queryFaX env F (dFreqOut F det0) fa fb Fa0 X k) ∧
          Fout.Fb[k]? = some (sumDetectors c.multiTimeSeries_DET.data.length fun X =>
            queryFbX env F (dFreqOut F det0) fa fb Fa0 X k)) ∧
        (∀ k, F.numFreqBins ≤ k → Fout.Fa[k]? = F.Fa[k]? ∧ Fout.Fb[k]? = F.Fb[k]?)) ∧
      (hasFlag F.whatWasComputed FSTATQ_FAFB = false → Fout.Fa = F.Fa ∧ Fout.Fb = F.Fb) ∧
      (hasFlag F.whatWasComputed FSTATQ_2F = true →
        F.numFreqBins ≤ Fout.twoF.length ∧
        (∀ k, k < F.numFreqBins →
          Fout.twoF[k]? = some (env.XLALComputeFstatFromFaFb
            (sumDetectors c.multiTimeSeries_DET.data.length fun X =>
              queryFaX env F (dFreqOut F det0) fa fb Fa0 X k)
            (sumDetectors c.multiTimeSeries_DET.data.length fun X =>
              queryFbX env F (dFreqOut F det0) fa fb Fa0 X k)
            am.Mmunu.Ad am.Mmunu.Bd am.Mmunu.Cd am.Mmunu.Ed (1 / am.Mmunu.Dd))) ∧
        (∀ k, F.numFreqBins ≤ k → Fout.twoF[k]? = F.twoF[k]?)) ∧
      (hasFlag F.whatWasComputed FSTATQ_2F = false → Fout.twoF = F.twoF) ∧
      (hasFlag F.whatWasComputed FSTATQ_FAFB_PER_DET = true →
        (∀ X k, X < c.multiTimeSeries_DET.data.length → k < F.numFreqBins →
          readAt2 Fout.FaPerDet X k = some (queryFaX env F (dFreqOut F det0) fa fb Fa0 X k) ∧
          readAt2 Fout.FbPerDet X k = some (queryFbX env F (dFreqOut F det0) fa fb Fa0 X k)) ∧
        (∀ X k, ¬ (X < c.multiTimeSeries_DET.data.length ∧ k < F.numFreqBins) →
          readAt2 Fout.FaPerDet X k = readAt2 F.FaPerDet X k ∧
          readAt2 Fout.FbPerDet X k = readAt2 F.FbPerDet X k)) ∧
      (hasFlag F.whatWasComputed FSTATQ_FAFB_PER_DET = false →
        Fout.FaPerDet = F.FaPerDet ∧ Fout.FbPerDet = F.FbPerDet) ∧
      (hasFlag F.whatWasComputed FSTATQ_2F_PER_DET = true →
        (∀ X k, X < c.multiTimeSeries_DET.data.length → k < F.numFreqBins →
          readAt2 Fout.twoFPerDet X k =
            some (queryTwoFX env F (dFreqOut F det0) am fa fb Fa0 X k)) ∧
        (∀ X k, ¬ (X < c.multiTimeSeries_DET.data.length ∧ k < F.numFreqBins) →
          readAt2 Fout.twoFPerDet X k = readAt2 F.twoFPerDet X k)) ∧
      (hasFlag F.whatWasComputed FSTATQ_2F_PER_DET = false →
        Fout.twoFPerDet = F.twoFPerDet) := by
  obtain ⟨hatoms, det0, hdet, hb, hsp⟩ := ComputeFstat_Resamp_success env F common c hok
  obtain ⟨am, fa, fb, Fa0, -, -, -, ha⟩ := spectralAssemble_success _ _ _ _ _ _ _ _ hsp
  have hF : (ComputeFstat_Resamp env (some F) (some common) (some c)).Fstats =
      some (spectralAssemble env F c.multiTimeSeries_DET.data.length det0 (dFreqOut F det0)
        (handleBuffering env common c F.doppler (dFreqOut F det0)).multiAMcoef
        (handleBuffering env common c F.doppler (dFreqOut F det0)).multiFa_SRC
        (handleBuffering env common c F.doppler (dFreqOut F det0)).multiFb_SRC).2 := by
    rw [ComputeFstat_Resamp_eq env F common c det0 hatoms hdet]
    simp [hb]
  generalize (spectralAssemble env F c.multiTimeSeries_DET.data.length det0 (dFreqOut F det0)
    (handleBuffering env common c F.doppler (dFreqOut F det0)).multiAMcoef
    (handleBuffering env common c F.doppler (dFreqOut F det0)).multiFa_SRC
    (handleBuffering env common c F.doppler (dFreqOut F det0)).multiFb_SRC).2 = Fout at ha hF
  refine ⟨det0, am, fa, fb, Fa0, Fout, hF, ha,
    ⟨ha.lenFa, ha.lenFb, ha.lenTwoF, ha.shapeFa, ha.shapeFb, ha.shape2F⟩,
    fun hf => ?_, fun hf => ?_, fun hf => ?_, fun hf => ?_, fun hf => ?_, fun hf => ?_,
    fun hf => ?_, fun hf => ?_⟩
  · have hA : ∀ k, k < F.numFreqBins → Fout.Fa[k]? = some (sumDetectors
        c.multiTimeSeries_DET.data.length fun X => queryFaX env F (dFreqOut F det0) fa fb Fa0 X k) :=
      fun k hk => by rw [ha.Fa k, if_pos ⟨hf, hk⟩]
    have hB : ∀ k, k < F.numFreqBins → Fout.Fb[k]? = some (sumDetectors
        c.multiTimeSeries_DET.data.length fun X => queryFbX env F (dFreqOut F det0) fa fb Fa0 X k) :=
      fun k hk => by rw [ha.Fb k, if_pos ⟨hf, hk⟩]
    refine ⟨le_length_of_getElem? _ _ (fun k hk => ⟨_, hA k hk⟩),
      le_length_of_getElem? _ _ (fun k hk => ⟨_, hB k hk⟩), fun k hk => ⟨hA k hk, hB k hk⟩,
      fun k hk => ?_⟩
    have hn : ¬ (hasFlag F.whatWasComputed FSTATQ_FAFB = true ∧ k < F.numFreqBins) :=
      fun h => absurd h.2 (Nat.not_lt.mpr hk)
    exact ⟨by rw [ha.Fa k, if_neg hn], by rw [ha.Fb k, if_neg hn]⟩
  · have hn : ∀ k, ¬ (hasFlag F.whatWasComputed FSTATQ_FAFB = true ∧ k < F.numFreqBins) :=
      fun k h => by rw [hf] at h; exact absurd h.1 (by decide)
    exact ⟨eq_of_getElem? _ _ (fun k => by rw [ha.Fa k, if_neg (hn k)]),
      eq_of_getElem? _ _ (fun k => by rw [ha.Fb k, if_neg (hn k)])⟩
  · have hT : ∀ k, k < F.numFreqBins → Fout.twoF[k]? = some (env.XLALComputeFstatFromFaFb
        (sumDetectors c.multiTimeSeries_DET.data.length fun X =>
          queryFaX env F (dFreqOut F det0) fa fb Fa0 X k)
        (sumDetectors c.multiTimeSeries_DET.data.length fun X =>
          queryFbX env F (dFreqOut F det0) fa fb Fa0 X k)
        am.Mmunu.Ad am.Mmunu.Bd am.Mmunu.Cd am.Mmunu.Ed (1 / am.Mmunu.Dd)) :=
      fun k hk => by rw [ha.twoF k, if_pos ⟨hf, hk⟩]
    refine ⟨le_length_of_getElem? _ _ (fun k hk => ⟨_, hT k hk⟩), hT, fun k hk => ?_⟩
    have hn : ¬ (hasFlag F.whatWasComputed FSTATQ_2F = true ∧ k < F.numFreqBins) :=
      fun h => absurd h.2 (Nat.not_lt.mpr hk)
    rw [ha.twoF k, if_neg hn]
  · have hn : ∀ k, ¬ (hasFlag F.whatWasComputed FSTATQ_2F = true ∧ k < F.numFreqBins) :=
      fun k h => by rw [hf] at h; exact absurd h.1 (by decide)
    exact eq_of_getElem? _ _ (fun k => by rw [ha.twoF k, if_neg (hn k)])
  · refine ⟨fun X k hX hk => ⟨by rw [ha.FaPerDet X k, if_pos ⟨hf, hX, hk⟩],
      by rw [ha.FbPerDet X k, if_pos ⟨hf, hX, hk⟩]⟩, fun X k hn => ?_⟩
    have hn' : ¬ (hasFlag F.whatWasComputed FSTATQ_FAFB_PER_DET = true ∧
        X < c.multiTimeSeries_DET.data.length ∧ k < F.numFreqBins) := fun h => hn h.2
    exact ⟨by rw [ha.FaPerDet X k, if_neg hn'], by rw [ha.FbPerDet X k, if_neg hn']⟩
  · have hn : ∀ X k, ¬ (hasFlag F.whatWasComputed FSTATQ_FAFB_PER_DET = true ∧
        X < c.multiTimeSeries_DET.data.length ∧ k < F.numFreqBins) :=
      fun X k h => by rw [hf] at h; exact absurd h.1 (by decide)
    exact ⟨eq_of_readAt2 _ _ ha.shapeFa (fun X k => by rw [ha.FaPerDet X k, if_neg (hn X k)]),
      eq_of_readAt2 _ _ ha.shapeFb (fun X k => by rw [ha.FbPerDet X k, if_neg (hn X k)])⟩
  · refine ⟨fun X k hX hk => by rw [ha.twoFPerDet X k, if_pos ⟨hf, hX, hk⟩], fun X k hn => ?_⟩
    have hn' : ¬ (hasFlag F.whatWasComputed FSTATQ_2F_PER_DET = true ∧
        X < c.multiTimeSeries_DET.data.length ∧ k < F.numFreqBins) := fun h => hn h.2
    rw [ha.twoFPerDet X k, if_neg hn']
  · have hn : ∀ X k, ¬ (hasFlag F.whatWasComputed FSTATQ_2F_PER_DET = true ∧
        X < c.multiTimeSeries_DET.data.length ∧ k < F.numFreqBins) :=
      fun X k h => by rw [hf] at h; exact absurd h.1 (by decide)
    exact eq_of_readAt2 _ _ ha.shape2F (fun X k => by rw [ha.twoFPerDet X k, if_neg (hn X k)])
/-- An instance of C19: the sample query for two bins that asks for the combined
statistic only gets `twoF` back with two entries and every other array as passed in. -/
theorem C19_selected_outputs_witness :
    ∃ Fout,
      (ComputeFstat_Resamp Sample.env (some (Sample.query (Sample.point 1 2 10 0) 0 2 1))
        (some Sample.common) (some Sample.freshCache)).Fstats = some Fout ∧
      Fout.twoF.length = 2 ∧ (∀ k, k < 2 → ∃ v, Fout.twoF[k]? = some v) ∧
      Fout.Fa = [⟨0, 0⟩, ⟨0, 0⟩] ∧ Fout.Fb = [⟨0, 0⟩, ⟨0, 0⟩] ∧
      Fout.FaPerDet = [[⟨0, 0⟩, ⟨0, 0⟩], [⟨0, 0⟩, ⟨0, 0⟩]] ∧
      Fout.twoFPerDet = [[0, 0], [0, 0]] := by
  obtain ⟨det0, am, fa, fb, Fa0, Fout, hF, -, hlen, -, hfafb, h2f, -, -, hpd, -, h2pd⟩ :=
    C19_selected_outputs Sample.env (Sample.query (Sample.point 1 2 10 0) 0 2 1) Sample.common
      Sample.freshCache (by decide!)
  obtain ⟨-, hw, -⟩ := h2f (by decide)
  exact ⟨Fout, hF, hlen.2.2.1, fun k hk => ⟨_, hw k hk⟩, (hfafb (by decide)).1,
    (hfafb (by decide)).2, (hpd (by decide)).1, h2pd (by decide)⟩

/-! ## Theorems: the returned antenna normalization -/

theorem CachedAMBelongs_of_none (env : Externals) (common : FstatInput_Common)
    (c : FstatInput_Resamp) (h : c.prev_multiAMcoef = none) : CachedAMBelongs env common c := by
  intro am ham
  rw [h] at ham
  exact absurd ham (by simp)

/-- The buffering block keeps the buffered AM coefficients with their sky position, and
when it succeeds it hands the coefficients of the query's sky position on. -/
theorem handleBuffering_AM (env : Externals) (common : FstatInput_Common)
    (c : FstatInput_Resamp) (p : PulsarDopplerParams) (d : REAL8)
    (hinv : CachedAMBelongs env common c) :
    CachedAMBelongs env common (handleBuffering env common c p d).resamp ∧
    ((handleBuffering env common c p d).status = XLAL_SUCCESS →
      ∀ am, (handleBuffering env common c p d).multiAMcoef = some am →
        env.XLALComputeMultiAMCoeffs common.detectorStates common.noiseWeights
          ⟨p.Alpha, p.Delta⟩ = some am) := by
  by_cases hst : (handleBuffering env common c p d).status = XLAL_SUCCESS
  · by_cases hfull : (handleBuffering env common c p d).branch = .fullReuse
    · have hkeys : sameSkyAndRefTime c.prev_doppler p = true ∧
          sameBinary c.prev_doppler p = true := by
        rw [handleBuffering_branch] at hfull
        by_cases h1 : sameSkyAndRefTime c.prev_doppler p = true <;>
          by_cases h2 : sameBinary c.prev_doppler p = true <;>
          simp [h1, h2] at hfull ⊢
      have hbuf : handleBuffering env common c p d =
          ⟨XLAL_SUCCESS, [], .fullReuse, c, c.prev_multiAMcoef, c.prev_multiFa_SRC,
            c.prev_multiFb_SRC⟩ := by
        simp [handleBuffering, hkeys.1, hkeys.2]
      obtain ⟨hA, hD, -⟩ := (sameSkyAndRefTime_iff _ _).mp hkeys.1
      rw [hbuf]
      refine ⟨hinv, fun _ am ham => ?_⟩
      rw [← hA, ← hD]
      exact hinv am ham
    · obtain ⟨timing, sky, am, src, stamps, Fa, Fb, -, -, ham, -, -, hresamp, hor⟩ :=
        handleBuffering_recomputed env common c p d hst hfull
      have hp : env.XLALComputeMultiAMCoeffs common.detectorStates common.noiseWeights
          ⟨p.Alpha, p.Delta⟩ = some am := by
        rcases hor with ⟨hbr, hc, -⟩ | ⟨-, hc, -⟩
        · have hsky : sameSkyAndRefTime c.prev_doppler p = true := by
            rw [handleBuffering_branch] at hbr
            by_cases h1 : sameSkyAndRefTime c.prev_doppler p = true
            · exact h1
            · simp [h1] at hbr
          obtain ⟨hA, hD, -⟩ := (sameSkyAndRefTime_iff _ _).mp hsky
          rw [← hA, ← hD]
          exact hinv am hc
        · exact hc
      rw [hresamp, ham]
      refine ⟨fun am' h' => ?_, fun _ am' h' => ?_⟩
      · simp only [Option.some.injEq] at h'
        subst h'
        exact hp
      · simp only [Option.some.injEq] at h'
        subst h'
        exact hp
  · rw [handleBuffering_failure env common c p d hst]
    exact ⟨hinv, fun h => absurd h hst⟩

/-- Every query keeps the buffered AM coefficients with their sky position. -/
theorem ComputeFstat_Resamp_AM (env : Externals) (F : FstatResults)
    (common : FstatInput_Common) (c : FstatInput_Resamp)
    (hinv : CachedAMBelongs env common c) :
    ∃ c', (ComputeFstat_Resamp env (some F) (some common) (some c)).resamp = some c' ∧
      CachedAMBelongs env common c' := by
  rw [ComputeFstat_Resamp_resamp]
  split_ifs
  · exact ⟨c, rfl, hinv⟩
  · split
    · exact ⟨c, rfl, hinv⟩
    · exact ⟨_, rfl, (handleBuffering_AM env common c F.doppler _ hinv).1⟩

/-- C20: after a successful query on a cache whose buffered AM coefficients belong to its
buffered sky position (as they do in every cache that set-up and earlier queries with the
same common input leave behind), in whichever arm of the buffering block: the `Mmunu` of
the result is the `Mmunu` of the AM coefficients that `XLALComputeMultiAMCoeffs` computes
for the sky position `(Alpha, Delta)` of the query point, the combined statistic of every
bin was computed with `Ad, Bd, Cd, Ed, 1/Dd` of this `Mmunu`, and the cache left behind
has the same property again. -/
theorem C20_returned_Mmunu (env : Externals) (F : FstatResults)
    (common : FstatInput_Common) (c : FstatInput_Resamp)
    (hinv : CachedAMBelongs env common c)
    (hok : (ComputeFstat_Resamp env (some F) (some common) (some c)).status = XLAL_SUCCESS) :
    ∃ am Fout c' det0 fa fb Fa0,
      env.XLALComputeMultiAMCoeffs common.detectorStates common.noiseWeights
        ⟨F.doppler.Alpha, F.doppler.Delta⟩ = some am ∧
      (ComputeFstat_Resamp env (some F) (some common) (some c)).Fstats = some Fout ∧
      Fout.Mmunu = am.Mmunu ∧
      (hasFlag F.whatWasComputed FSTATQ_2F = true → ∀ k, k < F.numFreqBins →
        Fout.twoF[k]? = some (env.XLALComputeFstatFromFaFb
          (sumDetectors c.multiTimeSeries_DET.data.length fun X =>
            queryFaX env F (dFreqOut F det0) fa fb Fa0 X k)
          (sumDetectors c.multiTimeSeries_DET.data.length fun X =>
            queryFbX env F (dFreqOut F det0) fa fb Fa0 X k)
          Fout.Mmunu.Ad Fout.Mmunu.Bd Fout.Mmunu.Cd Fout.Mmunu.Ed (1 / Fout.Mmunu.Dd))) ∧
      (ComputeFstat_Resamp env (some F) (some common) (some c)).resamp = some c' ∧
      CachedAMBelongs env common c' := by
  obtain ⟨hatoms, det0, hdet, hb, hsp⟩ := ComputeFstat_Resamp_success env F common c hok
  obtain ⟨am, fa, fb, Fa0, ham, -, -, ha⟩ := spectralAssemble_success _ _ _ _ _ _ _ _ hsp
  have hF : (ComputeFstat_Resamp env (some F) (some common) (some c)).Fstats =
      some (spectralAssemble env F c.multiTimeSeries_DET.data.length det0 (dFreqOut F det0)
        (handleBuffering env common c F.doppler (dFreqOut F det0)).multiAMcoef
        (handleBuffering env common c F.doppler (dFreqOut F det0)).multiFa_SRC
        (handleBuffering env common c F.doppler (dFreqOut F det0)).multiFb_SRC).2 := by
    rw [ComputeFstat_Resamp_eq env F common c det0 hatoms hdet]
    simp [hb]
  obtain ⟨c', hc', hinv'⟩ := ComputeFstat_Resamp_AM env F common c hinv
  refine ⟨am, _, c', det0, fa, fb, Fa0,
    (handleBuffering_AM env common c F.doppler _ hinv).2 hb am ham, hF,
    ha.Mmunu, fun hf k hk => ?_, hc', hinv'⟩
  rw [ha.twoF k, if_pos ⟨hf, hk⟩, ha.Mmunu]

/-- An instance of C20: the sample cache filled at sky position `(1, 2)`, asked again at
the same sky position with another orbit, returns the `Mmunu` of the sample coefficients
for `(1, 2)`. -/
theorem C20_returned_Mmunu_witness :
    ∃ Fout,
      (ComputeFstat_Resamp Sample.env (some (Sample.query (Sample.point 1 2 10 3) 0 2 15))
        (some Sample.common)
        (some (Sample.cacheAfter Sample.freshCache
          (Sample.query (Sample.point 1 2 10 0) 0 2 15)))).Fstats = some Fout ∧
      Fout.Mmunu = (Sample.amCoeffs ⟨1, 2⟩).Mmunu := by
  have hinv : CachedAMBelongs Sample.env Sample.common
      (Sample.cacheAfter Sample.freshCache (Sample.query (Sample.point 1 2 10 0) 0 2 15)) := by
    obtain ⟨c', hc', h'⟩ := ComputeFstat_Resamp_AM Sample.env
      (Sample.query (Sample.point 1 2 10 0) 0 2 15) Sample.common Sample.freshCache
      (CachedAMBelongs_of_none _ _ _ rfl)
    have e : Sample.cacheAfter Sample.freshCache (Sample.query (Sample.point 1 2 10 0) 0 2 15)
        = c' := by
      unfold Sample.cacheAfter
      rw [hc']
      rfl
    rw [e]
    exact h'
  obtain ⟨am, Fout, c', _, _, _, _, ham, hF, hM, -⟩ := C20_returned_Mmunu Sample.env
    (Sample.query (Sample.point 1 2 10 3) 0 2 15) Sample.common
    (Sample.cacheAfter Sample.freshCache (Sample.query (Sample.point 1 2 10 0) 0 2 15))
    hinv (by decide!)
  have hE : Sample.env.XLALComputeMultiAMCoeffs Sample.common.detectorStates
      Sample.common.noiseWeights ⟨1, 2⟩ = some (Sample.amCoeffs ⟨1, 2⟩) := rfl
  have hp : (Sample.query (Sample.point 1 2 10 3) 0 2 15).doppler.Alpha = 1 ∧
      (Sample.query (Sample.point 1 2 10 3) 0 2 15).doppler.Delta = 2 := ⟨rfl, rfl⟩
  rw [hp.1, hp.2, hE] at ham
  simp only [Option.some.injEq] at ham
  subst ham
  exact ⟨Fout, hF, hM⟩

/-! ## Theorems: invalid arguments of the multi-detector resampler -/

/-- C21: `XLALBarycentricResampleMultiCOMPLEX8TimeSeries` returns `XLAL_EINVAL` and leaves
both output slots as they were (so two slots that held `NULL` still hold `NULL`, and no
allocation routine is consulted: the outcome is the same for every behaviour of the
external routines) whenever the frequency resolution is not positive, an argument is a
null pointer, the detector-frame series has no detector, or the number of detectors of the
timing data or of the timestamps differs from that of the detector-frame series. -/
theorem C21_resample_multi_invalid (env : Externals)
    (mTimeSeries_SRC : Option (Option MultiCOMPLEX8TimeSeries))
    (mTimestamps_SRC : Option (Option MultiLIGOTimeGPSVector))
    (mTimeSeries_DET : Option MultiCOMPLEX8TimeSeries)
    (mTimestamps_DET : Option MultiLIGOTimeGPSVector) (mSRC_timing : Option MultiSSBtimes)
    (deltaF : REAL8)
    (hbad : ¬ (0 < deltaF) ∨ mTimeSeries_SRC = none ∨ mTimestamps_SRC = none ∨
      mTimeSeries_DET = none ∨ mTimestamps_DET = none ∨ mSRC_timing = none ∨
      ∃ (det : MultiCOMPLEX8TimeSeries) (stamps : MultiLIGOTimeGPSVector)
        (timing : MultiSSBtimes),
        mTimeSeries_DET = some det ∧ mTimestamps_DET = some stamps ∧
        mSRC_timing = some timing ∧
        (det.data.length = 0 ∨ timing.data.length ≠ det.data.length ∨
          stamps.data.length ≠ det.data.length)) :
    XLALBarycentricResampleMultiCOMPLEX8TimeSeries env mTimeSeries_SRC mTimestamps_SRC
        mTimeSeries_DET mTimestamps_DET mSRC_timing deltaF
      = (XLAL_EINVAL, mTimeSeries_SRC.join, mTimestamps_SRC.join) ∧
    (mTimeSeries_SRC = some none → mTimestamps_SRC = some none →
      ∀ env' : Externals,
        XLALBarycentricResampleMultiCOMPLEX8TimeSeries env' (some none) (some none)
          mTimeSeries_DET mTimestamps_DET mSRC_timing deltaF = (XLAL_EINVAL, none, none)) := by
  have key : ∀ (e : Externals) (a : Option (Option MultiCOMPLEX8TimeSeries))
      (b : Option (Option MultiLIGOTimeGPSVector)),
      (¬ (0 < deltaF) ∨ a = none ∨ b = none ∨
        mTimeSeries_DET = none ∨ mTimestamps_DET = none ∨ mSRC_timing = none ∨
        ∃ (det : MultiCOMPLEX8TimeSeries) (stamps : MultiLIGOTimeGPSVector)
          (timing : MultiSSBtimes),
          mTimeSeries_DET = some det ∧ mTimestamps_DET = some stamps ∧
          mSRC_timing = some timing ∧
          (det.data.length = 0 ∨ timing.data.length ≠ det.data.length ∨
            stamps.data.length ≠ det.data.length)) →
      XLALBarycentricResampleMultiCOMPLEX8TimeSeries e a b
        mTimeSeries_DET mTimestamps_DET mSRC_timing deltaF = (XLAL_EINVAL, a.join, b.join) := by
    intro e a b h
    unfold XLALBarycentricResampleMultiCOMPLEX8TimeSeries
    dsimp only
    by_cases ha : a ≠ some none
    · rw [if_pos ha]
    rw [if_neg ha]
    by_cases hb : b ≠ some none
    · rw [if_pos hb]
    rw [if_neg hb]
    rcases mTimeSeries_DET with _ | det
    · rfl
    rcases mTimestamps_DET with _ | stamps
    · rfl
    rcases mSRC_timing with _ | timing
    · rfl
    dsimp only
    by_cases hF : deltaF > 0
    · rw [if_neg (not_not.mpr hF)]
      have hlen : ¬ (det.data.length > 0 ∧ timing.data.length = det.data.length ∧
          stamps.data.length = det.data.length) := by
        rintro ⟨h0, h1, h2⟩
        rcases h with h | h | h | h | h | h | ⟨d, s, t, hd, hs, ht, hl⟩
        · exact h hF
        · exact ha (by rw [h]; simp)
        · exact hb (by rw [h]; simp)
        · cases h
        · cases h
        · cases h
        · cases hd; cases hs; cases ht
          rcases hl with hl | hl | hl
          · omega
          · exact hl h1
          · exact hl h2
      rw [if_pos hlen]
    · rw [if_pos hF]
  refine ⟨key env _ _ hbad, ?_⟩
  intro ha hb env'
  subst ha hb
  exact key env' _ _ hbad

/-- C21 at a concrete input: the sample detector-frame series with a frequency resolution
of zero. -/
theorem C21_resample_multi_invalid_witness :
    XLALBarycentricResampleMultiCOMPLEX8TimeSeries Sample.env (some none) (some none)
        (some Sample.multiTimeSeries_DET) Sample.common.timestamps
        (some ⟨[Sample.ssb ⟨0⟩ 0, Sample.ssb ⟨0⟩ 0]⟩) 0
      = (XLAL_EINVAL, none, none) :=
  (C21_resample_multi_invalid Sample.env (some none) (some none)
    (some Sample.multiTimeSeries_DET) Sample.common.timestamps
    (some ⟨[Sample.ssb ⟨0⟩ 0, Sample.ssb ⟨0⟩ 0]⟩) 0 (Or.inl (by decide))).1

/-! ## Theorems: the fractional bin offset -/

theorem floor_bounds (x : ℚ) : ((Rat.floor x : Int) : ℚ) ≤ x ∧ x < ((Rat.floor x : Int) : ℚ) + 1 := by
  refine ⟨Rat.le_floor.mp le_rfl, ?_⟩
  by_contra h
  push_neg at h
  have h1 : ((Rat.floor x + 1 : Int) : ℚ) ≤ x := by
    push_cast
    exact h
  have h2 := Rat.le_floor.mpr h1
  omega

/-- `lround` returns an integer at distance at most one half. -/
theorem lround_near (x : ℚ) : |x - (lround x : ℚ)| ≤ 1 / 2 := by
  unfold lround
  rw [abs_le]
  split_ifs with h
  · obtain ⟨h1, h2⟩ := floor_bounds (x + 1 / 2)
    constructor <;> linarith
  · obtain ⟨h1, h2⟩ := floor_bounds (-x + 1 / 2)
    push_cast
    constructor <;> linarith

/-- `lround` of an integer is that integer. -/
theorem lround_intCast (n : Int) : lround (n : ℚ) = n := by
  have h := lround_near (n : ℚ)
  rw [abs_le] at h
  obtain ⟨h1, h2⟩ := h
  have h3 : ((n - lround (n : ℚ) : Int) : ℚ) ≤ 1 / 2 := by
    push_cast
    exact h2
  have h4 : (-(1 / 2) : ℚ) ≤ ((n - lround (n : ℚ) : Int) : ℚ) := by
    push_cast
    exact h1
  have h5 : ((n - lround (n : ℚ) : Int) : ℚ) < ((1 : Int) : ℚ) := by
    push_cast
    push_cast at h3
    linarith
  have h6 : (((-1 : Int)) : ℚ) < ((n - lround (n : ℚ) : Int) : ℚ) := by
    push_cast
    push_cast at h4
    linarith
  have h7 : n - lround (n : ℚ) < 1 := by exact_mod_cast h5
  have h8 : -1 < n - lround (n : ℚ) := by exact_mod_cast h6
  omega

theorem toINT4_of_fits (z : Int) (h0 : -(2 : Int) ^ 31 ≤ z) (h1 : z < 2 ^ 31) : toINT4 z = z := by
  show (z + 2 ^ 31) % 2 ^ 32 - 2 ^ 31 = z
  have h2 : -(2147483648 : Int) ≤ z := by
    have : (-(2 : Int) ^ 31) = -2147483648 := by norm_num
    omega
  omega

/-- The fractional shift for a positive resolution, when the rounded bin count is an
`INT4` value. -/
theorem fracShift_spec (f0 fkdot0 dF : REAL8) (hpos : 0 < dF)
    (h0 : -(2 : Int) ^ 31 ≤ lround ((f0 - fkdot0) / dF))
    (h1 : lround ((f0 - fkdot0) / dF) < 2 ^ 31) :
    fracShift f0 fkdot0 dF = (f0 - fkdot0) - dF * (lround ((f0 - fkdot0) / dF) : ℚ) ∧
    |fracShift f0 fkdot0 dF| ≤ dF / 2 ∧
    (fracShift f0 fkdot0 dF = 0 ↔ ∃ n : Int, f0 - fkdot0 = (n : ℚ) * dF) := by
  have hs : fracShift f0 fkdot0 dF =
      (f0 - fkdot0) - dF * (lround ((f0 - fkdot0) / dF) : ℚ) := by
    unfold fracShift
    dsimp only
    rw [toINT4_of_fits _ h0 h1]
  have hne : dF ≠ 0 := ne_of_gt hpos
  have hfac : (f0 - fkdot0) - dF * (lround ((f0 - fkdot0) / dF) : ℚ) =
      dF * ((f0 - fkdot0) / dF - (lround ((f0 - fkdot0) / dF) : ℚ)) := by
    field_simp
  refine ⟨hs, ?_, ?_⟩
  · rw [hs, hfac, abs_mul, abs_of_pos hpos]
    have := lround_near ((f0 - fkdot0) / dF)
    nlinarith
  · rw [hs]
    constructor
    · intro h
      exact ⟨lround ((f0 - fkdot0) / dF), by linarith⟩
    · rintro ⟨n, hn⟩
      have hq : (f0 - fkdot0) / dF = (n : ℚ) := by
        rw [hn]
        field_simp
      rw [hq, lround_intCast, hn]
      ring

/-- C23: in a query `F` on detector series whose first one is `det0`, with resolution
`dFreqOut > 0` and a rounded bin count that is an `INT4` value, the offset
`diff = f0 - fkdot[0]` is `diff_bins * dFreqOut + shift` with the integer
`diff_bins = lround (diff / dFreqOut)` and `|shift| <= dFreqOut / 2`; `shift` is zero
exactly when `diff` is an integer multiple of `dFreqOut`; and the private copies are
passed through `XLALFrequencyShiftMultiCOMPLEX8TimeSeries` (both of them, with this
`shift`) when `shift` is not zero, and go to the spin-down correction as they are, whatever
the shift routine does, when `shift` is zero. -/
theorem C23_fractional_shift (env : Externals) (F : FstatResults) (det0 : COMPLEX8TimeSeries)
    (hpos : 0 < dFreqOut F det0)
    (h0 : -(2 : Int) ^ 31 ≤
      lround ((det0.f0 - F.doppler.fkdot.getD 0 0) / dFreqOut F det0))
    (h1 : lround ((det0.f0 - F.doppler.fkdot.getD 0 0) / dFreqOut F det0) < 2 ^ 31) :
    ∃ (diff_bins : Int) (shift : REAL8),
      diff_bins = lround ((det0.f0 - F.doppler.fkdot.getD 0 0) / dFreqOut F det0) ∧
      shift = fracShift det0.f0 (F.doppler.fkdot.getD 0 0) (dFreqOut F det0) ∧
      det0.f0 - F.doppler.fkdot.getD 0 0 = (diff_bins : ℚ) * dFreqOut F det0 + shift ∧
      |shift| ≤ dFreqOut F det0 / 2 ∧
      (shift = 0 ↔
        ∃ n : Int, det0.f0 - F.doppler.fkdot.getD 0 0 = (n : ℚ) * dFreqOut F det0) ∧
      (∀ (fa fb : Option MultiCOMPLEX8TimeSeries),
        spinCopies env F.doppler shift fa fb =
          (XLALDuplicateMultiCOMPLEX8TimeSeries env fa).bind fun multiFa_spin =>
            (XLALDuplicateMultiCOMPLEX8TimeSeries env fb).bind fun multiFb_spin =>
              if shift = 0 then
                env.XLALSpinDownCorrectionMultiFaFb multiFa_spin multiFb_spin F.doppler
              else
                (env.XLALFrequencyShiftMultiCOMPLEX8TimeSeries multiFa_spin shift).bind
                  fun fa_shifted =>
                    (env.XLALFrequencyShiftMultiCOMPLEX8TimeSeries multiFb_spin shift).bind
                      fun fb_shifted =>
                        env.XLALSpinDownCorrectionMultiFaFb fa_shifted fb_shifted F.doppler) ∧
      (shift = 0 →
        ∀ (fa fb : Option MultiCOMPLEX8TimeSeries)
          (other : MultiCOMPLEX8TimeSeries → REAL8 → Option MultiCOMPLEX8TimeSeries),
          spinCopies (withCorrections env other env.XLALSpinDownCorrectionMultiFaFb)
            F.doppler shift fa fb = spinCopies env F.doppler shift fa fb) := by
  obtain ⟨hs, habs, hzero⟩ :=
    fracShift_spec det0.f0 (F.doppler.fkdot.getD 0 0) (dFreqOut F det0) hpos h0 h1
  have hform : ∀ (e : Externals) (s : REAL8) (fa fb : Option MultiCOMPLEX8TimeSeries),
      spinCopies e F.doppler s fa fb =
        (XLALDuplicateMultiCOMPLEX8TimeSeries e fa).bind fun multiFa_spin =>
          (XLALDuplicateMultiCOMPLEX8TimeSeries e fb).bind fun multiFb_spin =>
            if s = 0 then
              e.XLALSpinDownCorrectionMultiFaFb multiFa_spin multiFb_spin F.doppler
            else
              (e.XLALFrequencyShiftMultiCOMPLEX8TimeSeries multiFa_spin s).bind
                fun fa_shifted =>
                  (e.XLALFrequencyShiftMultiCOMPLEX8TimeSeries multiFb_spin s).bind
                    fun fb_shifted =>
                      e.XLALSpinDownCorrectionMultiFaFb fa_shifted fb_shifted F.doppler := by
    intro e s fa fb
    unfold spinCopies
    congr 1
    funext a
    congr 1
    funext b
    by_cases h : s = 0
    · simp [h]
    · simp only [ne_eq, h, not_false_eq_true, if_true, if_false]
      cases e.XLALFrequencyShiftMultiCOMPLEX8TimeSeries a s with
      | none => rfl
      | some a' =>
        cases e.XLALFrequencyShiftMultiCOMPLEX8TimeSeries b s with
        | none => rfl
        | some b' => rfl
  refine ⟨_, _, rfl, rfl, ?_, habs, hzero, fun fa fb => hform env _ fa fb, ?_⟩
  · rw [hs]
    ring
  · intro hz fa fb other
    rw [hform, hform]
    simp only [if_pos hz]
    rfl

/-- An instance of C23: the sample query at `fkdot[0] = 81/8` with resolution `1/4` against
the heterodyne frequency 10 has `diff = -1/8`, `diff_bins = -1` and `shift = 1/8`. -/
theorem C23_fractional_shift_witness :
    dFreqOut (Sample.query (Sample.point 1 2 (81 / 8) 0) (1 / 4) 1 15) Sample.series0 = 1 / 4 ∧
    lround ((Sample.series0.f0 - (81 / 8 : ℚ)) / (1 / 4)) = -1 ∧
    fracShift Sample.series0.f0 (81 / 8) (1 / 4) = 1 / 8 ∧
    ∃ (diff_bins : Int) (shift : REAL8),
      Sample.series0.f0 -
          (Sample.query (Sample.point 1 2 (81 / 8) 0) (1 / 4) 1 15).doppler.fkdot.getD 0 0 =
        (diff_bins : ℚ) *
          dFreqOut (Sample.query (Sample.point 1 2 (81 / 8) 0) (1 / 4) 1 15) Sample.series0 +
          shift ∧
      |shift| ≤
        dFreqOut (Sample.query (Sample.point 1 2 (81 / 8) 0) (1 / 4) 1 15) Sample.series0 / 2 := by
  obtain ⟨n, s, -, -, hsplit, habs, -⟩ := C23_fractional_shift Sample.env
    (Sample.query (Sample.point 1 2 (81 / 8) 0) (1 / 4) 1 15) Sample.series0
    (by decide!) (by decide!) (by decide!)
  exact ⟨by decide!, by decide!, by decide!, n, s, hsplit, habs⟩

/-! ## Theorems: the first-order map of a segment -/

/-- Every pass of the segment loop stores the translated timestamp of its segment,
whatever its status. -/
theorem resampleTimestamp_stamps (env : Externals) (SRC DET : COMPLEX8TimeSeries)
    (stampsDET : LIGOTimeGPSVector) (timing : SSBtimes) (sp0 sp1 : gsl_spline) (j : Nat)
    (s : List COMPLEX8 × List LIGOTimeGPS) :
    (resampleTimestamp env SRC DET stampsDET timing sp0 sp1 j s).2.2 =
      s.2.set j (env.XLALGPSSetREAL8 (SFTstart_SRC timing stampsDET.deltaT j)) := by
  unfold resampleTimestamp
  dsimp only
  split_ifs <;> first
    | rfl
    | (split <;> rfl)

/-- After `n` successful passes of the segment loop the first `n` translated timestamps
are in place. -/
theorem resampleLoop_stamps (env : Externals) (SRC DET : COMPLEX8TimeSeries)
    (stampsDET : LIGOTimeGPSVector) (timing : SSBtimes) (sp0 sp1 : gsl_spline)
    (s0 : List COMPLEX8 × List LIGOTimeGPS) (n : Nat) (s : List COMPLEX8 × List LIGOTimeGPS)
    (h : forLoop (resampleTimestamp env SRC DET stampsDET timing sp0 sp1) (List.range n) s0
      = (XLAL_SUCCESS, s)) :
    s.2.length = s0.2.length ∧
    ∀ j, j < n → j < s0.2.length →
      s.2[j]? = some (env.XLALGPSSetREAL8 (SFTstart_SRC timing stampsDET.deltaT j)) := by
  refine forLoop_range_inv (resampleTimestamp env SRC DET stampsDET timing sp0 sp1)
    (fun n s => s.2.length = s0.2.length ∧
      ∀ j, j < n → j < s0.2.length →
        s.2[j]? = some (env.XLALGPSSetREAL8 (SFTstart_SRC timing stampsDET.deltaT j)))
    s0 ⟨rfl, fun j hj => absurd hj (Nat.not_lt_zero j)⟩ ?_ n s h
  intro m s1 s2 ⟨hlen, hall⟩ hb
  have hst := resampleTimestamp_stamps env SRC DET stampsDET timing sp0 sp1 m s1
  rw [hb] at hst
  simp only at hst
  refine ⟨by rw [hst, List.length_set, hlen], fun j hj hjl => ?_⟩
  rw [hst]
  by_cases hjm : j = m
  · subst hjm
    rw [List.getElem?_set_self (by rw [hlen]; exact hjl)]
  · rw [List.getElem?_set_ne (fun h => hjm h.symm)]
    exact hall j (by omega) hjl

/-- The translated timestamps after a successful resampling of one detector. -/
theorem XLALBarycentricResample_stamps (env : Externals) (SRC DET : COMPLEX8TimeSeries)
    (stampsSRC stampsDET : LIGOTimeGPSVector) (timing : SSBtimes)
    (out : Option COMPLEX8TimeSeries) (stampsOut : LIGOTimeGPSVector)
    (h : XLALBarycentricResampleCOMPLEX8TimeSeries env (some SRC) (some stampsSRC) (some DET)
      (some stampsDET) (some timing) = (XLAL_SUCCESS, out, some stampsOut)) :
    stampsOut.deltaT = stampsSRC.deltaT ∧
    stampsOut.data.length = stampsDET.data.length ∧
    timing.DeltaT.length = stampsDET.data.length ∧
    timing.Tdot.length = stampsDET.data.length ∧
    ∀ j, j < stampsDET.data.length →
      stampsOut.data[j]? =
        some (env.XLALGPSSetREAL8 (SFTstart_SRC timing stampsDET.deltaT j)) := by
  unfold XLALBarycentricResampleCOMPLEX8TimeSeries at h
  dsimp only at h
  split_ifs at h with c1 c2 c3 c4 c5 c6
  all_goals first
    | (simp only [Prod.mk.injEq] at h
       exact absurd h.1 (by decide))
    | skip
  generalize hr : forLoop _ _ _ = r at h
  obtain ⟨st', d, stamps'⟩ := r
  simp only [Prod.mk.injEq, Option.some.injEq] at h
  obtain ⟨rfl, -, rfl⟩ := h
  obtain ⟨hlen, hall⟩ := resampleLoop_stamps env SRC DET stampsDET timing _ _ _ _ _ hr
  simp only [not_not] at c2 c3
  refine ⟨rfl, ?_, c2.2.1, c2.2.2, fun j hj => ?_⟩
  · show stamps'.length = _
    rw [hlen]
    exact c3
  · exact hall j hj (by show j < stampsSRC.data.length; rw [c3]; exact hj)

/-- C24: in a successful call of `XLALBarycentricResampleCOMPLEX8TimeSeries`, for every
segment `j` that starts at detector time `SFTstart_DET`, with delay `DeltaT` and derivative
`Tdot > 0`: the source-frame midpoint is `refTime + DeltaT`, the source-frame start and end
are the midpoint minus and plus `Tsft * Tdot / 2`, the timestamp stored in
`Timestamps_SRC[j]` is `XLALGPSSetREAL8` of that start, the detector times handed to the
interpolation are the truncations of `SFTmid_DET + (t_SRC - SFTmid_SRC) / Tdot` with
`SFTmid_DET = SFTstart_DET + Tsft / 2`, and this map sends the source-frame midpoint, start
and end to `SFTmid_DET`, `SFTstart_DET` and `SFTstart_DET + Tsft`. -/
theorem C24_first_order_map (env : Externals) (SRC DET : COMPLEX8TimeSeries)
    (stampsSRC stampsDET : LIGOTimeGPSVector) (timing : SSBtimes)
    (out : Option COMPLEX8TimeSeries) (stampsOut : LIGOTimeGPSVector)
    (hrun : XLALBarycentricResampleCOMPLEX8TimeSeries env (some SRC) (some stampsSRC)
      (some DET) (some stampsDET) (some timing) = (XLAL_SUCCESS, out, some stampsOut))
    (j : Nat) (tj : LIGOTimeGPS) (DeltaT Tdot : REAL8)
    (hstamp : stampsDET.data[j]? = some tj) (hDeltaT : timing.DeltaT[j]? = some DeltaT)
    (hTdot : timing.Tdot[j]? = some Tdot) (hpos : 0 < Tdot) :
    SFTmid_SRC timing j = XLALGPSGetREAL8 timing.refTime + DeltaT ∧
    SFTstart_SRC timing stampsDET.deltaT j =
      XLALGPSGetREAL8 timing.refTime + DeltaT - stampsDET.deltaT * Tdot / 2 ∧
    SFTend_SRC timing stampsDET.deltaT j =
      XLALGPSGetREAL8 timing.refTime + DeltaT + stampsDET.deltaT * Tdot / 2 ∧
    SFTmid_DET stampsDET j = XLALGPSGetREAL8 tj + stampsDET.deltaT / 2 ∧
    stampsOut.data[j]? = some (env.XLALGPSSetREAL8
      (XLALGPSGetREAL8 timing.refTime + DeltaT - stampsDET.deltaT * Tdot / 2)) ∧
    segmentDetectorTimes SRC DET stampsDET timing j =
      ((List.range (SFTnumSamples_SRC SRC timing stampsDET.deltaT j)).map fun k =>
        clampDetectorTime (start_DET DET) (end_DET DET)
          (XLALGPSGetREAL8 tj + stampsDET.deltaT / 2 +
            (XLALGPSGetREAL8 SRC.epoch +
                (wrapUINT4 (k + SFTidx_start_SRC SRC timing stampsDET.deltaT j) : ℚ) * SRC.deltaT
              - (XLALGPSGetREAL8 timing.refTime + DeltaT)) / Tdot)) ∧
    (∀ t, detectorTimeOf (SFTmid_DET stampsDET j) (SFTmid_SRC timing j) Tdot t =
      XLALGPSGetREAL8 tj + stampsDET.deltaT / 2 +
        (t - (XLALGPSGetREAL8 timing.refTime + DeltaT)) / Tdot) ∧
    detectorTimeOf (SFTmid_DET stampsDET j) (SFTmid_SRC timing j) Tdot (SFTmid_SRC timing j) =
      SFTmid_DET stampsDET j ∧
    detectorTimeOf (SFTmid_DET stampsDET j) (SFTmid_SRC timing j) Tdot
      (SFTstart_SRC timing stampsDET.deltaT j) = XLALGPSGetREAL8 tj ∧
    detectorTimeOf (SFTmid_DET stampsDET j) (SFTmid_SRC timing j) Tdot
      (SFTend_SRC timing stampsDET.deltaT j) = XLALGPSGetREAL8 tj + stampsDET.deltaT := by
  have hne : Tdot ≠ 0 := ne_of_gt hpos
  have hj : j < stampsDET.data.length := by
    rcases Nat.lt_or_ge j stampsDET.data.length with h | h
    · exact h
    · rw [List.getElem?_eq_none h] at hstamp
      cases hstamp
  have gT : timing.Tdot.getD j 0 = Tdot := by
    rw [List.getD_eq_getElem?_getD, hTdot]
    rfl
  have gD : timing.DeltaT.getD j 0 = DeltaT := by
    rw [List.getD_eq_getElem?_getD, hDeltaT]
    rfl
  have gS : stampsDET.data.getD j ⟨0⟩ = tj := by
    rw [List.getD_eq_getElem?_getD, hstamp]
    rfl
  have e1 : SFTmid_SRC timing j = XLALGPSGetREAL8 timing.refTime + DeltaT := by
    unfold SFTmid_SRC
    rw [gD]
  have e2 : SFTstart_SRC timing stampsDET.deltaT j =
      XLALGPSGetREAL8 timing.refTime + DeltaT - stampsDET.deltaT * Tdot / 2 := by
    unfold SFTstart_SRC
    rw [e1, gT]
    ring
  have e3 : SFTend_SRC timing stampsDET.deltaT j =
      XLALGPSGetREAL8 timing.refTime + DeltaT + stampsDET.deltaT * Tdot / 2 := by
    unfold SFTend_SRC
    rw [e1, gT]
    ring
  have e4 : SFTmid_DET stampsDET j = XLALGPSGetREAL8 tj + stampsDET.deltaT / 2 := by
    unfold SFTmid_DET
    rw [gS]
    ring
  obtain ⟨-, -, -, -, hall⟩ :=
    XLALBarycentricResample_stamps env SRC DET stampsSRC stampsDET timing out stampsOut hrun
  refine ⟨e1, e2, e3, e4, ?_, ?_, fun t => ?_, ?_, ?_, ?_⟩
  · rw [hall j hj, e2]
  · rw [segmentDetectorTimes_eq]
    unfold computedDetectorTime sampleTimeSRC detectorTimeOf
    rw [e1, e4, gT]
  · unfold detectorTimeOf
    rw [e1, e4]
  · unfold detectorTimeOf
    simp
  · unfold detectorTimeOf
    rw [e1, e2, e4]
    field_simp
    ring
  · unfold detectorTimeOf
    rw [e1, e3, e4]
    field_simp
    ring

/-- An instance of C24: the second segment of the sample detector (start 2 s, duration
2 s, midpoint delay 3 s, unit derivative). -/
theorem C24_first_order_map_witness :
    SFTstart_SRC (Sample.ssb ⟨0⟩ 0) Sample.stamps0.deltaT 1 = 2 ∧
    detectorTimeOf (SFTmid_DET Sample.stamps0 1) (SFTmid_SRC (Sample.ssb ⟨0⟩ 0) 1) 1
      (SFTend_SRC (Sample.ssb ⟨0⟩ 0) Sample.stamps0.deltaT 1) = 4 := by
  obtain ⟨-, h2, -, -, -, -, -, -, -, h10⟩ := C24_first_order_map Sample.env Sample.blankSeries
    Sample.series0 Sample.blankStamps Sample.stamps0 (Sample.ssb ⟨0⟩ 0)
    (XLALBarycentricResampleCOMPLEX8TimeSeries Sample.env (some Sample.blankSeries)
      (some Sample.blankStamps) (some Sample.series0) (some Sample.stamps0)
      (some (Sample.ssb ⟨0⟩ 0))).2.1
    ⟨[⟨0⟩, ⟨2000000000⟩], 2⟩ (by decide!) 1 ⟨2000000000⟩ 3 1 rfl (by decide!) (by decide!) (by decide)
  refine ⟨?_, ?_⟩
  · rw [h2]
    decide!
  · rw [h10]
    decide!

/-! ## Theorems: the extraction of the requested band -/

/-- A bin loop that succeeds has read both transforms inside their bounds at every bin. -/
theorem binLoop_reads (env : Externals) (what : FstatQuantities) (dt : REAL8)
    (offset_bins : UINT4) (outaX outbX : List COMPLEX8) (A B C E Dinv : REAL4) (X : Nat)
    (s0 : BinState) (n : Nat) (s : BinState)
    (h : forLoop (binBody env what dt offset_bins outaX outbX A B C E Dinv X) (List.range n) s0
      = (XLAL_SUCCESS, s)) :
    ∀ k, k < n → ∃ va vb, outaX[wrapUINT4 (k + offset_bins)]? = some va ∧
      outbX[wrapUINT4 (k + offset_bins)]? = some vb := by
  refine forLoop_range_inv (binBody env what dt offset_bins outaX outbX A B C E Dinv X)
    (fun n _ => ∀ k, k < n → ∃ va vb, outaX[wrapUINT4 (k + offset_bins)]? = some va ∧
      outbX[wrapUINT4 (k + offset_bins)]? = some vb)
    s0 (fun k hk => absurd hk (Nat.not_lt_zero k)) ?_ n s h
  intro m s1 s2 ih hb k hk
  by_cases hlt : k < m
  · exact ih k hlt
  · have hkm : k = m := by omega
    subst hkm
    obtain ⟨va, vb, ha, hb', -⟩ :=
      binBody_success env what dt offset_bins outaX outbX A B C E Dinv X k s1 s2 hb
    exact ⟨va, vb, ha, hb'⟩

/-- A detector loop that succeeds has, for every detector, transformed both series and
read both transforms inside their bounds at every bin. -/
theorem detLoop_reads (env : Externals) (what : FstatQuantities) (dt : REAL8)
    (offset_bins numSamples n : UINT4)
    (multiFa_spin multiFb_spin : MultiCOMPLEX8TimeSeries) (multiAMcoef : MultiAMCoeffs)
    (s0 : BinState) (M : Nat) (s : BinState)
    (h : forLoop (detectorBody env what dt offset_bins numSamples n multiFa_spin multiFb_spin
      multiAMcoef) (List.range M) s0 = (XLAL_SUCCESS, s)) :
    ∀ X, X < M → ∃ ina inb outaX outbX,
      multiFa_spin.data[X]? = some ina ∧ multiFb_spin.data[X]? = some inb ∧
      detectorTransforms env numSamples ina.data inb.data = some (outaX, outbX) ∧
      ∀ k, k < n → ∃ va vb, outaX[wrapUINT4 (k + offset_bins)]? = some va ∧
        outbX[wrapUINT4 (k + offset_bins)]? = some vb := by
  refine forLoop_range_inv (detectorBody env what dt offset_bins numSamples n multiFa_spin
    multiFb_spin multiAMcoef)
    (fun M _ => ∀ X, X < M → ∃ ina inb outaX outbX,
      multiFa_spin.data[X]? = some ina ∧ multiFb_spin.data[X]? = some inb ∧
      detectorTransforms env numSamples ina.data inb.data = some (outaX, outbX) ∧
      ∀ k, k < n → ∃ va vb, outaX[wrapUINT4 (k + offset_bins)]? = some va ∧
        outbX[wrapUINT4 (k + offset_bins)]? = some vb)
    s0 (fun X hX => absurd hX (Nat.not_lt_zero X)) ?_ M s h
  intro M s1 s2 ih hbody X hX
  by_cases hlt : X < M
  · exact ih X hlt
  · have hXM : X = M := by omega
    subst hXM
    obtain ⟨ina, inb, outaX, outbX, amX, ha, hb, ht, -, hloop⟩ :=
      detectorBody_success env what dt offset_bins numSamples n multiFa_spin multiFb_spin
        multiAMcoef X s1 s2 hbody
    exact ⟨ina, inb, outaX, outbX, ha, hb, ht,
      binLoop_reads env what dt offset_bins outaX outbX _ _ _ _ _ X s1 n s2 hloop⟩

/-- A successful spectral assembly has run the detector loop to its end. -/
theorem spectralAssemble_loop (env : Externals) (F : FstatResults) (N : UINT4)
    (det0 : COMPLEX8TimeSeries) (dF : REAL8) (am0 : Option MultiAMCoeffs)
    (fa0 fb0 : Option MultiCOMPLEX8TimeSeries)
    (h : (spectralAssemble env F N det0 dF am0 fa0 fb0).1 = XLAL_SUCCESS) :
    ∃ am fa fb Fa0 s, am0 = some am ∧
      spinCopies env F.doppler (fracShift det0.f0 (F.doppler.fkdot.getD 0 0) dF) fa0 fb0
        = some (fa, fb) ∧
      fa.data.head? = some Fa0 ∧
      forLoop (detectorBody env F.whatWasComputed Fa0.deltaT
        (offsetBins env Fa0.f0 (F.doppler.fkdot.getD 0 0) dF Fa0.data.length)
        Fa0.data.length F.numFreqBins fa fb am) (List.range N)
        ⟨List.replicate F.numFreqBins 0, List.replicate F.numFreqBins 0, F⟩
        = (XLAL_SUCCESS, s) := by
  unfold spectralAssemble at h
  cases am0 with
  | none => simp at h
  | some am =>
    simp only [] at h
    cases hsp : spinCopies env F.doppler (fracShift det0.f0 (F.doppler.fkdot.getD 0 0) dF)
        fa0 fb0 with
    | none => rw [hsp] at h; simp at h
    | some p =>
      obtain ⟨fa, fb⟩ := p
      simp only [hsp] at h
      cases hhead : fa.data.head? with
      | none => rw [hhead] at h; simp at h
      | some Fa0 =>
        simp only [hhead] at h
        cases h1 : env.XLALCreateCOMPLEX8Vector Fa0.data.length
        · simp only [h1, Bool.false_eq_true, not_false_eq_true, if_true] at h
          simp at h
        cases h2 : env.XLALCreateCOMPLEX8FFTPlan Fa0.data.length
        · simp only [h1, h2, Bool.false_eq_true, not_false_eq_true, not_true_eq_false,
            if_true, if_false] at h
          simp at h
        cases h3 : env.XLALCalloc F.numFreqBins
        · simp only [h1, h2, h3, Bool.false_eq_true, not_false_eq_true, not_true_eq_false,
            if_true, if_false] at h
          simp at h
        simp only [h1, h2, h3, not_true_eq_false, if_false] at h
        rcases hloop : forLoop (detectorBody env F.whatWasComputed Fa0.deltaT
            (offsetBins env Fa0.f0 (F.doppler.fkdot.getD 0 0) dF Fa0.data.length)
            Fa0.data.length F.numFreqBins fa fb am) (List.range N)
            ⟨List.replicate F.numFreqBins 0, List.replicate F.numFreqBins 0, F⟩ with ⟨st, s⟩
        simp only [hloop] at h
        have hsst : st = XLAL_SUCCESS := by
          cases st <;> first | rfl | (simp at h)
        subst hsst
        exact ⟨am, fa, fb, Fa0, s, rfl, rfl, hhead, hloop⟩

/-- Indices that stay inside an array of fewer than `2^32` elements for every `k < n` have
not wrapped around. -/
theorem index_nowrap (z L n : Nat) (hL : L < 2 ^ 32)
    (h : ∀ k, k < n → (k + z) % 2 ^ 32 < L) (hz : z < 2 ^ 32) : ∀ k, k < n → k + z < L := by
  intro k
  induction k with
  | zero =>
    intro hk
    have := h 0 hk
    omega
  | succ k ih =>
    intro hk
    have h1 := ih (by omega)
    have h2 := h (k + 1) hk
    omega

/-- The two reordered transforms of a detector exist exactly when both forward transforms
and both reorderings succeed. -/
theorem detectorTransforms_some (env : Externals) (numSamples : UINT4) (ina inb : List COMPLEX8)
    (outaX outbX : List COMPLEX8)
    (h : detectorTransforms env numSamples ina inb = some (outaX, outbX)) :
    ∃ ffta fftb, env.XLALCOMPLEX8VectorFFT numSamples ina = some ffta ∧
      env.XLALCOMPLEX8VectorFFT numSamples inb = some fftb ∧
      env.XLALReorderFFTWtoSFT ffta = some outaX ∧
      env.XLALReorderFFTWtoSFT fftb = some outbX := by
  unfold detectorTransforms at h
  cases h1 : env.XLALCOMPLEX8VectorFFT numSamples ina with
  | none => simp [h1] at h
  | some ffta =>
    cases h2 : env.XLALCOMPLEX8VectorFFT numSamples inb with
    | none => simp [h1, h2] at h
    | some fftb =>
      cases h3 : env.XLALReorderFFTWtoSFT ffta with
      | none => simp [h1, h2, h3] at h
      | some oa =>
        cases h4 : env.XLALReorderFFTWtoSFT fftb with
        | none => simp [h1, h2, h3, h4] at h
        | some ob =>
          simp only [h1, h2, h3, h4, Option.some_bind, Option.map_some', Option.some.injEq,
            Prod.mk.injEq] at h
          obtain ⟨rfl, rfl⟩ := h
          exact ⟨ffta, fftb, rfl, rfl, h3, h4⟩

/-- C25: in a successful query, with `numSamples` and `dt` the length and the sample
interval of the first private copy and
`offset_bins = lround ((fkdot[0] - f0_shifted) / dFreqOut)`,
`f0_shifted = f0 - NhalfNeg(numSamples) * dFreqOut`: for every detector `X` both forward
transforms and both reorderings succeed, and at every bin `k < numFreqBins` the amplitudes
of the detector are `dt * outaX[k + offset_bins]` and `dt * outbX[k + offset_bins]`, read
inside the bounds of the reordered transforms at the index computed in `UINT4` (which is
`k + offset_bins` itself when `offset_bins` and the transform length are `UINT4` values);
these are the values stored in `FaPerDet[X][k]`, `FbPerDet[X][k]` when the per-detector
amplitudes are requested.  The offset is the same for every detector. -/
theorem C25_band_extraction (env : Externals) (F : FstatResults) (common : FstatInput_Common)
    (c : FstatInput_Resamp)
    (hok : (ComputeFstat_Resamp env (some F) (some common) (some c)).status = XLAL_SUCCESS) :
    ∃ (det0 : COMPLEX8TimeSeries) (fa fb : MultiCOMPLEX8TimeSeries) (Fa0 : COMPLEX8TimeSeries)
      (Fout : FstatResults) (offset_bins : Int),
      c.multiTimeSeries_DET.data.head? = some det0 ∧
      spinCopies env F.doppler
        (fracShift det0.f0 (F.doppler.fkdot.getD 0 0) (dFreqOut F det0))
        (handleBuffering env common c F.doppler (dFreqOut F det0)).multiFa_SRC
        (handleBuffering env common c F.doppler (dFreqOut F det0)).multiFb_SRC = some (fa, fb) ∧
      fa.data.head? = some Fa0 ∧
      (ComputeFstat_Resamp env (some F) (some common) (some c)).Fstats = some Fout ∧
      offset_bins = lround ((F.doppler.fkdot.getD 0 0 -
        (Fa0.f0 - (env.NhalfNeg Fa0.data.length : ℚ) * dFreqOut F det0)) / dFreqOut F det0) ∧
      ∀ X, X < c.multiTimeSeries_DET.data.length →
        ∃ (ina inb : COMPLEX8TimeSeries) (ffta fftb outaX outbX : List COMPLEX8),
          fa.data[X]? = some ina ∧ fb.data[X]? = some inb ∧
          env.XLALCOMPLEX8VectorFFT Fa0.data.length ina.data = some ffta ∧
          env.XLALCOMPLEX8VectorFFT Fa0.data.length inb.data = some fftb ∧
          env.XLALReorderFFTWtoSFT ffta = some outaX ∧
          env.XLALReorderFFTWtoSFT fftb = some outbX ∧
          ∀ k, k < F.numFreqBins →
            ∃ va vb : COMPLEX8,
              outaX[wrapUINT4 (k + toUINT4 offset_bins)]? = some va ∧
              outbX[wrapUINT4 (k + toUINT4 offset_bins)]? = some vb ∧
              queryFaX env F (dFreqOut F det0) fa fb Fa0 X k = Fa0.deltaT * va ∧
              queryFbX env F (dFreqOut F det0) fa fb Fa0 X k = Fa0.deltaT * vb ∧
              (hasFlag F.whatWasComputed FSTATQ_FAFB_PER_DET = true →
                readAt2 Fout.FaPerDet X k = some (Fa0.deltaT * va) ∧
                readAt2 Fout.FbPerDet X k = some (Fa0.deltaT * vb)) ∧
              (0 ≤ offset_bins → offset_bins < 2 ^ 32 → outaX.length < 2 ^ 32 →
                wrapUINT4 (k + toUINT4 offset_bins) = k + offset_bins.toNat) := by
  obtain ⟨hatoms, det0, hdet, hb, hasm⟩ := ComputeFstat_Resamp_success env F common c hok
  obtain ⟨am, fa, fb, Fa0, ham, hsp, hhead, hA⟩ :=
    spectralAssemble_success env F _ det0 _ _ _ _ hasm
  obtain ⟨am', fa', fb', Fa0', s, -, hsp', hhead', hloop⟩ :=
    spectralAssemble_loop env F _ det0 _ _ _ _ hasm
  rw [hsp] at hsp'
  simp only [Option.some.injEq, Prod.mk.injEq] at hsp'
  obtain ⟨rfl, rfl⟩ := hsp'
  rw [hhead] at hhead'
  simp only [Option.some.injEq] at hhead'
  subst hhead'
  have hreads := detLoop_reads env _ _ _ _ _ _ _ _ _ _ _ hloop
  refine ⟨det0, fa, fb, Fa0,
    (spectralAssemble env F c.multiTimeSeries_DET.data.length det0 (dFreqOut F det0)
      (handleBuffering env common c F.doppler (dFreqOut F det0)).multiAMcoef
      (handleBuffering env common c F.doppler (dFreqOut F det0)).multiFa_SRC
      (handleBuffering env common c F.doppler (dFreqOut F det0)).multiFb_SRC).2,
    _, hdet, hsp, hhead, ?_, rfl, fun X hX => ?_⟩
  · rw [ComputeFstat_Resamp_eq env F common c det0 hatoms hdet, if_neg (not_not.mpr hb)]
  obtain ⟨ina, inb, outaX, outbX, ha, hb', ht, hall⟩ := hreads X hX
  obtain ⟨ffta, fftb, t1, t2, t3, t4⟩ := detectorTransforms_some env _ _ _ _ _ ht
  refine ⟨ina, inb, ffta, fftb, outaX, outbX, ha, hb', t1, t2, t3, t4, fun k hk => ?_⟩
  obtain ⟨va, vb, ra, rb⟩ := hall k hk
  have qa : queryFaX env F (dFreqOut F det0) fa fb Fa0 X k = Fa0.deltaT * va := by
    unfold queryFaX FaX_k transformsOf
    simp only [ha, hb', ht, Option.getD_some]
    rw [List.getD_eq_getElem?_getD, ra]
    rfl
  have qb : queryFbX env F (dFreqOut F det0) fa fb Fa0 X k = Fa0.deltaT * vb := by
    unfold queryFbX FbX_k transformsOf
    simp only [ha, hb', ht, Option.getD_some]
    rw [List.getD_eq_getElem?_getD, rb]
    rfl
  refine ⟨va, vb, ra, rb, qa, qb, fun hf => ⟨?_, ?_⟩, fun h0 h1 hL => ?_⟩
  · rw [hA.FaPerDet X k, if_pos ⟨hf, hX, hk⟩, qa]
  · rw [hA.FbPerDet X k, if_pos ⟨hf, hX, hk⟩, qb]
  · generalize hz : lround ((F.doppler.fkdot.getD 0 0 -
        (Fa0.f0 - (env.NhalfNeg Fa0.data.length : ℚ) * dFreqOut F det0)) / dFreqOut F det0) = z
      at h0 h1 hall ⊢
    have hzu : toUINT4 z = z.toNat := by
      show (z % 2 ^ 32).toNat = z.toNat
      congr 1
      omega
    have hzn : z.toNat < 2 ^ 32 := by omega
    have hin : ∀ k, k < F.numFreqBins → (k + z.toNat) % 2 ^ 32 < outaX.length := by
      intro k' hk'
      obtain ⟨va', -, ra', -⟩ := hall k' hk'
      have hlt : wrapUINT4 (k' + offsetBins env Fa0.f0 (F.doppler.fkdot.getD 0 0)
          (dFreqOut F det0) Fa0.data.length) < outaX.length := by
        by_contra hge
        rw [List.getElem?_eq_none (Nat.le_of_not_lt hge)] at ra'
        cases ra'
      have hoff : offsetBins env Fa0.f0 (F.doppler.fkdot.getD 0 0)
          (dFreqOut F det0) Fa0.data.length = z.toNat := by
        unfold offsetBins
        dsimp only
        rw [hz, hzu]
      rw [hoff] at hlt
      exact hlt
    have := index_nowrap z.toNat outaX.length F.numFreqBins hL hin hzn k hk
    rw [hzu]
    exact Nat.mod_eq_of_lt (by omega)

/-- An instance of C25: the first query on the fresh sample cache, two bins from
`fkdot[0] = 10` at resolution `1/4`; the offset is `lround ((10 - (10 - 2/4)) / (1/4)) = 2`. -/
theorem C25_band_extraction_witness :
    (ComputeFstat_Resamp Sample.env (some (Sample.query (Sample.point 1 2 10 0) 0 2 15))
      (some Sample.common) (some Sample.freshCache)).status = XLAL_SUCCESS ∧
    lround (((10 : ℚ) - (10 - ((Sample.env.NhalfNeg 4 : Nat) : ℚ) * (1 / 4))) / (1 / 4)) = 2 ∧
    ∃ (Fa0 : COMPLEX8TimeSeries) (Fout : FstatResults) (offset_bins : Int),
      (ComputeFstat_Resamp Sample.env (some (Sample.query (Sample.point 1 2 10 0) 0 2 15))
        (some Sample.common) (some Sample.freshCache)).Fstats = some Fout ∧
      offset_bins = lround (((Sample.query (Sample.point 1 2 10 0) 0 2 15).doppler.fkdot.getD 0 0 -
        (Fa0.f0 - (Sample.env.NhalfNeg Fa0.data.length : ℚ) *
          dFreqOut (Sample.query (Sample.point 1 2 10 0) 0 2 15) Sample.series0)) /
          dFreqOut (Sample.query (Sample.point 1 2 10 0) 0 2 15) Sample.series0) := by
  obtain ⟨det0, fa, fb, Fa0, Fout, z, hdet, -, -, hF, hz, -⟩ := C25_band_extraction Sample.env
    (Sample.query (Sample.point 1 2 10 0) 0 2 15) Sample.common Sample.freshCache (by decide!)
  have hd : det0 = Sample.series0 := by
    have : Sample.freshCache.multiTimeSeries_DET.data.head? = some Sample.series0 := rfl
    rw [this] at hdet
    exact (Option.some.inj hdet).symm
  subst hd
  exact ⟨by decide!, by decide!, Fa0, Fout, z, hF, hz⟩

/-! ## Theorems: the band extraction outside the transformed band -/

/-- C26, evaluated at two failing inputs on the fresh sample cache (four samples at
interval 1 s, heterodyne frequency 10, resolution `1/4`, so that the centred axis starts
at `f0_shifted = 19/2`).  A query for two bins from `fkdot[0] = 21/2` passes the buffering
block (full recomputation, the cache is filled) and reaches the band extraction with
`offset_bins = 4 = numSamples`: the first read is at index 4 of a four-element transform,
and the embedding stops with `UNDEFINED`.  A query from `fkdot[0] = 9` has
`offset_bins = -2` before the conversion to `UINT4` and reads at index `2^32 - 2`. -/
theorem C26_read_outside_transform :
    lround (((21 / 2 : ℚ) - (10 - ((Sample.env.NhalfNeg 4 : Nat) : ℚ) * (1 / 4))) / (1 / 4)) = 4 ∧
    offsetBins Sample.env 10 (21 / 2) (1 / 4) 4 + 2 > 4 ∧
    (handleBuffering Sample.env Sample.common Sample.freshCache (Sample.point 1 2 (21 / 2) 0)
      (1 / 4)).status = XLAL_SUCCESS ∧
    ((handleBuffering Sample.env Sample.common Sample.freshCache (Sample.point 1 2 (21 / 2) 0)
      (1 / 4)).multiFa_SRC.map fun m => m.data.map fun s => s.data.length) = some [4, 4] ∧
    (ComputeFstat_Resamp Sample.env (some (Sample.query (Sample.point 1 2 (21 / 2) 0) 0 2 15))
      (some Sample.common) (some Sample.freshCache)).status = UNDEFINED ∧
    lround (((9 : ℚ) - (10 - ((Sample.env.NhalfNeg 4 : Nat) : ℚ) * (1 / 4))) / (1 / 4)) = -2 ∧
    wrapUINT4 (0 + offsetBins Sample.env 10 9 (1 / 4) 4) = 2 ^ 32 - 2 ∧
    (ComputeFstat_Resamp Sample.env (some (Sample.query (Sample.point 1 2 9 0) 0 2 15))
      (some Sample.common) (some Sample.freshCache)).status = UNDEFINED := by
  decide!

/-! ## Theorems: the first query on a fresh cache -/

/-- C27, evaluated at a failing input.  The fresh sample cache has the zeroed key and no
buffered quantity.  A query at sky position `(0, 0)` with reference time GPS 0 and no
orbit finds both keys equal to the zeroed key: it takes the full-reuse arm, calls none of
the sky-level or binary-level routines, leaves the cache as it was, and goes on with the
absent AM coefficients and the absent weighted series; the read of `multiAMcoef->Mmunu`
is a null-pointer dereference (`UNDEFINED`).  The same point with `asini = 1/2` takes the
binary-only arm, hands the absent sky timing to `XLALAddMultiBinaryTimes`, and fails with
`XLAL_EFUNC`. -/
theorem C27_fresh_cache_reused :
    Sample.freshCache.prev_doppler = PulsarDopplerParams.zero ∧
    Sample.freshCache.prev_multiAMcoef = none ∧ Sample.freshCache.prev_multiSSBsky = none ∧
    Sample.freshCache.prev_multiFa_SRC = none ∧ Sample.freshCache.prev_multiFb_SRC = none ∧
    ComputeFstat_Resamp Sample.env (some (Sample.query (Sample.point 0 0 10 0) 0 2 15))
      (some Sample.common) (some Sample.freshCache) =
      ⟨UNDEFINED, [], some .fullReuse, some (Sample.query (Sample.point 0 0 10 0) 0 2 15),
        some Sample.freshCache⟩ ∧
    (handleBuffering Sample.env Sample.common Sample.freshCache (Sample.point 0 0 10 0)
      (1 / 4)).multiAMcoef = none ∧
    (handleBuffering Sample.env Sample.common Sample.freshCache (Sample.point 0 0 10 0)
      (1 / 4)).multiFa_SRC = none ∧
    ComputeFstat_Resamp Sample.env (some (Sample.query (Sample.point 0 0 10 (1 / 2)) 0 2 15))
      (some Sample.common) (some Sample.freshCache) =
      ⟨XLAL_EFUNC, [.AddMultiBinaryTimes], some .binaryOnly,
        some (Sample.query (Sample.point 0 0 10 (1 / 2)) 0 2 15), some Sample.freshCache⟩ := by
  decide!

/-! ## Theorems: the resolution of the transformed series -/

/-- C28, evaluated at a failing input.  The sample cache is filled by a successful query
at sky position `(1, 2)` with the default resolution `1/4`.  The same point is then
queried with `dFreq = 1/8`, so `dFreqOut = 1/8`: the query succeeds in the full-reuse arm,
and the weighted series it transforms are the cached ones, of 4 samples at interval 1 s,
whereas `ceil((1/dFreqOut)/dtIn) = 8`; their span `numSamples * dt = 4` is not
`1/dFreqOut = 8`, and the bin spacing `1/(numSamples*dt) = 1/4` of the transform is not
the `dFreqOut = 1/8` used for `f0_shifted` and `offset_bins`. -/
theorem C28_reused_series_resolution :
    (ComputeFstat_Resamp Sample.env (some (Sample.query (Sample.point 1 2 10 0) 0 2 15))
      (some Sample.common) (some Sample.freshCache)).status = XLAL_SUCCESS ∧
    dFreqOut (Sample.query (Sample.point 1 2 10 0) (1 / 8) 1 15) Sample.series0 = 1 / 8 ∧
    (ComputeFstat_Resamp Sample.env (some (Sample.query (Sample.point 1 2 10 0) (1 / 8) 1 15))
      (some Sample.common)
      (some (Sample.cacheAfter Sample.freshCache
        (Sample.query (Sample.point 1 2 10 0) 0 2 15)))).status = XLAL_SUCCESS ∧
    (ComputeFstat_Resamp Sample.env (some (Sample.query (Sample.point 1 2 10 0) (1 / 8) 1 15))
      (some Sample.common)
      (some (Sample.cacheAfter Sample.freshCache
        (Sample.query (Sample.point 1 2 10 0) 0 2 15)))).branch = some .fullReuse ∧
    ((spinCopies Sample.env (Sample.point 1 2 10 0) (fracShift 10 10 (1 / 8))
      (handleBuffering Sample.env Sample.common
        (Sample.cacheAfter Sample.freshCache (Sample.query (Sample.point 1 2 10 0) 0 2 15))
        (Sample.point 1 2 10 0) (1 / 8)).multiFa_SRC
      (handleBuffering Sample.env Sample.common
        (Sample.cacheAfter Sample.freshCache (Sample.query (Sample.point 1 2 10 0) 0 2 15))
        (Sample.point 1 2 10 0) (1 / 8)).multiFb_SRC).map fun p =>
        (p.1.data.map fun s => (s.data.length, s.deltaT),
          p.2.data.map fun s => (s.data.length, s.deltaT)))
      = some ([(4, 1), (4, 1)], [(4, 1), (4, 1)]) ∧
    ceil (1 / (1 / 8 : ℚ) / Sample.series0.deltaT) = 8 ∧
    numTimeSamplesOut (1 / 8) Sample.series0.deltaT = 8 ∧
    ((4 : ℚ) * 1 ≠ 1 / (1 / 8)) ∧ (1 / ((4 : ℚ) * 1) ≠ 1 / 8) := by
  decide!

/-! ## Theorems: consistency of the cache -/

/-- A cache without buffered quantities is consistent. -/
theorem CacheConsistent_fresh (env : Externals) (common : FstatInput_Common)
    (det : MultiCOMPLEX8TimeSeries) (p : PulsarDopplerParams) :
    CacheConsistent env common ⟨det, p, none, none, none, none⟩ :=
  { AM := fun am h => by cases h
    sky := fun sky h => by cases h
    series := Or.inl ⟨rfl, rfl⟩ }

/-- The buffering block leaves the cache as it was or installs a complete entry for the
query point, and keeps the cache consistent. -/
theorem handleBuffering_consistent (env : Externals) (common : FstatInput_Common)
    (c : FstatInput_Resamp) (p : PulsarDopplerParams) (d : REAL8)
    (hinv : CacheConsistent env common c) :
    ((handleBuffering env common c p d).resamp = c ∨
      ∃ am sky Fa Fb,
        (handleBuffering env common c p d).resamp =
          ⟨c.multiTimeSeries_DET, p, some am, some sky, some Fa, some Fb⟩ ∧
        p ≠ c.prev_doppler ∧
        env.XLALComputeMultiAMCoeffs common.detectorStates common.noiseWeights
          ⟨p.Alpha, p.Delta⟩ = some am ∧
        env.XLALGetMultiSSBtimes common.detectorStates ⟨p.Alpha, p.Delta⟩ p.refTime
          common.SSBprec = some sky ∧
        weightedSeriesOf env common c.multiTimeSeries_DET p d = some (Fa, Fb)) := by
  by_cases hst : (handleBuffering env common c p d).status = XLAL_SUCCESS
  swap
  · exact Or.inl (handleBuffering_failure env common c p d hst)
  by_cases hsky : sameSkyAndRefTime c.prev_doppler p = true
  · by_cases hbin : sameBinary c.prev_doppler p = true
    · left
      simp [handleBuffering, hsky, hbin]
    · right
      have hbuf : handleBuffering env common c p d = recomputeBinary env common c p d := by
        simp [handleBuffering, hsky, hbin]
      rw [hbuf] at hst ⊢
      obtain ⟨src, stamps, Fa, Fb, hres, hw, heq⟩ :=
        recomputeBinary_success env common c p d hst
      obtain ⟨htiming, -, -⟩ := XLALBarycentricResampleMulti_success _ _ _ _ _ _ _ hres
      obtain ⟨-, ham, -, hFa, hFb⟩ := XLALAntennaWeightMulti_success _ _ _ _ _ _ hw
      obtain ⟨Fa, rfl⟩ := Option.isSome_iff_exists.mp hFa
      obtain ⟨Fb, rfl⟩ := Option.isSome_iff_exists.mp hFb
      obtain ⟨am, ham⟩ := Option.isSome_iff_exists.mp ham
      have hskysome : ∃ sky, c.prev_multiSSBsky = some sky := by
        cases hs : c.prev_multiSSBsky with
        | none => simp [hs] at htiming
        | some sky => exact ⟨sky, rfl⟩
      obtain ⟨sky, hs⟩ := hskysome
      obtain ⟨hA, hD, hR⟩ := (sameSkyAndRefTime_iff _ _).mp hsky
      have hamp : env.XLALComputeMultiAMCoeffs common.detectorStates common.noiseWeights
          ⟨p.Alpha, p.Delta⟩ = some am := by
        rw [← hA, ← hD]
        exact hinv.AM am ham
      have hskyp : env.XLALGetMultiSSBtimes common.detectorStates ⟨p.Alpha, p.Delta⟩ p.refTime
          common.SSBprec = some sky := by
        rw [← hA, ← hD, ← hR]
        exact hinv.sky sky hs
      refine ⟨am, sky, Fa, Fb, ?_, ?_, hamp, hskyp, ?_⟩
      · rw [heq]
        cases c
        simp only at ham hs
        simp [ham, hs]
      · intro hp
        apply hbin
        rw [← hp]
        exact (sameBinary_iff _ _).mpr ⟨rfl, rfl, rfl, rfl, rfl⟩
      · unfold weightedSeriesOf
        rw [hskyp, hamp]
        simp only [Option.some_bind]
        rw [hs] at hres
        have hres' : XLALBarycentricResampleMultiCOMPLEX8TimeSeries env (some none) (some none)
            (some c.multiTimeSeries_DET) common.timestamps
            (if p.asini > 0 then env.XLALAddMultiBinaryTimes sky p else some sky) d
            = (XLAL_SUCCESS, src, stamps) := by
          rw [← hres]
          split_ifs <;> rfl
        rw [hres']
        simp only
        rw [ham] at hw
        rw [hw]
  · right
    have hbuf : handleBuffering env common c p d = recomputeSky env common c p d := by
      simp [handleBuffering, hsky]
    rw [hbuf] at hst ⊢
    obtain ⟨sky, am, src, stamps, Fa, Fb, hsk, ham, hres, hw, heq⟩ :=
      recomputeSky_success env common c p d hst
    obtain ⟨-, -, -, hFa, hFb⟩ := XLALAntennaWeightMulti_success _ _ _ _ _ _ hw
    obtain ⟨Fa, rfl⟩ := Option.isSome_iff_exists.mp hFa
    obtain ⟨Fb, rfl⟩ := Option.isSome_iff_exists.mp hFb
    refine ⟨am, sky, Fa, Fb, by rw [heq], ?_, ham, hsk, ?_⟩
    · intro hp
      apply hsky
      rw [← hp]
      exact (sameSkyAndRefTime_iff _ _).mpr ⟨rfl, rfl, rfl⟩
    · unfold weightedSeriesOf
      rw [hsk, ham]
      simp only [Option.some_bind]
      rw [hres]
      simp only
      rw [hw]

/-- C29: a cache without buffered quantities is consistent, and every query on a
consistent cache, successful or not, returns a cache that is either exactly the one it
was given or a complete entry for the query point: key `prev_doppler` set to the point,
AM coefficients and sky timing computed for its `(Alpha, Delta, refTime)`, and the weighted
series that belong to the point at the resolution of the query.  The key changes only
together with the installation of the weighted series computed for it, no payload changes
while the key stays, the detector-frame series are never touched, and the cache returned
is consistent again. -/
theorem C29_cache_consistency (env : Externals) (F : FstatResults)
    (common : FstatInput_Common) (c : FstatInput_Resamp)
    (hinv : CacheConsistent env common c) :
    (∀ det, CacheConsistent env common ⟨det, PulsarDopplerParams.zero, none, none, none, none⟩) ∧
    ∃ c', (ComputeFstat_Resamp env (some F) (some common) (some c)).resamp = some c' ∧
      c'.multiTimeSeries_DET = c.multiTimeSeries_DET ∧
      (c' = c ∨
        ∃ det0 am sky Fa Fb,
          c.multiTimeSeries_DET.data.head? = some det0 ∧
          c' = ⟨c.multiTimeSeries_DET, F.doppler, some am, some sky, some Fa, some Fb⟩ ∧
          F.doppler ≠ c.prev_doppler ∧
          env.XLALComputeMultiAMCoeffs common.detectorStates common.noiseWeights
            ⟨F.doppler.Alpha, F.doppler.Delta⟩ = some am ∧
          env.XLALGetMultiSSBtimes common.detectorStates ⟨F.doppler.Alpha, F.doppler.Delta⟩
            F.doppler.refTime common.SSBprec = some sky ∧
          weightedSeriesOf env common c.multiTimeSeries_DET F.doppler (dFreqOut F det0)
            = some (Fa, Fb)) ∧
      (c'.prev_doppler = c.prev_doppler → c' = c) ∧
      (c'.prev_doppler ≠ c.prev_doppler →
        ∃ dF Fa Fb, weightedSeriesOf env common c'.multiTimeSeries_DET c'.prev_doppler dF
            = some (Fa, Fb) ∧
          c'.prev_multiFa_SRC = some Fa ∧ c'.prev_multiFb_SRC = some Fb) ∧
      CacheConsistent env common c' := by
  refine ⟨fun det => CacheConsistent_fresh env common det _, ?_⟩
  have hr : (ComputeFstat_Resamp env (some F) (some common) (some c)).resamp = some c ∨
      ∃ det0, c.multiTimeSeries_DET.data.head? = some det0 ∧
        (ComputeFstat_Resamp env (some F) (some common) (some c)).resamp =
          some (handleBuffering env common c F.doppler (dFreqOut F det0)).resamp := by
    rw [ComputeFstat_Resamp_resamp]
    split_ifs
    · exact Or.inl rfl
    · cases hdet : c.multiTimeSeries_DET.data.head? with
      | none => exact Or.inl rfl
      | some det0 => exact Or.inr ⟨det0, rfl, rfl⟩
  have hsame : (ComputeFstat_Resamp env (some F) (some common) (some c)).resamp = some c →
      ∃ c', (ComputeFstat_Resamp env (some F) (some common) (some c)).resamp = some c' ∧
      c'.multiTimeSeries_DET = c.multiTimeSeries_DET ∧
      (c' = c ∨
        ∃ det0 am sky Fa Fb,
          c.multiTimeSeries_DET.data.head? = some det0 ∧
          c' = ⟨c.multiTimeSeries_DET, F.doppler, some am, some sky, some Fa, some Fb⟩ ∧
          F.doppler ≠ c.prev_doppler ∧
          env.XLALComputeMultiAMCoeffs common.detectorStates common.noiseWeights
            ⟨F.doppler.Alpha, F.doppler.Delta⟩ = some am ∧
          env.XLALGetMultiSSBtimes common.detectorStates ⟨F.doppler.Alpha, F.doppler.Delta⟩
            F.doppler.refTime common.SSBprec = some sky ∧
          weightedSeriesOf env common c.multiTimeSeries_DET F.doppler (dFreqOut F det0)
            = some (Fa, Fb)) ∧
      (c'.prev_doppler = c.prev_doppler → c' = c) ∧
      (c'.prev_doppler ≠ c.prev_doppler →
        ∃ dF Fa Fb, weightedSeriesOf env common c'.multiTimeSeries_DET c'.prev_doppler dF
            = some (Fa, Fb) ∧
          c'.prev_multiFa_SRC = some Fa ∧ c'.prev_multiFb_SRC = some Fb) ∧
      CacheConsistent env common c' :=
    fun h => ⟨c, h, rfl, Or.inl rfl, fun _ => rfl, fun h => absurd rfl h, hinv⟩
  rcases hr with h | ⟨det0, hdet, h⟩
  · exact hsame h
  rcases handleBuffering_consistent env common c F.doppler (dFreqOut F det0) hinv with
    hb | ⟨am, sky, Fa, Fb, hc, hne, ham, hsk, hw⟩
  · rw [hb] at h
    exact hsame h
  · rw [hc] at h
    refine ⟨_, h, rfl, Or.inr ⟨det0, am, sky, Fa, Fb, hdet, rfl, hne, ham, hsk, hw⟩,
      fun h => absurd h hne, fun _ => ⟨_, Fa, Fb, hw, rfl, rfl⟩, ?_⟩
    exact
      { AM := fun am' h' => by
          simp only [Option.some.injEq] at h'
          subst h'
          exact ham
        sky := fun sky' h' => by
          simp only [Option.some.injEq] at h'
          subst h'
          exact hsk
        series := Or.inr ⟨_, Fa, Fb, hw, rfl, rfl⟩ }

/-- An instance of C29: the cache left by the first query on the fresh sample cache is
consistent, and it is keyed on the query point. -/
theorem C29_cache_consistency_witness :
    CacheConsistent Sample.env Sample.common Sample.freshCache ∧
    CacheConsistent Sample.env Sample.common
      (Sample.cacheAfter Sample.freshCache (Sample.query (Sample.point 1 2 10 0) 0 2 15)) ∧
    (Sample.cacheAfter Sample.freshCache
      (Sample.query (Sample.point 1 2 10 0) 0 2 15)).prev_doppler = Sample.point 1 2 10 0 := by
  obtain ⟨h0, c', hc', -, -, -, -, hcons⟩ := C29_cache_consistency Sample.env
    (Sample.query (Sample.point 1 2 10 0) 0 2 15) Sample.common Sample.freshCache
    (CacheConsistent_fresh Sample.env Sample.common _ _)
  refine ⟨h0 _, ?_, by decide!⟩
  unfold Sample.cacheAfter
  rw [hc']
  exact hcons

/-! ## Theorems: the series objects in memory -/

theorem deref_append (heap l : SeriesHeap) (p : Option Nat)
    (hp : ∀ a, p = some a → a < heap.length) : deref (heap ++ l) p = deref heap p := by
  cases p with
  | none => rfl
  | some a =>
    have ha := hp a rfl
    simp only [deref, Option.some_bind, List.getD_eq_getElem?_getD,
      List.getElem?_append_left ha]

theorem deref_lt (heap : SeriesHeap) (p : Option Nat) (x : MultiCOMPLEX8TimeSeries)
    (h : deref heap p = some x) : ∀ a, p = some a → a < heap.length := by
  intro a ha
  subst ha
  by_contra hge
  have : heap.getD a none = none := by
    rw [List.getD_eq_getElem?_getD, List.getElem?_eq_none (Nat.le_of_not_lt hge)]
    rfl
  simp only [deref, Option.some_bind, this] at h
  exact absurd h (by simp)

theorem deref_first (heap : SeriesHeap) (x y : Option MultiCOMPLEX8TimeSeries) :
    deref (heap ++ [x, y]) (some heap.length) = x := by
  simp only [deref, Option.some_bind, List.getD_eq_getElem?_getD]
  rw [List.getElem?_append_right (Nat.le_refl _)]
  simp

theorem deref_second (heap : SeriesHeap) (x y : Option MultiCOMPLEX8TimeSeries) :
    deref (heap ++ [x, y]) (some (heap.length + 1)) = y := by
  simp only [deref, Option.some_bind, List.getD_eq_getElem?_getD]
  rw [List.getElem?_append_right (Nat.le_succ _)]
  simp

theorem set_first (heap : SeriesHeap) (x y z : Option MultiCOMPLEX8TimeSeries) :
    (heap ++ [x, y]).set heap.length z = heap ++ [z, y] := by
  induction heap with
  | nil => rfl
  | cons h t ih => simp only [List.cons_append, List.length_cons, List.set_cons_succ, ih]

theorem set_second (heap : SeriesHeap) (x y z : Option MultiCOMPLEX8TimeSeries) :
    (heap ++ [x, y]).set (heap.length + 1) z = heap ++ [x, z] := by
  induction heap with
  | nil => rfl
  | cons h t ih => simp only [List.cons_append, List.length_cons, List.set_cons_succ, ih]

theorem set_old (heap l : SeriesHeap) (a : Nat) (z : Option MultiCOMPLEX8TimeSeries)
    (ha : a < heap.length) : (heap ++ l).set a z = heap.set a z ++ l := by
  induction heap generalizing a with
  | nil => simp at ha
  | cons h t ih =>
    cases a with
    | zero => rfl
    | succ a =>
      simp only [List.cons_append, List.set_cons_succ]
      rw [ih a (by simpa using ha)]

theorem duplicateAt_eq (env : Externals) (heap : SeriesHeap) (x : Option Nat) :
    duplicateAt env heap x =
      (XLALDuplicateMultiCOMPLEX8TimeSeries env (deref heap x)).map fun m =>
        (heap ++ [some m], heap.length) := rfl

theorem frequencyShiftAt_first (env : Externals) (heap : SeriesHeap)
    (x : MultiCOMPLEX8TimeSeries) (y : Option MultiCOMPLEX8TimeSeries) (shift : REAL8) :
    frequencyShiftAt env (heap ++ [some x, y]) heap.length shift =
      (env.XLALFrequencyShiftMultiCOMPLEX8TimeSeries x shift).map fun m =>
        heap ++ [some m, y] := by
  unfold frequencyShiftAt
  rw [deref_first]
  simp only [Option.some_bind, set_first]

theorem frequencyShiftAt_second (env : Externals) (heap : SeriesHeap)
    (x : Option MultiCOMPLEX8TimeSeries) (y : MultiCOMPLEX8TimeSeries) (shift : REAL8) :
    frequencyShiftAt env (heap ++ [x, some y]) (heap.length + 1) shift =
      (env.XLALFrequencyShiftMultiCOMPLEX8TimeSeries y shift).map fun m =>
        heap ++ [x, some m] := by
  unfold frequencyShiftAt
  rw [deref_second]
  simp only [Option.some_bind, set_second]

theorem spinDownCorrectionAt_copies (env : Externals) (heap : SeriesHeap)
    (x y : MultiCOMPLEX8TimeSeries) (p : PulsarDopplerParams) :
    spinDownCorrectionAt env (heap ++ [some x, some y]) heap.length (heap.length + 1) p =
      (env.XLALSpinDownCorrectionMultiFaFb x y p).map fun q =>
        heap ++ [some q.1, some q.2] := by
  unfold spinDownCorrectionAt
  rw [deref_first, deref_second]
  simp only [Option.some_bind, set_first, set_second]

/-- The block of the duplication and the two corrections on the heap, against the same
block by value: the objects that existed before are left as they are, and when no routine
fails the heap has grown by the two corrected copies. -/
theorem spinCopiesAt_values (env : Externals) (p : PulsarDopplerParams) (shift : REAL8)
    (heap : SeriesHeap) (pa pb : Option Nat) (hpb : ∀ a, pb = some a → a < heap.length) :
    ∃ l, spinCopiesAt env p shift heap pa pb =
        (heap ++ l, (spinCopies env p shift (deref heap pa) (deref heap pb)).map fun _ =>
          (heap.length, heap.length + 1)) ∧
      ∀ fa fb, spinCopies env p shift (deref heap pa) (deref heap pb) = some (fa, fb) →
        l = [some fa, some fb] := by
  unfold spinCopiesAt spinCopies
  rw [duplicateAt_eq]
  cases hA : XLALDuplicateMultiCOMPLEX8TimeSeries env (deref heap pa) with
  | none => exact ⟨[], by simp, by simp⟩
  | some ma =>
    simp only [Option.map_some', Option.some_bind]
    rw [duplicateAt_eq, deref_append _ _ _ hpb]
    cases hB : XLALDuplicateMultiCOMPLEX8TimeSeries env (deref heap pb) with
    | none => exact ⟨[some ma], by simp, by simp⟩
    | some mb =>
      simp only [Option.map_some', Option.some_bind, List.append_assoc, List.singleton_append,
        List.length_append, List.length_singleton]
      by_cases hs : shift ≠ 0
      · simp only [if_pos hs]
        rw [frequencyShiftAt_first]
        cases h1 : env.XLALFrequencyShiftMultiCOMPLEX8TimeSeries ma shift with
        | none => exact ⟨[some ma, some mb], by simp, by simp⟩
        | some fa1 =>
          simp only [Option.map_some', Option.some_bind]
          rw [frequencyShiftAt_second]
          cases h2 : env.XLALFrequencyShiftMultiCOMPLEX8TimeSeries mb shift with
          | none => exact ⟨[some fa1, some mb], by simp, by simp⟩
          | some fb1 =>
            simp only [Option.map_some', Option.some_bind, if_true]
            rw [spinDownCorrectionAt_copies]
            cases h3 : env.XLALSpinDownCorrectionMultiFaFb fa1 fb1 p with
            | none => exact ⟨[some fa1, some fb1], by simp, by simp⟩
            | some q =>
              refine ⟨[some q.1, some q.2], by simp, ?_⟩
              intro fa fb h
              simp only [Option.some.injEq] at h
              rw [h]
      · simp only [if_neg hs, if_true, Option.some_bind]
        rw [spinDownCorrectionAt_copies]
        cases h3 : env.XLALSpinDownCorrectionMultiFaFb ma mb p with
        | none => exact ⟨[some ma, some mb], by simp, by simp⟩
        | some q =>
          refine ⟨[some q.1, some q.2], by simp, ?_⟩
          intro fa fb h
          simp only [Option.some.injEq] at h
          rw [h]

/-- The part after the buffering block is `spinCopies` followed by
`transformAndCombine`. -/
theorem spectralAssemble_tail (env : Externals) (F : FstatResults) (N : UINT4)
    (det0 : COMPLEX8TimeSeries) (dF : REAL8) (am : MultiAMCoeffs)
    (fa0 fb0 : Option MultiCOMPLEX8TimeSeries) :
    spectralAssemble env F N det0 dF (some am) fa0 fb0 =
      match spinCopies env F.doppler (fracShift det0.f0 (F.doppler.fkdot.getD 0 0) dF)
          fa0 fb0 with
      | none => (XLAL_EFUNC, F)
      | some (fa, fb) => transformAndCombine env F N dF am fa fb := by
  unfold spectralAssemble transformAndCombine
  cases h : spinCopies env F.doppler (fracShift det0.f0 (F.doppler.fkdot.getD 0 0) dF)
      fa0 fb0 with
  | none => simp only [h]
  | some q => simp only [h]

theorem destroy_append (heap l : SeriesHeap) (p : Option Nat)
    (hp : ∀ a, p = some a → a < heap.length) :
    XLALDestroyMultiCOMPLEX8TimeSeries (heap ++ l) p =
      XLALDestroyMultiCOMPLEX8TimeSeries heap p ++ l := by
  cases p with
  | none => rfl
  | some a => exact set_old heap l a none (hp a rfl)

theorem destroy_length (heap : SeriesHeap) (p : Option Nat) :
    (XLALDestroyMultiCOMPLEX8TimeSeries heap p).length = heap.length := by
  cases p with
  | none => rfl
  | some a => exact List.length_set _ _ _

/-- Destroying the two copies made by the duplication. -/
theorem destroy_copies (heap : SeriesHeap) (x y : Option MultiCOMPLEX8TimeSeries) :
    XLALDestroyMultiCOMPLEX8TimeSeries
      (XLALDestroyMultiCOMPLEX8TimeSeries (heap ++ [x, y]) (some heap.length))
      (some (heap.length + 1)) = heap ++ [none, none] := by
  unfold XLALDestroyMultiCOMPLEX8TimeSeries
  simp only [set_first, set_second]

/-- The part after the buffering block on the heap, against the same part by value: status
and results agree, the objects that existed before are left as they are, and when the
loops are through the two copies are destroyed. -/
theorem spectralAssembleAt_values (env : Externals) (F : FstatResults) (N : UINT4)
    (det0 : COMPLEX8TimeSeries) (dF : REAL8) (am0 : Option MultiAMCoeffs)
    (heap : SeriesHeap) (pa pb : Option Nat) (hpb : ∀ a, pb = some a → a < heap.length) :
    ∃ l, spectralAssembleAt env F N det0 dF am0 heap pa pb =
        ((spectralAssemble env F N det0 dF am0 (deref heap pa) (deref heap pb)).1,
          (spectralAssemble env F N det0 dF am0 (deref heap pa) (deref heap pb)).2,
          heap ++ l) ∧
      ((spectralAssemble env F N det0 dF am0 (deref heap pa) (deref heap pb)).1
          = XLAL_SUCCESS → l = [none, none]) := by
  cases am0 with
  | none => exact ⟨[], by simp [spectralAssembleAt, spectralAssemble], by
      simp [spectralAssemble]⟩
  | some am =>
    obtain ⟨l, hl, hsome⟩ := spinCopiesAt_values env F.doppler
      (fracShift det0.f0 (F.doppler.fkdot.getD 0 0) dF) heap pa pb hpb
    rw [spectralAssemble_tail]
    unfold spectralAssembleAt
    simp only [hl]
    cases h : spinCopies env F.doppler (fracShift det0.f0 (F.doppler.fkdot.getD 0 0) dF)
        (deref heap pa) (deref heap pb) with
    | none => exact ⟨l, by simp, by simp⟩
    | some q =>
      obtain ⟨fa, fb⟩ := q
      rw [hsome fa fb h]
      simp only [Option.map_some', deref_first, deref_second, destroy_copies]
      by_cases hr : (transformAndCombine env F N dF am fa fb).1 = XLAL_SUCCESS ∨
          (transformAndCombine env F N dF am fa fb).1 = XLAL_EFAILED
      · exact ⟨[none, none], by simp [hr], fun _ => rfl⟩
      · refine ⟨[some fa, some fb], by simp [hr], fun h1 => absurd (Or.inl h1) hr⟩

/-- The full-reuse arm leaves the cache as it is and hands its series on. -/
theorem handleBuffering_fullReuse (env : Externals) (common : FstatInput_Common)
    (c : FstatInput_Resamp) (p : PulsarDopplerParams) (d : REAL8)
    (hfull : (handleBuffering env common c p d).branch = .fullReuse) :
    handleBuffering env common c p d =
      ⟨XLAL_SUCCESS, [], .fullReuse, c, c.prev_multiAMcoef, c.prev_multiFa_SRC,
        c.prev_multiFb_SRC⟩ := by
  have hkeys : sameSkyAndRefTime c.prev_doppler p = true ∧
      sameBinary c.prev_doppler p = true := by
    rw [handleBuffering_branch] at hfull
    by_cases h1 : sameSkyAndRefTime c.prev_doppler p = true <;>
      by_cases h2 : sameBinary c.prev_doppler p = true <;>
      simp [h1, h2] at hfull ⊢
  simp [handleBuffering, hkeys.1, hkeys.2]

/-- The buffering block on the heap, against the block by value on the contents of the
cache: status, calls, arm and coefficients agree, the cache after the block holds the
same values, its pointers are valid, and after a successful block the local pointers
`multiFa_SRC`, `multiFb_SRC` are the two pointers of the cache. -/
theorem handleBufferingAt_values (env : Externals) (common : FstatInput_Common)
    (c : FstatInput_ResampAt) (heap : SeriesHeap) (p : PulsarDopplerParams) (d : REAL8)
    (hvalid : PointersValid c heap) :
    (handleBufferingAt env common c heap p d).status =
      (handleBuffering env common (cachedValues heap c) p d).status ∧
    (handleBufferingAt env common c heap p d).calls =
      (handleBuffering env common (cachedValues heap c) p d).calls ∧
    (handleBufferingAt env common c heap p d).branch =
      (handleBuffering env common (cachedValues heap c) p d).branch ∧
    (handleBufferingAt env common c heap p d).multiAMcoef =
      (handleBuffering env common (cachedValues heap c) p d).multiAMcoef ∧
    cachedValues (handleBufferingAt env common c heap p d).heap
        (handleBufferingAt env common c heap p d).resamp =
      (handleBuffering env common (cachedValues heap c) p d).resamp ∧
    PointersValid (handleBufferingAt env common c heap p d).resamp
      (handleBufferingAt env common c heap p d).heap ∧
    ((handleBuffering env common (cachedValues heap c) p d).status = XLAL_SUCCESS →
      (handleBufferingAt env common c heap p d).multiFa_SRC =
        (handleBufferingAt env common c heap p d).resamp.prev_multiFa_SRC ∧
      (handleBufferingAt env common c heap p d).multiFb_SRC =
        (handleBufferingAt env common c heap p d).resamp.prev_multiFb_SRC ∧
      deref (handleBufferingAt env common c heap p d).heap
          (handleBufferingAt env common c heap p d).multiFa_SRC =
        (handleBuffering env common (cachedValues heap c) p d).multiFa_SRC ∧
      deref (handleBufferingAt env common c heap p d).heap
          (handleBufferingAt env common c heap p d).multiFb_SRC =
        (handleBuffering env common (cachedValues heap c) p d).multiFb_SRC) ∧
    ((handleBuffering env common (cachedValues heap c) p d).branch = .fullReuse →
      (handleBufferingAt env common c heap p d).resamp = c ∧
      (handleBufferingAt env common c heap p d).heap = heap) := by
  by_cases hfull : (handleBuffering env common (cachedValues heap c) p d).branch = .fullReuse
  · have hb := handleBuffering_fullReuse env common (cachedValues heap c) p d hfull
    have hA : handleBufferingAt env common c heap p d =
        ⟨XLAL_SUCCESS, [], .fullReuse, c, heap, c.prev_multiAMcoef, c.prev_multiFa_SRC,
          c.prev_multiFb_SRC⟩ := by
      unfold handleBufferingAt
      simp only [hfull, if_true]
      rw [hb]
      rfl
    rw [hA, hb]
    exact ⟨rfl, rfl, rfl, rfl, rfl, hvalid, fun _ => ⟨rfl, rfl, rfl, rfl⟩, fun _ => ⟨rfl, rfl⟩⟩
  · by_cases hst : (handleBuffering env common (cachedValues heap c) p d).status = XLAL_SUCCESS
    · obtain ⟨timing, sky, am, src, stamps, Fa, Fb, -, -, hAM, hFa, hFb, hres, -⟩ :=
        handleBuffering_recomputed env common (cachedValues heap c) p d hst hfull
      have hA : handleBufferingAt env common c heap p d =
          ⟨XLAL_SUCCESS, (handleBuffering env common (cachedValues heap c) p d).calls,
            (handleBuffering env common (cachedValues heap c) p d).branch,
            ⟨c.multiTimeSeries_DET, p, some am, some sky, some heap.length,
              some (heap.length + 1)⟩,
            XLALDestroyMultiCOMPLEX8TimeSeries (XLALDestroyMultiCOMPLEX8TimeSeries heap
              c.prev_multiFa_SRC) c.prev_multiFb_SRC ++ [some Fa, some Fb],
            some am, some heap.length, some (heap.length + 1)⟩ := by
        unfold handleBufferingAt
        simp only [hfull, if_false, hst, ne_eq, not_true_eq_false, hFa, hFb, hAM, hres]
        rw [destroy_append _ _ _ hvalid.1, destroy_append _ _ _ (by
          intro a ha
          rw [destroy_length]
          exact hvalid.2 a ha)]
      have hlen : (XLALDestroyMultiCOMPLEX8TimeSeries (XLALDestroyMultiCOMPLEX8TimeSeries heap
          c.prev_multiFa_SRC) c.prev_multiFb_SRC).length = heap.length := by
        rw [destroy_length, destroy_length]
      have h1 := deref_first (XLALDestroyMultiCOMPLEX8TimeSeries
        (XLALDestroyMultiCOMPLEX8TimeSeries heap c.prev_multiFa_SRC) c.prev_multiFb_SRC)
        (some Fa) (some Fb)
      have h2 := deref_second (XLALDestroyMultiCOMPLEX8TimeSeries
        (XLALDestroyMultiCOMPLEX8TimeSeries heap c.prev_multiFa_SRC) c.prev_multiFb_SRC)
        (some Fa) (some Fb)
      rw [hlen] at h1 h2
      rw [hA, hst, hAM, hFa, hFb, hres]
      refine ⟨rfl, rfl, rfl, rfl, ?_, ⟨?_, ?_⟩, fun _ => ⟨rfl, rfl, h1, h2⟩,
        fun h => absurd h hfull⟩
      · simp only [cachedValues, h1, h2]
      · intro a ha
        simp only [Option.some.injEq] at ha
        simp only [List.length_append, hlen, List.length_cons, List.length_nil]
        omega
      · intro a ha
        simp only [Option.some.injEq] at ha
        simp only [List.length_append, hlen, List.length_cons, List.length_nil]
        omega
    · have hres := handleBuffering_failure env common (cachedValues heap c) p d hst
      have hA : handleBufferingAt env common c heap p d =
          ⟨(handleBuffering env common (cachedValues heap c) p d).status,
            (handleBuffering env common (cachedValues heap c) p d).calls,
            (handleBuffering env common (cachedValues heap c) p d).branch, c, heap,
            (handleBuffering env common (cachedValues heap c) p d).multiAMcoef, none, none⟩ := by
        unfold handleBufferingAt
        simp only [hfull, if_false, hst, ne_eq, not_false_eq_true, if_true]
      rw [hA, hres]
      exact ⟨rfl, rfl, rfl, rfl, rfl, hvalid, fun h => absurd h hst, fun h => absurd h hfull⟩

/-- The query on the heap against the query by value on the contents of the cache: status,
recorded calls, arm and results agree, and the cache left behind holds the same values. -/
theorem ComputeFstat_ResampAt_values (env : Externals) (F : FstatResults)
    (common : FstatInput_Common) (c : FstatInput_ResampAt) (heap : SeriesHeap)
    (hvalid : PointersValid c heap) :
    (ComputeFstat_ResampAt env (some F) (some common) (some c) heap).status =
      (ComputeFstat_Resamp env (some F) (some common) (some (cachedValues heap c))).status ∧
    (ComputeFstat_ResampAt env (some F) (some common) (some c) heap).calls =
      (ComputeFstat_Resamp env (some F) (some common) (some (cachedValues heap c))).calls ∧
    (ComputeFstat_ResampAt env (some F) (some common) (some c) heap).branch =
      (ComputeFstat_Resamp env (some F) (some common) (some (cachedValues heap c))).branch ∧
    (ComputeFstat_ResampAt env (some F) (some common) (some c) heap).Fstats =
      (ComputeFstat_Resamp env (some F) (some common) (some (cachedValues heap c))).Fstats ∧
    (ComputeFstat_ResampAt env (some F) (some common) (some c) heap).resamp.map
        (cachedValues (ComputeFstat_ResampAt env (some F) (some common) (some c) heap).heap) =
      (ComputeFstat_Resamp env (some F) (some common) (some (cachedValues heap c))).resamp := by
  have hD : (cachedValues heap c).multiTimeSeries_DET = c.multiTimeSeries_DET := rfl
  unfold ComputeFstat_ResampAt ComputeFstat_Resamp
  simp only [hD]
  cases hatoms : hasFlag F.whatWasComputed FSTATQ_ATOMS_PER_DET with
  | true => simp
  | false =>
    simp only [Bool.false_eq_true, if_false]
    cases hdet : c.multiTimeSeries_DET.data.head? with
    | none => simp
    | some det0 =>
      simp only []
      obtain ⟨h1, h2, h3, h4, h5, h6, h7, -⟩ :=
        handleBufferingAt_values env common c heap F.doppler (dFreqOut F det0) hvalid
      rw [h1]
      by_cases hst : (handleBuffering env common (cachedValues heap c) F.doppler
          (dFreqOut F det0)).status = XLAL_SUCCESS
      · obtain ⟨g1, g2, g3, g4⟩ := h7 hst
        have hpb : ∀ a, (handleBufferingAt env common c heap F.doppler
            (dFreqOut F det0)).multiFb_SRC = some a →
            a < (handleBufferingAt env common c heap F.doppler (dFreqOut F det0)).heap.length := by
          rw [g2]
          exact h6.2
        obtain ⟨l, hl, -⟩ := spectralAssembleAt_values env F c.multiTimeSeries_DET.data.length
          det0 (dFreqOut F det0)
          (handleBufferingAt env common c heap F.doppler (dFreqOut F det0)).multiAMcoef
          (handleBufferingAt env common c heap F.doppler (dFreqOut F det0)).heap
          (handleBufferingAt env common c heap F.doppler (dFreqOut F det0)).multiFa_SRC
          (handleBufferingAt env common c heap F.doppler (dFreqOut F det0)).multiFb_SRC hpb
        simp only [hst, ne_eq, not_true_eq_false, if_false, hl, Option.map_some']
        rw [g3, g4, h4, h2, h3]
        refine ⟨rfl, rfl, rfl, rfl, ?_⟩
        rw [← h5]
        simp only [cachedValues, Option.some.injEq, FstatInput_Resamp.mk.injEq, true_and]
        exact ⟨deref_append _ _ _ h6.1, deref_append _ _ _ h6.2⟩
      · simp only [hst, ne_eq, not_false_eq_true, if_true, h2, h3, h5, Option.map_some',
          true_and]

/-- C16: a successful query on the heap.  At the end of the buffering block the local
pointers `multiFa_SRC`, `multiFb_SRC` are the two pointers `pa`, `pb` of the cache, and the
objects they point to hold `Fa`, `Fb`: in the full-reuse arm the objects cached before, at
their old addresses in an unchanged heap, in the two recomputing arms the outputs of the
antenna weighting of the resampled series.  The duplication creates two objects at new
addresses; the sub-bin frequency shift and the spin-down correction, which work in place,
leave there the corrected series `fa`, `fb`, and every object that existed before is as it
was.  At the return the two copies are destroyed and the cache still points to `Fa`,
`Fb`. -/
theorem C16_private_copies (env : Externals) (F : FstatResults) (common : FstatInput_Common)
    (c : FstatInput_ResampAt) (heap : SeriesHeap) (hvalid : PointersValid c heap)
    (hok : (ComputeFstat_ResampAt env (some F) (some common) (some c) heap).status
      = XLAL_SUCCESS) :
    ∃ det0 calls branch Fout c' heapB am pa pb Fa Fb fa fb,
      c.multiTimeSeries_DET.data.head? = some det0 ∧
      handleBufferingAt env common c heap F.doppler (dFreqOut F det0) =
        ⟨XLAL_SUCCESS, calls, branch, c', heapB, some am, some pa, some pb⟩ ∧
      c'.prev_multiFa_SRC = some pa ∧ c'.prev_multiFb_SRC = some pb ∧
      pa < heapB.length ∧ pb < heapB.length ∧
      deref heapB (some pa) = some Fa ∧ deref heapB (some pb) = some Fb ∧
      ((branch = .fullReuse ∧ c' = c ∧ heapB = heap) ∨
        (branch ≠ .fullReuse ∧
          ∃ timing sky src stamps,
            XLALBarycentricResampleMultiCOMPLEX8TimeSeries env (some none) (some none)
              (some c.multiTimeSeries_DET) common.timestamps timing (dFreqOut F det0)
              = (XLAL_SUCCESS, some src, some stamps) ∧
            XLALAntennaWeightMultiCOMPLEX8TimeSeries env (some none) (some none) (some src)
              (some am) (some stamps) = (XLAL_SUCCESS, some Fa, some Fb) ∧
            c' = ⟨c.multiTimeSeries_DET, F.doppler, some am, some sky, some pa, some pb⟩)) ∧
      spinCopiesAt env F.doppler
          (fracShift det0.f0 (F.doppler.fkdot.getD 0 0) (dFreqOut F det0)) heapB (some pa)
          (some pb) =
        (heapB ++ [some fa, some fb], some (heapB.length, heapB.length + 1)) ∧
      spinCopies env F.doppler
          (fracShift det0.f0 (F.doppler.fkdot.getD 0 0) (dFreqOut F det0)) (some Fa) (some Fb)
        = some (fa, fb) ∧
      ComputeFstat_ResampAt env (some F) (some common) (some c) heap =
        ⟨XLAL_SUCCESS, calls, some branch, some Fout, some c', heapB ++ [none, none]⟩ ∧
      deref (heapB ++ [none, none]) c'.prev_multiFa_SRC = some Fa ∧
      deref (heapB ++ [none, none]) c'.prev_multiFb_SRC = some Fb := by
  obtain ⟨r1, -, -, -, -⟩ := ComputeFstat_ResampAt_values env F common c heap hvalid
  rw [r1] at hok
  obtain ⟨hatoms, det0, hdet, hb, hsp⟩ :=
    ComputeFstat_Resamp_success env F common (cachedValues heap c) hok
  have hdet' : c.multiTimeSeries_DET.data.head? = some det0 := hdet
  have hN : (cachedValues heap c).multiTimeSeries_DET.data.length
      = c.multiTimeSeries_DET.data.length := rfl
  rw [hN] at hsp
  obtain ⟨am, fa, fb, Fa0, ham, hcopies, -, -⟩ := spectralAssemble_success _ _ _ _ _ _ _ _ hsp
  obtain ⟨Fa, Fb, hFa, hFb⟩ := spinCopies_some _ _ _ _ _ _ _ hcopies
  obtain ⟨h1, h2, h3, h4, h5, h6, h7, h8⟩ :=
    handleBufferingAt_values env common c heap F.doppler (dFreqOut F det0) hvalid
  obtain ⟨g1, g2, g3, g4⟩ := h7 hb
  rw [hFa] at g3
  rw [hFb] at g4
  -- the local pointers are not `NULL`
  obtain ⟨pa, hpa⟩ : ∃ pa, (handleBufferingAt env common c heap F.doppler
      (dFreqOut F det0)).multiFa_SRC = some pa := by
    cases hp : (handleBufferingAt env common c heap F.doppler (dFreqOut F det0)).multiFa_SRC with
    | none => rw [hp] at g3; exact absurd g3 (by simp [deref])
    | some pa => exact ⟨pa, rfl⟩
  obtain ⟨pb, hpb⟩ : ∃ pb, (handleBufferingAt env common c heap F.doppler
      (dFreqOut F det0)).multiFb_SRC = some pb := by
    cases hp : (handleBufferingAt env common c heap F.doppler (dFreqOut F det0)).multiFb_SRC with
    | none => rw [hp] at g4; exact absurd g4 (by simp [deref])
    | some pb => exact ⟨pb, rfl⟩
  rw [hpa] at g1 g3
  rw [hpb] at g2 g4
  have hpaLt := deref_lt _ _ _ g3 pa rfl
  have hpbLt := deref_lt _ _ _ g4 pb rfl
  have hbA : handleBufferingAt env common c heap F.doppler (dFreqOut F det0) =
      ⟨XLAL_SUCCESS, (handleBufferingAt env common c heap F.doppler (dFreqOut F det0)).calls,
        (handleBufferingAt env common c heap F.doppler (dFreqOut F det0)).branch,
        (handleBufferingAt env common c heap F.doppler (dFreqOut F det0)).resamp,
        (handleBufferingAt env common c heap F.doppler (dFreqOut F det0)).heap,
        some am, some pa, some pb⟩ := by
    rw [← hb, ← h1, ← ham, ← h4, ← hpa, ← hpb]
  -- the corrections
  obtain ⟨l, hl, hsome⟩ := spinCopiesAt_values env F.doppler
    (fracShift det0.f0 (F.doppler.fkdot.getD 0 0) (dFreqOut F det0))
    (handleBufferingAt env common c heap F.doppler (dFreqOut F det0)).heap (some pa) (some pb)
    (fun a ha => by
      simp only [Option.some.injEq] at ha
      subst ha
      exact hpbLt)
  rw [hFa, hFb] at hcopies
  rw [g3, g4, hcopies] at hl hsome
  rw [hsome fa fb rfl] at hl
  -- the part after the buffering block
  obtain ⟨l2, hl2, hsucc⟩ := spectralAssembleAt_values env F c.multiTimeSeries_DET.data.length
    det0 (dFreqOut F det0) (some am)
    (handleBufferingAt env common c heap F.doppler (dFreqOut F det0)).heap (some pa) (some pb)
    (fun a ha => by
      simp only [Option.some.injEq] at ha
      subst ha
      exact hpbLt)
  rw [hFa, hFb, ham] at hsp
  rw [g3, g4] at hl2 hsucc
  rw [hsucc hsp, hsp] at hl2
  have hout : ComputeFstat_ResampAt env (some F) (some common) (some c) heap =
      ⟨XLAL_SUCCESS, (handleBufferingAt env common c heap F.doppler (dFreqOut F det0)).calls,
        some (handleBufferingAt env common c heap F.doppler (dFreqOut F det0)).branch,
        some (spectralAssemble env F c.multiTimeSeries_DET.data.length det0 (dFreqOut F det0)
          (some am) (some Fa) (some Fb)).2,
        some (handleBufferingAt env common c heap F.doppler (dFreqOut F det0)).resamp,
        (handleBufferingAt env common c heap F.doppler (dFreqOut F det0)).heap
          ++ [none, none]⟩ := by
    have hstA : (handleBufferingAt env common c heap F.doppler (dFreqOut F det0)).status
        = XLAL_SUCCESS := by rw [h1, hb]
    have hamA : (handleBufferingAt env common c heap F.doppler (dFreqOut F det0)).multiAMcoef
        = some am := by rw [h4, ham]
    unfold ComputeFstat_ResampAt
    simp only [hatoms, Bool.false_eq_true, if_false, hdet', hstA, ne_eq, not_true_eq_false,
      hamA, hpa, hpb, hl2]
  refine ⟨det0, _, _, _, _, _, am, pa, pb, Fa, Fb, fa, fb, hdet', hbA, g1.symm, g2.symm,
    hpaLt, hpbLt, g3, g4, ?_, hl, hcopies, hout, ?_, ?_⟩
  · by_cases hfull : (handleBuffering env common (cachedValues heap c) F.doppler
        (dFreqOut F det0)).branch = .fullReuse
    · exact Or.inl ⟨by rw [h3, hfull], (h8 hfull).1, (h8 hfull).2⟩
    · obtain ⟨timing, sky, am', src, stamps, Fa', Fb', hrun, hw, hAM', hFa', hFb', hres, -⟩ :=
        handleBuffering_recomputed env common (cachedValues heap c) F.doppler
          (dFreqOut F det0) hb hfull
      rw [hFa] at hFa'
      rw [hFb] at hFb'
      rw [ham] at hAM'
      simp only [Option.some.injEq] at hFa' hFb' hAM'
      subst hFa'
      subst hFb'
      subst hAM'
      refine Or.inr ⟨by rw [h3]; exact hfull, timing, sky, src, stamps, hrun, hw, ?_⟩
      rw [hres] at h5
      simp only [cachedValues, FstatInput_Resamp.mk.injEq] at h5
      obtain ⟨e1, e2, e3, e4, -, -⟩ := h5
      cases hc : (handleBufferingAt env common c heap F.doppler (dFreqOut F det0)).resamp with
      | mk d0 d1 d2 d3 d4 d5 =>
        rw [hc] at e1 e2 e3 e4 g1 g2
        simp only at e1 e2 e3 e4 g1 g2
        rw [e1, e2, e3, e4, ← g1, ← g2]
  · rw [← g1, deref_append _ _ _ (fun a ha => by
      simp only [Option.some.injEq] at ha
      subst ha
      exact hpaLt)]
    exact g3
  · rw [← g2, deref_append _ _ _ (fun a ha => by
      simp only [Option.some.injEq] at ha
      subst ha
      exact hpbLt)]
    exact g4

/-- An instance of C16: a query at 81/8 Hz on the cache right after set-up, with
correction routines that change the series.  The sub-bin shift is 1/8 Hz.  After the query
the cache points to the addresses 0 and 1, which hold the outputs of the antenna
weighting, with heterodyne frequency 10 Hz; the shifted and corrected copies, with
heterodyne frequency 79/8 Hz, differ from them, and the two objects at the addresses 2 and
3, where they were, are destroyed. -/
theorem C16_private_copies_witness :
    ∃ Fa Fb fa fb : MultiCOMPLEX8TimeSeries,
      (ComputeFstat_ResampAt Sample.envShift
        (some (Sample.query (Sample.point 1 2 (81 / 8) 0) 0 1 15)) (some Sample.common)
        (some Sample.freshCacheAt) []).heap = [some Fa, some Fb, none, none] ∧
      (ComputeFstat_ResampAt Sample.envShift
        (some (Sample.query (Sample.point 1 2 (81 / 8) 0) 0 1 15)) (some Sample.common)
        (some Sample.freshCacheAt) []).resamp.map
          (fun c => (c.prev_multiFa_SRC, c.prev_multiFb_SRC)) = some (some 0, some 1) ∧
      spinCopies Sample.envShift (Sample.point 1 2 (81 / 8) 0) (1 / 8) (some Fa) (some Fb)
        = some (fa, fb) ∧
      Fa.data.map (fun ts => ts.f0) = [10, 10] ∧
      fa.data.map (fun ts => ts.f0) = [79 / 8, 79 / 8] ∧
      fa ≠ Fa ∧ fb ≠ Fb := by
  obtain ⟨det0, calls, branch, Fout, c', heapB, am, pa, pb, Fa, Fb, fa, fb, hdet, -, -, -,
      -, -, -, -, -, -, hspin, hout, hA, hB⟩ :=
    C16_private_copies Sample.envShift (Sample.query (Sample.point 1 2 (81 / 8) 0) 0 1 15)
      Sample.common Sample.freshCacheAt []
      ⟨fun a h => by simp [Sample.freshCacheAt] at h,
        fun a h => by simp [Sample.freshCacheAt] at h⟩ (by decide!)
  have hheap : (ComputeFstat_ResampAt Sample.envShift
      (some (Sample.query (Sample.point 1 2 (81 / 8) 0) 0 1 15)) (some Sample.common)
      (some Sample.freshCacheAt) []).heap =
      [some ⟨[⟨⟨0⟩, 10, 1, [⟨2, 0⟩, ⟨4, 0⟩, ⟨6, 0⟩, ⟨8, 0⟩]⟩,
          ⟨⟨0⟩, 10, 1, [⟨0, 5⟩, ⟨0, 10⟩, ⟨0, 21⟩, ⟨0, 28⟩]⟩]⟩,
        some ⟨[⟨⟨0⟩, 10, 1, [⟨3, 0⟩, ⟨6, 0⟩, ⟨18, 0⟩, ⟨24, 0⟩]⟩,
          ⟨⟨0⟩, 10, 1, [⟨0, 9⟩, ⟨0, 18⟩, ⟨0, 24⟩, ⟨0, 32⟩]⟩]⟩, none, none] := by decide!
  have hptr : (ComputeFstat_ResampAt Sample.envShift
      (some (Sample.query (Sample.point 1 2 (81 / 8) 0) 0 1 15)) (some Sample.common)
      (some Sample.freshCacheAt) []).resamp.map
        (fun c => (c.prev_multiFa_SRC, c.prev_multiFb_SRC)) = some (some 0, some 1) := by
    decide!
  have hdet0 : det0 = ⟨⟨0⟩, 10, 1, [⟨1, 0⟩, ⟨2, 0⟩, ⟨3, 0⟩, ⟨4, 0⟩]⟩ :=
    (Option.some.inj hdet).symm
  subst hdet0
  have hshift : fracShift (10 : ℚ) (81 / 8) (1 / 4) = 1 / 8 := by decide!
  have hshift' : fracShift
      (⟨⟨0⟩, 10, 1, [⟨1, 0⟩, ⟨2, 0⟩, ⟨3, 0⟩, ⟨4, 0⟩]⟩ : COMPLEX8TimeSeries).f0
      ((Sample.query (Sample.point 1 2 (81 / 8) 0) 0 1 15).doppler.fkdot.getD 0 0)
      (dFreqOut (Sample.query (Sample.point 1 2 (81 / 8) 0) 0 1 15)
        ⟨⟨0⟩, 10, 1, [⟨1, 0⟩, ⟨2, 0⟩, ⟨3, 0⟩, ⟨4, 0⟩]⟩) = 1 / 8 := by decide!
  rw [hshift'] at hspin
  have hptr' := hptr
  have hheap0 := hheap
  rw [hout] at hptr' hheap
  simp only [Option.map_some', Option.some.injEq, Prod.mk.injEq] at hptr'
  simp only at hheap
  rw [hheap, hptr'.1] at hA
  rw [hheap, hptr'.2] at hB
  have hFa : Fa = ⟨[⟨⟨0⟩, 10, 1, [⟨2, 0⟩, ⟨4, 0⟩, ⟨6, 0⟩, ⟨8, 0⟩]⟩,
      ⟨⟨0⟩, 10, 1, [⟨0, 5⟩, ⟨0, 10⟩, ⟨0, 21⟩, ⟨0, 28⟩]⟩]⟩ := (Option.some.inj hA).symm
  have hFb : Fb = ⟨[⟨⟨0⟩, 10, 1, [⟨3, 0⟩, ⟨6, 0⟩, ⟨18, 0⟩, ⟨24, 0⟩]⟩,
      ⟨⟨0⟩, 10, 1, [⟨0, 9⟩, ⟨0, 18⟩, ⟨0, 24⟩, ⟨0, 32⟩]⟩]⟩ := (Option.some.inj hB).symm
  subst hFa
  subst hFb
  have hval : spinCopies Sample.envShift (Sample.point 1 2 (81 / 8) 0) (1 / 8)
      (some ⟨[⟨⟨0⟩, 10, 1, [⟨2, 0⟩, ⟨4, 0⟩, ⟨6, 0⟩, ⟨8, 0⟩]⟩,
        ⟨⟨0⟩, 10, 1, [⟨0, 5⟩, ⟨0, 10⟩, ⟨0, 21⟩, ⟨0, 28⟩]⟩]⟩)
      (some ⟨[⟨⟨0⟩, 10, 1, [⟨3, 0⟩, ⟨6, 0⟩, ⟨18, 0⟩, ⟨24, 0⟩]⟩,
        ⟨⟨0⟩, 10, 1, [⟨0, 9⟩, ⟨0, 18⟩, ⟨0, 24⟩, ⟨0, 32⟩]⟩]⟩) =
      some (⟨[⟨⟨0⟩, 79 / 8, 1, [⟨12, 0⟩, ⟨24, 0⟩, ⟨36, 0⟩, ⟨48, 0⟩]⟩,
          ⟨⟨0⟩, 79 / 8, 1, [⟨0, 30⟩, ⟨0, 60⟩, ⟨0, 126⟩, ⟨0, 168⟩]⟩]⟩,
        ⟨[⟨⟨0⟩, 79 / 8, 1, [⟨-6, 0⟩, ⟨-12, 0⟩, ⟨-36, 0⟩, ⟨-48, 0⟩]⟩,
          ⟨⟨0⟩, 79 / 8, 1, [⟨0, -18⟩, ⟨0, -36⟩, ⟨0, -48⟩, ⟨0, -64⟩]⟩]⟩) := by decide!
  have hq : (Sample.query (Sample.point 1 2 (81 / 8) 0) 0 1 15).doppler
      = Sample.point 1 2 (81 / 8) 0 := rfl
  rw [hq] at hspin
  have hfab := hspin.symm.trans hval
  simp only [Option.some.injEq, Prod.mk.injEq] at hfab
  obtain ⟨hfa, hfb⟩ := hfab
  subst hfa
  subst hfb
  exact ⟨_, _, _, _, hheap0, hptr, hspin, by decide!, by decide!, by decide!, by decide!⟩

end Resamp

namespace MultiNest

/-! ## Theorems: `mc2masses` over the real numbers -/

theorem rpow_fifth (x : ℝ) (hx : 0 < x) : (x ^ (1 / 5 : ℝ)) ^ 5 = x := by
  rw [← Real.rpow_natCast, ← Real.rpow_mul (le_of_lt hx)]
  norm_num

theorem rpow_three_fifths (x : ℝ) (hx : 0 < x) : x ^ (3 / 5 : ℝ) = (x ^ (1 / 5 : ℝ)) ^ 3 := by
  rw [← Real.rpow_natCast, ← Real.rpow_mul (le_of_lt hx)]
  norm_num

/-- A positive number is determined by its fifth power. -/
theorem eq_of_pow_five_eq (a b : ℝ) (ha : 0 < a) (hb : 0 < b) (h : a ^ 5 = b ^ 5) : a = b :=
  (pow_left_inj₀ (le_of_lt ha) (le_of_lt hb) (by norm_num)).mp h

/-- The two masses in terms of the fifth roots `u = fraction^(1/5)` and
`v = (1 + fraction)^(1/5)`. -/
theorem mc2masses_roots (mc eta : ℝ) (f : ℝ)
    (hfdef : f = (1 / 2 + Real.sqrt (1 / 4 - eta)) / (1 / 2 - Real.sqrt (1 / 4 - eta)))
    (hf : 0 < f) :
    mc2masses ⟨Real.sqrt, fun x y => x ^ y⟩ mc eta =
      (mc * (1 + f) ^ (1 / 5 : ℝ) * (f ^ (1 / 5 : ℝ)) ^ 2,
        mc * (1 + f) ^ (1 / 5 : ℝ) / (f ^ (1 / 5 : ℝ)) ^ 3) := by
  have hu : 0 < f ^ (1 / 5 : ℝ) := Real.rpow_pos_of_pos hf _
  have h1 : (1 + 1 / f) ^ (1 / 5 : ℝ) = (1 + f) ^ (1 / 5 : ℝ) / f ^ (1 / 5 : ℝ) := by
    have : 1 + 1 / f = (1 + f) / f := by
      field_simp
      ring
    rw [this, Real.div_rpow (by linarith) (le_of_lt hf)]
  have h2 : (1 / f) ^ (3 / 5 : ℝ) = 1 / (f ^ (1 / 5 : ℝ)) ^ 3 := by
    rw [one_div, Real.inv_rpow (le_of_lt hf), rpow_three_fifths f hf, one_div]
    norm_num
  simp only [mc2masses]
  rw [← hfdef, h1, h2, rpow_three_fifths f hf]
  refine Prod.ext ?_ ?_
  · simp only
    field_simp
    ring
  · simp only
    ring

/-- C22: over the real numbers (`sqrt` the real square root, `pow` the real power
function), for every chirp mass `mc > 0` and every mass ratio `0 < eta <= 1/4`,
`mc2masses` returns masses with `m1 >= m2 > 0`, in fact `m1 = fraction * m2` with
`fraction = (1/2 + sqrt(1/4 - eta)) / (1/2 - sqrt(1/4 - eta)) >= 1`, and these masses give
the chirp mass and the mass ratio back: `(m1*m2)^(3/5) / (m1+m2)^(1/5) = mc` and
`m1*m2 / (m1+m2)^2 = eta`. -/
theorem C22_mc2masses_inverts (mc eta : ℝ) (hmc : 0 < mc) (heta0 : 0 < eta)
    (heta : eta ≤ 1 / 4) :
    1 ≤ (1 / 2 + Real.sqrt (1 / 4 - eta)) / (1 / 2 - Real.sqrt (1 / 4 - eta)) ∧
    (mc2masses ⟨Real.sqrt, fun x y => x ^ y⟩ mc eta).1 =
      (1 / 2 + Real.sqrt (1 / 4 - eta)) / (1 / 2 - Real.sqrt (1 / 4 - eta)) *
        (mc2masses ⟨Real.sqrt, fun x y => x ^ y⟩ mc eta).2 ∧
    0 < (mc2masses ⟨Real.sqrt, fun x y => x ^ y⟩ mc eta).2 ∧
    (mc2masses ⟨Real.sqrt, fun x y => x ^ y⟩ mc eta).2 ≤
      (mc2masses ⟨Real.sqrt, fun x y => x ^ y⟩ mc eta).1 ∧
    ((mc2masses ⟨Real.sqrt, fun x y => x ^ y⟩ mc eta).1 *
        (mc2masses ⟨Real.sqrt, fun x y => x ^ y⟩ mc eta).2) ^ (3 / 5 : ℝ) /
      ((mc2masses ⟨Real.sqrt, fun x y => x ^ y⟩ mc eta).1 +
        (mc2masses ⟨Real.sqrt, fun x y => x ^ y⟩ mc eta).2) ^ (1 / 5 : ℝ) = mc ∧
    (mc2masses ⟨Real.sqrt, fun x y => x ^ y⟩ mc eta).1 *
        (mc2masses ⟨Real.sqrt, fun x y => x ^ y⟩ mc eta).2 /
      ((mc2masses ⟨Real.sqrt, fun x y => x ^ y⟩ mc eta).1 +
        (mc2masses ⟨Real.sqrt, fun x y => x ^ y⟩ mc eta).2) ^ 2 = eta := by
  obtain ⟨r, hr⟩ : ∃ r, r = Real.sqrt (1 / 4 - eta) := ⟨_, rfl⟩
  have hr0 : 0 ≤ r := hr ▸ Real.sqrt_nonneg _
  have hr2 : r ^ 2 = 1 / 4 - eta := hr ▸ Real.sq_sqrt (by linarith)
  have hrlt : r < 1 / 2 := by
    by_contra hge
    push_neg at hge
    nlinarith
  have hd : 0 < 1 / 2 - r := by linarith
  obtain ⟨f, hfr⟩ : ∃ f, f = (1 / 2 + r) / (1 / 2 - r) := ⟨_, rfl⟩
  have hf : 0 < f := hfr ▸ div_pos (by linarith) hd
  have hf1 : 1 ≤ f := hfr ▸ (one_le_div hd).mpr (by linarith)
  have hfdef : f = (1 / 2 + Real.sqrt (1 / 4 - eta)) / (1 / 2 - Real.sqrt (1 / 4 - eta)) := by
    rw [← hr]
    exact hfr
  rw [mc2masses_roots mc eta f hfdef hf, ← hfdef]
  simp only
  obtain ⟨u, hu⟩ : ∃ u, u = f ^ (1 / 5 : ℝ) := ⟨_, rfl⟩
  obtain ⟨v, hv⟩ : ∃ v, v = (1 + f) ^ (1 / 5 : ℝ) := ⟨_, rfl⟩
  have hu0 : 0 < u := hu ▸ Real.rpow_pos_of_pos hf _
  have hv0 : 0 < v := hv ▸ Real.rpow_pos_of_pos (by linarith) _
  have hu5 : u ^ 5 = f := hu ▸ rpow_fifth f hf
  have hv5 : v ^ 5 = 1 + f := hv ▸ rpow_fifth (1 + f) (by linarith)
  rw [← hu, ← hv]
  have hrel : u ^ 5 + 1 = v ^ 5 := by
    rw [hu5, hv5]
    ring
  have hm2 : 0 < mc * v / u ^ 3 := by positivity
  have hm1 : mc * v * u ^ 2 = f * (mc * v / u ^ 3) := by
    rw [← hu5]
    field_simp
    ring
  have hS : mc * v * u ^ 2 + mc * v / u ^ 3 = mc * v ^ 6 / u ^ 3 := by
    field_simp
    linear_combination (mc * v) * hrel
  have hP : mc * v * u ^ 2 * (mc * v / u ^ 3) = mc ^ 2 * v ^ 2 / u := by
    field_simp
    ring
  refine ⟨hf1, hm1, hm2, ?_, ?_, ?_⟩
  · rw [hm1]
    exact le_mul_of_one_le_left (le_of_lt hm2) hf1
  · rw [hS, hP]
    have hP0 : 0 < mc ^ 2 * v ^ 2 / u := by positivity
    have hS0 : 0 < mc * v ^ 6 / u ^ 3 := by positivity
    rw [rpow_three_fifths _ hP0]
    have hs0 : 0 < (mc * v ^ 6 / u ^ 3) ^ (1 / 5 : ℝ) := Real.rpow_pos_of_pos hS0 _
    have hp0 : 0 < (mc ^ 2 * v ^ 2 / u) ^ (1 / 5 : ℝ) := Real.rpow_pos_of_pos hP0 _
    have key : ((mc ^ 2 * v ^ 2 / u) ^ (1 / 5 : ℝ)) ^ 3 =
        mc * (mc * v ^ 6 / u ^ 3) ^ (1 / 5 : ℝ) := by
      apply eq_of_pow_five_eq _ _ (by positivity) (by positivity)
      rw [mul_pow, rpow_fifth _ hS0, ← pow_mul, mul_comm 3 5, pow_mul, rpow_fifth _ hP0]
      field_simp
      ring
    rw [key]
    field_simp
  · rw [hS, hP]
    have hdne : (1 / 2 - r) ≠ 0 := ne_of_gt hd
    have h1f : v ^ 5 = 1 / (1 / 2 - r) := by
      rw [hv5, hfr, eq_div_iff hdne, add_mul, div_mul_cancel₀ _ hdne]
      ring
    have hfu : u ^ 5 = (1 / 2 + r) / (1 / 2 - r) := by rw [hu5, hfr]
    have hquot : mc ^ 2 * v ^ 2 / u / (mc * v ^ 6 / u ^ 3) ^ 2 = u ^ 5 / (v ^ 5) ^ 2 := by
      field_simp
      ring
    have hprod : ∀ a d : ℝ, d ≠ 0 → a / d / (1 / d) ^ 2 = a * d := by
      intro a d hd0
      field_simp
      ring
    rw [hquot, hfu, h1f, hprod _ _ hdne]
    linear_combination (-1 : ℝ) * hr2

/-- An instance of C22: equal masses, `mc = 1` and `eta = 1/4`. -/
theorem C22_mc2masses_inverts_witness :
    0 < (mc2masses ⟨Real.sqrt, fun x y => x ^ y⟩ 1 (1 / 4)).2 ∧
    (mc2masses ⟨Real.sqrt, fun x y => x ^ y⟩ 1 (1 / 4)).2 ≤
      (mc2masses ⟨Real.sqrt, fun x y => x ^ y⟩ 1 (1 / 4)).1 ∧
    (mc2masses ⟨Real.sqrt, fun x y => x ^ y⟩ 1 (1 / 4)).1 *
        (mc2masses ⟨Real.sqrt, fun x y => x ^ y⟩ 1 (1 / 4)).2 /
      ((mc2masses ⟨Real.sqrt, fun x y => x ^ y⟩ 1 (1 / 4)).1 +
        (mc2masses ⟨Real.sqrt, fun x y => x ^ y⟩ 1 (1 / 4)).2) ^ 2 = 1 / 4 := by
  obtain ⟨-, -, h3, h4, -, h6⟩ :=
    C22_mc2masses_inverts 1 (1 / 4) (by norm_num) (by norm_num) (le_refl _)
  exact ⟨h3, h4, h6⟩

/-! ## Theorems: the detector loop of `initialize` -/

/-- Once the scan compares two detectors with different sampling intervals it stays at
this comparison: no bound on the number of passes lets it end. -/
theorem scanEarlier_stuck (data : List LALInferenceIFOData) (ifoPtr cmp : Nat)
    (c p : LALInferenceIFOData) (hne : cmp ≠ ifoPtr) (hc : data[cmp]? = some c)
    (hp : data[ifoPtr]? = some p) (hdt : c.deltaT ≠ p.deltaT) (fuel : Nat) :
    scanEarlier ifoPtr fuel (some cmp) data = .running := by
  induction fuel with
  | zero => rfl
  | succ n ih =>
    unfold scanEarlier
    simp only [hne, hc, hp, hdt, if_false]
    exact ih

/-- C30, evaluated at a failing input: two detectors sampled at 4096 Hz and at 16384 Hz.
The first detector gets five new buffers.  For the second one the scan starts at the first
detector, finds a different sampling interval, and ends the pass without moving
`ifoPtrCompare` on: the loop condition holds for ever, so for no bound on the number of
passes does the scan, or the set-up of the buffers, come to an end.  With three detectors
of one sampling interval the set-up ends, the first detector gets new buffers and the two
others share them. -/
theorem C30_scan_never_ends :
    (∀ fuel, scanEarlier 1 fuel (some 0)
      [⟨1 / 4096, some 0, some 2, some 1, some 3, some 4⟩, Sample.ifo (1 / 16384)]
      = .running) ∧
    (∀ fuel, initializeModelBuffers fuel Sample.twoRates = .running) ∧
    initializeModelBuffers 4 Sample.oneRate =
      .done ⟨[⟨1 / 4096, some 0, some 2, some 1, some 3, some 4⟩,
        ⟨1 / 4096, some 0, some 2, some 1, some 3, some 4⟩,
        ⟨1 / 4096, some 0, some 2, some 1, some 3, some 4⟩], 5⟩ := by
  have hstuck : ∀ fuel, scanEarlier 1 fuel (some 0)
      [⟨1 / 4096, some 0, some 2, some 1, some 3, some 4⟩, Sample.ifo (1 / 16384)]
      = .running :=
    fun fuel => scanEarlier_stuck _ 1 0 _ _ (by decide) rfl rfl (by decide!) fuel
  refine ⟨hstuck, fun fuel => ?_, by decide!⟩
  rcases fuel with _ | _ | fuel
  · rfl
  · rfl
  · show detectorLoop (fuel + 2) (some 0) ⟨Sample.twoRates, 0⟩ = .running
    have h1 : scanEarlier 0 (fuel + 1) (some 0) Sample.twoRates =
        .done (Sample.twoRates, false) := by
      unfold scanEarlier
      simp
    have hstart : (if Sample.twoRates.length = 0 then (none : Option Nat) else some 0)
        = some 0 := rfl
    unfold detectorLoop
    dsimp only
    rw [hstart, h1]
    have h2 : createModelBuffers ⟨Sample.twoRates, 0⟩ 0 =
        .done ⟨[⟨1 / 4096, some 0, some 2, some 1, some 3, some 4⟩, Sample.ifo (1 / 16384)],
          5⟩ := by
      decide!
    simp only [Bool.false_eq_true, if_false, h2]
    have h3 : nextIFO [⟨1 / 4096, some 0, some 2, some 1, some 3, some 4⟩,
        Sample.ifo (1 / 16384)] 0 = some 1 := by
      decide
    rw [h3]
    have h4 : (if ([⟨1 / 4096, some 0, some 2, some 1, some 3, some 4⟩,
        Sample.ifo (1 / 16384)] : List LALInferenceIFOData).length = 0 then
        (none : Option Nat) else some 0) = some 0 := rfl
    unfold detectorLoop
    dsimp only
    rw [h4, hstuck]

end MultiNest
